import Mathlib

/-!
MPLB: per-node kernels of the lattice-Boltzmann solver (`scheme_kernel.h`).

A shallow embedding of the collision, streaming and time-marching kernels and
theorems about them.  A kernel is a function of the data it sees at one node:
a per-node array is a function of the direction index, and a field read
through a stencil takes the relative offsets as further arguments.
-/

namespace MPLB

/-! ## Values of type `Real` -/

/-- Value of the C++ type `Real`.  `some q` is the finite number `q`; `none` is a
result that is no finite number (what a division by zero produces, and all
arithmetic on it).  Rounding and overflow are not modelled. -/
def Real : Type := Option ℚ

namespace Real

/-- The finite value `q`. -/
def fin (q : ℚ) : Real := some q

/-- The result that is no finite number. -/
def nan : Real := none

instance : DecidableEq Real := inferInstanceAs (DecidableEq (Option ℚ))

instance : Inhabited Real := ⟨fin 0⟩

/-- Sum `a + b`. -/
def add : Real → Real → Real
  | some x, some y => some (x + y)
  | _, _ => none

/-- Difference `a - b`. -/
def sub : Real → Real → Real
  | some x, some y => some (x - y)
  | _, _ => none

/-- Product `a * b`. -/
def mul : Real → Real → Real
  | some x, some y => some (x * y)
  | _, _ => none

/-- Quotient `a / b`; a zero divisor gives no finite number. -/
def div : Real → Real → Real
  | some x, some y => if y = 0 then none else some (x / y)
  | _, _ => none

instance : Add Real := ⟨add⟩
instance : Sub Real := ⟨sub⟩
instance : Mul Real := ⟨mul⟩
instance : Div Real := ⟨div⟩
instance : Zero Real := ⟨fin 0⟩

end Real

/-! ## Lattice tables and enumerations -/

/-- Modelled from the spec: the lattice tables read by the kernels
(`NUMCOMPONENTS`, `COMPOINDEX`, `LATTDIM`, `XI`), which are set up outside the
kernels and are parameters here.  Each lattice direction has an integer
velocity vector, so `XI` holds integers: the cast `(int)XI[..]` of the streaming
kernels and the `Real` read of the time-marching kernel give the same number. -/
structure Lattice where
  NUMCOMPONENTS : Nat
  COMPOINDEX : Nat → Nat
  LATTDIM : Nat
  XI : Nat → Int

/-- Direction `d` lies in the index range `COMPOINDEX[2c] .. COMPOINDEX[2c+1]`
of component `c`. -/
def Lattice.inCompo (L : Lattice) (c d : Nat) : Prop :=
  L.COMPOINDEX (2 * c) ≤ d ∧ d ≤ L.COMPOINDEX (2 * c + 1)

instance (L : Lattice) (c d : Nat) : Decidable (L.inCompo c d) := by
  unfold Lattice.inCompo; infer_instance

/-- Modelled from the spec: the direction index ranges of the components
partition the direction set, so the ranges of two different components do not
overlap. -/
def Lattice.Disjoint (L : Lattice) : Prop :=
  ∀ c c' d, c < L.NUMCOMPONENTS → c' < L.NUMCOMPONENTS →
    L.inCompo c d → L.inCompo c' d → c = c'

/-- The enumerators of `VertexTypes` that the kernels name.  The enumeration is
declared outside the kernels; its integer values are parameters here. -/
structure VertexTypes where
  Vertex_Fluid : Int
  Vertex_Boundary : Int
  Vertex_ImmersedSolid : Int
  Vertex_ZouHeVelocity : Int
  Vertex_EQMDiffuseRefl : Int
  Vertex_ExtrapolPressure1ST : Int
  Vertex_ExtrapolPressure2ND : Int
  Vertex_Periodic : Int
  Vertex_FreeFlux : Int

/-! ## Loops over components and directions -/

/-- Assignment `a[i] = v` on a per-node array. -/
def store {α : Type} (a : Nat → α) (i : Nat) (v : α) : Nat → α :=
  fun j => if j = i then v else a j

/-- The loop `for (xiIndex = COMPOINDEX[2c]; xiIndex <= COMPOINDEX[2c+1]; xiIndex++)`
over the directions of component `compoIndex`, threading the state `s`. -/
def forXi {σ : Type} (L : Lattice) (compoIndex : Nat) (body : Nat → σ → σ) (s : σ) : σ :=
  (List.range' (L.COMPOINDEX (2 * compoIndex))
    (L.COMPOINDEX (2 * compoIndex + 1) + 1 - L.COMPOINDEX (2 * compoIndex))).foldl
    (fun s xiIndex => body xiIndex s) s

/-- The loop `for (compoIndex = 0; compoIndex < NUMCOMPONENTS; compoIndex++)`. -/
def forCompo {σ : Type} (L : Lattice) (body : Nat → σ → σ) (s : σ) : σ :=
  (List.range L.NUMCOMPONENTS).foldl (fun s compoIndex => body compoIndex s) s

/-! ## Collision -/

/-- The flag `collisionRequired` of `KerCollide`. -/
def KerCollide.collisionRequired (E : VertexTypes) (vt : Int) : Bool :=
  vt == E.Vertex_Fluid || vt == E.Vertex_ZouHeVelocity || vt == E.Vertex_EQMDiffuseRefl ||
    vt == E.Vertex_ExtrapolPressure1ST || vt == E.Vertex_ExtrapolPressure2ND

/-- `KerCollide` (2D): the array `fStage` of the node after the kernel. -/
def KerCollide (L : Lattice) (E : VertexTypes) (dt : Real) (nodeType : Int)
    (f feq : Nat → Real) (relaxationTime : Nat → Real) (bodyForce : Nat → Real)
    (fStage : Nat → Real) : Nat → Real :=
  let vt := nodeType
  if KerCollide.collisionRequired E vt then
    forCompo L (fun compoIndex fStage =>
      let tau := relaxationTime compoIndex
      let dtOvertauPlusdt := dt / (tau + Real.fin (1 / 2) * dt)
      forXi L compoIndex (fun xiIndex fStage =>
        store fStage xiIndex
          (f xiIndex - dtOvertauPlusdt * (f xiIndex - feq xiIndex) +
            tau * dtOvertauPlusdt * bodyForce xiIndex)) fStage) fStage
  else fStage

/-- The flag `collisionRequired` of `KerCollide3D`. -/
def KerCollide3D.collisionRequired (E : VertexTypes) (vt : Int) : Bool :=
  vt == E.Vertex_Fluid || vt == E.Vertex_ZouHeVelocity || vt == E.Vertex_EQMDiffuseRefl ||
    vt == E.Vertex_ExtrapolPressure1ST || vt == E.Vertex_Periodic

/-- `KerCollide3D`: the array `fStage` of the node after the kernel; `nodeType`
holds one vertex type per component.  The check compiled only under `CPU` is
not part of this definition. -/
def KerCollide3D (L : Lattice) (E : VertexTypes) (dt : Real) (nodeType : Nat → Int)
    (f feq : Nat → Real) (relaxationTime : Nat → Real) (bodyForce : Nat → Real)
    (fStage : Nat → Real) : Nat → Real :=
  forCompo L (fun compoIndex fStage =>
    let vt := nodeType compoIndex
    if KerCollide3D.collisionRequired E vt then
      let tau := relaxationTime compoIndex
      let dtOvertauPlusdt := dt / (tau + Real.fin (1 / 2) * dt)
      forXi L compoIndex (fun xiIndex fStage =>
        store fStage xiIndex
          (f xiIndex - dtOvertauPlusdt * (f xiIndex - feq xiIndex) +
            tau * dtOvertauPlusdt * bodyForce xiIndex)) fStage
    else fStage) fStage

/-! ## Geometry tags -/

/-- The enumeration `VertexGeometryTypes`: the tags that the kernels name in
their `switch (vg)`, and `VG_Other code` for every other value of the
enumeration. -/
inductive VertexGeometryTypes where
  | VG_IP
  | VG_IM
  | VG_JP
  | VG_JM
  | VG_KP
  | VG_KM
  | VG_IPJP_I
  | VG_IPJM_I
  | VG_IMJP_I
  | VG_IMJM_I
  | VG_IPKP_I
  | VG_IPKM_I
  | VG_IMKP_I
  | VG_IMKM_I
  | VG_JPKP_I
  | VG_JPKM_I
  | VG_JMKP_I
  | VG_JMKM_I
  | VG_IPJP_O
  | VG_IPJM_O
  | VG_IMJP_O
  | VG_IMJM_O
  | VG_IPKP_O
  | VG_IPKM_O
  | VG_IMKP_O
  | VG_IMKM_O
  | VG_JPKP_O
  | VG_JPKM_O
  | VG_JMKP_O
  | VG_JMKM_O
  | VG_IPJPKP_I
  | VG_IPJPKM_I
  | VG_IPJMKP_I
  | VG_IPJMKM_I
  | VG_IMJPKP_I
  | VG_IMJPKM_I
  | VG_IMJMKP_I
  | VG_IMJMKM_I
  | VG_IPJPKP_O
  | VG_IPJPKM_O
  | VG_IPJMKP_O
  | VG_IPJMKM_O
  | VG_IMJPKP_O
  | VG_IMJPKM_O
  | VG_IMJMKP_O
  | VG_IMJMKM_O
  | VG_Other (code : Int)
  deriving DecidableEq

/-! ## Streaming -/

/-- The flag `streamRequired` of `KerStream`. -/
def KerStream.streamRequired (E : VertexTypes) (vt : Int) : Bool :=
  vt == E.Vertex_ZouHeVelocity || vt == E.Vertex_EQMDiffuseRefl ||
    vt == E.Vertex_ExtrapolPressure1ST || vt == E.Vertex_ExtrapolPressure2ND

/-- The `switch (vg)` of `KerStream`.  Every case that assigns executes the one
statement `f[xiIndex] = fStage[xiIndex at (-cx, -cy)]`; the value is whether
the case taken executes it. -/
def KerStream.switchVg (vg : VertexGeometryTypes) (streamRequired : Bool) (cx cy : Int) : Bool :=
  match vg with
  | .VG_IP => if streamRequired then decide (cx ≤ 0) else decide (cx < 0)
  | .VG_IM => if streamRequired then decide (cx ≥ 0) else decide (cx > 0)
  | .VG_JP => if streamRequired then decide (cy ≤ 0) else decide (cy < 0)
  | .VG_JM => if streamRequired then decide (cy ≥ 0) else decide (cy > 0)
  | .VG_IPJP_I => if streamRequired then decide (cy ≤ 0 ∧ cx ≤ 0) else decide (cy < 0 ∧ cx < 0)
  | .VG_IPJM_I => if streamRequired then decide (cy ≥ 0 ∧ cx ≤ 0) else decide (cy > 0 ∧ cx < 0)
  | .VG_IMJP_I => if streamRequired then decide (cy ≤ 0 ∧ cx ≥ 0) else decide (cy < 0 ∧ cx > 0)
  | .VG_IMJM_I => if streamRequired then decide (cy ≥ 0 ∧ cx ≥ 0) else decide (cy > 0 ∧ cx > 0)
  | .VG_IPJP_O => decide (cy < 0 ∨ cx < 0)
  | .VG_IPJM_O => decide (cy > 0 ∨ cx < 0)
  | .VG_IMJP_O => decide (cy < 0 ∨ cx > 0)
  | .VG_IMJM_O => decide (cy > 0 ∨ cx > 0)
  | _ => false

/-- `KerStream` (2D): the array `f` of the node after the kernel.  `fStage` is
read through a stencil: `fStage xiIndex dx dy` is the value at offset `(dx, dy)`. -/
def KerStream (L : Lattice) (E : VertexTypes) (nodeType : Int) (geometry : VertexGeometryTypes)
    (fStage : Nat → Int → Int → Real) (f : Nat → Real) : Nat → Real :=
  let vt := nodeType
  let vg := geometry
  forCompo L (fun compoIndex f =>
    forXi L compoIndex (fun xiIndex f =>
      let cx := L.XI (xiIndex * L.LATTDIM)
      let cy := L.XI (xiIndex * L.LATTDIM + 1)
      let f := if vt ≥ E.Vertex_Fluid ∧ vt < E.Vertex_Boundary then
          store f xiIndex (fStage xiIndex (-cx) (-cy)) else f
      if vt ≥ E.Vertex_Boundary then
        let streamRequired := KerStream.streamRequired E vt
        if streamRequired = true ∧ cx = 0 ∧ cy = 0 then
          store f xiIndex (fStage xiIndex 0 0)
        else if KerStream.switchVg vg streamRequired cx cy then
          store f xiIndex (fStage xiIndex (-cx) (-cy))
        else f
      else f) f) f

/-- The flag `streamRequired` of `KerStream3D`. -/
def KerStream3D.streamRequired (E : VertexTypes) (vt : Int) : Bool :=
  vt == E.Vertex_EQMDiffuseRefl || vt == E.Vertex_ExtrapolPressure1ST ||
    vt == E.Vertex_Periodic

/-- The `switch (vg)` of `KerStream3D`.  Every case that assigns executes the one
statement `f[xiIndex] = fStage[xiIndex at (-cx, -cy, -cz)]`; the value is
whether the case taken executes it. -/
def KerStream3D.switchVg (vg : VertexGeometryTypes) (streamRequired : Bool)
    (cx cy cz : Int) : Bool :=
  match vg with
  | .VG_IP => if streamRequired then decide (cx ≤ 0) else decide (cx < 0)
  | .VG_IM => if streamRequired then decide (cx ≥ 0) else decide (cx > 0)
  | .VG_JP => if streamRequired then decide (cy ≤ 0) else decide (cy < 0)
  | .VG_JM => if streamRequired then decide (cy ≥ 0) else decide (cy > 0)
  | .VG_KP => if streamRequired then decide (cz ≤ 0) else decide (cz < 0)
  | .VG_KM => if streamRequired then decide (cz ≥ 0) else decide (cz > 0)
  | .VG_IPJP_I => if streamRequired then decide (cy ≤ 0 ∧ cx ≤ 0) else decide (cy < 0 ∧ cx < 0)
  | .VG_IPJM_I => if streamRequired then decide (cy ≥ 0 ∧ cx ≤ 0) else decide (cy > 0 ∧ cx < 0)
  | .VG_IMJP_I => if streamRequired then decide (cy ≤ 0 ∧ cx ≥ 0) else decide (cy < 0 ∧ cx > 0)
  | .VG_IMJM_I => if streamRequired then decide (cy ≥ 0 ∧ cx ≥ 0) else decide (cy > 0 ∧ cx > 0)
  | .VG_IPKP_I => if streamRequired then decide (cz ≤ 0 ∧ cx ≤ 0) else decide (cz < 0 ∧ cx < 0)
  | .VG_IPKM_I => if streamRequired then decide (cz ≥ 0 ∧ cx ≤ 0) else decide (cz > 0 ∧ cx < 0)
  | .VG_IMKP_I => if streamRequired then decide (cz ≤ 0 ∧ cx ≥ 0) else decide (cz < 0 ∧ cx > 0)
  | .VG_IMKM_I => if streamRequired then decide (cz ≥ 0 ∧ cx ≥ 0) else decide (cz > 0 ∧ cx > 0)
  | .VG_JPKP_I => if streamRequired then decide (cz ≤ 0 ∧ cy ≤ 0) else decide (cz < 0 ∧ cy < 0)
  | .VG_JPKM_I => if streamRequired then decide (cz ≥ 0 ∧ cy ≤ 0) else decide (cz > 0 ∧ cy < 0)
  | .VG_JMKP_I => if streamRequired then decide (cz ≤ 0 ∧ cy ≥ 0) else decide (cz < 0 ∧ cy > 0)
  | .VG_JMKM_I => if streamRequired then decide (cz ≥ 0 ∧ cy ≥ 0) else decide (cz > 0 ∧ cy > 0)
  | .VG_IPJP_O => if streamRequired then decide (cy ≤ 0 ∨ cx ≤ 0) else decide (cy < 0 ∨ cx < 0)
  | .VG_IPJM_O => if streamRequired then decide (cy ≥ 0 ∨ cx ≤ 0) else decide (cy > 0 ∨ cx < 0)
  | .VG_IMJP_O => if streamRequired then decide (cy ≤ 0 ∨ cx ≥ 0) else decide (cy < 0 ∨ cx > 0)
  | .VG_IMJM_O => if streamRequired then decide (cy ≥ 0 ∨ cx ≥ 0) else decide (cy > 0 ∨ cx > 0)
  | .VG_IPKP_O => if streamRequired then decide (cz ≤ 0 ∨ cx ≤ 0) else decide (cz < 0 ∨ cx < 0)
  | .VG_IPKM_O => if streamRequired then decide (cz ≥ 0 ∨ cx ≤ 0) else decide (cz > 0 ∨ cx < 0)
  | .VG_IMKP_O => if streamRequired then decide (cz ≤ 0 ∨ cx ≥ 0) else decide (cz < 0 ∨ cx > 0)
  | .VG_IMKM_O => if streamRequired then decide (cz ≥ 0 ∨ cx ≥ 0) else decide (cz > 0 ∨ cx > 0)
  | .VG_JPKP_O => if streamRequired then decide (cz ≤ 0 ∨ cy ≤ 0) else decide (cz < 0 ∨ cy < 0)
  | .VG_JPKM_O => if streamRequired then decide (cz ≥ 0 ∨ cy ≤ 0) else decide (cz > 0 ∨ cy < 0)
  | .VG_JMKP_O => if streamRequired then decide (cz ≤ 0 ∨ cy ≥ 0) else decide (cz < 0 ∨ cy > 0)
  | .VG_JMKM_O => if streamRequired then decide (cz ≥ 0 ∨ cy ≥ 0) else decide (cz > 0 ∨ cy > 0)
  | .VG_IPJPKP_I => if streamRequired then decide (cx ≤ 0 ∧ cy ≤ 0 ∧ cz ≤ 0) else decide (cx < 0 ∧ cy < 0 ∧ cz < 0)
  | .VG_IPJPKM_I => if streamRequired then decide (cx ≤ 0 ∧ cy ≤ 0 ∧ cz ≥ 0) else decide (cx < 0 ∧ cy < 0 ∧ cz > 0)
  | .VG_IPJMKP_I => if streamRequired then decide (cx ≤ 0 ∧ cy ≥ 0 ∧ cz ≤ 0) else decide (cx < 0 ∧ cy > 0 ∧ cz < 0)
  | .VG_IPJMKM_I => if streamRequired then decide (cx ≤ 0 ∧ cy ≥ 0 ∧ cz ≥ 0) else decide (cx < 0 ∧ cy > 0 ∧ cz > 0)
  | .VG_IMJPKP_I => if streamRequired then decide (cx ≥ 0 ∧ cy ≤ 0 ∧ cz ≤ 0) else decide (cx > 0 ∧ cy < 0 ∧ cz < 0)
  | .VG_IMJPKM_I => if streamRequired then decide (cx ≥ 0 ∧ cy ≤ 0 ∧ cz ≥ 0) else decide (cx > 0 ∧ cy < 0 ∧ cz > 0)
  | .VG_IMJMKP_I => if streamRequired then decide (cx ≥ 0 ∧ cy ≥ 0 ∧ cz ≤ 0) else decide (cx > 0 ∧ cy > 0 ∧ cz < 0)
  | .VG_IMJMKM_I => if streamRequired then decide (cx ≥ 0 ∧ cy ≥ 0 ∧ cz ≥ 0) else decide (cx > 0 ∧ cy > 0 ∧ cz > 0)
  | .VG_IPJPKP_O => if streamRequired then decide (cx ≤ 0 ∨ cy ≤ 0 ∨ cz ≤ 0) else decide (cx < 0 ∨ cy < 0 ∨ cz < 0)
  | .VG_IPJPKM_O => if streamRequired then decide (cx ≤ 0 ∨ cy ≤ 0 ∨ cz ≥ 0) else decide (cx < 0 ∨ cy < 0 ∨ cz > 0)
  | .VG_IPJMKP_O => if streamRequired then decide (cx ≤ 0 ∨ cy ≥ 0 ∨ cz ≤ 0) else decide (cx < 0 ∨ cy > 0 ∨ cz < 0)
  | .VG_IPJMKM_O => if streamRequired then decide (cx ≤ 0 ∨ cy ≥ 0 ∨ cz ≥ 0) else decide (cx < 0 ∨ cy > 0 ∨ cz > 0)
  | .VG_IMJPKP_O => if streamRequired then decide (cx ≥ 0 ∨ cy ≤ 0 ∨ cz ≤ 0) else decide (cx > 0 ∨ cy < 0 ∨ cz < 0)
  | .VG_IMJPKM_O => if streamRequired then decide (cx ≥ 0 ∨ cy ≤ 0 ∨ cz ≥ 0) else decide (cx > 0 ∨ cy < 0 ∨ cz > 0)
  | .VG_IMJMKP_O => if streamRequired then decide (cx ≥ 0 ∨ cy ≥ 0 ∨ cz ≤ 0) else decide (cx > 0 ∨ cy > 0 ∨ cz < 0)
  | .VG_IMJMKM_O => if streamRequired then decide (cx ≥ 0 ∨ cy ≥ 0 ∨ cz ≥ 0) else decide (cx > 0 ∨ cy > 0 ∨ cz > 0)
  | .VG_Other _ => false

/-- `KerStream3D`: the array `f` of the node after the kernel; `nodeType` holds
one vertex type per component. -/
def KerStream3D (L : Lattice) (E : VertexTypes) (nodeType : Nat → Int)
    (geometry : VertexGeometryTypes) (fStage : Nat → Int → Int → Int → Real)
    (f : Nat → Real) : Nat → Real :=
  let vg := geometry
  forCompo L (fun compoIndex f =>
    let vt := nodeType compoIndex
    forXi L compoIndex (fun xiIndex f =>
      let cx := L.XI (xiIndex * L.LATTDIM)
      let cy := L.XI (xiIndex * L.LATTDIM + 1)
      let cz := L.XI (xiIndex * L.LATTDIM + 2)
      let f := if vt ≥ E.Vertex_Fluid ∧ vt < E.Vertex_Boundary then
          store f xiIndex (fStage xiIndex (-cx) (-cy) (-cz)) else f
      if vt ≥ E.Vertex_Boundary then
        let streamRequired := KerStream3D.streamRequired E vt
        if streamRequired = true ∧ cx = 0 ∧ cy = 0 ∧ cz = 0 then
          store f xiIndex (fStage xiIndex 0 0 0)
        else if KerStream3D.switchVg vg streamRequired cx cy cz then
          store f xiIndex (fStage xiIndex (-cx) (-cy) (-cz))
        else f
      else f) f) f

/-! ## Explicit time marching -/

/-- The flag `needMarch` of `KerCutCellExplicitTimeMach` for a direction with
velocity `(cx, cy)`. -/
def KerCutCellExplicitTimeMach.needMarch (E : VertexTypes) (vt : Int)
    (vg : VertexGeometryTypes) (cx cy : Int) : Bool :=
  let needMarch := true
  let needMarch := if vt = E.Vertex_ImmersedSolid then false else needMarch
  if vt ≥ E.Vertex_Boundary then
    match vg with
    | .VG_IP => if cx > 0 then false else needMarch
    | .VG_IM => if cx < 0 then false else needMarch
    | .VG_JP => if cy > 0 then false else needMarch
    | .VG_JM => if cy < 0 then false else needMarch
    | .VG_IPJP_I => if cy > 0 ∨ cx > 0 then false else needMarch
    | .VG_IPJM_I => if cy < 0 ∨ cx > 0 then false else needMarch
    | .VG_IMJP_I => if cy > 0 ∨ cx < 0 then false else needMarch
    | .VG_IMJM_I => if cy < 0 ∨ cx < 0 then false else needMarch
    | .VG_IPJP_O => if cy ≥ 0 ∧ cx ≥ 0 then false else needMarch
    | .VG_IPJM_O => if cy ≤ 0 ∧ cx ≥ 0 then false else needMarch
    | .VG_IMJP_O => if cy ≥ 0 ∧ cx ≤ 0 then false else needMarch
    | .VG_IMJM_O => if cy ≤ 0 ∧ cx ≤ 0 then false else needMarch
    | _ => needMarch
  else needMarch

/-- `KerCutCellExplicitTimeMach`: the array `f` of the node after the kernel. -/
def KerCutCellExplicitTimeMach (L : Lattice) (E : VertexTypes) (dt schemeCoeff : Real)
    (nodeType : Int) (geometry : VertexGeometryTypes) (fGradient feq : Nat → Real)
    (relaxationTime : Nat → Real) (bodyForce : Nat → Real) (f : Nat → Real) : Nat → Real :=
  let vt := nodeType
  let vg := geometry
  forCompo L (fun compoIndex f =>
    let tau := relaxationTime compoIndex
    forXi L compoIndex (fun xiIndex f =>
      let cx := L.XI (xiIndex * L.LATTDIM)
      let cy := L.XI (xiIndex * L.LATTDIM + 1)
      let needMarch := KerCutCellExplicitTimeMach.needMarch E vt vg cx cy
      if needMarch then
        store f xiIndex
          (f xiIndex + dt * schemeCoeff *
            (bodyForce xiIndex - fGradient xiIndex + (feq xiIndex - f xiIndex) / tau))
      else f) f) f


/-! ## Semi-implicit time marching -/

/-- The flag `needMarch` of `KerCutCellSemiImplicitTimeMach` for a direction with
velocity `(cx, cy)`. -/
def KerCutCellSemiImplicitTimeMach.needMarch (E : VertexTypes) (vt : Int)
    (vg : VertexGeometryTypes) (cx cy : Int) : Bool :=
  let needMarch := true
  let needMarch := if vt = E.Vertex_ImmersedSolid then false else needMarch
  if vt ≥ E.Vertex_Boundary then
    match vg with
    | .VG_IP => if cx > 0 then false else needMarch
    | .VG_IM => if cx < 0 then false else needMarch
    | .VG_JP => if cy > 0 then false else needMarch
    | .VG_JM => if cy < 0 then false else needMarch
    | .VG_IPJP_I => if cy > 0 ∨ cx > 0 then false else needMarch
    | .VG_IPJM_I => if cy < 0 ∨ cx > 0 then false else needMarch
    | .VG_IMJP_I => if cy > 0 ∨ cx < 0 then false else needMarch
    | .VG_IMJM_I => if cy < 0 ∨ cx < 0 then false else needMarch
    | .VG_IPJP_O => if cy ≥ 0 ∧ cx ≥ 0 then false else needMarch
    | .VG_IPJM_O => if cy ≤ 0 ∧ cx ≥ 0 then false else needMarch
    | .VG_IMJP_O => if cy ≥ 0 ∧ cx ≤ 0 then false else needMarch
    | .VG_IMJM_O => if cy ≤ 0 ∧ cx ≤ 0 then false else needMarch
    | _ => needMarch
  else needMarch

/-- `KerCutCellSemiImplicitTimeMach`: the array `f` of the node after the kernel.
The argument `schemeCoeff` is not read by the kernel. -/
def KerCutCellSemiImplicitTimeMach (L : Lattice) (E : VertexTypes) (dt schemeCoeff : Real)
    (nodeType : Int) (geometry : VertexGeometryTypes) (fGradient feq : Nat → Real)
    (relaxationTime : Nat → Real) (bodyForce : Nat → Real) (f : Nat → Real) : Nat → Real :=
  let _unused := schemeCoeff
  let vt := nodeType
  let vg := geometry
  forCompo L (fun compoIndex f =>
    let tau := relaxationTime compoIndex
    forXi L compoIndex (fun xiIndex f =>
      let cx := L.XI (xiIndex * L.LATTDIM)
      let cy := L.XI (xiIndex * L.LATTDIM + 1)
      let needMarch := KerCutCellSemiImplicitTimeMach.needMarch E vt vg cx cy
      if needMarch then
        store f xiIndex
          ((feq xiIndex * dt + bodyForce xiIndex * dt * tau - fGradient xiIndex * dt * tau +
              f xiIndex * tau) / (dt + tau))
      else f) f) f

/-! ## Cut-cell upwind gradients -/

/-- The two-point term for a positive velocity component (backward difference),
`CS * c * ((f0 - fm1) / (x0 - xm1))`: `f0`, `x0` belong to the node and `fm1`,
`xm1` to its neighbour at offset -1 along the axis.  The kernels use it with
`c = cx` along x and with `c = cy` along y (first order kernel, and the reduced
branch of the second order kernel). -/
def upwindTwoPointBackward (CS c f0 fm1 x0 xm1 : Real) : Real :=
  CS * c * ((f0 - fm1) / (x0 - xm1))

/-- The two-point term for a negative velocity component (forward difference),
`CS * c * ((fp1 - f0) / (xp1 - x0))`: `fp1`, `xp1` belong to the neighbour at
offset +1 along the axis. -/
def upwindTwoPointForward (CS c fp1 f0 xp1 x0 : Real) : Real :=
  CS * c * ((fp1 - f0) / (xp1 - x0))

/-- The three-point term of `KerCutCellCVTUpwind2nd` for a positive velocity
component: `x_2`, `x_1`, `x_0` are the coordinates at offsets -2, -1, 0 along
the axis and `f_2`, `f_1`, `f_0` the values of `f` there. -/
def upwindThreePointBackward (CS c f_2 f_1 f_0 x_2 x_1 x_0 : Real) : Real :=
  CS * c *
    (f_2 * (Real.fin 1 / (x_2 - x_0) - Real.fin 1 / (x_2 - x_1)) +
      f_1 * (Real.fin 1 / (x_1 - x_0) - Real.fin 1 / (x_1 - x_2)) +
      f_0 * (Real.fin 1 / (x_0 - x_1) + Real.fin 1 / (x_0 - x_2)))

/-- The three-point term of `KerCutCellCVTUpwind2nd` for a negative velocity
component: `x0`, `xp1`, `xp2` are the coordinates at offsets 0, +1, +2 along the
axis and `f0`, `fp1`, `fp2` the values of `f` there. -/
def upwindThreePointForward (CS c f0 fp1 fp2 x0 xp1 xp2 : Real) : Real :=
  CS * c *
    (f0 * (Real.fin 1 / (x0 - xp2) + Real.fin 1 / (x0 - xp1)) +
      fp1 * (Real.fin 1 / (xp2 - xp1) + Real.fin 1 / (xp1 - x0)) +
      fp2 * (Real.fin 1 / (xp2 - x0) + Real.fin 1 / (xp1 - xp2)))

/-- The flag `needCalc` of `KerCutCellCVTUpwind1st` for a direction with
velocity `(cx, cy)`. -/
def KerCutCellCVTUpwind1st.needCalc (E : VertexTypes) (vt : Int)
    (vg : VertexGeometryTypes) (cx cy : Int) : Bool :=
  let needCalc := true
  let needCalc := if vt = E.Vertex_ImmersedSolid then false else needCalc
  if vt ≥ E.Vertex_Boundary then
    match vg with
    | .VG_IP => if cx > 0 then false else needCalc
    | .VG_IM => if cx < 0 then false else needCalc
    | .VG_JP => if cy > 0 then false else needCalc
    | .VG_JM => if cy < 0 then false else needCalc
    | .VG_IPJP_I => if cy > 0 ∨ cx > 0 then false else needCalc
    | .VG_IPJM_I => if cy < 0 ∨ cx > 0 then false else needCalc
    | .VG_IMJP_I => if cy > 0 ∨ cx < 0 then false else needCalc
    | .VG_IMJM_I => if cy < 0 ∨ cx < 0 then false else needCalc
    | .VG_IPJP_O => if cy ≥ 0 ∧ cx ≥ 0 then false else needCalc
    | .VG_IPJM_O => if cy ≤ 0 ∧ cx ≥ 0 then false else needCalc
    | .VG_IMJP_O => if cy ≥ 0 ∧ cx ≤ 0 then false else needCalc
    | .VG_IMJM_O => if cy ≤ 0 ∧ cx ≤ 0 then false else needCalc
    | _ => needCalc
  else needCalc

/-- `KerCutCellCVTUpwind1st`: the array `fGradient` of the node after the kernel.
`CS` is the constant of the lattice model; `coordinateXYZ k dx dy` is coordinate
`k` of the node at offset `(dx, dy)` and `f xiIndex dx dy` the distribution
there. -/
def KerCutCellCVTUpwind1st (L : Lattice) (E : VertexTypes) (CS : Real)
    (coordinateXYZ : Nat → Int → Int → Real) (nodeType : Int) (geometry : VertexGeometryTypes)
    (f : Nat → Int → Int → Real) (fGradient : Nat → Real) : Nat → Real :=
  let vt := nodeType
  let vg := geometry
  forCompo L (fun compoIndex fGradient =>
    forXi L compoIndex (fun xiIndex fGradient =>
      let cx := L.XI (xiIndex * L.LATTDIM)
      let cy := L.XI (xiIndex * L.LATTDIM + 1)
      let fGradient := store fGradient xiIndex (Real.fin 0)
      let needCalc := KerCutCellCVTUpwind1st.needCalc E vt vg cx cy
      if needCalc then
        let fGradient := if cx > 0 then
            store fGradient xiIndex (fGradient xiIndex +
              upwindTwoPointBackward CS (Real.fin cx) (f xiIndex 0 0) (f xiIndex (-1) 0)
                (coordinateXYZ 0 0 0) (coordinateXYZ 0 (-1) 0))
          else fGradient
        let fGradient := if cx < 0 then
            store fGradient xiIndex (fGradient xiIndex +
              upwindTwoPointForward CS (Real.fin cx) (f xiIndex 1 0) (f xiIndex 0 0)
                (coordinateXYZ 0 1 0) (coordinateXYZ 0 0 0))
          else fGradient
        let fGradient := if cy > 0 then
            store fGradient xiIndex (fGradient xiIndex +
              upwindTwoPointBackward CS (Real.fin cy) (f xiIndex 0 0) (f xiIndex 0 (-1))
                (coordinateXYZ 1 0 0) (coordinateXYZ 1 0 (-1)))
          else fGradient
        let fGradient := if cy < 0 then
            store fGradient xiIndex (fGradient xiIndex +
              upwindTwoPointForward CS (Real.fin cy) (f xiIndex 0 1) (f xiIndex 0 0)
                (coordinateXYZ 1 0 1) (coordinateXYZ 1 0 0))
          else fGradient
        fGradient
      else fGradient) fGradient) fGradient

/-- The three flags that `KerCutCellCVTUpwind2nd` computes for a direction. -/
structure UpwindFlags where
  needCalc : Bool
  reduceOrderX : Bool
  reduceOrderY : Bool
  deriving DecidableEq

/-- The statement `needCalc = false;`. -/
def UpwindFlags.clearNeedCalc (s : UpwindFlags) : UpwindFlags :=
  { s with needCalc := false }

/-- The statement `if (b) { reduceOrderX = true; }`. -/
def UpwindFlags.setReduceOrderXIf (s : UpwindFlags) (b : Bool) : UpwindFlags :=
  if b then { s with reduceOrderX := true } else s

/-- The statement `if (b) { reduceOrderY = true; }`. -/
def UpwindFlags.setReduceOrderYIf (s : UpwindFlags) (b : Bool) : UpwindFlags :=
  if b then { s with reduceOrderY := true } else s

/-- The block of `KerCutCellCVTUpwind2nd` for a fluid node
(`vt >= Vertex_Fluid && vt < Vertex_Boundary`): the order is reduced along an
axis when the upwind neighbour is a boundary node tagged with the face that
looks at the node.  A nested `if (a) { if (b) ... }` is written as one update
under `a ∧ b`. -/
def KerCutCellCVTUpwind2nd.flagsFluid (E : VertexTypes) (nodeType : Int → Int → Int)
    (geometry : Int → Int → VertexGeometryTypes) (cx cy : Int) (s : UpwindFlags) :
    UpwindFlags :=
  let s := s.setReduceOrderXIf
      (decide (cx > 0 ∧ (nodeType (-1) 0 ≥ E.Vertex_Boundary ∧ geometry (-1) 0 = .VG_IP)))
  let s := s.setReduceOrderXIf
      (decide (cx < 0 ∧ (nodeType 1 0 ≥ E.Vertex_Boundary ∧ geometry 1 0 = .VG_IM)))
  let s := s.setReduceOrderYIf
      (decide (cy > 0 ∧ (nodeType 0 (-1) ≥ E.Vertex_Boundary ∧ geometry 0 (-1) = .VG_JP)))
  let s := s.setReduceOrderYIf
      (decide (cy < 0 ∧ (nodeType 0 1 ≥ E.Vertex_Boundary ∧ geometry 0 1 = .VG_JM)))
  s

/-- The `switch (vg)` of `KerCutCellCVTUpwind2nd` for a boundary node
(`vt >= Vertex_Boundary`).  `vgUpwind` of the source is the tag `geometry dx dy`
of the upwind neighbour; the type of the node two cells upwind is read from
`nodeType`. -/
def KerCutCellCVTUpwind2nd.flagsBoundary (E : VertexTypes) (nodeType : Int → Int → Int)
    (geometry : Int → Int → VertexGeometryTypes) (cx cy : Int) (s : UpwindFlags) :
    UpwindFlags :=
  match geometry 0 0 with
  | .VG_IP =>
    if cx > 0 then s.clearNeedCalc
    else
      let s := s.setReduceOrderYIf
          (decide (cy > 0 ∧
            (((geometry 0 (-1) = .VG_IPJM_O ∨ geometry 0 (-1) = .VG_IPJP_O) ∧
                nodeType 0 (-2) = E.Vertex_ImmersedSolid) ∨
              geometry 0 (-1) = .VG_IPJM_I ∨ geometry 0 (-1) = .VG_IPJP_I)))
      let s := s.setReduceOrderYIf
          (decide (cy < 0 ∧
            (((geometry 0 1 = .VG_IPJM_O ∨ geometry 0 1 = .VG_IPJP_O) ∧
                nodeType 0 2 = E.Vertex_ImmersedSolid) ∨
              geometry 0 1 = .VG_IPJM_I ∨ geometry 0 1 = .VG_IPJP_I)))
      s
  | .VG_IM =>
    if cx < 0 then s.clearNeedCalc
    else
      let s := s.setReduceOrderYIf
          (decide (cy > 0 ∧
            (((geometry 0 (-1) = .VG_IMJM_O ∨ geometry 0 (-1) = .VG_IMJP_O) ∧
                nodeType 0 (-2) = E.Vertex_ImmersedSolid) ∨
              geometry 0 (-1) = .VG_IMJM_I ∨ geometry 0 (-1) = .VG_IMJP_I)))
      let s := s.setReduceOrderYIf
          (decide (cy < 0 ∧
            (((geometry 0 1 = .VG_IMJM_O ∨ geometry 0 1 = .VG_IMJP_O) ∧
                nodeType 0 2 = E.Vertex_ImmersedSolid) ∨
              geometry 0 1 = .VG_IMJM_I ∨ geometry 0 1 = .VG_IMJP_I)))
      s
  | .VG_JP =>
    if cy > 0 then s.clearNeedCalc
    else
      let s := s.setReduceOrderXIf
          (decide (cx > 0 ∧
            (((geometry (-1) 0 = .VG_IMJP_O ∨ geometry (-1) 0 = .VG_IPJP_O) ∧
                nodeType (-2) 0 = E.Vertex_ImmersedSolid) ∨
              geometry (-1) 0 = .VG_IMJP_I ∨ geometry (-1) 0 = .VG_IPJP_I)))
      let s := s.setReduceOrderXIf
          (decide (cx < 0 ∧
            (((geometry 1 0 = .VG_IMJP_O ∨ geometry 1 0 = .VG_IPJP_O) ∧
                nodeType 2 0 = E.Vertex_ImmersedSolid) ∨
              geometry 1 0 = .VG_IMJP_I ∨ geometry 1 0 = .VG_IPJP_I)))
      s
  | .VG_JM =>
    if cy < 0 then s.clearNeedCalc
    else
      let s := s.setReduceOrderXIf
          (decide (cx > 0 ∧
            (((geometry (-1) 0 = .VG_IMJM_O ∨ geometry (-1) 0 = .VG_IPJM_O) ∧
                nodeType (-2) 0 = E.Vertex_ImmersedSolid) ∨
              geometry (-1) 0 = .VG_IMJM_I ∨ geometry (-1) 0 = .VG_IPJM_I)))
      let s := s.setReduceOrderXIf
          (decide (cx < 0 ∧
            (((geometry 1 0 = .VG_IPJM_O ∨ geometry 1 0 = .VG_IMJM_O) ∧
                nodeType 2 0 = E.Vertex_ImmersedSolid) ∨
              geometry 1 0 = .VG_IMJM_I ∨ geometry 1 0 = .VG_IPJM_I)))
      s
  | .VG_IPJP_I =>
    if cy > 0 ∨ cx > 0 then s.clearNeedCalc
    else
      let s := s.setReduceOrderXIf
          (decide (geometry 1 0 = .VG_IMJP_I))
      let s := s.setReduceOrderYIf
          (decide (geometry 0 1 = .VG_IPJM_I))
      s
  | .VG_IPJM_I =>
    if cy < 0 ∨ cx > 0 then s.clearNeedCalc
    else
      let s := s.setReduceOrderXIf
          (decide (geometry 1 0 = .VG_IMJM_I))
      let s := s.setReduceOrderYIf
          (decide (geometry 0 (-1) = .VG_IPJP_I))
      s
  | .VG_IMJP_I =>
    if cy > 0 ∨ cx < 0 then s.clearNeedCalc
    else
      let s := s.setReduceOrderXIf
          (decide (geometry (-1) 0 = .VG_IPJP_I))
      let s := s.setReduceOrderYIf
          (decide (geometry 0 1 = .VG_IMJM_I))
      s
  | .VG_IMJM_I =>
    if cy < 0 ∨ cx < 0 then s.clearNeedCalc
    else
      let s := s.setReduceOrderXIf
          (decide (geometry (-1) 0 = .VG_IPJM_I))
      let s := s.setReduceOrderYIf
          (decide (geometry 0 (-1) = .VG_IMJP_I))
      s
  | .VG_IPJP_O =>
    if cy ≥ 0 ∧ cx ≥ 0 then s.clearNeedCalc
    else
      let s := s.setReduceOrderXIf
          (decide (geometry 1 0 = .VG_IM))
      let s := s.setReduceOrderYIf
          (decide (geometry 0 1 = .VG_JM))
      s
  | .VG_IPJM_O =>
    if cy ≤ 0 ∧ cx ≥ 0 then s.clearNeedCalc
    else
      let s := s.setReduceOrderXIf
          (decide (geometry 1 0 = .VG_IM))
      let s := s.setReduceOrderYIf
          (decide (geometry 0 (-1) = .VG_JP))
      s
  | .VG_IMJP_O =>
    if cy ≥ 0 ∧ cx ≤ 0 then s.clearNeedCalc
    else
      let s := s.setReduceOrderXIf
          (decide (geometry (-1) 0 = .VG_IP))
      let s := s.setReduceOrderYIf
          (decide (geometry 0 1 = .VG_JM))
      s
  | .VG_IMJM_O =>
    if cy ≤ 0 ∧ cx ≤ 0 then s.clearNeedCalc
    else
      let s := s.setReduceOrderXIf
          (decide (geometry (-1) 0 = .VG_IP))
      let s := s.setReduceOrderYIf
          (decide (geometry 0 (-1) = .VG_JP))
      s
  | _ => s

/-- The flags `needCalc`, `reduceOrderX`, `reduceOrderY` of
`KerCutCellCVTUpwind2nd` for a direction with velocity `(cx, cy)`.
`nodeType dx dy` and `geometry dx dy` are the vertex type and the tag of the
node at offset `(dx, dy)`. -/
def KerCutCellCVTUpwind2nd.flags (E : VertexTypes) (nodeType : Int → Int → Int)
    (geometry : Int → Int → VertexGeometryTypes) (cx cy : Int) : UpwindFlags :=
  let vt := nodeType 0 0
  let s : UpwindFlags := { needCalc := true, reduceOrderX := false, reduceOrderY := false }
  let s := if vt = E.Vertex_ImmersedSolid then s.clearNeedCalc else s
  let s :=
    if vt ≥ E.Vertex_Fluid ∧ vt < E.Vertex_Boundary then
      KerCutCellCVTUpwind2nd.flagsFluid E nodeType geometry cx cy s
    else s
  if vt ≥ E.Vertex_Boundary then
    KerCutCellCVTUpwind2nd.flagsBoundary E nodeType geometry cx cy s
  else s

/-- `KerCutCellCVTUpwind2nd`: the array `fGradient` of the node after the kernel.
`nodeType`, `geometry`, `coordinateXYZ` and `f` are read through stencils. -/
def KerCutCellCVTUpwind2nd (L : Lattice) (E : VertexTypes) (CS : Real)
    (coordinateXYZ : Nat → Int → Int → Real) (nodeType : Int → Int → Int)
    (geometry : Int → Int → VertexGeometryTypes)
    (f : Nat → Int → Int → Real) (fGradient : Nat → Real) : Nat → Real :=
  forCompo L (fun compoIndex fGradient =>
    forXi L compoIndex (fun xiIndex fGradient =>
      let cx := L.XI (xiIndex * L.LATTDIM)
      let cy := L.XI (xiIndex * L.LATTDIM + 1)
      let fGradient := store fGradient xiIndex (Real.fin 0)
      let fl := KerCutCellCVTUpwind2nd.flags E nodeType geometry cx cy
      if fl.needCalc then
        let fGradient := if cx > 0 then
            (if fl.reduceOrderX then
              store fGradient xiIndex (fGradient xiIndex +
                upwindTwoPointBackward CS (Real.fin cx) (f xiIndex 0 0) (f xiIndex (-1) 0)
                  (coordinateXYZ 0 0 0) (coordinateXYZ 0 (-1) 0))
            else
              store fGradient xiIndex (fGradient xiIndex +
                upwindThreePointBackward CS (Real.fin cx) (f xiIndex (-2) 0)
                  (f xiIndex (-1) 0) (f xiIndex 0 0) (coordinateXYZ 0 (-2) 0)
                  (coordinateXYZ 0 (-1) 0) (coordinateXYZ 0 0 0)))
          else fGradient
        let fGradient := if cx < 0 then
            (if fl.reduceOrderX then
              store fGradient xiIndex (fGradient xiIndex +
                upwindTwoPointForward CS (Real.fin cx) (f xiIndex 1 0) (f xiIndex 0 0)
                  (coordinateXYZ 0 1 0) (coordinateXYZ 0 0 0))
            else
              store fGradient xiIndex (fGradient xiIndex +
                upwindThreePointForward CS (Real.fin cx) (f xiIndex 0 0) (f xiIndex 1 0)
                  (f xiIndex 2 0) (coordinateXYZ 0 0 0) (coordinateXYZ 0 1 0)
                  (coordinateXYZ 0 2 0)))
          else fGradient
        let fGradient := if cy > 0 then
            (if fl.reduceOrderY then
              store fGradient xiIndex (fGradient xiIndex +
                upwindTwoPointBackward CS (Real.fin cy) (f xiIndex 0 0) (f xiIndex 0 (-1))
                  (coordinateXYZ 1 0 0) (coordinateXYZ 1 0 (-1)))
            else
              store fGradient xiIndex (fGradient xiIndex +
                upwindThreePointBackward CS (Real.fin cy) (f xiIndex 0 (-2))
                  (f xiIndex 0 (-1)) (f xiIndex 0 0) (coordinateXYZ 1 0 (-2))
                  (coordinateXYZ 1 0 (-1)) (coordinateXYZ 1 0 0)))
          else fGradient
        let fGradient := if cy < 0 then
            (if fl.reduceOrderY then
              store fGradient xiIndex (fGradient xiIndex +
                upwindTwoPointForward CS (Real.fin cy) (f xiIndex 0 1) (f xiIndex 0 0)
                  (coordinateXYZ 1 0 1) (coordinateXYZ 1 0 0))
            else
              store fGradient xiIndex (fGradient xiIndex +
                upwindThreePointForward CS (Real.fin cy) (f xiIndex 0 0) (f xiIndex 0 1)
                  (f xiIndex 0 2) (coordinateXYZ 1 0 0) (coordinateXYZ 1 0 1)
                  (coordinateXYZ 1 0 2)))
          else fGradient
        fGradient
      else fGradient) fGradient) fGradient

/-- The x-term `X` of the value written by `KerCutCellCVTUpwind2nd`: zero when
`cx = 0`, otherwise the two-point or the three-point x-formula according to
`reduceOrderX`.  `f dx dy` is the distribution of the direction at offset
`(dx, dy)`. -/
def KerCutCellCVTUpwind2nd.xTerm (CS : Real) (cx : Int) (reduceOrderX : Bool)
    (coordinateXYZ : Nat → Int → Int → Real) (f : Int → Int → Real) : Real :=
  if cx > 0 then
    (if reduceOrderX then
      upwindTwoPointBackward CS (Real.fin cx) (f 0 0) (f (-1) 0)
        (coordinateXYZ 0 0 0) (coordinateXYZ 0 (-1) 0)
    else
      upwindThreePointBackward CS (Real.fin cx) (f (-2) 0) (f (-1) 0) (f 0 0)
        (coordinateXYZ 0 (-2) 0) (coordinateXYZ 0 (-1) 0) (coordinateXYZ 0 0 0))
  else if cx < 0 then
    (if reduceOrderX then
      upwindTwoPointForward CS (Real.fin cx) (f 1 0) (f 0 0)
        (coordinateXYZ 0 1 0) (coordinateXYZ 0 0 0)
    else
      upwindThreePointForward CS (Real.fin cx) (f 0 0) (f 1 0) (f 2 0)
        (coordinateXYZ 0 0 0) (coordinateXYZ 0 1 0) (coordinateXYZ 0 2 0))
  else Real.fin 0

/-- The y-term `Y` of the value written by `KerCutCellCVTUpwind2nd`: zero when
`cy = 0`, otherwise the two-point or the three-point y-formula according to
`reduceOrderY`. -/
def KerCutCellCVTUpwind2nd.yTerm (CS : Real) (cy : Int) (reduceOrderY : Bool)
    (coordinateXYZ : Nat → Int → Int → Real) (f : Int → Int → Real) : Real :=
  if cy > 0 then
    (if reduceOrderY then
      upwindTwoPointBackward CS (Real.fin cy) (f 0 0) (f 0 (-1))
        (coordinateXYZ 1 0 0) (coordinateXYZ 1 0 (-1))
    else
      upwindThreePointBackward CS (Real.fin cy) (f 0 (-2)) (f 0 (-1)) (f 0 0)
        (coordinateXYZ 1 0 (-2)) (coordinateXYZ 1 0 (-1)) (coordinateXYZ 1 0 0))
  else if cy < 0 then
    (if reduceOrderY then
      upwindTwoPointForward CS (Real.fin cy) (f 0 1) (f 0 0)
        (coordinateXYZ 1 0 1) (coordinateXYZ 1 0 0)
    else
      upwindThreePointForward CS (Real.fin cy) (f 0 0) (f 0 1) (f 0 2)
        (coordinateXYZ 1 0 0) (coordinateXYZ 1 0 1) (coordinateXYZ 1 0 2))
  else Real.fin 0

/-! ## The face conditions of the specification -/

/-- An axis of the mesh. -/
inductive Axis where
  | I
  | J
  | K
  deriving DecidableEq

/-- A face of a cell: the axis it is normal to and its side (`plus` for a
P-face, otherwise an M-face). -/
structure Face where
  axis : Axis
  plus : Bool
  deriving DecidableEq

/-- Component of the velocity `(cx, cy, cz)` along an axis. -/
def Axis.component (a : Axis) (cx cy cz : Int) : Int :=
  match a with
  | .I => cx
  | .J => cy
  | .K => cz

/-- The face condition of the specification on a direction `(cx, cy, cz)`: at a
P-face the component along the axis of the face is `< 0`, at an M-face `> 0`;
with `streamRequired` the comparison is inclusive (`<= 0`, `>= 0`). -/
def Face.permits (fc : Face) (streamRequired : Bool) (cx cy cz : Int) : Prop :=
  if fc.plus then
    (if streamRequired then fc.axis.component cx cy cz ≤ 0 else fc.axis.component cx cy cz < 0)
  else
    (if streamRequired then fc.axis.component cx cy cz ≥ 0 else fc.axis.component cx cy cz > 0)

instance (fc : Face) (streamRequired : Bool) (cx cy cz : Int) :
    Decidable (fc.permits streamRequired cx cy cz) := by
  unfold Face.permits; infer_instance

/-- The kinds of geometry tag. -/
inductive TagKind where
  | face
  | innerEdge
  | outerEdge
  | innerCorner
  | outerCorner
  | other
  deriving DecidableEq

/-- The kind of a tag, read off its name: one face, two faces (an edge; a
corner of a 2D mesh) or three faces (a corner), with suffix `_I` inner and
`_O` outer. -/
def VertexGeometryTypes.kind : VertexGeometryTypes → TagKind
  | .VG_IP => .face
  | .VG_IM => .face
  | .VG_JP => .face
  | .VG_JM => .face
  | .VG_KP => .face
  | .VG_KM => .face
  | .VG_IPJP_I => .innerEdge
  | .VG_IPJM_I => .innerEdge
  | .VG_IMJP_I => .innerEdge
  | .VG_IMJM_I => .innerEdge
  | .VG_IPKP_I => .innerEdge
  | .VG_IPKM_I => .innerEdge
  | .VG_IMKP_I => .innerEdge
  | .VG_IMKM_I => .innerEdge
  | .VG_JPKP_I => .innerEdge
  | .VG_JPKM_I => .innerEdge
  | .VG_JMKP_I => .innerEdge
  | .VG_JMKM_I => .innerEdge
  | .VG_IPJP_O => .outerEdge
  | .VG_IPJM_O => .outerEdge
  | .VG_IMJP_O => .outerEdge
  | .VG_IMJM_O => .outerEdge
  | .VG_IPKP_O => .outerEdge
  | .VG_IPKM_O => .outerEdge
  | .VG_IMKP_O => .outerEdge
  | .VG_IMKM_O => .outerEdge
  | .VG_JPKP_O => .outerEdge
  | .VG_JPKM_O => .outerEdge
  | .VG_JMKP_O => .outerEdge
  | .VG_JMKM_O => .outerEdge
  | .VG_IPJPKP_I => .innerCorner
  | .VG_IPJPKM_I => .innerCorner
  | .VG_IPJMKP_I => .innerCorner
  | .VG_IPJMKM_I => .innerCorner
  | .VG_IMJPKP_I => .innerCorner
  | .VG_IMJPKM_I => .innerCorner
  | .VG_IMJMKP_I => .innerCorner
  | .VG_IMJMKM_I => .innerCorner
  | .VG_IPJPKP_O => .outerCorner
  | .VG_IPJPKM_O => .outerCorner
  | .VG_IPJMKP_O => .outerCorner
  | .VG_IPJMKM_O => .outerCorner
  | .VG_IMJPKP_O => .outerCorner
  | .VG_IMJPKM_O => .outerCorner
  | .VG_IMJMKP_O => .outerCorner
  | .VG_IMJMKM_O => .outerCorner
  | .VG_Other _ => .other

/-- The constituent faces of a tag, read off its name. -/
def VertexGeometryTypes.faces : VertexGeometryTypes → List Face
  | .VG_IP => [⟨.I, true⟩]
  | .VG_IM => [⟨.I, false⟩]
  | .VG_JP => [⟨.J, true⟩]
  | .VG_JM => [⟨.J, false⟩]
  | .VG_KP => [⟨.K, true⟩]
  | .VG_KM => [⟨.K, false⟩]
  | .VG_IPJP_I => [⟨.I, true⟩, ⟨.J, true⟩]
  | .VG_IPJM_I => [⟨.I, true⟩, ⟨.J, false⟩]
  | .VG_IMJP_I => [⟨.I, false⟩, ⟨.J, true⟩]
  | .VG_IMJM_I => [⟨.I, false⟩, ⟨.J, false⟩]
  | .VG_IPKP_I => [⟨.I, true⟩, ⟨.K, true⟩]
  | .VG_IPKM_I => [⟨.I, true⟩, ⟨.K, false⟩]
  | .VG_IMKP_I => [⟨.I, false⟩, ⟨.K, true⟩]
  | .VG_IMKM_I => [⟨.I, false⟩, ⟨.K, false⟩]
  | .VG_JPKP_I => [⟨.J, true⟩, ⟨.K, true⟩]
  | .VG_JPKM_I => [⟨.J, true⟩, ⟨.K, false⟩]
  | .VG_JMKP_I => [⟨.J, false⟩, ⟨.K, true⟩]
  | .VG_JMKM_I => [⟨.J, false⟩, ⟨.K, false⟩]
  | .VG_IPJP_O => [⟨.I, true⟩, ⟨.J, true⟩]
  | .VG_IPJM_O => [⟨.I, true⟩, ⟨.J, false⟩]
  | .VG_IMJP_O => [⟨.I, false⟩, ⟨.J, true⟩]
  | .VG_IMJM_O => [⟨.I, false⟩, ⟨.J, false⟩]
  | .VG_IPKP_O => [⟨.I, true⟩, ⟨.K, true⟩]
  | .VG_IPKM_O => [⟨.I, true⟩, ⟨.K, false⟩]
  | .VG_IMKP_O => [⟨.I, false⟩, ⟨.K, true⟩]
  | .VG_IMKM_O => [⟨.I, false⟩, ⟨.K, false⟩]
  | .VG_JPKP_O => [⟨.J, true⟩, ⟨.K, true⟩]
  | .VG_JPKM_O => [⟨.J, true⟩, ⟨.K, false⟩]
  | .VG_JMKP_O => [⟨.J, false⟩, ⟨.K, true⟩]
  | .VG_JMKM_O => [⟨.J, false⟩, ⟨.K, false⟩]
  | .VG_IPJPKP_I => [⟨.I, true⟩, ⟨.J, true⟩, ⟨.K, true⟩]
  | .VG_IPJPKM_I => [⟨.I, true⟩, ⟨.J, true⟩, ⟨.K, false⟩]
  | .VG_IPJMKP_I => [⟨.I, true⟩, ⟨.J, false⟩, ⟨.K, true⟩]
  | .VG_IPJMKM_I => [⟨.I, true⟩, ⟨.J, false⟩, ⟨.K, false⟩]
  | .VG_IMJPKP_I => [⟨.I, false⟩, ⟨.J, true⟩, ⟨.K, true⟩]
  | .VG_IMJPKM_I => [⟨.I, false⟩, ⟨.J, true⟩, ⟨.K, false⟩]
  | .VG_IMJMKP_I => [⟨.I, false⟩, ⟨.J, false⟩, ⟨.K, true⟩]
  | .VG_IMJMKM_I => [⟨.I, false⟩, ⟨.J, false⟩, ⟨.K, false⟩]
  | .VG_IPJPKP_O => [⟨.I, true⟩, ⟨.J, true⟩, ⟨.K, true⟩]
  | .VG_IPJPKM_O => [⟨.I, true⟩, ⟨.J, true⟩, ⟨.K, false⟩]
  | .VG_IPJMKP_O => [⟨.I, true⟩, ⟨.J, false⟩, ⟨.K, true⟩]
  | .VG_IPJMKM_O => [⟨.I, true⟩, ⟨.J, false⟩, ⟨.K, false⟩]
  | .VG_IMJPKP_O => [⟨.I, false⟩, ⟨.J, true⟩, ⟨.K, true⟩]
  | .VG_IMJPKM_O => [⟨.I, false⟩, ⟨.J, true⟩, ⟨.K, false⟩]
  | .VG_IMJMKP_O => [⟨.I, false⟩, ⟨.J, false⟩, ⟨.K, true⟩]
  | .VG_IMJMKM_O => [⟨.I, false⟩, ⟨.J, false⟩, ⟨.K, false⟩]
  | .VG_Other _ => []

/-- A tag of the 2D kernels: none of its faces is normal to the K axis. -/
def VertexGeometryTypes.is2D (vg : VertexGeometryTypes) : Bool :=
  vg.faces.all (fun fc => decide (fc.axis ≠ Axis.K))

/-! ## The data of a node seen by the collision kernels -/

/-- The data sets of one node that are passed to `KerCollide` and `KerCollide3D`. -/
structure CollideData where
  f : Nat → Real
  feq : Nat → Real
  relaxationTime : Nat → Real
  bodyForce : Nat → Real
  fStage : Nat → Real

/-- The data of the node after `KerCollide`: `fStage` is the one argument that
is not `const`. -/
def KerCollide.run (L : Lattice) (E : VertexTypes) (dt : Real) (nodeType : Int)
    (n : CollideData) : CollideData :=
  { n with fStage := KerCollide L E dt nodeType n.f n.feq n.relaxationTime n.bodyForce n.fStage }

/-- The data of the node after `KerCollide3D`: `fStage` is the one argument that
is not `const`. -/
def KerCollide3D.run (L : Lattice) (E : VertexTypes) (dt : Real) (nodeType : Nat → Int)
    (n : CollideData) : CollideData :=
  { n with fStage := KerCollide3D L E dt nodeType n.f n.feq n.relaxationTime n.bodyForce n.fStage }

/-! ## Sample data -/

/-- Modelled from the spec: sample values of the enumerators of `VertexTypes`.
The enumeration is ordered, `Vertex_Fluid` is the lowest value that is no
boundary and every boundary kind lies above `Vertex_Boundary`; an immersed
solid lies below the fluid range. -/
def sampleTypes : VertexTypes where
  Vertex_Fluid := 10
  Vertex_Boundary := 1000
  Vertex_ImmersedSolid := -1
  Vertex_ExtrapolPressure1ST := 1005
  Vertex_ExtrapolPressure2ND := 1006
  Vertex_Periodic := 1007
  Vertex_FreeFlux := 1010
  Vertex_ZouHeVelocity := 1011
  Vertex_EQMDiffuseRefl := 1013

/-- The nine velocities of the D2Q9 lattice, flattened as in `XI`. -/
def d2q9XI : List Int :=
  [0, 0, 1, 0, 0, 1, -1, 0, 0, -1, 1, 1, -1, 1, -1, -1, 1, -1]

/-- A 2D lattice of two components, each with the D2Q9 velocities:
directions 0..8 belong to component 0 and 9..17 to component 1. -/
def twoD2Q9 : Lattice where
  NUMCOMPONENTS := 2
  COMPOINDEX := fun i => ([0, 8, 9, 17] : List Nat).getD i 0
  LATTDIM := 2
  XI := fun i => (d2q9XI ++ d2q9XI).getD i 0

/-- The nineteen velocities of the D3Q19 lattice, flattened as in `XI`. -/
def d3q19XI : List Int :=
  [0, 0, 0,
   1, 0, 0, -1, 0, 0, 0, 1, 0, 0, -1, 0, 0, 0, 1, 0, 0, -1,
   1, 1, 0, -1, 1, 0, 1, -1, 0, -1, -1, 0,
   1, 0, 1, -1, 0, 1, 1, 0, -1, -1, 0, -1,
   0, 1, 1, 0, -1, 1, 0, 1, -1, 0, -1, -1]

/-- A 3D lattice of two components, each with the D3Q19 velocities:
directions 0..18 belong to component 0 and 19..37 to component 1. -/
def twoD3Q19 : Lattice where
  NUMCOMPONENTS := 2
  COMPOINDEX := fun i => ([0, 18, 19, 37] : List Nat).getD i 0
  LATTDIM := 3
  XI := fun i => (d3q19XI ++ d3q19XI).getD i 0

/-- A sample distribution `f` at a node. -/
def sampleF : Nat → Real := fun i => Real.fin (i + 1)

/-- A sample equilibrium `feq` at a node. -/
def sampleFeq : Nat → Real := fun i => Real.fin (2 * i + 3)

/-- A sample body force at a node. -/
def sampleForce : Nat → Real := fun i => Real.fin (i / 4)

/-- A sample gradient at a node. -/
def sampleGradient : Nat → Real := fun i => Real.fin (i / 8)

/-- Sample relaxation times: 1 for component 0 and 3/2 for the others. -/
def sampleTau : Nat → Real := fun c => if c = 0 then Real.fin 1 else Real.fin (3 / 2)

/-- A sample staged field around a node of a 2D mesh. -/
def sampleStage2D : Nat → Int → Int → Real :=
  fun i dx dy => Real.fin (1000 + i + 20 * dx + 100 * dy)

/-- A sample staged field around a node of a 3D mesh. -/
def sampleStage3D : Nat → Int → Int → Int → Real :=
  fun i dx dy dz => Real.fin (1000 + i + 40 * dx + 200 * dy + 500 * dz)

/-! ## Sample data for the gradient kernels -/

/-- Sample x coordinates of a non-uniform mesh: -3/2, -7/8, 0, 9/8, 5/2 at the
offsets -2 .. 2. -/
def sampleX (k : Int) : ℚ := k + k * k / 8

/-- Sample y coordinates of a non-uniform mesh: -3, -7/4, 0, 9/4, 5 at the offsets
-2 .. 2. -/
def sampleY (k : Int) : ℚ := 2 * k + k * k / 4

/-- The sample coordinates as the data set `coordinateXYZ`. -/
def sampleCoord : Nat → Int → Int → Real :=
  fun k dx dy => if k = 0 then Real.fin (sampleX dx) else Real.fin (sampleY dy)

/-- A sample distribution around a node, quadratic in the coordinates:
`1 + i + 2 x + 3 x^2 + 5 y + 4 y^2`. -/
def sampleField : Nat → Int → Int → Real :=
  fun i dx dy => Real.fin (1 + i + 2 * sampleX dx + 3 * sampleX dx ^ 2 + 5 * sampleY dy +
    4 * sampleY dy ^ 2)

/-- A sample distribution around a node, linear in the coordinates:
`1 + i + 2 x + 5 y`. -/
def sampleLinearField : Nat → Int → Int → Real :=
  fun i dx dy => Real.fin (1 + i + 2 * sampleX dx + 5 * sampleY dy)

/-- Vertex types around a fluid node next to a wall on its -x side: the
neighbour at offset (-1,0) is a boundary node, the node at (-2,0) an immersed
solid, all others are fluid. -/
def nearWallTypes : Int → Int → Int :=
  fun dx dy => if dx = -1 ∧ dy = 0 then 1000 else if dx = -2 ∧ dy = 0 then -1 else 10

/-- Tags around a fluid node next to a wall on its -x side: the neighbour at
offset (-1,0) is tagged `VG_IP`. -/
def nearWallTags : Int → Int → VertexGeometryTypes :=
  fun dx dy => if dx = -1 ∧ dy = 0 then .VG_IP else .VG_Other 0

/-- Vertex types around a fluid node whose neighbour at offset (-1,0) is fluid
and whose second neighbour at (-2,0) is an immersed solid. -/
def thinGapTypes : Int → Int → Int :=
  fun dx dy => if dx = -2 ∧ dy = 0 then -1 else 10

/-- Tags that the kernels do not name, at every node. -/
def noTags : Int → Int → VertexGeometryTypes := fun _ _ => .VG_Other 0

/-- Vertex types around a boundary node on a face: all nodes of the column
`dx = 0` are boundary nodes, except the one at offset (0,-2), an immersed solid. -/
def faceColumnTypes : Int → Int → Int :=
  fun dx dy => if dx = 0 ∧ dy = -2 then -1 else if dx = 0 then 1000 else 10

/-- Tags around a boundary node on the face `VG_IP` whose neighbour at offset
(0,-1) is the outer corner `VG_IPJP_O`. -/
def faceColumnTags : Int → Int → VertexGeometryTypes :=
  fun dx dy => if dx = 0 ∧ dy = 0 then .VG_IP else if dx = 0 ∧ dy = -1 then .VG_IPJP_O
    else .VG_Other 0

/-! ## Residual monitor -/

/-- The loop `for (i = 0; i < n; i++)`, threading the state `s`. -/
def forRange {σ : Type} (n : Nat) (body : Nat → σ → σ) (s : σ) : σ :=
  (List.range n).foldl (fun s i => body i s) s

/-- `KerCalcMacroVarSquareofDifference`: the value of `*sumSquareDiff` after the
kernel at a node with macro variables `macroVars` and snapshot `macroVarsCopy`. -/
def KerCalcMacroVarSquareofDifference (macroVars macroVarsCopy : Nat → Real) (varId : Nat)
    (sumSquareDiff : Real) : Real :=
  sumSquareDiff +
    (macroVars varId - macroVarsCopy varId) * (macroVars varId - macroVarsCopy varId)

/-- `KerCalcMacroVarSquare`: the value of `*sumSquare` after the kernel at a node. -/
def KerCalcMacroVarSquare (macroVars : Nat → Real) (varId : Nat) (sumSquare : Real) : Real :=
  sumSquare + macroVars varId * macroVars varId

/-- `KerCopyMacroVars`: the array `dest` of the node after the kernel. -/
def KerCopyMacroVars (NUMMACROVAR : Nat) (src dest : Nat → Real) : Nat → Real :=
  forRange NUMMACROVAR (fun idx dest => store dest idx (src idx)) dest

/-- Modelled from the spec: the set-up of a case as `CalcResidualError` sees it,
which is made outside the sources at hand: the number `NUMMACROVAR` of macro
variables stored at a node, the value of `MacroVarsNum()`, the number of blocks
`BlockNum()` and, for each block, the nodes of its whole range
`BlockIterRng(blockIdx, IterRngWhole())`. -/
structure CaseSetup (ι : Type) where
  NUMMACROVAR : Nat
  MacroVarsNum : Nat
  BlockNum : Nat
  BlockIterRngWhole : Nat → List ι

/-- The global data that `CalcResidualError` reads and writes: the macro
variables and their snapshot (per block, node and variable), the reduction
handles and the array of residuals. -/
structure ResidualState (ι : Type) where
  g_MacroVars : Nat → ι → Nat → Real
  g_MacroVarsCopy : Nat → ι → Nat → Real
  g_ResidualErrorHandle : Nat → Real
  g_ResidualError : Nat → Real

/-- Modelled from the spec: `ops_par_loop` over a range with a reduction argument
(`ops_arg_reduce`, `OPS_INC`): the kernel runs at every node of the range and
increments the value held by the reduction handle. -/
def opsParLoopReduce {ι : Type} (range : List ι) (kernel : ι → Real → Real) (handle : Real) :
    Real :=
  range.foldl (fun acc n => kernel n acc) handle

/-- Modelled from the spec: `ops_par_loop` over a range writing a data set: the
kernel runs at every node of the range on the array of that node. -/
def opsParLoopWrite {ι : Type} [DecidableEq ι] (range : List ι)
    (kernel : ι → (Nat → Real) → (Nat → Real)) (dat : ι → Nat → Real) : ι → Nat → Real :=
  range.foldl (fun dat n => Function.update dat n (kernel n (dat n))) dat

/-- Modelled from the spec: `ops_reduction_result(handle, &dest[k])` for the
handle of variable `v`: the reduced value is stored in `dest[k]` and the handle
is reset, so that the next reduction starts from zero.  The state is the pair
of the destination array and the handles. -/
def opsReductionResult (v k : Nat) (p : (Nat → Real) × (Nat → Real)) :
    (Nat → Real) × (Nat → Real) :=
  (store p.1 k (p.2 v), store p.2 v (Real.fin 0))

/-- `CalcResidualError`: the global data after the call. -/
def CalcResidualError {ι : Type} [DecidableEq ι] (C : CaseSetup ι) (s : ResidualState ι) :
    ResidualState ι :=
  let handle := forRange C.MacroVarsNum (fun macroVarIdx handle =>
    forRange C.BlockNum (fun blockIdx handle =>
      store handle macroVarIdx
        (opsParLoopReduce (C.BlockIterRngWhole blockIdx)
          (fun n sumSquareDiff =>
            KerCalcMacroVarSquareofDifference (s.g_MacroVars blockIdx n)
              (s.g_MacroVarsCopy blockIdx n) macroVarIdx sumSquareDiff)
          (handle macroVarIdx))) handle) s.g_ResidualErrorHandle
  let p := forRange C.MacroVarsNum (fun macroVarIdx p =>
    opsReductionResult macroVarIdx (2 * macroVarIdx) p) (s.g_ResidualError, handle)
  let copy := forRange C.BlockNum (fun blockIdx copy =>
    store copy blockIdx
      (opsParLoopWrite (C.BlockIterRngWhole blockIdx)
        (fun n dest => KerCopyMacroVars C.NUMMACROVAR (s.g_MacroVars blockIdx n) dest)
        (copy blockIdx))) s.g_MacroVarsCopy
  let handle := forRange C.MacroVarsNum (fun macroVarIdx handle =>
    forRange C.BlockNum (fun blockIdx handle =>
      store handle macroVarIdx
        (opsParLoopReduce (C.BlockIterRngWhole blockIdx)
          (fun n sumSquare =>
            KerCalcMacroVarSquare (s.g_MacroVars blockIdx n) macroVarIdx sumSquare)
          (handle macroVarIdx))) handle) p.2
  let p := forRange C.MacroVarsNum (fun macroVarIdx p =>
    opsReductionResult macroVarIdx (2 * macroVarIdx + 1) p) (p.1, handle)
  { g_MacroVars := s.g_MacroVars
    g_MacroVarsCopy := copy
    g_ResidualErrorHandle := p.2
    g_ResidualError := p.1 }

/-- The sum of a list of values, from zero. -/
def Real.sum (l : List Real) : Real :=
  l.foldl (fun acc x => acc + x) (Real.fin 0)

/-- All nodes of all blocks, each with the index of its block. -/
def CaseSetup.allNodes {ι : Type} (C : CaseSetup ι) : List (Nat × ι) :=
  (List.range C.BlockNum).flatMap (fun b => (C.BlockIterRngWhole b).map (fun n => (b, n)))

/-- A sample case: two macro variables, two blocks; the whole range of block 0
has the nodes (0,0) and (1,0), the one of block 1 the node (0,0). -/
def sampleCase : CaseSetup (Int × Int) where
  NUMMACROVAR := 2
  MacroVarsNum := 2
  BlockNum := 2
  BlockIterRngWhole := fun b => if b = 0 then [(0, 0), (1, 0)] else [(0, 0)]

/-- A sample state of the residual monitor: macro variable `v` is
`b + x + v + 1` at node `(x, y)` of block `b`, the snapshot is 1 everywhere, the
handles are reset and the residuals hold 9. -/
def sampleResidualState : ResidualState (Int × Int) where
  g_MacroVars := fun b n v => Real.fin (b + n.1 + v + 1)
  g_MacroVarsCopy := fun _ _ _ => Real.fin 1
  g_ResidualErrorHandle := fun _ => Real.fin 0
  g_ResidualError := fun _ => Real.fin 9

/-! ## Display of the residuals -/

/-- What `DispResidualError` prints: the time step named in the heading and, for
each macro variable in turn, the index of the variable whose name is printed
and the residual printed after it. -/
structure ResidualReport where
  heading : Int
  lines : List (Nat × Real)

/-- `DispResidualError`: the report printed.  `MacroVarsNum` and `TimeStep` are
the values that `MacroVarsNum()` and `TimeStep()` return; they are set up outside
the sources at hand. -/
def DispResidualError (MacroVarsNum : Nat) (TimeStep : Real) (g_ResidualError : Nat → Real)
    (iter : Int) (checkPeriod : Real) : ResidualReport :=
  { heading := iter
    lines := forRange MacroVarsNum (fun macroVarIdx out =>
      let residualError := g_ResidualError (2 * macroVarIdx) /
        g_ResidualError (2 * macroVarIdx + 1) / (checkPeriod * TimeStep)
      out ++ [(macroVarIdx, residualError)]) [] }

/-- Sample residuals: absolute residual `v + 1` and reference magnitude `4` for
macro variable `v`. -/
def sampleResiduals : Nat → Real :=
  fun k => if k % 2 = 0 then Real.fin (k / 2 + 1) else Real.fin 4

/-! ## Boundary kinds and tags that the kernels do not name -/

/-- The boundary kinds that the flags `streamRequired` and `collisionRequired` of
the kernels name, and `Vertex_FreeFlux`. -/
def VertexTypes.boundaryKinds (E : VertexTypes) : List Int :=
  [E.Vertex_ZouHeVelocity, E.Vertex_EQMDiffuseRefl, E.Vertex_ExtrapolPressure1ST,
    E.Vertex_ExtrapolPressure2ND, E.Vertex_Periodic, E.Vertex_FreeFlux]

/-- A tag that the `switch (vg)` of the 2D kernels does not name: it falls to
`default`. -/
def VertexGeometryTypes.unnamed2D (vg : VertexGeometryTypes) : Bool :=
  decide (vg.kind = .other) || !vg.is2D

/-- A tag that the `switch (vg)` of `KerStream3D` does not name. -/
def VertexGeometryTypes.unnamed3D (vg : VertexGeometryTypes) : Bool :=
  decide (vg.kind = .other)

/-! ## Mirror images of a configuration -/

/-- The tag of the mirror image under the reflection of the x axis: `IP` and `IM`
change places in the name of the tag. -/
def VertexGeometryTypes.reflectX : VertexGeometryTypes → VertexGeometryTypes
  | .VG_IP => .VG_IM
  | .VG_IM => .VG_IP
  | .VG_JP => .VG_JP
  | .VG_JM => .VG_JM
  | .VG_KP => .VG_KP
  | .VG_KM => .VG_KM
  | .VG_IPJP_I => .VG_IMJP_I
  | .VG_IPJM_I => .VG_IMJM_I
  | .VG_IMJP_I => .VG_IPJP_I
  | .VG_IMJM_I => .VG_IPJM_I
  | .VG_IPKP_I => .VG_IMKP_I
  | .VG_IPKM_I => .VG_IMKM_I
  | .VG_IMKP_I => .VG_IPKP_I
  | .VG_IMKM_I => .VG_IPKM_I
  | .VG_JPKP_I => .VG_JPKP_I
  | .VG_JPKM_I => .VG_JPKM_I
  | .VG_JMKP_I => .VG_JMKP_I
  | .VG_JMKM_I => .VG_JMKM_I
  | .VG_IPJP_O => .VG_IMJP_O
  | .VG_IPJM_O => .VG_IMJM_O
  | .VG_IMJP_O => .VG_IPJP_O
  | .VG_IMJM_O => .VG_IPJM_O
  | .VG_IPKP_O => .VG_IMKP_O
  | .VG_IPKM_O => .VG_IMKM_O
  | .VG_IMKP_O => .VG_IPKP_O
  | .VG_IMKM_O => .VG_IPKM_O
  | .VG_JPKP_O => .VG_JPKP_O
  | .VG_JPKM_O => .VG_JPKM_O
  | .VG_JMKP_O => .VG_JMKP_O
  | .VG_JMKM_O => .VG_JMKM_O
  | .VG_IPJPKP_I => .VG_IMJPKP_I
  | .VG_IPJPKM_I => .VG_IMJPKM_I
  | .VG_IPJMKP_I => .VG_IMJMKP_I
  | .VG_IPJMKM_I => .VG_IMJMKM_I
  | .VG_IMJPKP_I => .VG_IPJPKP_I
  | .VG_IMJPKM_I => .VG_IPJPKM_I
  | .VG_IMJMKP_I => .VG_IPJMKP_I
  | .VG_IMJMKM_I => .VG_IPJMKM_I
  | .VG_IPJPKP_O => .VG_IMJPKP_O
  | .VG_IPJPKM_O => .VG_IMJPKM_O
  | .VG_IPJMKP_O => .VG_IMJMKP_O
  | .VG_IPJMKM_O => .VG_IMJMKM_O
  | .VG_IMJPKP_O => .VG_IPJPKP_O
  | .VG_IMJPKM_O => .VG_IPJPKM_O
  | .VG_IMJMKP_O => .VG_IPJMKP_O
  | .VG_IMJMKM_O => .VG_IPJMKM_O
  | .VG_Other code => .VG_Other code

/-- The tag of the mirror image under the exchange of the x and y axes: `I` and
`J` change places in the name of the tag. -/
def VertexGeometryTypes.swapXY : VertexGeometryTypes → VertexGeometryTypes
  | .VG_IP => .VG_JP
  | .VG_IM => .VG_JM
  | .VG_JP => .VG_IP
  | .VG_JM => .VG_IM
  | .VG_KP => .VG_KP
  | .VG_KM => .VG_KM
  | .VG_IPJP_I => .VG_IPJP_I
  | .VG_IPJM_I => .VG_IMJP_I
  | .VG_IMJP_I => .VG_IPJM_I
  | .VG_IMJM_I => .VG_IMJM_I
  | .VG_IPKP_I => .VG_JPKP_I
  | .VG_IPKM_I => .VG_JPKM_I
  | .VG_IMKP_I => .VG_JMKP_I
  | .VG_IMKM_I => .VG_JMKM_I
  | .VG_JPKP_I => .VG_IPKP_I
  | .VG_JPKM_I => .VG_IPKM_I
  | .VG_JMKP_I => .VG_IMKP_I
  | .VG_JMKM_I => .VG_IMKM_I
  | .VG_IPJP_O => .VG_IPJP_O
  | .VG_IPJM_O => .VG_IMJP_O
  | .VG_IMJP_O => .VG_IPJM_O
  | .VG_IMJM_O => .VG_IMJM_O
  | .VG_IPKP_O => .VG_JPKP_O
  | .VG_IPKM_O => .VG_JPKM_O
  | .VG_IMKP_O => .VG_JMKP_O
  | .VG_IMKM_O => .VG_JMKM_O
  | .VG_JPKP_O => .VG_IPKP_O
  | .VG_JPKM_O => .VG_IPKM_O
  | .VG_JMKP_O => .VG_IMKP_O
  | .VG_JMKM_O => .VG_IMKM_O
  | .VG_IPJPKP_I => .VG_IPJPKP_I
  | .VG_IPJPKM_I => .VG_IPJPKM_I
  | .VG_IPJMKP_I => .VG_IMJPKP_I
  | .VG_IPJMKM_I => .VG_IMJPKM_I
  | .VG_IMJPKP_I => .VG_IPJMKP_I
  | .VG_IMJPKM_I => .VG_IPJMKM_I
  | .VG_IMJMKP_I => .VG_IMJMKP_I
  | .VG_IMJMKM_I => .VG_IMJMKM_I
  | .VG_IPJPKP_O => .VG_IPJPKP_O
  | .VG_IPJPKM_O => .VG_IPJPKM_O
  | .VG_IPJMKP_O => .VG_IMJPKP_O
  | .VG_IPJMKM_O => .VG_IMJPKM_O
  | .VG_IMJPKP_O => .VG_IPJMKP_O
  | .VG_IMJPKM_O => .VG_IPJMKM_O
  | .VG_IMJMKP_O => .VG_IMJMKP_O
  | .VG_IMJMKM_O => .VG_IMJMKM_O
  | .VG_Other code => .VG_Other code

/-- The flags of the mirror image under the exchange of the x and y axes. -/
def UpwindFlags.swapXY (s : UpwindFlags) : UpwindFlags :=
  { needCalc := s.needCalc, reduceOrderX := s.reduceOrderY, reduceOrderY := s.reduceOrderX }

/-- Tags around a boundary node on the face `VG_IM` whose neighbour at offset
(0,1) is the inner corner `VG_IMJM_I`. -/
def faceIMTags : Int → Int → VertexGeometryTypes :=
  fun dx dy => if dx = 0 ∧ dy = 0 then .VG_IM else if dx = 0 ∧ dy = 1 then .VG_IMJM_I
    else .VG_Other 0

/-! ## Runtime diagnostics -/

/-- The test `isnan(res) || res <= 0 || isinf(res)` of the diagnostics: the value
is no finite number, or it is not positive. -/
def Real.invalid : Real → Bool
  | none => true
  | some q => decide (q ≤ 0)

/-- `KerCollide3D` compiled with `CPU` defined, the runtime diagnostics: `none`
when the `assert` ends the run, otherwise the array `fStage` of the node after
the kernel.  After each assignment the value written is tested. -/
def KerCollide3D.cpu (L : Lattice) (E : VertexTypes) (dt : Real) (nodeType : Nat → Int)
    (f feq : Nat → Real) (relaxationTime : Nat → Real) (bodyForce : Nat → Real)
    (fStage : Nat → Real) : Option (Nat → Real) :=
  forCompo L (fun compoIndex st =>
    st.bind (fun fStage =>
      let vt := nodeType compoIndex
      if KerCollide3D.collisionRequired E vt then
        let tau := relaxationTime compoIndex
        let dtOvertauPlusdt := dt / (tau + Real.fin (1 / 2) * dt)
        forXi L compoIndex (fun xiIndex st =>
          st.bind (fun fStage =>
            let fStage := store fStage xiIndex
              (f xiIndex - dtOvertauPlusdt * (f xiIndex - feq xiIndex) +
                tau * dtOvertauPlusdt * bodyForce xiIndex)
            let res := fStage xiIndex
            if res.invalid then none else some fStage)) (some fStage)
      else some fStage)) (some fStage)

/-- The time-marching kernels compiled with `CPU` defined: they hold no code
under `CPU` and no test of the value written, so the kernel always returns,
with the same array `f` as without `CPU`.  `none` stands for a run ended by a
diagnostic. -/
def KerCutCellExplicitTimeMach.cpu (L : Lattice) (E : VertexTypes) (dt schemeCoeff : Real)
    (nodeType : Int) (geometry : VertexGeometryTypes) (fGradient feq : Nat → Real)
    (relaxationTime : Nat → Real) (bodyForce : Nat → Real) (f : Nat → Real) :
    Option (Nat → Real) :=
  some (KerCutCellExplicitTimeMach L E dt schemeCoeff nodeType geometry fGradient feq
    relaxationTime bodyForce f)

/-- The semi-implicit kernel compiled with `CPU` defined: as for the explicit
kernel, no test of the value written. -/
def KerCutCellSemiImplicitTimeMach.cpu (L : Lattice) (E : VertexTypes)
    (dt schemeCoeff : Real) (nodeType : Int) (geometry : VertexGeometryTypes)
    (fGradient feq : Nat → Real) (relaxationTime : Nat → Real) (bodyForce : Nat → Real)
    (f : Nat → Real) : Option (Nat → Real) :=
  some (KerCutCellSemiImplicitTimeMach L E dt schemeCoeff nodeType geometry fGradient feq
    relaxationTime bodyForce f)

/-- A sample equilibrium with a negative entry: `feq[3] = -40`, otherwise as
`sampleFeq`. -/
def sampleFeqNegative : Nat → Real := fun i => if i = 3 then Real.fin (-40) else sampleFeq i

/-! ## The fields of a case and the wrap functions of `evolution.cpp` -/

/-- `KerCopyf`: the array `dest` of the node after the kernel.  `NUMXI` is the
number of directions of the lattice. -/
def KerCopyf (NUMXI : Nat) (src dest : Nat → Real) : Nat → Real :=
  forRange NUMXI (fun xiIndex dest => store dest xiIndex (src xiIndex)) dest

/-- Modelled from the spec: the mesh as the wrap functions see it through OPS,
which is outside the sources at hand.  Besides the set-up of `CaseSetup` (the
number of blocks and the nodes of the whole range of each block) it holds the
number `NUMXI` of directions and the node `offset n dx dy` that a stencil
reaches from node `n` at the relative position `(dx, dy)`. -/
structure Mesh (ι : Type) extends CaseSetup ι where
  NUMXI : Nat
  offset : ι → Int → Int → ι

/-- The global data sets of `flowfield.h` that the wrap functions of the 2D code
pass to the kernels: one array per block and node (one value for the vertex
type and for the tag). -/
structure FlowField (ι : Type) where
  g_f : Nat → ι → Nat → Real
  g_fStage : Nat → ι → Nat → Real
  g_feq : Nat → ι → Nat → Real
  g_Bodyforce : Nat → ι → Nat → Real
  g_Tau : Nat → ι → Nat → Real
  g_MacroVars : Nat → ι → Nat → Real
  g_NodeType : Nat → ι → Int
  g_GeometryProperty : Nat → ι → VertexGeometryTypes

/-- Modelled from the spec: the kernels of the physical model and the boundary
treatment, which are outside the sources at hand.  Each kernel is a function of
the data sets that its `ops_par_loop` passes to it, the last one being the one
it writes: `KerCalcMacroVars nodeType f macroVars`, `KerCalcFeq nodeType
macroVars feq`, `KerCalcTau nodeType tauRef macroVars tau`; `TauRef` is the
array that `TauRef()` returns and `ImplementBoundaryConditions` the effect of
the call on the fields. -/
structure ModelKernels (ι : Type) where
  KerCalcMacroVars : Int → (Nat → Real) → (Nat → Real) → (Nat → Real)
  KerCalcFeq : Int → (Nat → Real) → (Nat → Real) → (Nat → Real)
  KerCalcTau : Int → (Nat → Real) → (Nat → Real) → (Nat → Real) → (Nat → Real)
  TauRef : Nat → Real
  ImplementBoundaryConditions : FlowField ι → FlowField ι

/-- `UpdateTau`: the fields after the call. -/
def UpdateTau {ι : Type} [DecidableEq ι] (M : Mesh ι) (K : ModelKernels ι) (s : FlowField ι) :
    FlowField ι :=
  { s with
    g_Tau := forRange M.BlockNum (fun blockIndex g_Tau =>
      store g_Tau blockIndex
        (opsParLoopWrite (M.BlockIterRngWhole blockIndex)
          (fun n tau => K.KerCalcTau (s.g_NodeType blockIndex n) K.TauRef
            (s.g_MacroVars blockIndex n) tau)
          (g_Tau blockIndex))) s.g_Tau }

/-- `Collision`: the fields after the call; `TimeStep` is the value at
`pTimeStep()`. -/
def Collision {ι : Type} [DecidableEq ι] (L : Lattice) (E : VertexTypes) (M : Mesh ι)
    (TimeStep : Real) (s : FlowField ι) : FlowField ι :=
  { s with
    g_fStage := forRange M.BlockNum (fun blockIndex g_fStage =>
      store g_fStage blockIndex
        (opsParLoopWrite (M.BlockIterRngWhole blockIndex)
          (fun n fStage => KerCollide L E TimeStep (s.g_NodeType blockIndex n)
            (s.g_f blockIndex n) (s.g_feq blockIndex n) (s.g_Tau blockIndex n)
            (s.g_Bodyforce blockIndex n) fStage)
          (g_fStage blockIndex))) s.g_fStage }

/-- `Stream`: the fields after the call.  `KerStream` reads `g_fStage` through a
stencil: the value at offset `(dx, dy)` of node `n` is the one of the node
`M.offset n dx dy` of the same block. -/
def Stream {ι : Type} [DecidableEq ι] (L : Lattice) (E : VertexTypes) (M : Mesh ι)
    (s : FlowField ι) : FlowField ι :=
  { s with
    g_f := forRange M.BlockNum (fun blockIndex g_f =>
      store g_f blockIndex
        (opsParLoopWrite (M.BlockIterRngWhole blockIndex)
          (fun n f => KerStream L E (s.g_NodeType blockIndex n)
            (s.g_GeometryProperty blockIndex n)
            (fun xiIndex dx dy => s.g_fStage blockIndex (M.offset n dx dy) xiIndex) f)
          (g_f blockIndex))) s.g_f }

/-- `UpdateMacroVars`: the fields after the call. -/
def UpdateMacroVars {ι : Type} [DecidableEq ι] (M : Mesh ι) (K : ModelKernels ι)
    (s : FlowField ι) : FlowField ι :=
  { s with
    g_MacroVars := forRange M.BlockNum (fun blockIndex g_MacroVars =>
      store g_MacroVars blockIndex
        (opsParLoopWrite (M.BlockIterRngWhole blockIndex)
          (fun n macroVars => K.KerCalcMacroVars (s.g_NodeType blockIndex n)
            (s.g_f blockIndex n) macroVars)
          (g_MacroVars blockIndex))) s.g_MacroVars }

/-- `UpdateFeqandBodyforce`: the fields after the call.  The one loop of the
function runs `KerCalcFeq` on `g_feq`; the source ends with the comment
`force term to be added`, and `g_Bodyforce` is not written. -/
def UpdateFeqandBodyforce {ι : Type} [DecidableEq ι] (M : Mesh ι) (K : ModelKernels ι)
    (s : FlowField ι) : FlowField ι :=
  { s with
    g_feq := forRange M.BlockNum (fun blockIndex g_feq =>
      store g_feq blockIndex
        (opsParLoopWrite (M.BlockIterRngWhole blockIndex)
          (fun n feq => K.KerCalcFeq (s.g_NodeType blockIndex n)
            (s.g_MacroVars blockIndex n) feq)
          (g_feq blockIndex))) s.g_feq }

/-- `CopyDistribution(fSrc, fDest)`: the data set `fDest` after the call. -/
def CopyDistribution {ι : Type} [DecidableEq ι] (M : Mesh ι)
    (fSrc fDest : Nat → ι → Nat → Real) : Nat → ι → Nat → Real :=
  forRange M.BlockNum (fun blockIndex fDest =>
    store fDest blockIndex
      (opsParLoopWrite (M.BlockIterRngWhole blockIndex)
        (fun n dest => KerCopyf M.NUMXI (fSrc blockIndex n) dest)
        (fDest blockIndex))) fDest

/-- `StreamCollision`: the fields after the call. -/
def StreamCollision {ι : Type} [DecidableEq ι] (L : Lattice) (E : VertexTypes) (M : Mesh ι)
    (K : ModelKernels ι) (TimeStep : Real) (s : FlowField ι) : FlowField ι :=
  let s := UpdateMacroVars M K s
  let s := { s with g_fStage := CopyDistribution M s.g_f s.g_fStage }
  let s := UpdateFeqandBodyforce M K s
  let s := UpdateTau M K s
  let s := Collision L E M TimeStep s
  let s := Stream L E M s
  K.ImplementBoundaryConditions s

/-- The fields that `Collision` receives in `StreamCollision`: the result of the
first four steps of the function. -/
def StreamCollision.beforeCollision {ι : Type} [DecidableEq ι] (M : Mesh ι)
    (K : ModelKernels ι) (s : FlowField ι) : FlowField ι :=
  let s := UpdateMacroVars M K s
  let s := { s with g_fStage := CopyDistribution M s.g_f s.g_fStage }
  let s := UpdateFeqandBodyforce M K s
  UpdateTau M K s

/-! ## Periodic meshes and the total mass -/

/-- The directions of component `c`: the indices that the loop over `xiIndex`
visits. -/
def Lattice.directions (L : Lattice) (c : Nat) : List Nat :=
  List.range' (L.COMPOINDEX (2 * c)) (L.COMPOINDEX (2 * c + 1) + 1 - L.COMPOINDEX (2 * c))

/-- The lattice with every velocity negated. -/
def Lattice.negate (L : Lattice) : Lattice :=
  { L with XI := fun i => - L.XI i }

/-- The sum of a distribution over all blocks, all nodes of the whole range, all
components and all directions. -/
def totalMass {ι : Type} (L : Lattice) (M : Mesh ι) (f : Nat → ι → Nat → Real) : Real :=
  Real.sum ((List.range M.BlockNum).map (fun b =>
    Real.sum ((M.BlockIterRngWhole b).map (fun n =>
      Real.sum ((List.range L.NUMCOMPONENTS).map (fun c =>
        Real.sum ((L.directions c).map (fun d => f b n d))))))))

/-- Modelled from the spec: a periodic mesh.  In every block the whole range
lists each node once, the node at any offset of a node of the range is a node
of the range again, and stepping back by the same offset returns to the
node. -/
def Mesh.Periodic {ι : Type} (M : Mesh ι) : Prop :=
  ∀ b, b < M.BlockNum →
    (M.BlockIterRngWhole b).Nodup ∧
    (∀ n dx dy, n ∈ M.BlockIterRngWhole b → M.offset n dx dy ∈ M.BlockIterRngWhole b) ∧
    (∀ n dx dy, n ∈ M.BlockIterRngWhole b → M.offset (M.offset n dx dy) (-dx) (-dy) = n)

/-- A periodic mesh of one block with 3 x 3 nodes for the lattice `twoD2Q9`: the
offsets wrap around modulo 3. -/
def sampleMesh : Mesh (Int × Int) where
  NUMMACROVAR := 2
  MacroVarsNum := 2
  BlockNum := 1
  BlockIterRngWhole := fun _ =>
    [(0, 0), (1, 0), (2, 0), (0, 1), (1, 1), (2, 1), (0, 2), (1, 2), (2, 2)]
  NUMXI := 18
  offset := fun n dx dy => ((n.1 + dx) % 3, (n.2 + dy) % 3)

/-- A periodic mesh of one block with the single node (0,0). -/
def oneNodeMesh : Mesh (Int × Int) where
  NUMMACROVAR := 2
  MacroVarsNum := 2
  BlockNum := 1
  BlockIterRngWhole := fun _ => [(0, 0)]
  NUMXI := 18
  offset := fun _ _ _ => (0, 0)

/-- Sample fields on a mesh of fluid nodes, with body force `force` at every
node and direction and relaxation time `tau` for every component: at node
`(x, y)` the distribution of direction `d` is `d % 9 + 1 + x + 3 y`, the
equilibrium `(8 - d % 9) + 1 + x + 3 y` (the same sum over the nine directions
of a component) and the staged value `100 d + x + 10 y`. -/
def sampleFlow (tau force : ℚ) : FlowField (Int × Int) where
  g_f := fun _ n d => Real.fin ((d % 9 : Nat) + 1 + n.1 + 3 * n.2)
  g_fStage := fun _ n d => Real.fin (100 * d + n.1 + 10 * n.2)
  g_feq := fun _ n d => Real.fin (8 - (d % 9 : Nat) + 1 + n.1 + 3 * n.2)
  g_Bodyforce := fun _ _ _ => Real.fin force
  g_Tau := fun _ _ _ => Real.fin tau
  g_MacroVars := fun _ _ _ => Real.fin 0
  g_NodeType := fun _ _ => 10
  g_GeometryProperty := fun _ _ => .VG_Other 0

/-- Sample kernels of the model: the macro variables are a copy of `f`, the
equilibrium is a copy of the macro variables, the relaxation time is the
reference value and the boundary treatment changes nothing. -/
def sampleKernels : ModelKernels (Int × Int) where
  KerCalcMacroVars := fun _ f _ => f
  KerCalcFeq := fun _ macroVars _ => macroVars
  KerCalcTau := fun _ tauRef _ _ => tauRef
  TauRef := fun _ => Real.fin 1
  ImplementBoundaryConditions := fun s => s

/-! ## The 3D streaming step on a mesh -/

/-- Modelled from the spec: the 3D mesh as the wrap functions see it through OPS:
the set-up of `CaseSetup` and the node `offset n dx dy dz` that a stencil reaches
from node `n` at the relative position `(dx, dy, dz)`. -/
structure Mesh3D (ι : Type) extends CaseSetup ι where
  offset : ι → Int → Int → Int → ι

/-- The data sets that the 3D streaming step passes to `KerStream3D`, per block
and node; the vertex type is stored per component. -/
structure FlowField3D (ι : Type) where
  g_f : Nat → ι → Nat → Real
  g_fStage : Nat → ι → Nat → Real
  g_NodeType : Nat → ι → Nat → Int
  g_GeometryProperty : Nat → ι → VertexGeometryTypes

/-- Modelled from the spec: `Stream3D`, which `evolution3d.h` declares and whose
definition is not among the sources at hand.  As `Stream` does with `KerStream`,
it runs `KerStream3D` over the whole range of every block. -/
def Stream3D {ι : Type} [DecidableEq ι] (L : Lattice) (E : VertexTypes) (M : Mesh3D ι)
    (s : FlowField3D ι) : FlowField3D ι :=
  { s with
    g_f := forRange M.BlockNum (fun blockIndex g_f =>
      store g_f blockIndex
        (opsParLoopWrite (M.BlockIterRngWhole blockIndex)
          (fun n f => KerStream3D L E (s.g_NodeType blockIndex n)
            (s.g_GeometryProperty blockIndex n)
            (fun xiIndex dx dy dz => s.g_fStage blockIndex (M.offset n dx dy dz) xiIndex) f)
          (g_f blockIndex))) s.g_f }

/-- Modelled from the spec: a periodic 3D mesh, as `Mesh.Periodic`. -/
def Mesh3D.Periodic {ι : Type} (M : Mesh3D ι) : Prop :=
  ∀ b, b < M.BlockNum →
    (M.BlockIterRngWhole b).Nodup ∧
    (∀ n dx dy dz, n ∈ M.BlockIterRngWhole b →
      M.offset n dx dy dz ∈ M.BlockIterRngWhole b) ∧
    (∀ n dx dy dz, n ∈ M.BlockIterRngWhole b →
      M.offset (M.offset n dx dy dz) (-dx) (-dy) (-dz) = n)

/-- A periodic 3D mesh of one block with 2 x 2 x 2 nodes for the lattice
`twoD3Q19`: the offsets wrap around modulo 2. -/
def sampleMesh3D : Mesh3D (Int × Int × Int) where
  NUMMACROVAR := 4
  MacroVarsNum := 4
  BlockNum := 1
  BlockIterRngWhole := fun _ =>
    [(0, 0, 0), (1, 0, 0), (0, 1, 0), (1, 1, 0), (0, 0, 1), (1, 0, 1), (0, 1, 1), (1, 1, 1)]
  offset := fun n dx dy dz => ((n.1 + dx) % 2, (n.2.1 + dy) % 2, (n.2.2 + dz) % 2)

/-- Sample fields on a 3D mesh of fluid nodes: the staged value of direction `d`
at node `(x, y, z)` is `1000 d + x + 10 y + 100 z`. -/
def sampleFlow3D : FlowField3D (Int × Int × Int) where
  g_f := fun _ _ _ => Real.fin 0
  g_fStage := fun _ n d => Real.fin (1000 * d + n.1 + 10 * n.2.1 + 100 * n.2.2)
  g_NodeType := fun _ _ _ => 10
  g_GeometryProperty := fun _ _ => .VG_Other 0

/-! ## The data of a node seen by the streaming kernels -/

/-- The data sets that are passed to `KerStream`: the type and the tag of the
node, the staged distribution read through the stencil, and `f` of the node. -/
structure StreamData where
  nodeType : Int
  geometry : VertexGeometryTypes
  fStage : Nat → Int → Int → Real
  f : Nat → Real

/-- The data after `KerStream`: `f` is the one argument that is not `const`. -/
def KerStream.run (L : Lattice) (E : VertexTypes) (n : StreamData) : StreamData :=
  { n with f := KerStream L E n.nodeType n.geometry n.fStage n.f }

/-- The data sets that are passed to `KerStream3D`; `nodeType` holds one vertex
type per component. -/
structure StreamData3D where
  nodeType : Nat → Int
  geometry : VertexGeometryTypes
  fStage : Nat → Int → Int → Int → Real
  f : Nat → Real

/-- The data after `KerStream3D`: `f` is the one argument that is not `const`. -/
def KerStream3D.run (L : Lattice) (E : VertexTypes) (n : StreamData3D) : StreamData3D :=
  { n with f := KerStream3D L E n.nodeType n.geometry n.fStage n.f }

/-! ## Initialisation of the solution -/

/-- `KerSetfFixValue`: the array `f` of the node after the kernel. -/
def KerSetfFixValue (NUMXI : Nat) (value : Real) (f : Nat → Real) : Nat → Real :=
  forRange NUMXI (fun xiIndex f => store f xiIndex value) f

/-- `InitialiseSolution`: the fields after the call.  In the loop over the
blocks the range is the whole range of block `blockIndex`, and the data set
passed to `KerSetfFixValue` is `g_Bodyforce[0]` in every pass. -/
def InitialiseSolution {ι : Type} [DecidableEq ι] (M : Mesh ι) (K : ModelKernels ι)
    (s : FlowField ι) : FlowField ι :=
  let s := UpdateFeqandBodyforce M K s
  let s := { s with
    g_Bodyforce := forRange M.BlockNum (fun blockIndex g_Bodyforce =>
      let zero := Real.fin 0
      store g_Bodyforce 0
        (opsParLoopWrite (M.BlockIterRngWhole blockIndex)
          (fun _ f => KerSetfFixValue M.NUMXI zero f)
          (g_Bodyforce 0))) s.g_Bodyforce }
  { s with g_f := CopyDistribution M s.g_feq s.g_f }

/-- A mesh of two blocks for the lattice `twoD2Q9`: the whole range of block 0
has the nodes (0,0) and (1,0), the one of block 1 the node (0,0); a stencil
never leaves the node. -/
def twoBlockMesh : Mesh (Int × Int) where
  NUMMACROVAR := 2
  MacroVarsNum := 2
  BlockNum := 2
  BlockIterRngWhole := fun b => if b = 0 then [(0, 0), (1, 0)] else [(0, 0)]
  NUMXI := 18
  offset := fun n _ _ => n

/-- A state of the residual monitor on the sample case in which every macro
variable is zero at every node: the snapshot is 1 everywhere, the handles are
reset and the residuals hold 9. -/
def zeroMacroVarsState : ResidualState (Int × Int) where
  g_MacroVars := fun _ _ _ => Real.fin 0
  g_MacroVarsCopy := fun _ _ _ => Real.fin 1
  g_ResidualErrorHandle := fun _ => Real.fin 0
  g_ResidualError := fun _ => Real.fin 9

/-! ## Arithmetic of the type `double` -/

/-- The integer nearest to `m`, a tie going to the even one. -/
def Real.roundTiesEven (m : ℚ) : ℤ :=
  if m - ⌊m⌋ < 1 / 2 then ⌊m⌋
  else if 1 / 2 < m - ⌊m⌋ then ⌊m⌋ + 1
  else if ⌊m⌋ % 2 = 0 then ⌊m⌋ else ⌊m⌋ + 1

/-- The rounding of the type `double`, which is the type `Real` of the data sets
(IEEE binary64, round to nearest, ties to even): for `2^e <= |q| < 2^(e+1)` the
nearest multiple of `2^(e-52)`.  The range of the exponent is not modelled: no
overflow and no subnormal numbers. -/
def Real.round64 (q : ℚ) : ℚ :=
  if q = 0 then 0
  else (Real.roundTiesEven (q / 2 ^ (Int.log 2 |q| - 52)) : ℚ) * 2 ^ (Int.log 2 |q| - 52)

/-- A number of the format of `double`, the range of the exponent apart: an
integer of at most 53 bits times a power of two. -/
def Real.representable64 (x : ℚ) : Prop :=
  ∃ m e : ℤ, |m| < 2 ^ 53 ∧ x = m * 2 ^ e

/-- The result of an operation on values of type `Real` whose exact result is
`x`, when results are rounded by `rnd`. -/
def Real.rounded (rnd : ℚ → ℚ) (x : Real) : Real :=
  Option.map rnd x

/-- The value that the assignment of `KerCollide3D` computes for one direction
in the arithmetic of `double`: the expression
`f - dtOvertauPlusdt * (f - feq) + tau * dtOvertauPlusdt * bodyForce` with
`dtOvertauPlusdt = dt / (tau + 0.5 * dt)`, the result of every operation rounded
by `rnd`. -/
def KerCollide3D.valueRounded (rnd : ℚ → ℚ) (dt tau f feq bodyForce : Real) : Real :=
  let dtOvertauPlusdt :=
    Real.rounded rnd (dt / Real.rounded rnd (tau + Real.rounded rnd (Real.fin (1 / 2) * dt)))
  Real.rounded rnd
    (Real.rounded rnd (f - Real.rounded rnd (dtOvertauPlusdt * Real.rounded rnd (f - feq))) +
      Real.rounded rnd (Real.rounded rnd (tau * dtOvertauPlusdt) * bodyForce))

/-- `KerCollide3D` in the arithmetic of `double`: the array `fStage` of the node
after the kernel, the result of every operation rounded by `rnd`. -/
def KerCollide3D.rounded (rnd : ℚ → ℚ) (L : Lattice) (E : VertexTypes) (dt : Real)
    (nodeType : Nat → Int) (f feq : Nat → Real) (relaxationTime : Nat → Real)
    (bodyForce : Nat → Real) (fStage : Nat → Real) : Nat → Real :=
  forCompo L (fun compoIndex fStage =>
    let vt := nodeType compoIndex
    if KerCollide3D.collisionRequired E vt then
      let tau := relaxationTime compoIndex
      let dtOvertauPlusdt :=
        Real.rounded rnd (dt / Real.rounded rnd (tau + Real.rounded rnd (Real.fin (1 / 2) * dt)))
      forXi L compoIndex (fun xiIndex fStage =>
        store fStage xiIndex
          (Real.rounded rnd
            (Real.rounded rnd (f xiIndex -
                Real.rounded rnd (dtOvertauPlusdt *
                  Real.rounded rnd (f xiIndex - feq xiIndex))) +
              Real.rounded rnd (Real.rounded rnd (tau * dtOvertauPlusdt) *
                bodyForce xiIndex)))) fStage
    else fStage) fStage

/-- `KerCollide3D` compiled with `CPU` defined, in the arithmetic of `double`:
`none` when the `assert` ends the run, otherwise the array `fStage` of the node
after the kernel.  After each assignment the value written is tested. -/
def KerCollide3D.cpuRounded (rnd : ℚ → ℚ) (L : Lattice) (E : VertexTypes) (dt : Real)
    (nodeType : Nat → Int) (f feq : Nat → Real) (relaxationTime : Nat → Real)
    (bodyForce : Nat → Real) (fStage : Nat → Real) : Option (Nat → Real) :=
  forCompo L (fun compoIndex st =>
    st.bind (fun fStage =>
      let vt := nodeType compoIndex
      if KerCollide3D.collisionRequired E vt then
        let tau := relaxationTime compoIndex
        let dtOvertauPlusdt :=
          Real.rounded rnd
            (dt / Real.rounded rnd (tau + Real.rounded rnd (Real.fin (1 / 2) * dt)))
        forXi L compoIndex (fun xiIndex st =>
          st.bind (fun fStage =>
            let fStage := store fStage xiIndex
              (Real.rounded rnd
                (Real.rounded rnd (f xiIndex -
                    Real.rounded rnd (dtOvertauPlusdt *
                      Real.rounded rnd (f xiIndex - feq xiIndex))) +
                  Real.rounded rnd (Real.rounded rnd (tau * dtOvertauPlusdt) *
                    bodyForce xiIndex)))
            let res := fStage xiIndex
            if res.invalid then none else some fStage)) (some fStage)
      else some fStage)) (some fStage)

/-! ## Loop lemmas -/

theorem store_same {α : Type} (a : Nat → α) (i : Nat) (v : α) : store a i v i = v := by
  simp [store]

theorem store_other {α : Type} (a : Nat → α) (i j : Nat) (v : α) (h : j ≠ i) :
    store a i v j = a j := by
  simp [store, h]

theorem store_store {α : Type} (a : Nat → α) (i : Nat) (v w : α) :
    store (store a i v) i w = store a i w := by
  funext j
  by_cases h : j = i <;> simp [store, h]

theorem store_self {α : Type} (a : Nat → α) (i : Nat) : store a i (a i) = a := by
  funext j
  by_cases h : j = i <;> simp [store, h]

/-- A loop over consecutive indices whose body at `i` rewrites entry `i` alone:
entry `d` is rewritten once if the loop passes `d`, and is kept otherwise. -/
theorem foldl_range'_store_at {α : Type} (body : Nat → (Nat → α) → (Nat → α))
    (g : Nat → α → α) (hbody : ∀ i s, body i s = store s i (g i (s i)))
    (n lo : Nat) (s : Nat → α) (d : Nat) :
    (List.range' lo n).foldl (fun s i => body i s) s d =
      if lo ≤ d ∧ d < lo + n then g d (s d) else s d := by
  induction n generalizing lo s with
  | zero =>
    have h : ¬ (lo ≤ d ∧ d < lo) := by omega
    simp [h]
  | succ n ih =>
    rw [List.range'_succ, List.foldl_cons, ih, hbody]
    by_cases hd : d = lo
    · subst hd
      have h1 : ¬ (d + 1 ≤ d ∧ d < d + 1 + n) := by omega
      have h2 : d ≤ d ∧ d < d + (n + 1) := by omega
      simp [h1, h2, store_same]
    · rw [store_other _ _ _ _ hd]
      by_cases h : lo ≤ d ∧ d < lo + (n + 1)
      · have h1 : lo + 1 ≤ d ∧ d < lo + 1 + n := by omega
        simp [h, h1]
      · have h1 : ¬ (lo + 1 ≤ d ∧ d < lo + 1 + n) := by omega
        simp [h, h1]

/-- Entry `d` after the loop over the directions of component `c`. -/
theorem forXi_at {α : Type} (L : Lattice) (c : Nat) (body : Nat → (Nat → α) → (Nat → α))
    (g : Nat → α → α) (hbody : ∀ i s, body i s = store s i (g i (s i)))
    (s : Nat → α) (d : Nat) :
    forXi L c body s d = if L.inCompo c d then g d (s d) else s d := by
  unfold forXi
  rw [foldl_range'_store_at body g hbody]
  by_cases h : L.inCompo c d
  · have h1 : L.COMPOINDEX (2 * c) ≤ d ∧ d < L.COMPOINDEX (2 * c) +
        (L.COMPOINDEX (2 * c + 1) + 1 - L.COMPOINDEX (2 * c)) := by
      unfold Lattice.inCompo at h; omega
    simp [h, h1]
  · have h1 : ¬ (L.COMPOINDEX (2 * c) ≤ d ∧ d < L.COMPOINDEX (2 * c) +
        (L.COMPOINDEX (2 * c + 1) + 1 - L.COMPOINDEX (2 * c))) := by
      unfold Lattice.inCompo at h; omega
    simp [h, h1]

theorem foldl_compo_at_out {α : Type} (L : Lattice) (T : Nat → (Nat → α) → (Nat → α))
    (g : Nat → Nat → α → α)
    (hT : ∀ c s d, T c s d = if L.inCompo c d then g c d (s d) else s d)
    (cs : List Nat) (s : Nat → α) (d : Nat) (hout : ∀ c ∈ cs, ¬ L.inCompo c d) :
    cs.foldl (fun s c => T c s) s d = s d := by
  induction cs generalizing s with
  | nil => rfl
  | cons a rest ih =>
    rw [List.foldl_cons, ih _ (fun c hc => hout c (List.mem_cons_of_mem _ hc)), hT]
    simp [hout a (List.mem_cons_self _ _)]

theorem foldl_compo_at_in {α : Type} (L : Lattice) (T : Nat → (Nat → α) → (Nat → α))
    (g : Nat → Nat → α → α)
    (hT : ∀ c s d, T c s d = if L.inCompo c d then g c d (s d) else s d)
    (cs : List Nat) (s : Nat → α) (c d : Nat) (hnd : cs.Nodup) (hc : c ∈ cs)
    (hd : L.inCompo c d) (hother : ∀ c' ∈ cs, c' ≠ c → ¬ L.inCompo c' d) :
    cs.foldl (fun s c => T c s) s d = g c d (s d) := by
  induction cs generalizing s with
  | nil => simp at hc
  | cons a rest ih =>
    rw [List.foldl_cons]
    rw [List.nodup_cons] at hnd
    by_cases ha : a = c
    · subst ha
      rw [foldl_compo_at_out L T g hT rest _ d, hT]
      · simp [hd]
      · intro c' hc'
        exact hother c' (List.mem_cons_of_mem _ hc') (fun h => hnd.1 (h ▸ hc'))
    · have hc' : c ∈ rest := by
        rcases List.mem_cons.mp hc with h | h
        · exact absurd h.symm ha
        · exact h
      rw [ih _ hnd.2 hc' (fun c' h' => hother c' (List.mem_cons_of_mem _ h')), hT]
      simp [hother a (List.mem_cons_self _ _) ha]

/-- Entry `d` after the loop over the components, when the pass of component `c`
rewrites the entries of its own index range alone and `d` belongs to `c`. -/
theorem forCompo_at {α : Type} (L : Lattice) (T : Nat → (Nat → α) → (Nat → α))
    (g : Nat → Nat → α → α)
    (hT : ∀ c s d, T c s d = if L.inCompo c d then g c d (s d) else s d)
    (s : Nat → α) (c d : Nat) (hL : L.Disjoint) (hc : c < L.NUMCOMPONENTS)
    (hd : L.inCompo c d) :
    forCompo L T s d = g c d (s d) := by
  unfold forCompo
  refine foldl_compo_at_in L T g hT _ s c d (List.nodup_range _) (List.mem_range.mpr hc) hd ?_
  intro c' hc' hne hd'
  exact hne (hL c' c d (List.mem_range.mp hc') hc hd' hd)


/-! ## Arithmetic on `Real` -/

theorem Real.half_mul (x : Real) : Real.fin (1 / 2) * x = x / Real.fin 2 := by
  cases x with
  | none => rfl
  | some q =>
    show Real.mul (some (1 / 2)) (some q) = Real.div (some q) (some 2)
    simp only [Real.mul, Real.div]
    rw [if_neg (by norm_num)]
    exact congrArg some (by ring)

/-! ## The kernels, entry by entry -/

/-- Entry `d` of `fStage` after `KerCollide` at a node that requires collision. -/
theorem KerCollide_at (L : Lattice) (E : VertexTypes) (dt : Real) (vt : Int)
    (f feq relaxationTime bodyForce fStage : Nat → Real) (c d : Nat)
    (hL : L.Disjoint) (hc : c < L.NUMCOMPONENTS) (hd : L.inCompo c d)
    (hvt : KerCollide.collisionRequired E vt = true) :
    KerCollide L E dt vt f feq relaxationTime bodyForce fStage d =
      f d - dt / (relaxationTime c + Real.fin (1 / 2) * dt) * (f d - feq d) +
        relaxationTime c * (dt / (relaxationTime c + Real.fin (1 / 2) * dt)) * bodyForce d := by
  unfold KerCollide
  simp only [hvt, if_true]
  rw [forCompo_at L _ (fun c d _ =>
        f d - dt / (relaxationTime c + Real.fin (1 / 2) * dt) * (f d - feq d) +
        relaxationTime c * (dt / (relaxationTime c + Real.fin (1 / 2) * dt)) * bodyForce d)
      _ fStage c d hL hc hd]
  intro c s d
  rw [forXi_at L c _ (fun d _ =>
        f d - dt / (relaxationTime c + Real.fin (1 / 2) * dt) * (f d - feq d) +
        relaxationTime c * (dt / (relaxationTime c + Real.fin (1 / 2) * dt)) * bodyForce d)]
  intro i s
  rfl

/-- Entry `d` of `fStage` after `KerCollide3D`. -/
theorem KerCollide3D_at (L : Lattice) (E : VertexTypes) (dt : Real) (nodeType : Nat → Int)
    (f feq relaxationTime bodyForce fStage : Nat → Real) (c d : Nat)
    (hL : L.Disjoint) (hc : c < L.NUMCOMPONENTS) (hd : L.inCompo c d) :
    KerCollide3D L E dt nodeType f feq relaxationTime bodyForce fStage d =
      if KerCollide3D.collisionRequired E (nodeType c) = true then
        f d - dt / (relaxationTime c + Real.fin (1 / 2) * dt) * (f d - feq d) +
          relaxationTime c * (dt / (relaxationTime c + Real.fin (1 / 2) * dt)) * bodyForce d
      else fStage d := by
  unfold KerCollide3D
  rw [forCompo_at L _ (fun c d old =>
      if KerCollide3D.collisionRequired E (nodeType c) = true then
        f d - dt / (relaxationTime c + Real.fin (1 / 2) * dt) * (f d - feq d) +
          relaxationTime c * (dt / (relaxationTime c + Real.fin (1 / 2) * dt)) * bodyForce d
      else old) _ fStage c d hL hc hd]
  intro c s d
  by_cases h : KerCollide3D.collisionRequired E (nodeType c) = true
  · simp only [h, if_true]
    rw [forXi_at L c _ (fun d _ =>
        f d - dt / (relaxationTime c + Real.fin (1 / 2) * dt) * (f d - feq d) +
        relaxationTime c * (dt / (relaxationTime c + Real.fin (1 / 2) * dt)) * bodyForce d)]
    intro i s
    rfl
  · simp [h]


/-- Entry `d` of `f` after `KerStream`. -/
theorem KerStream_at (L : Lattice) (E : VertexTypes) (vt : Int) (vg : VertexGeometryTypes)
    (fStage : Nat → Int → Int → Real) (f : Nat → Real) (c d : Nat)
    (hL : L.Disjoint) (hc : c < L.NUMCOMPONENTS) (hd : L.inCompo c d) :
    KerStream L E vt vg fStage f d =
      if vt ≥ E.Vertex_Fluid ∧ vt < E.Vertex_Boundary then
        fStage d (-L.XI (d * L.LATTDIM)) (-L.XI (d * L.LATTDIM + 1))
      else if vt ≥ E.Vertex_Boundary then
        if KerStream.streamRequired E vt = true ∧ L.XI (d * L.LATTDIM) = 0 ∧
            L.XI (d * L.LATTDIM + 1) = 0 then fStage d 0 0
        else if KerStream.switchVg vg (KerStream.streamRequired E vt)
            (L.XI (d * L.LATTDIM)) (L.XI (d * L.LATTDIM + 1)) = true then
          fStage d (-L.XI (d * L.LATTDIM)) (-L.XI (d * L.LATTDIM + 1))
        else f d
      else f d := by
  unfold KerStream
  rw [forCompo_at L _ (fun _ d old =>
      if vt ≥ E.Vertex_Fluid ∧ vt < E.Vertex_Boundary then
        fStage d (-L.XI (d * L.LATTDIM)) (-L.XI (d * L.LATTDIM + 1))
      else if vt ≥ E.Vertex_Boundary then
        if KerStream.streamRequired E vt = true ∧ L.XI (d * L.LATTDIM) = 0 ∧
            L.XI (d * L.LATTDIM + 1) = 0 then fStage d 0 0
        else if KerStream.switchVg vg (KerStream.streamRequired E vt)
            (L.XI (d * L.LATTDIM)) (L.XI (d * L.LATTDIM + 1)) = true then
          fStage d (-L.XI (d * L.LATTDIM)) (-L.XI (d * L.LATTDIM + 1))
        else old
      else old) _ f c d hL hc hd]
  intro c s d
  rw [forXi_at L c _ (fun d old =>
      if vt ≥ E.Vertex_Fluid ∧ vt < E.Vertex_Boundary then
        fStage d (-L.XI (d * L.LATTDIM)) (-L.XI (d * L.LATTDIM + 1))
      else if vt ≥ E.Vertex_Boundary then
        if KerStream.streamRequired E vt = true ∧ L.XI (d * L.LATTDIM) = 0 ∧
            L.XI (d * L.LATTDIM + 1) = 0 then fStage d 0 0
        else if KerStream.switchVg vg (KerStream.streamRequired E vt)
            (L.XI (d * L.LATTDIM)) (L.XI (d * L.LATTDIM + 1)) = true then
          fStage d (-L.XI (d * L.LATTDIM)) (-L.XI (d * L.LATTDIM + 1))
        else old
      else old)]
  intro i s
  by_cases h1 : vt ≥ E.Vertex_Fluid ∧ vt < E.Vertex_Boundary
  · have h2 : ¬ vt ≥ E.Vertex_Boundary := by omega
    simp only [h1, h2, and_self, if_true, if_false]
  · by_cases h2 : vt ≥ E.Vertex_Boundary
    · by_cases h3 : KerStream.streamRequired E vt = true ∧ L.XI (i * L.LATTDIM) = 0 ∧
          L.XI (i * L.LATTDIM + 1) = 0
      · simp only [h1, h2, h3, and_self, if_true, if_false]
      · by_cases h4 : KerStream.switchVg vg (KerStream.streamRequired E vt)
            (L.XI (i * L.LATTDIM)) (L.XI (i * L.LATTDIM + 1)) = true
        · simp only [h1, h2, h3, h4, if_true, if_false]
        · simp only [h1, h2, h3, h4, if_true, if_false, store_self, Bool.false_eq_true]
    · simp only [h1, h2, if_false, store_self]

/-- Entry `d` of `f` after `KerStream3D`. -/
theorem KerStream3D_at (L : Lattice) (E : VertexTypes) (nodeType : Nat → Int)
    (vg : VertexGeometryTypes) (fStage : Nat → Int → Int → Int → Real) (f : Nat → Real)
    (c d : Nat) (hL : L.Disjoint) (hc : c < L.NUMCOMPONENTS) (hd : L.inCompo c d) :
    KerStream3D L E nodeType vg fStage f d =
      if nodeType c ≥ E.Vertex_Fluid ∧ nodeType c < E.Vertex_Boundary then
        fStage d (-L.XI (d * L.LATTDIM)) (-L.XI (d * L.LATTDIM + 1))
          (-L.XI (d * L.LATTDIM + 2))
      else if nodeType c ≥ E.Vertex_Boundary then
        if KerStream3D.streamRequired E (nodeType c) = true ∧ L.XI (d * L.LATTDIM) = 0 ∧
            L.XI (d * L.LATTDIM + 1) = 0 ∧ L.XI (d * L.LATTDIM + 2) = 0 then fStage d 0 0 0
        else if KerStream3D.switchVg vg (KerStream3D.streamRequired E (nodeType c))
            (L.XI (d * L.LATTDIM)) (L.XI (d * L.LATTDIM + 1)) (L.XI (d * L.LATTDIM + 2)) = true then
          fStage d (-L.XI (d * L.LATTDIM)) (-L.XI (d * L.LATTDIM + 1))
            (-L.XI (d * L.LATTDIM + 2))
        else f d
      else f d := by
  unfold KerStream3D
  rw [forCompo_at L _ (fun c d old =>
      if nodeType c ≥ E.Vertex_Fluid ∧ nodeType c < E.Vertex_Boundary then
        fStage d (-L.XI (d * L.LATTDIM)) (-L.XI (d * L.LATTDIM + 1))
          (-L.XI (d * L.LATTDIM + 2))
      else if nodeType c ≥ E.Vertex_Boundary then
        if KerStream3D.streamRequired E (nodeType c) = true ∧ L.XI (d * L.LATTDIM) = 0 ∧
            L.XI (d * L.LATTDIM + 1) = 0 ∧ L.XI (d * L.LATTDIM + 2) = 0 then fStage d 0 0 0
        else if KerStream3D.switchVg vg (KerStream3D.streamRequired E (nodeType c))
            (L.XI (d * L.LATTDIM)) (L.XI (d * L.LATTDIM + 1)) (L.XI (d * L.LATTDIM + 2)) = true then
          fStage d (-L.XI (d * L.LATTDIM)) (-L.XI (d * L.LATTDIM + 1))
            (-L.XI (d * L.LATTDIM + 2))
        else old
      else old) _ f c d hL hc hd]
  intro c s d
  rw [forXi_at L c _ (fun d old =>
      if nodeType c ≥ E.Vertex_Fluid ∧ nodeType c < E.Vertex_Boundary then
        fStage d (-L.XI (d * L.LATTDIM)) (-L.XI (d * L.LATTDIM + 1))
          (-L.XI (d * L.LATTDIM + 2))
      else if nodeType c ≥ E.Vertex_Boundary then
        if KerStream3D.streamRequired E (nodeType c) = true ∧ L.XI (d * L.LATTDIM) = 0 ∧
            L.XI (d * L.LATTDIM + 1) = 0 ∧ L.XI (d * L.LATTDIM + 2) = 0 then fStage d 0 0 0
        else if KerStream3D.switchVg vg (KerStream3D.streamRequired E (nodeType c))
            (L.XI (d * L.LATTDIM)) (L.XI (d * L.LATTDIM + 1)) (L.XI (d * L.LATTDIM + 2)) = true then
          fStage d (-L.XI (d * L.LATTDIM)) (-L.XI (d * L.LATTDIM + 1))
            (-L.XI (d * L.LATTDIM + 2))
        else old
      else old)]
  intro i s
  by_cases h1 : nodeType c ≥ E.Vertex_Fluid ∧ nodeType c < E.Vertex_Boundary
  · have h2 : ¬ nodeType c ≥ E.Vertex_Boundary := by omega
    simp only [h1, h2, and_self, if_true, if_false]
  · by_cases h2 : nodeType c ≥ E.Vertex_Boundary
    · by_cases h3 : KerStream3D.streamRequired E (nodeType c) = true ∧
          L.XI (i * L.LATTDIM) = 0 ∧ L.XI (i * L.LATTDIM + 1) = 0 ∧
          L.XI (i * L.LATTDIM + 2) = 0
      · simp only [h1, h2, h3, and_self, if_true, if_false]
      · by_cases h4 : KerStream3D.switchVg vg (KerStream3D.streamRequired E (nodeType c))
            (L.XI (i * L.LATTDIM)) (L.XI (i * L.LATTDIM + 1)) (L.XI (i * L.LATTDIM + 2)) = true
        · simp only [h1, h2, h3, h4, if_true, if_false]
        · simp only [h1, h2, h3, h4, if_true, if_false, store_self, Bool.false_eq_true]
    · simp only [h1, h2, if_false, store_self]

/-- Entry `d` of `f` after `KerCutCellExplicitTimeMach`. -/
theorem KerCutCellExplicitTimeMach_at (L : Lattice) (E : VertexTypes) (dt schemeCoeff : Real)
    (vt : Int) (vg : VertexGeometryTypes)
    (fGradient feq relaxationTime bodyForce f : Nat → Real) (c d : Nat)
    (hL : L.Disjoint) (hc : c < L.NUMCOMPONENTS) (hd : L.inCompo c d) :
    KerCutCellExplicitTimeMach L E dt schemeCoeff vt vg fGradient feq relaxationTime
        bodyForce f d =
      if KerCutCellExplicitTimeMach.needMarch E vt vg (L.XI (d * L.LATTDIM))
          (L.XI (d * L.LATTDIM + 1)) = true then
        f d + dt * schemeCoeff *
          (bodyForce d - fGradient d + (feq d - f d) / relaxationTime c)
      else f d := by
  unfold KerCutCellExplicitTimeMach
  rw [forCompo_at L _ (fun c d old =>
      if KerCutCellExplicitTimeMach.needMarch E vt vg (L.XI (d * L.LATTDIM))
          (L.XI (d * L.LATTDIM + 1)) = true then
        old + dt * schemeCoeff *
          (bodyForce d - fGradient d + (feq d - old) / relaxationTime c)
      else old) _ f c d hL hc hd]
  intro c s d
  rw [forXi_at L c _ (fun d old =>
      if KerCutCellExplicitTimeMach.needMarch E vt vg (L.XI (d * L.LATTDIM))
          (L.XI (d * L.LATTDIM + 1)) = true then
        old + dt * schemeCoeff *
          (bodyForce d - fGradient d + (feq d - old) / relaxationTime c)
      else old)]
  intro i s
  by_cases h : KerCutCellExplicitTimeMach.needMarch E vt vg (L.XI (i * L.LATTDIM))
      (L.XI (i * L.LATTDIM + 1)) = true
  · simp only [h, if_true]
  · simp only [h, if_false, store_self, Bool.false_eq_true]


/-! ## Sample data: facts -/

theorem twoD2Q9_disjoint : twoD2Q9.Disjoint := by
  intro c c' d hc hc' h h'
  have hc2 : c < 2 := hc
  have hc2' : c' < 2 := hc'
  unfold Lattice.inCompo at h h'
  interval_cases c <;> interval_cases c' <;> simp [twoD2Q9] at h h' ⊢ <;> omega

theorem twoD3Q19_disjoint : twoD3Q19.Disjoint := by
  intro c c' d hc hc' h h'
  have hc2 : c < 2 := hc
  have hc2' : c' < 2 := hc'
  unfold Lattice.inCompo at h h'
  interval_cases c <;> interval_cases c' <;> simp [twoD3Q19] at h h' ⊢ <;> omega

@[simp] theorem Real.fin_add_fin (a b : ℚ) : Real.fin a + Real.fin b = Real.fin (a + b) := rfl

@[simp] theorem Real.fin_sub_fin (a b : ℚ) : Real.fin a - Real.fin b = Real.fin (a - b) := rfl

@[simp] theorem Real.fin_mul_fin (a b : ℚ) : Real.fin a * Real.fin b = Real.fin (a * b) := rfl

theorem Real.fin_div_fin (a b : ℚ) (h : b ≠ 0) : Real.fin a / Real.fin b = Real.fin (a / b) := by
  show Real.div (some a) (some b) = some (a / b)
  simp [Real.div, h]

theorem Real.fin_div_zero (a : ℚ) : Real.fin a / Real.fin 0 = Real.nan := by
  show Real.div (some a) (some 0) = none
  simp [Real.div]

@[simp] theorem Real.fin_inj (a b : ℚ) : Real.fin a = Real.fin b ↔ a = b := by
  unfold Real.fin
  exact Option.some_inj

/-! ## Collision: theorems -/

/-- C1: at a node whose vertex type is in the collision-required set (2D:
Fluid, ZouHeVelocity, EQMDiffuseRefl, ExtrapolPressure1ST, ExtrapolPressure2ND;
3D, per component: Fluid, ZouHeVelocity, EQMDiffuseRefl, ExtrapolPressure1ST,
Periodic), for every component `c` and every direction `d` of the index range
of `c`, the kernel sets
`fStage[d] = f[d] - k*(f[d] - feq[d]) + tau_c*k*bodyForce[d]` with
`k = dt/(tau_c + dt/2)` and `tau_c` the relaxation time of `c` at the node. -/
theorem collide_sets_bgk (L : Lattice) (E : VertexTypes) (dt : Real)
    (f feq relaxationTime bodyForce fStage : Nat → Real) (c d : Nat)
    (hL : L.Disjoint) (hc : c < L.NUMCOMPONENTS) (hd : L.inCompo c d) :
    (∀ vt : Int,
      (vt = E.Vertex_Fluid ∨ vt = E.Vertex_ZouHeVelocity ∨ vt = E.Vertex_EQMDiffuseRefl ∨
        vt = E.Vertex_ExtrapolPressure1ST ∨ vt = E.Vertex_ExtrapolPressure2ND) →
      KerCollide L E dt vt f feq relaxationTime bodyForce fStage d =
        f d - dt / (relaxationTime c + dt / Real.fin 2) * (f d - feq d) +
          relaxationTime c * (dt / (relaxationTime c + dt / Real.fin 2)) * bodyForce d) ∧
    (∀ nodeType : Nat → Int,
      (nodeType c = E.Vertex_Fluid ∨ nodeType c = E.Vertex_ZouHeVelocity ∨
        nodeType c = E.Vertex_EQMDiffuseRefl ∨ nodeType c = E.Vertex_ExtrapolPressure1ST ∨
        nodeType c = E.Vertex_Periodic) →
      KerCollide3D L E dt nodeType f feq relaxationTime bodyForce fStage d =
        f d - dt / (relaxationTime c + dt / Real.fin 2) * (f d - feq d) +
          relaxationTime c * (dt / (relaxationTime c + dt / Real.fin 2)) * bodyForce d) := by
  constructor
  · intro vt hvt
    have h : KerCollide.collisionRequired E vt = true := by
      simp only [KerCollide.collisionRequired, Bool.or_eq_true, beq_iff_eq]
      tauto
    rw [KerCollide_at L E dt vt f feq relaxationTime bodyForce fStage c d hL hc hd h,
      Real.half_mul]
  · intro nodeType hvt
    have h : KerCollide3D.collisionRequired E (nodeType c) = true := by
      simp only [KerCollide3D.collisionRequired, Bool.or_eq_true, beq_iff_eq]
      tauto
    rw [KerCollide3D_at L E dt nodeType f feq relaxationTime bodyForce fStage c d hL hc hd,
      if_pos h, Real.half_mul]

/-- C1, at direction 12 (component 1, relaxation time 3/2) of a ZouHe node in
2D, with `dt = 1`, `f = 13`, `feq = 27`, `bodyForce = 3`, the staged value is
`13 - (1/2)*(13 - 27) + (3/2)*(1/2)*3 = 89/4`; at direction 20 (component 1,
periodic) in 3D, with `f = 21`, `feq = 43`, `bodyForce = 5`, it is `143/4`. -/
theorem collide_sets_bgk_witness :
    KerCollide twoD2Q9 sampleTypes (Real.fin 1) 1011 sampleF sampleFeq sampleTau sampleForce
        sampleF 12 = Real.fin (89 / 4) ∧
    KerCollide3D twoD3Q19 sampleTypes (Real.fin 1) (fun c => if c = 0 then 1000 else 1007)
        sampleF sampleFeq sampleTau sampleForce sampleF 20 = Real.fin (143 / 4) := by
  constructor
  · rw [(collide_sets_bgk twoD2Q9 sampleTypes (Real.fin 1) sampleF sampleFeq sampleTau
      sampleForce sampleF 1 12 twoD2Q9_disjoint (by decide) (by decide)).1 1011
      (by decide)]
    simp only [sampleF, sampleFeq, sampleTau, sampleForce]
    norm_num [Real.fin_div_fin]
  · rw [(collide_sets_bgk twoD3Q19 sampleTypes (Real.fin 1) sampleF sampleFeq sampleTau
      sampleForce sampleF 1 20 twoD3Q19_disjoint (by decide) (by decide)).2 _
      (by decide)]
    simp only [sampleF, sampleFeq, sampleTau, sampleForce]
    norm_num [Real.fin_div_fin]


/-- C2: `KerCollide` and `KerCollide3D` leave `f`, `feq`, `bodyForce` and the
relaxation time of the node as they are; at a node (in 3D: for a component)
whose vertex type is not in the collision-required set, `fStage` is unchanged
for every direction (in 3D: of that component). -/
theorem collide_frame (L : Lattice) (E : VertexTypes) (dt : Real) (n : CollideData) :
    (∀ vt : Int,
      (KerCollide.run L E dt vt n).f = n.f ∧ (KerCollide.run L E dt vt n).feq = n.feq ∧
      (KerCollide.run L E dt vt n).bodyForce = n.bodyForce ∧
      (KerCollide.run L E dt vt n).relaxationTime = n.relaxationTime) ∧
    (∀ nodeType : Nat → Int,
      (KerCollide3D.run L E dt nodeType n).f = n.f ∧
      (KerCollide3D.run L E dt nodeType n).feq = n.feq ∧
      (KerCollide3D.run L E dt nodeType n).bodyForce = n.bodyForce ∧
      (KerCollide3D.run L E dt nodeType n).relaxationTime = n.relaxationTime) ∧
    (∀ vt : Int,
      ¬ (vt = E.Vertex_Fluid ∨ vt = E.Vertex_ZouHeVelocity ∨ vt = E.Vertex_EQMDiffuseRefl ∨
        vt = E.Vertex_ExtrapolPressure1ST ∨ vt = E.Vertex_ExtrapolPressure2ND) →
      ∀ d, (KerCollide.run L E dt vt n).fStage d = n.fStage d) ∧
    (∀ (nodeType : Nat → Int) (c d : Nat), L.Disjoint → c < L.NUMCOMPONENTS → L.inCompo c d →
      ¬ (nodeType c = E.Vertex_Fluid ∨ nodeType c = E.Vertex_ZouHeVelocity ∨
        nodeType c = E.Vertex_EQMDiffuseRefl ∨ nodeType c = E.Vertex_ExtrapolPressure1ST ∨
        nodeType c = E.Vertex_Periodic) →
      (KerCollide3D.run L E dt nodeType n).fStage d = n.fStage d) := by
  refine ⟨fun vt => ⟨rfl, rfl, rfl, rfl⟩, fun nodeType => ⟨rfl, rfl, rfl, rfl⟩, ?_, ?_⟩
  · intro vt hvt d
    have h : KerCollide.collisionRequired E vt = false := by
      rw [Bool.eq_false_iff]
      intro h
      apply hvt
      simp only [KerCollide.collisionRequired, Bool.or_eq_true, beq_iff_eq] at h
      tauto
    simp [KerCollide.run, KerCollide, h]
  · intro nodeType c d hL hc hd hvt
    have h : ¬ KerCollide3D.collisionRequired E (nodeType c) = true := by
      intro h
      apply hvt
      simp only [KerCollide3D.collisionRequired, Bool.or_eq_true, beq_iff_eq] at h
      tauto
    show KerCollide3D L E dt nodeType n.f n.feq n.relaxationTime n.bodyForce n.fStage d = _
    rw [KerCollide3D_at L E dt nodeType n.f n.feq n.relaxationTime n.bodyForce n.fStage c d
      hL hc hd, if_neg h]

/-- C2, at an immersed-solid node in 2D (type -1) and, in 3D, at direction 3 of
component 0 whose type is `Vertex_Boundary` while component 1 is fluid: the
staged value 7 is kept. -/
theorem collide_frame_witness :
    (KerCollide.run twoD2Q9 sampleTypes (Real.fin 1) (-1)
        ⟨sampleF, sampleFeq, sampleTau, sampleForce, fun _ => Real.fin 7⟩).fStage 3 = Real.fin 7 ∧
    (KerCollide3D.run twoD3Q19 sampleTypes (Real.fin 1) (fun c => if c = 0 then 1000 else 10)
        ⟨sampleF, sampleFeq, sampleTau, sampleForce, fun _ => Real.fin 7⟩).fStage 3 = Real.fin 7 :=
  ⟨(collide_frame twoD2Q9 sampleTypes (Real.fin 1)
      ⟨sampleF, sampleFeq, sampleTau, sampleForce, fun _ => Real.fin 7⟩).2.2.1 (-1)
      (by decide) 3,
   (collide_frame twoD3Q19 sampleTypes (Real.fin 1)
      ⟨sampleF, sampleFeq, sampleTau, sampleForce, fun _ => Real.fin 7⟩).2.2.2
      (fun c => if c = 0 then 1000 else 10) 0 3 twoD3Q19_disjoint (by decide) (by decide)
      (by decide)⟩

/-- C3 fails as stated: with `dt = 0` and relaxation time `0` the quotient
`dt/(tau + dt/2)` is `0/0`; at a fluid node with `f = feq` and zero body force
the staged value of direction 3 is then no finite number, while `f[3] = 4`. -/
theorem collide_fixed_point_counterexample :
    (10 : Int) = sampleTypes.Vertex_Fluid ∧
    (∀ d, sampleF d = sampleF d ∧ (fun _ => Real.fin 0 : Nat → Real) d = Real.fin 0) ∧
    KerCollide twoD2Q9 sampleTypes (Real.fin 0) 10 sampleF sampleF (fun _ => Real.fin 0)
        (fun _ => Real.fin 0) sampleF 3 = Real.nan ∧
    KerCollide twoD2Q9 sampleTypes (Real.fin 0) 10 sampleF sampleF (fun _ => Real.fin 0)
        (fun _ => Real.fin 0) sampleF 3 ≠ sampleF 3 ∧
    KerCollide3D twoD3Q19 sampleTypes (Real.fin 0) (fun _ => 10) sampleF sampleF
        (fun _ => Real.fin 0) (fun _ => Real.fin 0) sampleF 3 ≠ sampleF 3 := by
  have h2 : KerCollide twoD2Q9 sampleTypes (Real.fin 0) 10 sampleF sampleF
      (fun _ => Real.fin 0) (fun _ => Real.fin 0) sampleF 3 = Real.nan := by
    rw [KerCollide_at twoD2Q9 sampleTypes (Real.fin 0) 10 sampleF sampleF (fun _ => Real.fin 0)
      (fun _ => Real.fin 0) sampleF 0 3 twoD2Q9_disjoint (by decide) (by decide) (by decide)]
    simp only [Real.fin_mul_fin, Real.fin_add_fin]
    norm_num [Real.fin_div_zero]
    rfl
  have h3 : KerCollide3D twoD3Q19 sampleTypes (Real.fin 0) (fun _ => 10) sampleF sampleF
      (fun _ => Real.fin 0) (fun _ => Real.fin 0) sampleF 3 = Real.nan := by
    rw [KerCollide3D_at twoD3Q19 sampleTypes (Real.fin 0) (fun _ => 10) sampleF sampleF
      (fun _ => Real.fin 0) (fun _ => Real.fin 0) sampleF 0 3 twoD3Q19_disjoint (by decide)
      (by decide), if_pos (by decide)]
    simp only [Real.fin_mul_fin, Real.fin_add_fin]
    norm_num [Real.fin_div_zero]
    rfl
  refine ⟨rfl, fun d => ⟨rfl, rfl⟩, h2, ?_, ?_⟩
  · rw [h2]
    simp [Real.nan, sampleF, Real.fin]
  · rw [h3]
    simp [Real.nan, sampleF, Real.fin]

/-- C3, amended: at a collision-required node, for finite `dt` and relaxation
time `tau` of the component with `tau + dt/2` not zero, if `f[d] = feq[d]` and
`bodyForce[d] = 0` then `KerCollide` and `KerCollide3D` leave `fStage[d] = f[d]`. -/
theorem collide_fixed_point (L : Lattice) (E : VertexTypes) (dt tau : ℚ)
    (f feq relaxationTime bodyForce fStage : Nat → Real) (c d : Nat)
    (hL : L.Disjoint) (hc : c < L.NUMCOMPONENTS) (hd : L.inCompo c d)
    (htau : relaxationTime c = Real.fin tau) (hne : tau + dt / 2 ≠ 0)
    (hf : f d = feq d) (hb : bodyForce d = Real.fin 0) :
    (∀ vt : Int,
      (vt = E.Vertex_Fluid ∨ vt = E.Vertex_ZouHeVelocity ∨ vt = E.Vertex_EQMDiffuseRefl ∨
        vt = E.Vertex_ExtrapolPressure1ST ∨ vt = E.Vertex_ExtrapolPressure2ND) →
      KerCollide L E (Real.fin dt) vt f feq relaxationTime bodyForce fStage d = f d) ∧
    (∀ nodeType : Nat → Int,
      (nodeType c = E.Vertex_Fluid ∨ nodeType c = E.Vertex_ZouHeVelocity ∨
        nodeType c = E.Vertex_EQMDiffuseRefl ∨ nodeType c = E.Vertex_ExtrapolPressure1ST ∨
        nodeType c = E.Vertex_Periodic) →
      KerCollide3D L E (Real.fin dt) nodeType f feq relaxationTime bodyForce fStage d = f d) := by
  have key : f d - Real.fin dt / (relaxationTime c + Real.fin (1 / 2) * Real.fin dt) *
        (f d - feq d) +
      relaxationTime c * (Real.fin dt / (relaxationTime c + Real.fin (1 / 2) * Real.fin dt)) *
        bodyForce d = f d := by
    have hne' : tau + 1 / 2 * dt ≠ 0 := by
      intro h
      apply hne
      rw [← h]
      ring
    rw [htau, hb, ← hf, Real.fin_mul_fin, Real.fin_add_fin, Real.fin_div_fin _ _ hne']
    cases hfd : f d with
    | none => rfl
    | some q =>
      show Real.fin q - Real.fin _ * (Real.fin q - Real.fin q) + _ = Real.fin q
      simp only [Real.fin_mul_fin, Real.fin_add_fin, Real.fin_sub_fin, Real.fin_inj]
      ring
  constructor
  · intro vt hvt
    have h : KerCollide.collisionRequired E vt = true := by
      simp only [KerCollide.collisionRequired, Bool.or_eq_true, beq_iff_eq]
      tauto
    rw [KerCollide_at L E _ vt f feq relaxationTime bodyForce fStage c d hL hc hd h, key]
  · intro nodeType hvt
    have h : KerCollide3D.collisionRequired E (nodeType c) = true := by
      simp only [KerCollide3D.collisionRequired, Bool.or_eq_true, beq_iff_eq]
      tauto
    rw [KerCollide3D_at L E _ nodeType f feq relaxationTime bodyForce fStage c d hL hc hd,
      if_pos h, key]

/-- C3 amended, at direction 12 of a ZouHe node in 2D and direction 20 of a
periodic component in 3D, with `dt = 1`, relaxation time `3/2`, `feq = f` and no
body force: the staged value is `f[12] = 13`, respectively `f[20] = 21`. -/
theorem collide_fixed_point_witness :
    KerCollide twoD2Q9 sampleTypes (Real.fin 1) 1011 sampleF sampleF sampleTau
        (fun _ => Real.fin 0) sampleFeq 12 = Real.fin 13 ∧
    KerCollide3D twoD3Q19 sampleTypes (Real.fin 1) (fun _ => 1007) sampleF sampleF sampleTau
        (fun _ => Real.fin 0) sampleFeq 20 = Real.fin 21 := by
  have h := collide_fixed_point twoD2Q9 sampleTypes 1 (3 / 2) sampleF sampleF sampleTau
    (fun _ => Real.fin 0) sampleFeq 1 12 twoD2Q9_disjoint (by decide) (by decide) rfl
    (by norm_num) rfl rfl
  have h' := collide_fixed_point twoD3Q19 sampleTypes 1 (3 / 2) sampleF sampleF sampleTau
    (fun _ => Real.fin 0) sampleFeq 1 20 twoD3Q19_disjoint (by decide) (by decide) rfl
    (by norm_num) rfl rfl
  constructor
  · rw [h.1 1011 (by decide)]
    simp only [sampleF, Real.fin_inj]
    norm_num
  · rw [h'.2 (fun _ => 1007) (by decide)]
    simp only [sampleF, Real.fin_inj]
    norm_num


/-! ## Streaming: theorems -/

/-- C4: at a node with `Vertex_Fluid <= vt < Vertex_Boundary`, for every
geometry tag and every direction `d` with velocity `(cx, cy[, cz])`, `KerStream`
(`KerStream3D`) sets `f[d]` to `fStage[d]` of the neighbour at offset
`(-cx, -cy[, -cz])`; the tag has no influence. -/
theorem stream_interior (L : Lattice) (E : VertexTypes) (c d : Nat)
    (hL : L.Disjoint) (hc : c < L.NUMCOMPONENTS) (hd : L.inCompo c d) :
    (∀ (vt : Int) (vg : VertexGeometryTypes) (fStage : Nat → Int → Int → Real) (f : Nat → Real),
      E.Vertex_Fluid ≤ vt → vt < E.Vertex_Boundary →
      KerStream L E vt vg fStage f d =
        fStage d (-L.XI (d * L.LATTDIM)) (-L.XI (d * L.LATTDIM + 1))) ∧
    (∀ (nodeType : Nat → Int) (vg : VertexGeometryTypes)
      (fStage : Nat → Int → Int → Int → Real) (f : Nat → Real),
      E.Vertex_Fluid ≤ nodeType c → nodeType c < E.Vertex_Boundary →
      KerStream3D L E nodeType vg fStage f d =
        fStage d (-L.XI (d * L.LATTDIM)) (-L.XI (d * L.LATTDIM + 1))
          (-L.XI (d * L.LATTDIM + 2))) := by
  constructor
  · intro vt vg fStage f h1 h2
    rw [KerStream_at L E vt vg fStage f c d hL hc hd, if_pos ⟨h1, h2⟩]
  · intro nodeType vg fStage f h1 h2
    rw [KerStream3D_at L E nodeType vg fStage f c d hL hc hd, if_pos ⟨h1, h2⟩]

/-- C4, at a fluid node (type 10) tagged `VG_IPJP_O`: direction 14 of the 2D
lattice has velocity (1,1) and receives the staged value at offset (-1,-1);
direction 28 of the 3D lattice has velocity (1,-1,0) and receives the staged
value at offset (-1,1,0). -/
theorem stream_interior_witness :
    KerStream twoD2Q9 sampleTypes 10 .VG_IPJP_O sampleStage2D sampleF 14 =
      sampleStage2D 14 (-1) (-1) ∧
    KerStream3D twoD3Q19 sampleTypes (fun _ => 10) .VG_IPJP_O sampleStage3D sampleF 28 =
      sampleStage3D 28 (-1) 1 0 :=
  ⟨(stream_interior twoD2Q9 sampleTypes 1 14 twoD2Q9_disjoint (by decide) (by decide)).1
      10 .VG_IPJP_O sampleStage2D sampleF (by decide) (by decide),
   (stream_interior twoD3Q19 sampleTypes 1 28 twoD3Q19_disjoint (by decide) (by decide)).2
      (fun _ => 10) .VG_IPJP_O sampleStage3D sampleF (by decide) (by decide)⟩


/-- On faces and inner tags the `switch` of `KerStream3D` tests the face
conditions of all constituent faces. -/
theorem KerStream3D.switchVg_inner (vg : VertexGeometryTypes) (sr : Bool) (cx cy cz : Int)
    (h : vg.kind = .face ∨ vg.kind = .innerEdge ∨ vg.kind = .innerCorner) :
    KerStream3D.switchVg vg sr cx cy cz = true ↔ ∀ fc ∈ vg.faces, fc.permits sr cx cy cz := by
  cases vg <;> cases sr <;>
    simp [VertexGeometryTypes.kind, VertexGeometryTypes.faces, KerStream3D.switchVg,
      Face.permits, Axis.component] at h ⊢ <;> tauto

/-- On outer tags the `switch` of `KerStream3D` tests the face condition of
some constituent face. -/
theorem KerStream3D.switchVg_outer (vg : VertexGeometryTypes) (sr : Bool) (cx cy cz : Int)
    (h : vg.kind = .outerEdge ∨ vg.kind = .outerCorner) :
    KerStream3D.switchVg vg sr cx cy cz = true ↔ ∃ fc ∈ vg.faces, fc.permits sr cx cy cz := by
  cases vg <;> cases sr <;>
    simp [VertexGeometryTypes.kind, VertexGeometryTypes.faces, KerStream3D.switchVg,
      Face.permits, Axis.component] at h ⊢ <;> tauto

/-- On the faces and inner corners of a 2D mesh the `switch` of `KerStream`
tests the face conditions of all constituent faces. -/
theorem KerStream.switchVg_inner2D (vg : VertexGeometryTypes) (sr : Bool) (cx cy cz : Int)
    (h2 : vg.is2D = true) (h : vg.kind = .face ∨ vg.kind = .innerEdge) :
    KerStream.switchVg vg sr cx cy = true ↔ ∀ fc ∈ vg.faces, fc.permits sr cx cy cz := by
  cases vg <;> cases sr <;>
    simp [VertexGeometryTypes.kind, VertexGeometryTypes.faces, VertexGeometryTypes.is2D,
      KerStream.switchVg, Face.permits, Axis.component] at h h2 ⊢ <;> tauto

theorem VertexGeometryTypes.kind_of_faces_singleton (vg : VertexGeometryTypes) (fc : Face)
    (h : vg.faces = [fc]) : vg.kind = .face := by
  cases vg <;> simp [VertexGeometryTypes.faces, VertexGeometryTypes.kind] at h ⊢

theorem VertexGeometryTypes.is2D_of_faces_singleton (vg : VertexGeometryTypes) (fc : Face)
    (h : vg.faces = [fc]) (hK : fc.axis ≠ Axis.K) : vg.is2D = true := by
  simp [VertexGeometryTypes.is2D, h, hK]

/-- Entry `d` of `f` after `KerStream` at a boundary node, for a direction that
is not the zero velocity. -/
theorem KerStream_at_boundary (L : Lattice) (E : VertexTypes) (vt : Int)
    (vg : VertexGeometryTypes) (fStage : Nat → Int → Int → Real) (f : Nat → Real) (c d : Nat)
    (hL : L.Disjoint) (hc : c < L.NUMCOMPONENTS) (hd : L.inCompo c d)
    (hvt : vt ≥ E.Vertex_Boundary)
    (hnz : ¬ (L.XI (d * L.LATTDIM) = 0 ∧ L.XI (d * L.LATTDIM + 1) = 0)) :
    KerStream L E vt vg fStage f d =
      if KerStream.switchVg vg (KerStream.streamRequired E vt)
          (L.XI (d * L.LATTDIM)) (L.XI (d * L.LATTDIM + 1)) = true then
        fStage d (-L.XI (d * L.LATTDIM)) (-L.XI (d * L.LATTDIM + 1))
      else f d := by
  rw [KerStream_at L E vt vg fStage f c d hL hc hd,
    if_neg (by omega : ¬ (vt ≥ E.Vertex_Fluid ∧ vt < E.Vertex_Boundary)), if_pos hvt,
    if_neg (fun h => hnz h.2)]

/-- Entry `d` of `f` after `KerStream3D` at a boundary node, for a direction
that is not the zero velocity. -/
theorem KerStream3D_at_boundary (L : Lattice) (E : VertexTypes) (nodeType : Nat → Int)
    (vg : VertexGeometryTypes) (fStage : Nat → Int → Int → Int → Real) (f : Nat → Real)
    (c d : Nat) (hL : L.Disjoint) (hc : c < L.NUMCOMPONENTS) (hd : L.inCompo c d)
    (hvt : nodeType c ≥ E.Vertex_Boundary)
    (hnz : ¬ (L.XI (d * L.LATTDIM) = 0 ∧ L.XI (d * L.LATTDIM + 1) = 0 ∧
      L.XI (d * L.LATTDIM + 2) = 0)) :
    KerStream3D L E nodeType vg fStage f d =
      if KerStream3D.switchVg vg (KerStream3D.streamRequired E (nodeType c))
          (L.XI (d * L.LATTDIM)) (L.XI (d * L.LATTDIM + 1)) (L.XI (d * L.LATTDIM + 2)) = true then
        fStage d (-L.XI (d * L.LATTDIM)) (-L.XI (d * L.LATTDIM + 1))
          (-L.XI (d * L.LATTDIM + 2))
      else f d := by
  rw [KerStream3D_at L E nodeType vg fStage f c d hL hc hd,
    if_neg (by omega : ¬ (nodeType c ≥ E.Vertex_Fluid ∧ nodeType c < E.Vertex_Boundary)),
    if_pos hvt, if_neg (fun h => hnz h.2)]

/-- C5: at a boundary node (`vt >= Vertex_Boundary`) tagged with a face `fc`
and for a direction that is not the zero velocity, `KerStream` and
`KerStream3D` copy `fStage[d]` at offset `-c` into `f[d]` iff the face condition
of `fc` holds (component along the axis `< 0` at a P-face, `> 0` at an M-face;
`<= 0`, `>= 0` when `streamRequired`); otherwise `f[d]` is unchanged. -/
theorem stream_face (L : Lattice) (E : VertexTypes) (c d : Nat)
    (hL : L.Disjoint) (hc : c < L.NUMCOMPONENTS) (hd : L.inCompo c d) :
    (∀ (vt : Int) (vg : VertexGeometryTypes) (fc : Face) (fStage : Nat → Int → Int → Real)
      (f : Nat → Real),
      vt ≥ E.Vertex_Boundary → vg.faces = [fc] → fc.axis ≠ Axis.K →
      ¬ (L.XI (d * L.LATTDIM) = 0 ∧ L.XI (d * L.LATTDIM + 1) = 0) →
      KerStream L E vt vg fStage f d =
        if fc.permits (KerStream.streamRequired E vt)
            (L.XI (d * L.LATTDIM)) (L.XI (d * L.LATTDIM + 1)) 0 then
          fStage d (-L.XI (d * L.LATTDIM)) (-L.XI (d * L.LATTDIM + 1))
        else f d) ∧
    (∀ (nodeType : Nat → Int) (vg : VertexGeometryTypes) (fc : Face)
      (fStage : Nat → Int → Int → Int → Real) (f : Nat → Real),
      nodeType c ≥ E.Vertex_Boundary → vg.faces = [fc] →
      ¬ (L.XI (d * L.LATTDIM) = 0 ∧ L.XI (d * L.LATTDIM + 1) = 0 ∧
        L.XI (d * L.LATTDIM + 2) = 0) →
      KerStream3D L E nodeType vg fStage f d =
        if fc.permits (KerStream3D.streamRequired E (nodeType c))
            (L.XI (d * L.LATTDIM)) (L.XI (d * L.LATTDIM + 1)) (L.XI (d * L.LATTDIM + 2)) then
          fStage d (-L.XI (d * L.LATTDIM)) (-L.XI (d * L.LATTDIM + 1))
            (-L.XI (d * L.LATTDIM + 2))
        else f d) := by
  constructor
  · intro vt vg fc fStage f hvt hfc hK hnz
    rw [KerStream_at_boundary L E vt vg fStage f c d hL hc hd hvt hnz]
    have h := KerStream.switchVg_inner2D vg (KerStream.streamRequired E vt)
      (L.XI (d * L.LATTDIM)) (L.XI (d * L.LATTDIM + 1)) 0
      (vg.is2D_of_faces_singleton fc hfc hK) (Or.inl (vg.kind_of_faces_singleton fc hfc))
    rw [hfc, List.forall_mem_singleton] at h
    exact if_congr h rfl rfl
  · intro nodeType vg fc fStage f hvt hfc hnz
    rw [KerStream3D_at_boundary L E nodeType vg fStage f c d hL hc hd hvt hnz]
    have h := KerStream3D.switchVg_inner vg (KerStream3D.streamRequired E (nodeType c))
      (L.XI (d * L.LATTDIM)) (L.XI (d * L.LATTDIM + 1)) (L.XI (d * L.LATTDIM + 2))
      (Or.inl (vg.kind_of_faces_singleton fc hfc))
    rw [hfc, List.forall_mem_singleton] at h
    exact if_congr h rfl rfl


/-- C5, at direction 2 of the 2D lattice (velocity (0,1)) of a face `VG_IP`: a
ZouHe node (`streamRequired`) takes the staged value at offset (0,-1), a node of
type `Vertex_Boundary` (not `streamRequired`) keeps `f[2]`; at direction 2 of
the 3D lattice (velocity (-1,0,0)) of a face `VG_IP` the node takes the staged
value at offset (1,0,0). -/
theorem stream_face_witness :
    KerStream twoD2Q9 sampleTypes 1011 .VG_IP sampleStage2D sampleF 2 = sampleStage2D 2 0 (-1) ∧
    KerStream twoD2Q9 sampleTypes 1000 .VG_IP sampleStage2D sampleF 2 = sampleF 2 ∧
    KerStream3D twoD3Q19 sampleTypes (fun _ => 1000) .VG_IP sampleStage3D sampleF 2 =
      sampleStage3D 2 1 0 0 := by
  refine ⟨?_, ?_, ?_⟩
  · rw [(stream_face twoD2Q9 sampleTypes 0 2 twoD2Q9_disjoint (by decide) (by decide)).1
      1011 .VG_IP ⟨.I, true⟩ sampleStage2D sampleF (by decide) rfl (by decide) (by decide)]
    exact if_pos (by decide)
  · rw [(stream_face twoD2Q9 sampleTypes 0 2 twoD2Q9_disjoint (by decide) (by decide)).1
      1000 .VG_IP ⟨.I, true⟩ sampleStage2D sampleF (by decide) rfl (by decide) (by decide)]
    exact if_neg (by decide)
  · rw [(stream_face twoD3Q19 sampleTypes 0 2 twoD3Q19_disjoint (by decide) (by decide)).2
      (fun _ => 1000) .VG_IP ⟨.I, true⟩ sampleStage3D sampleF (by decide) rfl (by decide)]
    exact if_pos (by decide)

/-- C6 (geometry AND law): at a boundary node with an inner edge or inner
corner tag (2D: the four `VG_I?J?_I`; 3D: the twelve inner edges and eight inner
corners) and for a direction that is not the zero velocity, `KerStream` and
`KerStream3D` copy `fStage[d]` at offset `-c` into `f[d]` iff the direction
satisfies the face condition of every constituent face of the tag, taken with
the node's `streamRequired`; otherwise `f[d]` is unchanged. -/
theorem stream_inner_and (L : Lattice) (E : VertexTypes) (c d : Nat)
    (hL : L.Disjoint) (hc : c < L.NUMCOMPONENTS) (hd : L.inCompo c d) :
    (∀ (vt : Int) (vg : VertexGeometryTypes) (fStage : Nat → Int → Int → Real)
      (f : Nat → Real),
      vt ≥ E.Vertex_Boundary → vg.kind = .innerEdge → vg.is2D = true →
      ¬ (L.XI (d * L.LATTDIM) = 0 ∧ L.XI (d * L.LATTDIM + 1) = 0) →
      KerStream L E vt vg fStage f d =
        if ∀ fc ∈ vg.faces, fc.permits (KerStream.streamRequired E vt)
            (L.XI (d * L.LATTDIM)) (L.XI (d * L.LATTDIM + 1)) 0 then
          fStage d (-L.XI (d * L.LATTDIM)) (-L.XI (d * L.LATTDIM + 1))
        else f d) ∧
    (∀ (nodeType : Nat → Int) (vg : VertexGeometryTypes)
      (fStage : Nat → Int → Int → Int → Real) (f : Nat → Real),
      nodeType c ≥ E.Vertex_Boundary → (vg.kind = .innerEdge ∨ vg.kind = .innerCorner) →
      ¬ (L.XI (d * L.LATTDIM) = 0 ∧ L.XI (d * L.LATTDIM + 1) = 0 ∧
        L.XI (d * L.LATTDIM + 2) = 0) →
      KerStream3D L E nodeType vg fStage f d =
        if ∀ fc ∈ vg.faces, fc.permits (KerStream3D.streamRequired E (nodeType c))
            (L.XI (d * L.LATTDIM)) (L.XI (d * L.LATTDIM + 1)) (L.XI (d * L.LATTDIM + 2)) then
          fStage d (-L.XI (d * L.LATTDIM)) (-L.XI (d * L.LATTDIM + 1))
            (-L.XI (d * L.LATTDIM + 2))
        else f d) := by
  constructor
  · intro vt vg fStage f hvt hk h2 hnz
    rw [KerStream_at_boundary L E vt vg fStage f c d hL hc hd hvt hnz]
    exact if_congr (KerStream.switchVg_inner2D vg _ _ _ 0 h2 (Or.inr hk)) rfl rfl
  · intro nodeType vg fStage f hvt hk hnz
    rw [KerStream3D_at_boundary L E nodeType vg fStage f c d hL hc hd hvt hnz]
    exact if_congr (KerStream3D.switchVg_inner vg _ _ _ _ (Or.inr hk)) rfl rfl

/-- C6, at the inner corner `VG_IPJM_I` of a 2D ZouHe node: direction 2
(velocity (0,1)) meets both face conditions and takes the staged value at
offset (0,-1), direction 1 (velocity (1,0)) fails the one of `IP` and keeps
`f[1]`; at the inner corner `VG_IPJPKM_I` of a 3D node of type `Vertex_Boundary`
direction 14 (velocity (-1,0,-1)) fails the strict conditions and keeps `f[14]`. -/
theorem stream_inner_and_witness :
    KerStream twoD2Q9 sampleTypes 1011 .VG_IPJM_I sampleStage2D sampleF 2 =
      sampleStage2D 2 0 (-1) ∧
    KerStream twoD2Q9 sampleTypes 1011 .VG_IPJM_I sampleStage2D sampleF 1 = sampleF 1 ∧
    KerStream3D twoD3Q19 sampleTypes (fun _ => 1000) .VG_IPJPKM_I sampleStage3D sampleF 14 =
      sampleF 14 := by
  refine ⟨?_, ?_, ?_⟩
  · rw [(stream_inner_and twoD2Q9 sampleTypes 0 2 twoD2Q9_disjoint (by decide) (by decide)).1
      1011 .VG_IPJM_I sampleStage2D sampleF (by decide) rfl rfl (by decide)]
    exact if_pos (by decide)
  · rw [(stream_inner_and twoD2Q9 sampleTypes 0 1 twoD2Q9_disjoint (by decide) (by decide)).1
      1011 .VG_IPJM_I sampleStage2D sampleF (by decide) rfl rfl (by decide)]
    exact if_neg (by decide)
  · rw [(stream_inner_and twoD3Q19 sampleTypes 0 14 twoD3Q19_disjoint (by decide)
      (by decide)).2 (fun _ => 1000) .VG_IPJPKM_I sampleStage3D sampleF (by decide)
      (Or.inr rfl) (by decide)]
    exact if_neg (by decide)

/-- C7 (geometry OR law in 3D): at a boundary node with an outer edge or outer
corner tag and for a direction that is not the zero velocity, `KerStream3D`
copies `fStage[d]` at offset `-c` into `f[d]` iff the direction satisfies the
face condition of at least one constituent face of the tag, taken with the
node's `streamRequired`; otherwise `f[d]` is unchanged. -/
theorem stream3D_outer_or (L : Lattice) (E : VertexTypes) (nodeType : Nat → Int)
    (vg : VertexGeometryTypes) (fStage : Nat → Int → Int → Int → Real) (f : Nat → Real)
    (c d : Nat) (hL : L.Disjoint) (hc : c < L.NUMCOMPONENTS) (hd : L.inCompo c d)
    (hvt : nodeType c ≥ E.Vertex_Boundary)
    (hk : vg.kind = .outerEdge ∨ vg.kind = .outerCorner)
    (hnz : ¬ (L.XI (d * L.LATTDIM) = 0 ∧ L.XI (d * L.LATTDIM + 1) = 0 ∧
      L.XI (d * L.LATTDIM + 2) = 0)) :
    KerStream3D L E nodeType vg fStage f d =
      if ∃ fc ∈ vg.faces, fc.permits (KerStream3D.streamRequired E (nodeType c))
          (L.XI (d * L.LATTDIM)) (L.XI (d * L.LATTDIM + 1)) (L.XI (d * L.LATTDIM + 2)) then
        fStage d (-L.XI (d * L.LATTDIM)) (-L.XI (d * L.LATTDIM + 1))
          (-L.XI (d * L.LATTDIM + 2))
      else f d := by
  rw [KerStream3D_at_boundary L E nodeType vg fStage f c d hL hc hd hvt hnz]
  exact if_congr (KerStream3D.switchVg_outer vg _ _ _ _ hk) rfl rfl

/-- C7, at the outer edge `VG_IPJP_O` of a 3D node whose component 1 is
periodic (`streamRequired`): direction 20 (velocity (1,0,0)) meets the inclusive
condition of `JP` and takes the staged value at offset (-1,0,0). -/
theorem stream3D_outer_or_witness :
    KerStream3D twoD3Q19 sampleTypes (fun _ => 1007) .VG_IPJP_O sampleStage3D sampleF 20 =
      sampleStage3D 20 (-1) 0 0 := by
  rw [stream3D_outer_or twoD3Q19 sampleTypes (fun _ => 1007) .VG_IPJP_O sampleStage3D sampleF
    1 20 twoD3Q19_disjoint (by decide) (by decide) (by decide) (Or.inl rfl) (by decide)]
  exact if_pos (by decide)

/-- C7, second sample: at the outer corner `VG_IPJPKP_O` of a node of type
`Vertex_Boundary` (not `streamRequired`) direction 1 (velocity (1,0,0)) meets no
strict face condition and `f[1]` is kept. -/
theorem stream3D_outer_or_strict_sample :
    KerStream3D twoD3Q19 sampleTypes (fun _ => 1000) .VG_IPJPKP_O sampleStage3D sampleF 1 =
      sampleF 1 := by
  rw [KerStream3D_at_boundary twoD3Q19 sampleTypes (fun _ => 1000) .VG_IPJPKP_O sampleStage3D
    sampleF 0 1 twoD3Q19_disjoint (by decide) (by decide) (by decide) (by decide)]
  exact if_neg (by decide)

/-- C8, the failing input: a 2D ZouHe node (`streamRequired`) tagged with the
outer corner `VG_IPJP_O`, direction 1 with velocity (1,0).  The inclusive face
condition of `JP` holds (`cy <= 0`), and at a node tagged `VG_JP` alone with the
same vertex type `KerStream` streams the direction; at the outer corner it does
not: `f[1]` is kept.  `KerStream3D` streams it at the same tag. -/
theorem stream2D_outer_corner_strict :
    KerStream.streamRequired sampleTypes 1011 = true ∧
    (⟨.J, true⟩ : Face) ∈ VertexGeometryTypes.VG_IPJP_O.faces ∧
    (⟨.J, true⟩ : Face).permits (KerStream.streamRequired sampleTypes 1011)
      (twoD2Q9.XI (1 * twoD2Q9.LATTDIM)) (twoD2Q9.XI (1 * twoD2Q9.LATTDIM + 1)) 0 ∧
    KerStream twoD2Q9 sampleTypes 1011 .VG_JP sampleStage2D sampleF 1 =
      sampleStage2D 1 (-1) 0 ∧
    KerStream twoD2Q9 sampleTypes 1011 .VG_IPJP_O sampleStage2D sampleF 1 = sampleF 1 ∧
    sampleF 1 ≠ sampleStage2D 1 (-1) 0 ∧
    KerStream3D twoD3Q19 sampleTypes (fun _ => 1013) .VG_IPJP_O sampleStage3D sampleF 1 =
      sampleStage3D 1 (-1) 0 0 := by
  refine ⟨by decide, by decide, by decide, ?_, ?_, ?_, ?_⟩
  · rw [KerStream_at_boundary twoD2Q9 sampleTypes 1011 .VG_JP sampleStage2D sampleF 0 1
      twoD2Q9_disjoint (by decide) (by decide) (by decide) (by decide)]
    exact if_pos (by decide)
  · rw [KerStream_at_boundary twoD2Q9 sampleTypes 1011 .VG_IPJP_O sampleStage2D sampleF 0 1
      twoD2Q9_disjoint (by decide) (by decide) (by decide) (by decide)]
    exact if_neg (by decide)
  · simp only [sampleF, sampleStage2D, ne_eq, Real.fin_inj]
    norm_num
  · rw [KerStream3D_at_boundary twoD3Q19 sampleTypes (fun _ => 1013) .VG_IPJP_O sampleStage3D
      sampleF 0 1 twoD3Q19_disjoint (by decide) (by decide) (by decide) (by decide)]
    exact if_pos (by decide)


theorem KerStream.switchVg_zero_strict2D (vg : VertexGeometryTypes) :
    KerStream.switchVg vg false 0 0 = false := by
  cases vg <;> simp [KerStream.switchVg]

theorem KerStream3D.switchVg_zero_strict (vg : VertexGeometryTypes) :
    KerStream3D.switchVg vg false 0 0 0 = false := by
  cases vg <;> simp [KerStream3D.switchVg]

/-- C9: at a boundary node whose vertex type is in the `streamRequired` set,
for every geometry tag, `KerStream` and `KerStream3D` set `f[d]` of a
zero-velocity direction `d` to `fStage[d]` of the same node; at a boundary node
that is not in the set, `f[d]` of a zero-velocity direction is unchanged for
every tag. -/
theorem stream_rest_direction (L : Lattice) (E : VertexTypes) (c d : Nat)
    (hL : L.Disjoint) (hc : c < L.NUMCOMPONENTS) (hd : L.inCompo c d) :
    (∀ (vt : Int) (vg : VertexGeometryTypes) (fStage : Nat → Int → Int → Real)
      (f : Nat → Real),
      vt ≥ E.Vertex_Boundary → L.XI (d * L.LATTDIM) = 0 → L.XI (d * L.LATTDIM + 1) = 0 →
      KerStream L E vt vg fStage f d =
        if KerStream.streamRequired E vt = true then fStage d 0 0 else f d) ∧
    (∀ (nodeType : Nat → Int) (vg : VertexGeometryTypes)
      (fStage : Nat → Int → Int → Int → Real) (f : Nat → Real),
      nodeType c ≥ E.Vertex_Boundary → L.XI (d * L.LATTDIM) = 0 →
      L.XI (d * L.LATTDIM + 1) = 0 → L.XI (d * L.LATTDIM + 2) = 0 →
      KerStream3D L E nodeType vg fStage f d =
        if KerStream3D.streamRequired E (nodeType c) = true then fStage d 0 0 0 else f d) := by
  constructor
  · intro vt vg fStage f hvt hx hy
    rw [KerStream_at L E vt vg fStage f c d hL hc hd,
      if_neg (by omega : ¬ (vt ≥ E.Vertex_Fluid ∧ vt < E.Vertex_Boundary)), if_pos hvt, hx, hy]
    by_cases hs : KerStream.streamRequired E vt = true
    · rw [if_pos ⟨hs, rfl, rfl⟩, if_pos hs]
    · rw [if_neg (fun h => hs h.1), if_neg hs]
      rw [Bool.not_eq_true] at hs
      rw [hs, KerStream.switchVg_zero_strict2D, if_neg (by decide)]
  · intro nodeType vg fStage f hvt hx hy hz
    rw [KerStream3D_at L E nodeType vg fStage f c d hL hc hd,
      if_neg (by omega : ¬ (nodeType c ≥ E.Vertex_Fluid ∧ nodeType c < E.Vertex_Boundary)),
      if_pos hvt, hx, hy, hz]
    by_cases hs : KerStream3D.streamRequired E (nodeType c) = true
    · rw [if_pos ⟨hs, rfl, rfl, rfl⟩, if_pos hs]
    · rw [if_neg (fun h => hs h.1), if_neg hs]
      rw [Bool.not_eq_true] at hs
      rw [hs, KerStream3D.switchVg_zero_strict, if_neg (by decide)]

/-- C9, at the rest direction 9 of component 1 in 2D and 19 in 3D: a
diffuse-reflection node (type 1013) with a tag the kernels do not name takes the
staged value of the same node; a node of type `Vertex_Boundary` tagged
`VG_IMJM_O` keeps `f`. -/
theorem stream_rest_direction_witness :
    KerStream twoD2Q9 sampleTypes 1013 (.VG_Other 0) sampleStage2D sampleF 9 =
      sampleStage2D 9 0 0 ∧
    KerStream twoD2Q9 sampleTypes 1000 .VG_IMJM_O sampleStage2D sampleF 9 = sampleF 9 ∧
    KerStream3D twoD3Q19 sampleTypes (fun _ => 1013) (.VG_Other 0) sampleStage3D sampleF 19 =
      sampleStage3D 19 0 0 0 ∧
    KerStream3D twoD3Q19 sampleTypes (fun _ => 1000) .VG_IMJM_O sampleStage3D sampleF 19 =
      sampleF 19 := by
  have h2 := stream_rest_direction twoD2Q9 sampleTypes 1 9 twoD2Q9_disjoint (by decide)
    (by decide)
  have h3 := stream_rest_direction twoD3Q19 sampleTypes 1 19 twoD3Q19_disjoint (by decide)
    (by decide)
  refine ⟨?_, ?_, ?_, ?_⟩
  · rw [h2.1 1013 (.VG_Other 0) sampleStage2D sampleF (by decide) (by decide) (by decide)]
    exact if_pos (by decide)
  · rw [h2.1 1000 .VG_IMJM_O sampleStage2D sampleF (by decide) (by decide) (by decide)]
    exact if_neg (by decide)
  · rw [h3.2 (fun _ => 1013) (.VG_Other 0) sampleStage3D sampleF (by decide) (by decide)
      (by decide) (by decide)]
    exact if_pos (by decide)
  · rw [h3.2 (fun _ => 1000) .VG_IMJM_O sampleStage3D sampleF (by decide) (by decide)
      (by decide) (by decide)]
    exact if_neg (by decide)

/-! ## Explicit time marching: theorems -/

/-- C10: for a direction `d` of component `c` for which `needMarch` holds,
`KerCutCellExplicitTimeMach` writes
`f[d] + dt*schemeCoeff*(bodyForce[d] - fGradient[d] + (feq[d] - f[d])/tau_c)`;
for a direction for which `needMarch` is false, `f[d]` is unchanged, and
`needMarch` is false for every direction of an immersed-solid node. -/
theorem explicit_time_march (L : Lattice) (E : VertexTypes) (dt schemeCoeff : Real)
    (vt : Int) (vg : VertexGeometryTypes)
    (fGradient feq relaxationTime bodyForce f : Nat → Real) (c d : Nat)
    (hL : L.Disjoint) (hc : c < L.NUMCOMPONENTS) (hd : L.inCompo c d) :
    (KerCutCellExplicitTimeMach.needMarch E vt vg (L.XI (d * L.LATTDIM))
        (L.XI (d * L.LATTDIM + 1)) = true →
      KerCutCellExplicitTimeMach L E dt schemeCoeff vt vg fGradient feq relaxationTime
          bodyForce f d =
        f d + dt * schemeCoeff *
          (bodyForce d - fGradient d + (feq d - f d) / relaxationTime c)) ∧
    (KerCutCellExplicitTimeMach.needMarch E vt vg (L.XI (d * L.LATTDIM))
        (L.XI (d * L.LATTDIM + 1)) = false →
      KerCutCellExplicitTimeMach L E dt schemeCoeff vt vg fGradient feq relaxationTime
          bodyForce f d = f d) ∧
    (vt = E.Vertex_ImmersedSolid →
      KerCutCellExplicitTimeMach.needMarch E vt vg (L.XI (d * L.LATTDIM))
        (L.XI (d * L.LATTDIM + 1)) = false) := by
  refine ⟨?_, ?_, ?_⟩
  · intro h
    rw [KerCutCellExplicitTimeMach_at L E dt schemeCoeff vt vg fGradient feq relaxationTime
      bodyForce f c d hL hc hd, if_pos h]
  · intro h
    rw [KerCutCellExplicitTimeMach_at L E dt schemeCoeff vt vg fGradient feq relaxationTime
      bodyForce f c d hL hc hd, if_neg (by simp [h])]
  · intro h
    unfold KerCutCellExplicitTimeMach.needMarch
    cases vg <;> simp [h]

/-- C10, at direction 12 of component 1 (velocity (-1,0), relaxation time 3/2)
with `dt = 1/2`, `schemeCoeff = 1`, `f = 13`, `feq = 27`, `bodyForce = 3`,
`fGradient = 3/2`: a fluid node gets `13 + (1/2)*(3 - 3/2 + (27 - 13)/(3/2))`,
that is `221/12`; a boundary node tagged `VG_IM` (where `cx < 0` is blocked) and
an immersed-solid node keep `f[12] = 13`. -/
theorem explicit_time_march_witness :
    KerCutCellExplicitTimeMach twoD2Q9 sampleTypes (Real.fin (1 / 2)) (Real.fin 1) 10 .VG_IM
        sampleGradient sampleFeq sampleTau sampleForce sampleF 12 = Real.fin (221 / 12) ∧
    KerCutCellExplicitTimeMach twoD2Q9 sampleTypes (Real.fin (1 / 2)) (Real.fin 1) 1000 .VG_IM
        sampleGradient sampleFeq sampleTau sampleForce sampleF 12 = Real.fin 13 ∧
    KerCutCellExplicitTimeMach twoD2Q9 sampleTypes (Real.fin (1 / 2)) (Real.fin 1) (-1) .VG_IP
        sampleGradient sampleFeq sampleTau sampleForce sampleF 12 = Real.fin 13 := by
  refine ⟨?_, ?_, ?_⟩
  · rw [(explicit_time_march twoD2Q9 sampleTypes (Real.fin (1 / 2)) (Real.fin 1) 10 .VG_IM
      sampleGradient sampleFeq sampleTau sampleForce sampleF 1 12 twoD2Q9_disjoint (by decide)
      (by decide)).1 (by decide)]
    simp only [sampleF, sampleFeq, sampleTau, sampleForce, sampleGradient]
    norm_num [Real.fin_div_fin]
  · rw [(explicit_time_march twoD2Q9 sampleTypes (Real.fin (1 / 2)) (Real.fin 1) 1000 .VG_IM
      sampleGradient sampleFeq sampleTau sampleForce sampleF 1 12 twoD2Q9_disjoint (by decide)
      (by decide)).2.1 (by decide)]
    simp only [sampleF, Real.fin_inj]
    norm_num
  · have h := explicit_time_march twoD2Q9 sampleTypes (Real.fin (1 / 2)) (Real.fin 1) (-1)
      .VG_IP sampleGradient sampleFeq sampleTau sampleForce sampleF 1 12 twoD2Q9_disjoint
      (by decide) (by decide)
    rw [h.2.1 (h.2.2 rfl)]
    simp only [sampleF, Real.fin_inj]
    norm_num


/-! ## The gradient and semi-implicit kernels, entry by entry -/

theorem Real.zero_add' (a : Real) : Real.fin 0 + a = a := by
  cases a with
  | none => rfl
  | some q =>
    show Real.add (some 0) (some q) = some q
    simp [Real.add]

theorem Real.add_zero' (a : Real) : a + Real.fin 0 = a := by
  cases a with
  | none => rfl
  | some q =>
    show Real.add (some q) (some 0) = some q
    simp [Real.add]

/-- Entry `d` of `f` after `KerCutCellSemiImplicitTimeMach`. -/
theorem KerCutCellSemiImplicitTimeMach_at (L : Lattice) (E : VertexTypes)
    (dt schemeCoeff : Real) (vt : Int) (vg : VertexGeometryTypes)
    (fGradient feq relaxationTime bodyForce f : Nat → Real) (c d : Nat)
    (hL : L.Disjoint) (hc : c < L.NUMCOMPONENTS) (hd : L.inCompo c d) :
    KerCutCellSemiImplicitTimeMach L E dt schemeCoeff vt vg fGradient feq relaxationTime
        bodyForce f d =
      if KerCutCellSemiImplicitTimeMach.needMarch E vt vg (L.XI (d * L.LATTDIM))
          (L.XI (d * L.LATTDIM + 1)) = true then
        (feq d * dt + bodyForce d * dt * relaxationTime c -
            fGradient d * dt * relaxationTime c + f d * relaxationTime c) /
          (dt + relaxationTime c)
      else f d := by
  unfold KerCutCellSemiImplicitTimeMach
  rw [forCompo_at L _ (fun c d old =>
      if KerCutCellSemiImplicitTimeMach.needMarch E vt vg (L.XI (d * L.LATTDIM))
          (L.XI (d * L.LATTDIM + 1)) = true then
        (feq d * dt + bodyForce d * dt * relaxationTime c -
            fGradient d * dt * relaxationTime c + old * relaxationTime c) /
          (dt + relaxationTime c)
      else old) _ f c d hL hc hd]
  intro c s d
  rw [forXi_at L c _ (fun d old =>
      if KerCutCellSemiImplicitTimeMach.needMarch E vt vg (L.XI (d * L.LATTDIM))
          (L.XI (d * L.LATTDIM + 1)) = true then
        (feq d * dt + bodyForce d * dt * relaxationTime c -
            fGradient d * dt * relaxationTime c + old * relaxationTime c) /
          (dt + relaxationTime c)
      else old)]
  intro i s
  by_cases h : KerCutCellSemiImplicitTimeMach.needMarch E vt vg (L.XI (i * L.LATTDIM))
      (L.XI (i * L.LATTDIM + 1)) = true
  · simp only [h, if_true]
  · simp only [h, if_false, store_self, Bool.false_eq_true]

/-- Entry `d` of `fGradient` after `KerCutCellCVTUpwind1st`: zero when
`needCalc` is false, otherwise the sum of the two-point terms of the axes along
which the velocity is not zero. -/
theorem KerCutCellCVTUpwind1st_at (L : Lattice) (E : VertexTypes) (CS : Real)
    (coordinateXYZ : Nat → Int → Int → Real) (vt : Int) (vg : VertexGeometryTypes)
    (f : Nat → Int → Int → Real) (fGradient : Nat → Real) (c d : Nat)
    (hL : L.Disjoint) (hc : c < L.NUMCOMPONENTS) (hd : L.inCompo c d) :
    KerCutCellCVTUpwind1st L E CS coordinateXYZ vt vg f fGradient d =
      if KerCutCellCVTUpwind1st.needCalc E vt vg (L.XI (d * L.LATTDIM))
          (L.XI (d * L.LATTDIM + 1)) = true then
        KerCutCellCVTUpwind2nd.xTerm CS (L.XI (d * L.LATTDIM)) true coordinateXYZ (f d) +
          KerCutCellCVTUpwind2nd.yTerm CS (L.XI (d * L.LATTDIM + 1)) true coordinateXYZ (f d)
      else Real.fin 0 := by
  unfold KerCutCellCVTUpwind1st
  rw [forCompo_at L _ (fun _ d _ =>
      if KerCutCellCVTUpwind1st.needCalc E vt vg (L.XI (d * L.LATTDIM))
          (L.XI (d * L.LATTDIM + 1)) = true then
        KerCutCellCVTUpwind2nd.xTerm CS (L.XI (d * L.LATTDIM)) true coordinateXYZ (f d) +
          KerCutCellCVTUpwind2nd.yTerm CS (L.XI (d * L.LATTDIM + 1)) true coordinateXYZ (f d)
      else Real.fin 0) _ fGradient c d hL hc hd]
  intro c s d
  rw [forXi_at L c _ (fun d _ =>
      if KerCutCellCVTUpwind1st.needCalc E vt vg (L.XI (d * L.LATTDIM))
          (L.XI (d * L.LATTDIM + 1)) = true then
        KerCutCellCVTUpwind2nd.xTerm CS (L.XI (d * L.LATTDIM)) true coordinateXYZ (f d) +
          KerCutCellCVTUpwind2nd.yTerm CS (L.XI (d * L.LATTDIM + 1)) true coordinateXYZ (f d)
      else Real.fin 0)]
  intro i s
  by_cases h : KerCutCellCVTUpwind1st.needCalc E vt vg (L.XI (i * L.LATTDIM))
      (L.XI (i * L.LATTDIM + 1)) = true
  · simp only [h, if_true]
    rcases lt_trichotomy (L.XI (i * L.LATTDIM)) 0 with hx | hx | hx <;>
    rcases lt_trichotomy (L.XI (i * L.LATTDIM + 1)) 0 with hy | hy | hy <;>
    simp [hx, hy, not_lt_of_gt, store_store, store_same, KerCutCellCVTUpwind2nd.xTerm,
      KerCutCellCVTUpwind2nd.yTerm, Real.zero_add', Real.add_zero']
  · simp only [h, if_false, Bool.false_eq_true]

/-- Entry `d` of `fGradient` after `KerCutCellCVTUpwind2nd`: zero when `needCalc`
is false, otherwise the sum of the x-term and the y-term. -/
theorem KerCutCellCVTUpwind2nd_at (L : Lattice) (E : VertexTypes) (CS : Real)
    (coordinateXYZ : Nat → Int → Int → Real) (nodeType : Int → Int → Int)
    (geometry : Int → Int → VertexGeometryTypes)
    (f : Nat → Int → Int → Real) (fGradient : Nat → Real) (c d : Nat)
    (hL : L.Disjoint) (hc : c < L.NUMCOMPONENTS) (hd : L.inCompo c d) :
    KerCutCellCVTUpwind2nd L E CS coordinateXYZ nodeType geometry f fGradient d =
      if (KerCutCellCVTUpwind2nd.flags E nodeType geometry (L.XI (d * L.LATTDIM))
          (L.XI (d * L.LATTDIM + 1))).needCalc = true then
        KerCutCellCVTUpwind2nd.xTerm CS (L.XI (d * L.LATTDIM))
            (KerCutCellCVTUpwind2nd.flags E nodeType geometry (L.XI (d * L.LATTDIM))
              (L.XI (d * L.LATTDIM + 1))).reduceOrderX coordinateXYZ (f d) +
          KerCutCellCVTUpwind2nd.yTerm CS (L.XI (d * L.LATTDIM + 1))
            (KerCutCellCVTUpwind2nd.flags E nodeType geometry (L.XI (d * L.LATTDIM))
              (L.XI (d * L.LATTDIM + 1))).reduceOrderY coordinateXYZ (f d)
      else Real.fin 0 := by
  unfold KerCutCellCVTUpwind2nd
  rw [forCompo_at L _ (fun _ d _ =>
      if (KerCutCellCVTUpwind2nd.flags E nodeType geometry (L.XI (d * L.LATTDIM))
          (L.XI (d * L.LATTDIM + 1))).needCalc = true then
        KerCutCellCVTUpwind2nd.xTerm CS (L.XI (d * L.LATTDIM))
            (KerCutCellCVTUpwind2nd.flags E nodeType geometry (L.XI (d * L.LATTDIM))
              (L.XI (d * L.LATTDIM + 1))).reduceOrderX coordinateXYZ (f d) +
          KerCutCellCVTUpwind2nd.yTerm CS (L.XI (d * L.LATTDIM + 1))
            (KerCutCellCVTUpwind2nd.flags E nodeType geometry (L.XI (d * L.LATTDIM))
              (L.XI (d * L.LATTDIM + 1))).reduceOrderY coordinateXYZ (f d)
      else Real.fin 0) _ fGradient c d hL hc hd]
  intro c s d
  rw [forXi_at L c _ (fun d _ =>
      if (KerCutCellCVTUpwind2nd.flags E nodeType geometry (L.XI (d * L.LATTDIM))
          (L.XI (d * L.LATTDIM + 1))).needCalc = true then
        KerCutCellCVTUpwind2nd.xTerm CS (L.XI (d * L.LATTDIM))
            (KerCutCellCVTUpwind2nd.flags E nodeType geometry (L.XI (d * L.LATTDIM))
              (L.XI (d * L.LATTDIM + 1))).reduceOrderX coordinateXYZ (f d) +
          KerCutCellCVTUpwind2nd.yTerm CS (L.XI (d * L.LATTDIM + 1))
            (KerCutCellCVTUpwind2nd.flags E nodeType geometry (L.XI (d * L.LATTDIM))
              (L.XI (d * L.LATTDIM + 1))).reduceOrderY coordinateXYZ (f d)
      else Real.fin 0)]
  intro i s
  dsimp only
  generalize KerCutCellCVTUpwind2nd.flags E nodeType geometry (L.XI (i * L.LATTDIM))
      (L.XI (i * L.LATTDIM + 1)) = fl
  rcases fl with ⟨nc, rx, ry⟩
  cases nc
  · simp
  · rcases lt_trichotomy (L.XI (i * L.LATTDIM)) 0 with hx | hx | hx <;>
    rcases lt_trichotomy (L.XI (i * L.LATTDIM + 1)) 0 with hy | hy | hy <;>
    cases rx <;> cases ry <;>
    simp [hx, hy, not_lt_of_gt, store_store, store_same, KerCutCellCVTUpwind2nd.xTerm,
      KerCutCellCVTUpwind2nd.yTerm, Real.zero_add', Real.add_zero']

/-! ## The flags of the second order kernel -/

@[simp] theorem UpwindFlags.clearNeedCalc_needCalc (s : UpwindFlags) :
    s.clearNeedCalc.needCalc = false := rfl

@[simp] theorem UpwindFlags.clearNeedCalc_reduceOrderX (s : UpwindFlags) :
    s.clearNeedCalc.reduceOrderX = s.reduceOrderX := rfl

@[simp] theorem UpwindFlags.clearNeedCalc_reduceOrderY (s : UpwindFlags) :
    s.clearNeedCalc.reduceOrderY = s.reduceOrderY := rfl

@[simp] theorem UpwindFlags.setReduceOrderXIf_needCalc (s : UpwindFlags) (b : Bool) :
    (s.setReduceOrderXIf b).needCalc = s.needCalc := by
  cases b <;> rfl

@[simp] theorem UpwindFlags.setReduceOrderXIf_reduceOrderX (s : UpwindFlags) (b : Bool) :
    (s.setReduceOrderXIf b).reduceOrderX = (s.reduceOrderX || b) := by
  cases b <;> simp [UpwindFlags.setReduceOrderXIf]

@[simp] theorem UpwindFlags.setReduceOrderXIf_reduceOrderY (s : UpwindFlags) (b : Bool) :
    (s.setReduceOrderXIf b).reduceOrderY = s.reduceOrderY := by
  cases b <;> rfl

@[simp] theorem UpwindFlags.setReduceOrderYIf_needCalc (s : UpwindFlags) (b : Bool) :
    (s.setReduceOrderYIf b).needCalc = s.needCalc := by
  cases b <;> rfl

@[simp] theorem UpwindFlags.setReduceOrderYIf_reduceOrderX (s : UpwindFlags) (b : Bool) :
    (s.setReduceOrderYIf b).reduceOrderX = s.reduceOrderX := by
  cases b <;> rfl

@[simp] theorem UpwindFlags.setReduceOrderYIf_reduceOrderY (s : UpwindFlags) (b : Bool) :
    (s.setReduceOrderYIf b).reduceOrderY = (s.reduceOrderY || b) := by
  cases b <;> simp [UpwindFlags.setReduceOrderYIf]

theorem KerCutCellCVTUpwind2nd.flagsFluid_needCalc (E : VertexTypes)
    (nodeType : Int → Int → Int) (geometry : Int → Int → VertexGeometryTypes) (cx cy : Int)
    (s : UpwindFlags) :
    (KerCutCellCVTUpwind2nd.flagsFluid E nodeType geometry cx cy s).needCalc = s.needCalc := by
  simp [KerCutCellCVTUpwind2nd.flagsFluid]

theorem KerCutCellCVTUpwind2nd.flagsFluid_reduceOrderX (E : VertexTypes)
    (nodeType : Int → Int → Int) (geometry : Int → Int → VertexGeometryTypes) (cx cy : Int)
    (s : UpwindFlags) :
    (KerCutCellCVTUpwind2nd.flagsFluid E nodeType geometry cx cy s).reduceOrderX =
      (s.reduceOrderX ||
        decide (cx > 0 ∧ (nodeType (-1) 0 ≥ E.Vertex_Boundary ∧ geometry (-1) 0 = .VG_IP)) ||
        decide (cx < 0 ∧ (nodeType 1 0 ≥ E.Vertex_Boundary ∧ geometry 1 0 = .VG_IM))) := by
  simp only [KerCutCellCVTUpwind2nd.flagsFluid, UpwindFlags.setReduceOrderXIf_reduceOrderX,
    UpwindFlags.setReduceOrderYIf_reduceOrderX]

theorem KerCutCellCVTUpwind2nd.flagsFluid_reduceOrderY (E : VertexTypes)
    (nodeType : Int → Int → Int) (geometry : Int → Int → VertexGeometryTypes) (cx cy : Int)
    (s : UpwindFlags) :
    (KerCutCellCVTUpwind2nd.flagsFluid E nodeType geometry cx cy s).reduceOrderY =
      (s.reduceOrderY ||
        decide (cy > 0 ∧ (nodeType 0 (-1) ≥ E.Vertex_Boundary ∧ geometry 0 (-1) = .VG_JP)) ||
        decide (cy < 0 ∧ (nodeType 0 1 ≥ E.Vertex_Boundary ∧ geometry 0 1 = .VG_JM))) := by
  simp only [KerCutCellCVTUpwind2nd.flagsFluid, UpwindFlags.setReduceOrderXIf_reduceOrderY,
    UpwindFlags.setReduceOrderYIf_reduceOrderY]

/-- The flag `needCalc` of `KerCutCellCVTUpwind2nd` is the one of
`KerCutCellCVTUpwind1st`. -/
theorem KerCutCellCVTUpwind2nd.flags_needCalc (E : VertexTypes) (nodeType : Int → Int → Int)
    (geometry : Int → Int → VertexGeometryTypes) (cx cy : Int) :
    (KerCutCellCVTUpwind2nd.flags E nodeType geometry cx cy).needCalc =
      KerCutCellCVTUpwind1st.needCalc E (nodeType 0 0) (geometry 0 0) cx cy := by
  unfold KerCutCellCVTUpwind2nd.flags KerCutCellCVTUpwind1st.needCalc
  dsimp only
  by_cases hb : nodeType 0 0 ≥ E.Vertex_Boundary
  · have hf : ¬ (nodeType 0 0 ≥ E.Vertex_Fluid ∧ nodeType 0 0 < E.Vertex_Boundary) := by omega
    rw [if_neg hf, if_pos hb, if_pos hb]
    unfold KerCutCellCVTUpwind2nd.flagsBoundary
    cases geometry 0 0 <;> dsimp only <;> split_ifs <;> simp [UpwindFlags.clearNeedCalc]
  · rw [if_neg hb, if_neg hb]
    split_ifs <;> simp [KerCutCellCVTUpwind2nd.flagsFluid_needCalc, UpwindFlags.clearNeedCalc]

/-! ## The tag switch of the second order kernel, case by case -/

theorem KerCutCellCVTUpwind2nd.flagsBoundary_VG_IP (E : VertexTypes)
    (nodeType : Int → Int → Int) (geometry : Int → Int → VertexGeometryTypes) (cx cy : Int)
    (s : UpwindFlags) (hg : geometry 0 0 = .VG_IP) :
    KerCutCellCVTUpwind2nd.flagsBoundary E nodeType geometry cx cy s =
      if cx > 0 then s.clearNeedCalc
      else
        let s := s.setReduceOrderYIf
            (decide (cy > 0 ∧
              (((geometry 0 (-1) = .VG_IPJM_O ∨ geometry 0 (-1) = .VG_IPJP_O) ∧
                  nodeType 0 (-2) = E.Vertex_ImmersedSolid) ∨
                geometry 0 (-1) = .VG_IPJM_I ∨ geometry 0 (-1) = .VG_IPJP_I)))
        let s := s.setReduceOrderYIf
            (decide (cy < 0 ∧
              (((geometry 0 1 = .VG_IPJM_O ∨ geometry 0 1 = .VG_IPJP_O) ∧
                  nodeType 0 2 = E.Vertex_ImmersedSolid) ∨
                geometry 0 1 = .VG_IPJM_I ∨ geometry 0 1 = .VG_IPJP_I)))
        s := by
  unfold KerCutCellCVTUpwind2nd.flagsBoundary
  rw [hg]

theorem KerCutCellCVTUpwind2nd.flagsBoundary_VG_IM (E : VertexTypes)
    (nodeType : Int → Int → Int) (geometry : Int → Int → VertexGeometryTypes) (cx cy : Int)
    (s : UpwindFlags) (hg : geometry 0 0 = .VG_IM) :
    KerCutCellCVTUpwind2nd.flagsBoundary E nodeType geometry cx cy s =
      if cx < 0 then s.clearNeedCalc
      else
        let s := s.setReduceOrderYIf
            (decide (cy > 0 ∧
              (((geometry 0 (-1) = .VG_IMJM_O ∨ geometry 0 (-1) = .VG_IMJP_O) ∧
                  nodeType 0 (-2) = E.Vertex_ImmersedSolid) ∨
                geometry 0 (-1) = .VG_IMJM_I ∨ geometry 0 (-1) = .VG_IMJP_I)))
        let s := s.setReduceOrderYIf
            (decide (cy < 0 ∧
              (((geometry 0 1 = .VG_IMJM_O ∨ geometry 0 1 = .VG_IMJP_O) ∧
                  nodeType 0 2 = E.Vertex_ImmersedSolid) ∨
                geometry 0 1 = .VG_IMJM_I ∨ geometry 0 1 = .VG_IMJP_I)))
        s := by
  unfold KerCutCellCVTUpwind2nd.flagsBoundary
  rw [hg]

theorem KerCutCellCVTUpwind2nd.flagsBoundary_VG_JP (E : VertexTypes)
    (nodeType : Int → Int → Int) (geometry : Int → Int → VertexGeometryTypes) (cx cy : Int)
    (s : UpwindFlags) (hg : geometry 0 0 = .VG_JP) :
    KerCutCellCVTUpwind2nd.flagsBoundary E nodeType geometry cx cy s =
      if cy > 0 then s.clearNeedCalc
      else
        let s := s.setReduceOrderXIf
            (decide (cx > 0 ∧
              (((geometry (-1) 0 = .VG_IMJP_O ∨ geometry (-1) 0 = .VG_IPJP_O) ∧
                  nodeType (-2) 0 = E.Vertex_ImmersedSolid) ∨
                geometry (-1) 0 = .VG_IMJP_I ∨ geometry (-1) 0 = .VG_IPJP_I)))
        let s := s.setReduceOrderXIf
            (decide (cx < 0 ∧
              (((geometry 1 0 = .VG_IMJP_O ∨ geometry 1 0 = .VG_IPJP_O) ∧
                  nodeType 2 0 = E.Vertex_ImmersedSolid) ∨
                geometry 1 0 = .VG_IMJP_I ∨ geometry 1 0 = .VG_IPJP_I)))
        s := by
  unfold KerCutCellCVTUpwind2nd.flagsBoundary
  rw [hg]

theorem KerCutCellCVTUpwind2nd.flagsBoundary_VG_JM (E : VertexTypes)
    (nodeType : Int → Int → Int) (geometry : Int → Int → VertexGeometryTypes) (cx cy : Int)
    (s : UpwindFlags) (hg : geometry 0 0 = .VG_JM) :
    KerCutCellCVTUpwind2nd.flagsBoundary E nodeType geometry cx cy s =
      if cy < 0 then s.clearNeedCalc
      else
        let s := s.setReduceOrderXIf
            (decide (cx > 0 ∧
              (((geometry (-1) 0 = .VG_IMJM_O ∨ geometry (-1) 0 = .VG_IPJM_O) ∧
                  nodeType (-2) 0 = E.Vertex_ImmersedSolid) ∨
                geometry (-1) 0 = .VG_IMJM_I ∨ geometry (-1) 0 = .VG_IPJM_I)))
        let s := s.setReduceOrderXIf
            (decide (cx < 0 ∧
              (((geometry 1 0 = .VG_IPJM_O ∨ geometry 1 0 = .VG_IMJM_O) ∧
                  nodeType 2 0 = E.Vertex_ImmersedSolid) ∨
                geometry 1 0 = .VG_IMJM_I ∨ geometry 1 0 = .VG_IPJM_I)))
        s := by
  unfold KerCutCellCVTUpwind2nd.flagsBoundary
  rw [hg]

theorem KerCutCellCVTUpwind2nd.flagsBoundary_VG_IPJP_I (E : VertexTypes)
    (nodeType : Int → Int → Int) (geometry : Int → Int → VertexGeometryTypes) (cx cy : Int)
    (s : UpwindFlags) (hg : geometry 0 0 = .VG_IPJP_I) :
    KerCutCellCVTUpwind2nd.flagsBoundary E nodeType geometry cx cy s =
      if cy > 0 ∨ cx > 0 then s.clearNeedCalc
      else
        let s := s.setReduceOrderXIf
            (decide (geometry 1 0 = .VG_IMJP_I))
        let s := s.setReduceOrderYIf
            (decide (geometry 0 1 = .VG_IPJM_I))
        s := by
  unfold KerCutCellCVTUpwind2nd.flagsBoundary
  rw [hg]

theorem KerCutCellCVTUpwind2nd.flagsBoundary_VG_IPJM_I (E : VertexTypes)
    (nodeType : Int → Int → Int) (geometry : Int → Int → VertexGeometryTypes) (cx cy : Int)
    (s : UpwindFlags) (hg : geometry 0 0 = .VG_IPJM_I) :
    KerCutCellCVTUpwind2nd.flagsBoundary E nodeType geometry cx cy s =
      if cy < 0 ∨ cx > 0 then s.clearNeedCalc
      else
        let s := s.setReduceOrderXIf
            (decide (geometry 1 0 = .VG_IMJM_I))
        let s := s.setReduceOrderYIf
            (decide (geometry 0 (-1) = .VG_IPJP_I))
        s := by
  unfold KerCutCellCVTUpwind2nd.flagsBoundary
  rw [hg]

theorem KerCutCellCVTUpwind2nd.flagsBoundary_VG_IMJP_I (E : VertexTypes)
    (nodeType : Int → Int → Int) (geometry : Int → Int → VertexGeometryTypes) (cx cy : Int)
    (s : UpwindFlags) (hg : geometry 0 0 = .VG_IMJP_I) :
    KerCutCellCVTUpwind2nd.flagsBoundary E nodeType geometry cx cy s =
      if cy > 0 ∨ cx < 0 then s.clearNeedCalc
      else
        let s := s.setReduceOrderXIf
            (decide (geometry (-1) 0 = .VG_IPJP_I))
        let s := s.setReduceOrderYIf
            (decide (geometry 0 1 = .VG_IMJM_I))
        s := by
  unfold KerCutCellCVTUpwind2nd.flagsBoundary
  rw [hg]

theorem KerCutCellCVTUpwind2nd.flagsBoundary_VG_IMJM_I (E : VertexTypes)
    (nodeType : Int → Int → Int) (geometry : Int → Int → VertexGeometryTypes) (cx cy : Int)
    (s : UpwindFlags) (hg : geometry 0 0 = .VG_IMJM_I) :
    KerCutCellCVTUpwind2nd.flagsBoundary E nodeType geometry cx cy s =
      if cy < 0 ∨ cx < 0 then s.clearNeedCalc
      else
        let s := s.setReduceOrderXIf
            (decide (geometry (-1) 0 = .VG_IPJM_I))
        let s := s.setReduceOrderYIf
            (decide (geometry 0 (-1) = .VG_IMJP_I))
        s := by
  unfold KerCutCellCVTUpwind2nd.flagsBoundary
  rw [hg]

theorem KerCutCellCVTUpwind2nd.flagsBoundary_VG_IPJP_O (E : VertexTypes)
    (nodeType : Int → Int → Int) (geometry : Int → Int → VertexGeometryTypes) (cx cy : Int)
    (s : UpwindFlags) (hg : geometry 0 0 = .VG_IPJP_O) :
    KerCutCellCVTUpwind2nd.flagsBoundary E nodeType geometry cx cy s =
      if cy ≥ 0 ∧ cx ≥ 0 then s.clearNeedCalc
      else
        let s := s.setReduceOrderXIf
            (decide (geometry 1 0 = .VG_IM))
        let s := s.setReduceOrderYIf
            (decide (geometry 0 1 = .VG_JM))
        s := by
  unfold KerCutCellCVTUpwind2nd.flagsBoundary
  rw [hg]

theorem KerCutCellCVTUpwind2nd.flagsBoundary_VG_IPJM_O (E : VertexTypes)
    (nodeType : Int → Int → Int) (geometry : Int → Int → VertexGeometryTypes) (cx cy : Int)
    (s : UpwindFlags) (hg : geometry 0 0 = .VG_IPJM_O) :
    KerCutCellCVTUpwind2nd.flagsBoundary E nodeType geometry cx cy s =
      if cy ≤ 0 ∧ cx ≥ 0 then s.clearNeedCalc
      else
        let s := s.setReduceOrderXIf
            (decide (geometry 1 0 = .VG_IM))
        let s := s.setReduceOrderYIf
            (decide (geometry 0 (-1) = .VG_JP))
        s := by
  unfold KerCutCellCVTUpwind2nd.flagsBoundary
  rw [hg]

theorem KerCutCellCVTUpwind2nd.flagsBoundary_VG_IMJP_O (E : VertexTypes)
    (nodeType : Int → Int → Int) (geometry : Int → Int → VertexGeometryTypes) (cx cy : Int)
    (s : UpwindFlags) (hg : geometry 0 0 = .VG_IMJP_O) :
    KerCutCellCVTUpwind2nd.flagsBoundary E nodeType geometry cx cy s =
      if cy ≥ 0 ∧ cx ≤ 0 then s.clearNeedCalc
      else
        let s := s.setReduceOrderXIf
            (decide (geometry (-1) 0 = .VG_IP))
        let s := s.setReduceOrderYIf
            (decide (geometry 0 1 = .VG_JM))
        s := by
  unfold KerCutCellCVTUpwind2nd.flagsBoundary
  rw [hg]

theorem KerCutCellCVTUpwind2nd.flagsBoundary_VG_IMJM_O (E : VertexTypes)
    (nodeType : Int → Int → Int) (geometry : Int → Int → VertexGeometryTypes) (cx cy : Int)
    (s : UpwindFlags) (hg : geometry 0 0 = .VG_IMJM_O) :
    KerCutCellCVTUpwind2nd.flagsBoundary E nodeType geometry cx cy s =
      if cy ≤ 0 ∧ cx ≤ 0 then s.clearNeedCalc
      else
        let s := s.setReduceOrderXIf
            (decide (geometry (-1) 0 = .VG_IP))
        let s := s.setReduceOrderYIf
            (decide (geometry 0 (-1) = .VG_JP))
        s := by
  unfold KerCutCellCVTUpwind2nd.flagsBoundary
  rw [hg]

/-! ## Semi-implicit time marching: theorems -/

/-- C11: for a direction `d` of component `c` for which `needMarch` holds,
`KerCutCellSemiImplicitTimeMach` writes
`(feq[d]*dt + bodyForce[d]*dt*tau_c - fGradient[d]*dt*tau_c + f[d]*tau_c)/(dt + tau_c)`;
for a direction for which `needMarch` is false, `f[d]` is unchanged. -/
theorem semi_implicit_time_march (L : Lattice) (E : VertexTypes) (dt schemeCoeff : Real)
    (vt : Int) (vg : VertexGeometryTypes)
    (fGradient feq relaxationTime bodyForce f : Nat → Real) (c d : Nat)
    (hL : L.Disjoint) (hc : c < L.NUMCOMPONENTS) (hd : L.inCompo c d) :
    (KerCutCellSemiImplicitTimeMach.needMarch E vt vg (L.XI (d * L.LATTDIM))
        (L.XI (d * L.LATTDIM + 1)) = true →
      KerCutCellSemiImplicitTimeMach L E dt schemeCoeff vt vg fGradient feq relaxationTime
          bodyForce f d =
        (feq d * dt + bodyForce d * dt * relaxationTime c -
            fGradient d * dt * relaxationTime c + f d * relaxationTime c) /
          (dt + relaxationTime c)) ∧
    (KerCutCellSemiImplicitTimeMach.needMarch E vt vg (L.XI (d * L.LATTDIM))
        (L.XI (d * L.LATTDIM + 1)) = false →
      KerCutCellSemiImplicitTimeMach L E dt schemeCoeff vt vg fGradient feq relaxationTime
          bodyForce f d = f d) := by
  constructor
  · intro h
    rw [KerCutCellSemiImplicitTimeMach_at L E dt schemeCoeff vt vg fGradient feq relaxationTime
      bodyForce f c d hL hc hd, if_pos h]
  · intro h
    rw [KerCutCellSemiImplicitTimeMach_at L E dt schemeCoeff vt vg fGradient feq relaxationTime
      bodyForce f c d hL hc hd, if_neg (by simp [h])]

/-- C11, at direction 12 of component 1 (velocity (-1,0), relaxation time 3/2)
with `dt = 1/2`, `f = 13`, `feq = 27`, `bodyForce = 3`, `fGradient = 3/2`: a
fluid node gets `(27/2 + 9/4 - 9/8 + 39/2)/2 = 273/16`, whatever `schemeCoeff`
is; a boundary node tagged `VG_IM` (where `cx < 0` is blocked) keeps `f[12] = 13`. -/
theorem semi_implicit_time_march_witness :
    KerCutCellSemiImplicitTimeMach twoD2Q9 sampleTypes (Real.fin (1 / 2)) (Real.fin 7) 10 .VG_IM
        sampleGradient sampleFeq sampleTau sampleForce sampleF 12 = Real.fin (273 / 16) ∧
    KerCutCellSemiImplicitTimeMach twoD2Q9 sampleTypes (Real.fin (1 / 2)) (Real.fin 7) 1000
        .VG_IM sampleGradient sampleFeq sampleTau sampleForce sampleF 12 = Real.fin 13 := by
  constructor
  · rw [(semi_implicit_time_march twoD2Q9 sampleTypes (Real.fin (1 / 2)) (Real.fin 7) 10 .VG_IM
      sampleGradient sampleFeq sampleTau sampleForce sampleF 1 12 twoD2Q9_disjoint (by decide)
      (by decide)).1 (by decide)]
    simp only [sampleF, sampleFeq, sampleTau, sampleForce, sampleGradient]
    norm_num [Real.fin_div_fin]
  · rw [(semi_implicit_time_march twoD2Q9 sampleTypes (Real.fin (1 / 2)) (Real.fin 7) 1000
      .VG_IM sampleGradient sampleFeq sampleTau sampleForce sampleF 1 12 twoD2Q9_disjoint
      (by decide) (by decide)).2 (by decide)]
    simp only [sampleF, Real.fin_inj]
    norm_num

/-! ## Validity flags: theorems -/

/-- C12: for every vertex type, geometry tag and direction `(cx, cy)`, the flag
`needMarch` of `KerCutCellExplicitTimeMach`, the flag `needMarch` of
`KerCutCellSemiImplicitTimeMach`, the flag `needCalc` of `KerCutCellCVTUpwind1st`
and the flag `needCalc` of `KerCutCellCVTUpwind2nd` are equal. -/
theorem validity_flags_agree (E : VertexTypes) (nodeType : Int → Int → Int)
    (geometry : Int → Int → VertexGeometryTypes) (cx cy : Int) :
    KerCutCellExplicitTimeMach.needMarch E (nodeType 0 0) (geometry 0 0) cx cy =
        KerCutCellSemiImplicitTimeMach.needMarch E (nodeType 0 0) (geometry 0 0) cx cy ∧
    KerCutCellSemiImplicitTimeMach.needMarch E (nodeType 0 0) (geometry 0 0) cx cy =
        KerCutCellCVTUpwind1st.needCalc E (nodeType 0 0) (geometry 0 0) cx cy ∧
    KerCutCellCVTUpwind1st.needCalc E (nodeType 0 0) (geometry 0 0) cx cy =
        (KerCutCellCVTUpwind2nd.flags E nodeType geometry cx cy).needCalc :=
  ⟨rfl, rfl, (KerCutCellCVTUpwind2nd.flags_needCalc E nodeType geometry cx cy).symm⟩

theorem KerCutCellCVTUpwind1st.needCalc_immersed (E : VertexTypes) (vt : Int)
    (vg : VertexGeometryTypes) (cx cy : Int) (h : vt = E.Vertex_ImmersedSolid) :
    KerCutCellCVTUpwind1st.needCalc E vt vg cx cy = false := by
  unfold KerCutCellCVTUpwind1st.needCalc
  cases vg <;> simp [h]

/-- C13: for a direction for which `needCalc` is false, `KerCutCellCVTUpwind1st`
and `KerCutCellCVTUpwind2nd` write `fGradient[d] = 0`, whatever `fGradient` held
before and whatever `f` and the coordinates are; `needCalc` is false for every
direction of an immersed-solid node. -/
theorem gradient_zero_when_blocked (L : Lattice) (E : VertexTypes) (CS : Real)
    (coordinateXYZ : Nat → Int → Int → Real) (f : Nat → Int → Int → Real)
    (fGradient : Nat → Real) (c d : Nat)
    (hL : L.Disjoint) (hc : c < L.NUMCOMPONENTS) (hd : L.inCompo c d) :
    (∀ (vt : Int) (vg : VertexGeometryTypes),
      KerCutCellCVTUpwind1st.needCalc E vt vg (L.XI (d * L.LATTDIM))
        (L.XI (d * L.LATTDIM + 1)) = false →
      KerCutCellCVTUpwind1st L E CS coordinateXYZ vt vg f fGradient d = Real.fin 0) ∧
    (∀ (nodeType : Int → Int → Int) (geometry : Int → Int → VertexGeometryTypes),
      (KerCutCellCVTUpwind2nd.flags E nodeType geometry (L.XI (d * L.LATTDIM))
        (L.XI (d * L.LATTDIM + 1))).needCalc = false →
      KerCutCellCVTUpwind2nd L E CS coordinateXYZ nodeType geometry f fGradient d =
        Real.fin 0) ∧
    (∀ (vt : Int) (vg : VertexGeometryTypes), vt = E.Vertex_ImmersedSolid →
      KerCutCellCVTUpwind1st.needCalc E vt vg (L.XI (d * L.LATTDIM))
        (L.XI (d * L.LATTDIM + 1)) = false) ∧
    (∀ (nodeType : Int → Int → Int) (geometry : Int → Int → VertexGeometryTypes),
      nodeType 0 0 = E.Vertex_ImmersedSolid →
      (KerCutCellCVTUpwind2nd.flags E nodeType geometry (L.XI (d * L.LATTDIM))
        (L.XI (d * L.LATTDIM + 1))).needCalc = false) := by
  refine ⟨?_, ?_, ?_, ?_⟩
  · intro vt vg h
    rw [KerCutCellCVTUpwind1st_at L E CS coordinateXYZ vt vg f fGradient c d hL hc hd,
      if_neg (by simp [h])]
  · intro nodeType geometry h
    rw [KerCutCellCVTUpwind2nd_at L E CS coordinateXYZ nodeType geometry f fGradient c d hL hc
      hd, if_neg (by simp [h])]
  · intro vt vg h
    exact KerCutCellCVTUpwind1st.needCalc_immersed E vt vg _ _ h
  · intro nodeType geometry h
    rw [KerCutCellCVTUpwind2nd.flags_needCalc]
    exact KerCutCellCVTUpwind1st.needCalc_immersed E _ _ _ _ h

/-- C13, at direction 12 (velocity (-1,0)) of an immersed-solid node and at
direction 1 (velocity (1,0), blocked by the tag) of a boundary node tagged
`VG_IP`: both kernels write 0 over the previous value. -/
theorem gradient_zero_when_blocked_witness :
    KerCutCellCVTUpwind1st twoD2Q9 sampleTypes (Real.fin (1 / 3)) sampleCoord (-1) .VG_IM
        sampleField sampleF 12 = Real.fin 0 ∧
    KerCutCellCVTUpwind2nd twoD2Q9 sampleTypes (Real.fin (1 / 3)) sampleCoord
        faceColumnTypes faceColumnTags sampleField sampleF 1 = Real.fin 0 := by
  have h := gradient_zero_when_blocked twoD2Q9 sampleTypes (Real.fin (1 / 3)) sampleCoord
    sampleField sampleF 1 12 twoD2Q9_disjoint (by decide) (by decide)
  have h' := gradient_zero_when_blocked twoD2Q9 sampleTypes (Real.fin (1 / 3)) sampleCoord
    sampleField sampleF 0 1 twoD2Q9_disjoint (by decide) (by decide)
  exact ⟨h.1 (-1) .VG_IM (h.2.2.1 (-1) .VG_IM rfl),
    h'.2.1 faceColumnTypes faceColumnTags (by decide)⟩

/-- C14 fails as stated: at a boundary node tagged `VG_IP`, for the direction
(0,1), `needCalc` is true (the kernel tests `cx > 0`), while the strict test that
`KerStream` applies without `streamRequired` (`cx < 0`) does not permit the
direction. -/
theorem needCalc_strict_counterexample :
    (1000 : Int) ≥ sampleTypes.Vertex_Boundary ∧
    KerCutCellCVTUpwind1st.needCalc sampleTypes 1000 .VG_IP 0 1 = true ∧
    (KerCutCellCVTUpwind2nd.flags sampleTypes faceColumnTypes faceColumnTags 0 1).needCalc =
      true ∧
    KerStream.switchVg .VG_IP false 0 1 = false ∧
    ¬ (KerCutCellCVTUpwind1st.needCalc sampleTypes 1000 .VG_IP 0 1 = true ↔
      KerStream.switchVg .VG_IP false 0 1 = true) := by
  decide

/-- C14, amended: at a boundary node, for every face, inner-corner and
outer-corner tag of the 2D kernels and every direction `(cx, cy)`, `needCalc` of
the gradient kernels is true iff the test that `KerStream` applies when
`streamRequired` is true permits the direction: the inclusive inequalities at
faces and inner corners, the strict disjunction at outer corners. -/
theorem needCalc_iff_stream_inclusive (E : VertexTypes) (nodeType : Int → Int → Int)
    (geometry : Int → Int → VertexGeometryTypes) (cx cy : Int)
    (hb : nodeType 0 0 ≥ E.Vertex_Boundary) (hs : nodeType 0 0 ≠ E.Vertex_ImmersedSolid)
    (hk : (geometry 0 0).kind = .face ∨ (geometry 0 0).kind = .innerEdge ∨
      (geometry 0 0).kind = .outerEdge)
    (h2 : (geometry 0 0).is2D = true) :
    (KerCutCellCVTUpwind1st.needCalc E (nodeType 0 0) (geometry 0 0) cx cy = true ↔
      KerStream.switchVg (geometry 0 0) true cx cy = true) ∧
    ((KerCutCellCVTUpwind2nd.flags E nodeType geometry cx cy).needCalc = true ↔
      KerStream.switchVg (geometry 0 0) true cx cy = true) := by
  have key : KerCutCellCVTUpwind1st.needCalc E (nodeType 0 0) (geometry 0 0) cx cy = true ↔
      KerStream.switchVg (geometry 0 0) true cx cy = true := by
    unfold KerCutCellCVTUpwind1st.needCalc
    dsimp only
    rw [if_neg hs, if_pos hb]
    cases hg : geometry 0 0 <;>
      simp [hg, VertexGeometryTypes.kind, VertexGeometryTypes.is2D,
        VertexGeometryTypes.faces, KerStream.switchVg] at hk h2 ⊢
  exact ⟨key, by rw [KerCutCellCVTUpwind2nd.flags_needCalc]; exact key⟩

/-- C14 amended, at a boundary node tagged `VG_IP` and the direction (0,1):
`needCalc` is true and so is the inclusive streaming test `cx <= 0`. -/
theorem needCalc_iff_stream_inclusive_witness :
    (KerCutCellCVTUpwind1st.needCalc sampleTypes 1000 .VG_IP 0 1 = true ↔
      KerStream.switchVg .VG_IP true 0 1 = true) ∧
    ((KerCutCellCVTUpwind2nd.flags sampleTypes faceColumnTypes faceColumnTags 0 1).needCalc =
        true ↔
      KerStream.switchVg .VG_IP true 0 1 = true) :=
  needCalc_iff_stream_inclusive sampleTypes faceColumnTypes faceColumnTags 0 1 (by decide)
    (by decide) (Or.inl rfl) rfl

/-! ## Exactness of the stencils: theorems -/

/-- The backward two-point term of a linear field. -/
theorem upwindTwoPointBackward_linear (cs c a b x0 x1 : ℚ) (h : x0 ≠ x1) :
    upwindTwoPointBackward (Real.fin cs) (Real.fin c) (Real.fin (a + b * x0))
        (Real.fin (a + b * x1)) (Real.fin x0) (Real.fin x1) = Real.fin (cs * c * b) := by
  have h' : x0 - x1 ≠ 0 := sub_ne_zero.mpr h
  unfold upwindTwoPointBackward
  rw [Real.fin_sub_fin, Real.fin_sub_fin, Real.fin_div_fin _ _ h', Real.fin_mul_fin,
    Real.fin_mul_fin, Real.fin_inj]
  field_simp
  ring

/-- The forward two-point term of a linear field. -/
theorem upwindTwoPointForward_linear (cs c a b x0 x1 : ℚ) (h : x0 ≠ x1) :
    upwindTwoPointForward (Real.fin cs) (Real.fin c) (Real.fin (a + b * x1))
        (Real.fin (a + b * x0)) (Real.fin x1) (Real.fin x0) = Real.fin (cs * c * b) := by
  have h' : x1 - x0 ≠ 0 := sub_ne_zero.mpr (Ne.symm h)
  unfold upwindTwoPointForward
  rw [Real.fin_sub_fin, Real.fin_sub_fin, Real.fin_div_fin _ _ h', Real.fin_mul_fin,
    Real.fin_mul_fin, Real.fin_inj]
  field_simp
  ring

/-- The backward three-point term of a quadratic field. -/
theorem upwindThreePointBackward_quadratic (cs c a b q x0 x1 x2 : ℚ)
    (h01 : x0 ≠ x1) (h02 : x0 ≠ x2) (h12 : x1 ≠ x2) :
    upwindThreePointBackward (Real.fin cs) (Real.fin c) (Real.fin (a + b * x2 + q * x2 ^ 2))
        (Real.fin (a + b * x1 + q * x1 ^ 2)) (Real.fin (a + b * x0 + q * x0 ^ 2))
        (Real.fin x2) (Real.fin x1) (Real.fin x0) =
      Real.fin (cs * c * (b + 2 * q * x0)) := by
  have e1 : x2 - x0 ≠ 0 := sub_ne_zero.mpr (Ne.symm h02)
  have e2 : x2 - x1 ≠ 0 := sub_ne_zero.mpr (Ne.symm h12)
  have e3 : x1 - x0 ≠ 0 := sub_ne_zero.mpr (Ne.symm h01)
  have e4 : x1 - x2 ≠ 0 := sub_ne_zero.mpr h12
  have e5 : x0 - x1 ≠ 0 := sub_ne_zero.mpr h01
  have e6 : x0 - x2 ≠ 0 := sub_ne_zero.mpr h02
  unfold upwindThreePointBackward
  simp only [Real.fin_sub_fin, Real.fin_div_fin _ _ e1, Real.fin_div_fin _ _ e2,
    Real.fin_div_fin _ _ e3, Real.fin_div_fin _ _ e4, Real.fin_div_fin _ _ e5,
    Real.fin_div_fin _ _ e6, Real.fin_mul_fin, Real.fin_add_fin, Real.fin_inj]
  field_simp
  ring

/-- The forward three-point term of a quadratic field. -/
theorem upwindThreePointForward_quadratic (cs c a b q x0 x1 x2 : ℚ)
    (h01 : x0 ≠ x1) (h02 : x0 ≠ x2) (h12 : x1 ≠ x2) :
    upwindThreePointForward (Real.fin cs) (Real.fin c) (Real.fin (a + b * x0 + q * x0 ^ 2))
        (Real.fin (a + b * x1 + q * x1 ^ 2)) (Real.fin (a + b * x2 + q * x2 ^ 2))
        (Real.fin x0) (Real.fin x1) (Real.fin x2) =
      Real.fin (cs * c * (b + 2 * q * x0)) := by
  have e1 : x2 - x0 ≠ 0 := sub_ne_zero.mpr (Ne.symm h02)
  have e2 : x2 - x1 ≠ 0 := sub_ne_zero.mpr (Ne.symm h12)
  have e3 : x1 - x0 ≠ 0 := sub_ne_zero.mpr (Ne.symm h01)
  have e4 : x1 - x2 ≠ 0 := sub_ne_zero.mpr h12
  have e5 : x0 - x1 ≠ 0 := sub_ne_zero.mpr h01
  have e6 : x0 - x2 ≠ 0 := sub_ne_zero.mpr h02
  unfold upwindThreePointForward
  simp only [Real.fin_sub_fin, Real.fin_div_fin _ _ e1, Real.fin_div_fin _ _ e2,
    Real.fin_div_fin _ _ e3, Real.fin_div_fin _ _ e4, Real.fin_div_fin _ _ e5,
    Real.fin_div_fin _ _ e6, Real.fin_mul_fin, Real.fin_add_fin, Real.fin_inj]
  field_simp
  ring

/-- C15 (second-order exactness): for pairwise distinct coordinates `x0`, `x1`,
`x2` of the node and its two upwind neighbours and a quadratic
`p(x) = a + b*x + q*x^2`, the three-point term of `KerCutCellCVTUpwind2nd` applied
to `f = p` at those points is `CS*cx*p'(x0) = CS*cx*(b + 2*q*x0)`: for the
stencil of `cx > 0` (offsets 0, -1, -2), the stencil of `cx < 0` (offsets 0, +1,
+2) and the two y stencils. -/
theorem three_point_exact_on_quadratics (cs a b q x0 x1 x2 : ℚ) (c : Int)
    (coordinateXYZ : Nat → Int → Int → Real) (f : Int → Int → Real)
    (h01 : x0 ≠ x1) (h02 : x0 ≠ x2) (h12 : x1 ≠ x2) :
    (c > 0 → coordinateXYZ 0 0 0 = Real.fin x0 → coordinateXYZ 0 (-1) 0 = Real.fin x1 →
      coordinateXYZ 0 (-2) 0 = Real.fin x2 → f 0 0 = Real.fin (a + b * x0 + q * x0 ^ 2) →
      f (-1) 0 = Real.fin (a + b * x1 + q * x1 ^ 2) →
      f (-2) 0 = Real.fin (a + b * x2 + q * x2 ^ 2) →
      KerCutCellCVTUpwind2nd.xTerm (Real.fin cs) c false coordinateXYZ f =
        Real.fin (cs * c * (b + 2 * q * x0))) ∧
    (c < 0 → coordinateXYZ 0 0 0 = Real.fin x0 → coordinateXYZ 0 1 0 = Real.fin x1 →
      coordinateXYZ 0 2 0 = Real.fin x2 → f 0 0 = Real.fin (a + b * x0 + q * x0 ^ 2) →
      f 1 0 = Real.fin (a + b * x1 + q * x1 ^ 2) →
      f 2 0 = Real.fin (a + b * x2 + q * x2 ^ 2) →
      KerCutCellCVTUpwind2nd.xTerm (Real.fin cs) c false coordinateXYZ f =
        Real.fin (cs * c * (b + 2 * q * x0))) ∧
    (c > 0 → coordinateXYZ 1 0 0 = Real.fin x0 → coordinateXYZ 1 0 (-1) = Real.fin x1 →
      coordinateXYZ 1 0 (-2) = Real.fin x2 → f 0 0 = Real.fin (a + b * x0 + q * x0 ^ 2) →
      f 0 (-1) = Real.fin (a + b * x1 + q * x1 ^ 2) →
      f 0 (-2) = Real.fin (a + b * x2 + q * x2 ^ 2) →
      KerCutCellCVTUpwind2nd.yTerm (Real.fin cs) c false coordinateXYZ f =
        Real.fin (cs * c * (b + 2 * q * x0))) ∧
    (c < 0 → coordinateXYZ 1 0 0 = Real.fin x0 → coordinateXYZ 1 0 1 = Real.fin x1 →
      coordinateXYZ 1 0 2 = Real.fin x2 → f 0 0 = Real.fin (a + b * x0 + q * x0 ^ 2) →
      f 0 1 = Real.fin (a + b * x1 + q * x1 ^ 2) →
      f 0 2 = Real.fin (a + b * x2 + q * x2 ^ 2) →
      KerCutCellCVTUpwind2nd.yTerm (Real.fin cs) c false coordinateXYZ f =
        Real.fin (cs * c * (b + 2 * q * x0))) := by
  refine ⟨?_, ?_, ?_, ?_⟩
  · intro hc c0 c1 c2 f0 f1 f2
    unfold KerCutCellCVTUpwind2nd.xTerm
    rw [if_pos hc, if_neg (by decide), c0, c1, c2, f0, f1, f2]
    exact upwindThreePointBackward_quadratic cs c a b q x0 x1 x2 h01 h02 h12
  · intro hc c0 c1 c2 f0 f1 f2
    unfold KerCutCellCVTUpwind2nd.xTerm
    rw [if_neg (by omega), if_pos hc, if_neg (by decide), c0, c1, c2, f0, f1, f2]
    exact upwindThreePointForward_quadratic cs c a b q x0 x1 x2 h01 h02 h12
  · intro hc c0 c1 c2 f0 f1 f2
    unfold KerCutCellCVTUpwind2nd.yTerm
    rw [if_pos hc, if_neg (by decide), c0, c1, c2, f0, f1, f2]
    exact upwindThreePointBackward_quadratic cs c a b q x0 x1 x2 h01 h02 h12
  · intro hc c0 c1 c2 f0 f1 f2
    unfold KerCutCellCVTUpwind2nd.yTerm
    rw [if_neg (by omega), if_pos hc, if_neg (by decide), c0, c1, c2, f0, f1, f2]
    exact upwindThreePointForward_quadratic cs c a b q x0 x1 x2 h01 h02 h12

/-- C15, on the sample mesh (x = 0, -7/8, -3/2 at the offsets 0, -1, -2) and the
field `p(x) = 1 + 2 x + 3 x^2` along x, with `CS = 1/3` and `cx = 1`: the
three-point x-term is `CS*cx*p'(0) = 2/3`. -/
theorem three_point_exact_on_quadratics_witness :
    KerCutCellCVTUpwind2nd.xTerm (Real.fin (1 / 3)) 1 false sampleCoord
        (fun dx _ => Real.fin (1 + 2 * sampleX dx + 3 * sampleX dx ^ 2)) =
      Real.fin (2 / 3) := by
  rw [(three_point_exact_on_quadratics (1 / 3) 1 2 3 (sampleX 0) (sampleX (-1)) (sampleX (-2)) 1
    sampleCoord (fun dx _ => Real.fin (1 + 2 * sampleX dx + 3 * sampleX dx ^ 2))
    (by norm_num [sampleX]) (by norm_num [sampleX]) (by norm_num [sampleX])).1
    (by decide) rfl rfl rfl rfl rfl rfl]
  norm_num [sampleX]

/-- C16 (first-order exactness): for distinct coordinates `x0`, `x1` of the node
and its upwind neighbour and a linear field `f = a + b*x` (along y: `a + b*y`),
the two-point term of `KerCutCellCVTUpwind1st` and of the reduced-order branch of
`KerCutCellCVTUpwind2nd` is `CS*c*b`, for a positive velocity component
(backward difference) and for a negative one (forward difference), on a
non-uniform mesh. -/
theorem two_point_exact_on_linear (cs a b x0 x1 : ℚ) (c : Int)
    (coordinateXYZ : Nat → Int → Int → Real) (f : Int → Int → Real) (h01 : x0 ≠ x1) :
    upwindTwoPointBackward (Real.fin cs) (Real.fin c) (Real.fin (a + b * x0))
        (Real.fin (a + b * x1)) (Real.fin x0) (Real.fin x1) = Real.fin (cs * c * b) ∧
    upwindTwoPointForward (Real.fin cs) (Real.fin c) (Real.fin (a + b * x1))
        (Real.fin (a + b * x0)) (Real.fin x1) (Real.fin x0) = Real.fin (cs * c * b) ∧
    (c > 0 → coordinateXYZ 0 0 0 = Real.fin x0 → coordinateXYZ 0 (-1) 0 = Real.fin x1 →
      f 0 0 = Real.fin (a + b * x0) → f (-1) 0 = Real.fin (a + b * x1) →
      KerCutCellCVTUpwind2nd.xTerm (Real.fin cs) c true coordinateXYZ f =
        Real.fin (cs * c * b)) ∧
    (c < 0 → coordinateXYZ 0 0 0 = Real.fin x0 → coordinateXYZ 0 1 0 = Real.fin x1 →
      f 0 0 = Real.fin (a + b * x0) → f 1 0 = Real.fin (a + b * x1) →
      KerCutCellCVTUpwind2nd.xTerm (Real.fin cs) c true coordinateXYZ f =
        Real.fin (cs * c * b)) ∧
    (c > 0 → coordinateXYZ 1 0 0 = Real.fin x0 → coordinateXYZ 1 0 (-1) = Real.fin x1 →
      f 0 0 = Real.fin (a + b * x0) → f 0 (-1) = Real.fin (a + b * x1) →
      KerCutCellCVTUpwind2nd.yTerm (Real.fin cs) c true coordinateXYZ f =
        Real.fin (cs * c * b)) ∧
    (c < 0 → coordinateXYZ 1 0 0 = Real.fin x0 → coordinateXYZ 1 0 1 = Real.fin x1 →
      f 0 0 = Real.fin (a + b * x0) → f 0 1 = Real.fin (a + b * x1) →
      KerCutCellCVTUpwind2nd.yTerm (Real.fin cs) c true coordinateXYZ f =
        Real.fin (cs * c * b)) := by
  refine ⟨upwindTwoPointBackward_linear cs c a b x0 x1 h01,
    upwindTwoPointForward_linear cs c a b x0 x1 h01, ?_, ?_, ?_, ?_⟩
  · intro hc c0 c1 f0 f1
    unfold KerCutCellCVTUpwind2nd.xTerm
    rw [if_pos hc, if_pos rfl, c0, c1, f0, f1]
    exact upwindTwoPointBackward_linear cs c a b x0 x1 h01
  · intro hc c0 c1 f0 f1
    unfold KerCutCellCVTUpwind2nd.xTerm
    rw [if_neg (by omega), if_pos hc, if_pos rfl, c0, c1, f0, f1]
    exact upwindTwoPointForward_linear cs c a b x0 x1 h01
  · intro hc c0 c1 f0 f1
    unfold KerCutCellCVTUpwind2nd.yTerm
    rw [if_pos hc, if_pos rfl, c0, c1, f0, f1]
    exact upwindTwoPointBackward_linear cs c a b x0 x1 h01
  · intro hc c0 c1 f0 f1
    unfold KerCutCellCVTUpwind2nd.yTerm
    rw [if_neg (by omega), if_pos hc, if_pos rfl, c0, c1, f0, f1]
    exact upwindTwoPointForward_linear cs c a b x0 x1 h01

/-- C16, on the sample mesh (y = 0, 9/4 at the offsets 0, +1) and the field
`1 + 5 y` along y, with `CS = 1/3` and `cy = -1`: the forward two-point y-term is
`CS*cy*b = -5/3`. -/
theorem two_point_exact_on_linear_witness :
    KerCutCellCVTUpwind2nd.yTerm (Real.fin (1 / 3)) (-1) true sampleCoord
        (fun _ dy => Real.fin (1 + 5 * sampleY dy)) = Real.fin (-5 / 3) := by
  rw [(two_point_exact_on_linear (1 / 3) 1 5 (sampleY 0) (sampleY 1) (-1) sampleCoord
    (fun _ dy => Real.fin (1 + 5 * sampleY dy)) (by norm_num [sampleY])).2.2.2.2.2
    (by decide) rfl rfl rfl rfl]
  norm_num

/-! ## Order reduction: theorems -/

/-- The flags at a fluid node. -/
theorem KerCutCellCVTUpwind2nd.flags_fluid (E : VertexTypes) (nodeType : Int → Int → Int)
    (geometry : Int → Int → VertexGeometryTypes) (cx cy : Int)
    (hf1 : nodeType 0 0 ≥ E.Vertex_Fluid) (hf2 : nodeType 0 0 < E.Vertex_Boundary)
    (hs : nodeType 0 0 ≠ E.Vertex_ImmersedSolid) :
    (KerCutCellCVTUpwind2nd.flags E nodeType geometry cx cy).needCalc = true ∧
    (KerCutCellCVTUpwind2nd.flags E nodeType geometry cx cy).reduceOrderX =
      decide ((cx > 0 ∧ (nodeType (-1) 0 ≥ E.Vertex_Boundary ∧ geometry (-1) 0 = .VG_IP)) ∨
        (cx < 0 ∧ (nodeType 1 0 ≥ E.Vertex_Boundary ∧ geometry 1 0 = .VG_IM))) ∧
    (KerCutCellCVTUpwind2nd.flags E nodeType geometry cx cy).reduceOrderY =
      decide ((cy > 0 ∧ (nodeType 0 (-1) ≥ E.Vertex_Boundary ∧ geometry 0 (-1) = .VG_JP)) ∨
        (cy < 0 ∧ (nodeType 0 1 ≥ E.Vertex_Boundary ∧ geometry 0 1 = .VG_JM))) := by
  have hfl : KerCutCellCVTUpwind2nd.flags E nodeType geometry cx cy =
      KerCutCellCVTUpwind2nd.flagsFluid E nodeType geometry cx cy
        { needCalc := true, reduceOrderX := false, reduceOrderY := false } := by
    have hfl : nodeType 0 0 ≥ E.Vertex_Fluid ∧ nodeType 0 0 < E.Vertex_Boundary := ⟨hf1, hf2⟩
    have hnb : ¬ nodeType 0 0 ≥ E.Vertex_Boundary := by omega
    unfold KerCutCellCVTUpwind2nd.flags
    dsimp only
    rw [if_neg hnb, if_pos hfl, if_neg hs]
  rw [hfl, KerCutCellCVTUpwind2nd.flagsFluid_needCalc,
    KerCutCellCVTUpwind2nd.flagsFluid_reduceOrderX,
    KerCutCellCVTUpwind2nd.flagsFluid_reduceOrderY]
  refine ⟨rfl, ?_, ?_⟩ <;> simp only [Bool.false_or, Bool.decide_or]

/-- C17: at a fluid node (`Vertex_Fluid <= vt < Vertex_Boundary`),
`KerCutCellCVTUpwind2nd` writes the sum of an x-contribution and a
y-contribution.  For `cx > 0` the x-contribution is the two-point formula
`CS*cx*(f(0) - f(-1))/(x(0) - x(-1))` when the upwind neighbour at offset (-1,0)
is a boundary node tagged `VG_IP`, and the three-point formula over the offsets
0, -1, -2 otherwise; likewise for `cx < 0` with the neighbour (+1,0) tagged
`VG_IM`, for `cy > 0` with (0,-1) tagged `VG_JP` and for `cy < 0` with (0,+1)
tagged `VG_JM`. -/
theorem fluid_node_order_reduction (L : Lattice) (E : VertexTypes) (CS : Real)
    (coordinateXYZ : Nat → Int → Int → Real) (nodeType : Int → Int → Int)
    (geometry : Int → Int → VertexGeometryTypes)
    (f : Nat → Int → Int → Real) (fGradient : Nat → Real) (c d : Nat)
    (hL : L.Disjoint) (hc : c < L.NUMCOMPONENTS) (hd : L.inCompo c d)
    (hf1 : nodeType 0 0 ≥ E.Vertex_Fluid) (hf2 : nodeType 0 0 < E.Vertex_Boundary)
    (hs : nodeType 0 0 ≠ E.Vertex_ImmersedSolid) :
    KerCutCellCVTUpwind2nd L E CS coordinateXYZ nodeType geometry f fGradient d =
      (if L.XI (d * L.LATTDIM) > 0 then
        (if nodeType (-1) 0 ≥ E.Vertex_Boundary ∧ geometry (-1) 0 = .VG_IP then
          upwindTwoPointBackward CS (Real.fin (L.XI (d * L.LATTDIM))) (f d 0 0) (f d (-1) 0)
            (coordinateXYZ 0 0 0) (coordinateXYZ 0 (-1) 0)
        else
          upwindThreePointBackward CS (Real.fin (L.XI (d * L.LATTDIM))) (f d (-2) 0)
            (f d (-1) 0) (f d 0 0) (coordinateXYZ 0 (-2) 0) (coordinateXYZ 0 (-1) 0)
            (coordinateXYZ 0 0 0))
      else if L.XI (d * L.LATTDIM) < 0 then
        (if nodeType 1 0 ≥ E.Vertex_Boundary ∧ geometry 1 0 = .VG_IM then
          upwindTwoPointForward CS (Real.fin (L.XI (d * L.LATTDIM))) (f d 1 0) (f d 0 0)
            (coordinateXYZ 0 1 0) (coordinateXYZ 0 0 0)
        else
          upwindThreePointForward CS (Real.fin (L.XI (d * L.LATTDIM))) (f d 0 0) (f d 1 0)
            (f d 2 0) (coordinateXYZ 0 0 0) (coordinateXYZ 0 1 0) (coordinateXYZ 0 2 0))
      else Real.fin 0) +
      (if L.XI (d * L.LATTDIM + 1) > 0 then
        (if nodeType 0 (-1) ≥ E.Vertex_Boundary ∧ geometry 0 (-1) = .VG_JP then
          upwindTwoPointBackward CS (Real.fin (L.XI (d * L.LATTDIM + 1))) (f d 0 0)
            (f d 0 (-1)) (coordinateXYZ 1 0 0) (coordinateXYZ 1 0 (-1))
        else
          upwindThreePointBackward CS (Real.fin (L.XI (d * L.LATTDIM + 1))) (f d 0 (-2))
            (f d 0 (-1)) (f d 0 0) (coordinateXYZ 1 0 (-2)) (coordinateXYZ 1 0 (-1))
            (coordinateXYZ 1 0 0))
      else if L.XI (d * L.LATTDIM + 1) < 0 then
        (if nodeType 0 1 ≥ E.Vertex_Boundary ∧ geometry 0 1 = .VG_JM then
          upwindTwoPointForward CS (Real.fin (L.XI (d * L.LATTDIM + 1))) (f d 0 1) (f d 0 0)
            (coordinateXYZ 1 0 1) (coordinateXYZ 1 0 0)
        else
          upwindThreePointForward CS (Real.fin (L.XI (d * L.LATTDIM + 1))) (f d 0 0)
            (f d 0 1) (f d 0 2) (coordinateXYZ 1 0 0) (coordinateXYZ 1 0 1)
            (coordinateXYZ 1 0 2))
      else Real.fin 0) := by
  obtain ⟨h1, h2, h3⟩ := KerCutCellCVTUpwind2nd.flags_fluid E nodeType geometry
    (L.XI (d * L.LATTDIM)) (L.XI (d * L.LATTDIM + 1)) hf1 hf2 hs
  rw [KerCutCellCVTUpwind2nd_at L E CS coordinateXYZ nodeType geometry f fGradient c d hL hc hd,
    if_pos h1, h2, h3]
  unfold KerCutCellCVTUpwind2nd.xTerm KerCutCellCVTUpwind2nd.yTerm
  congr 1
  · rcases lt_trichotomy (L.XI (d * L.LATTDIM)) 0 with hx | hx | hx
    · have hx' : ¬ L.XI (d * L.LATTDIM) > 0 := by omega
      simp only [hx', hx, if_true, if_false, false_and, true_and, false_or, decide_eq_true_eq]
    · simp [hx]
    · have hx' : ¬ L.XI (d * L.LATTDIM) < 0 := by omega
      simp only [hx', hx, if_true, if_false, false_and, true_and, or_false, decide_eq_true_eq]
  · rcases lt_trichotomy (L.XI (d * L.LATTDIM + 1)) 0 with hy | hy | hy
    · have hy' : ¬ L.XI (d * L.LATTDIM + 1) > 0 := by omega
      simp only [hy', hy, if_true, if_false, false_and, true_and, false_or, decide_eq_true_eq]
    · simp [hy]
    · have hy' : ¬ L.XI (d * L.LATTDIM + 1) < 0 := by omega
      simp only [hy', hy, if_true, if_false, false_and, true_and, or_false, decide_eq_true_eq]

/-- C17, at direction 1 (velocity (1,0)) of a fluid node on the sample mesh with
`CS = 1/3`: one cell from the wall (neighbour (-1,0) a boundary node tagged
`VG_IP`) the value is the two-point one, `(1/3)*(2 - 163/64)/(7/8) = -5/24`; with
fluid neighbours without tags it is the three-point one, which is exact on the
quadratic sample field: `(1/3)*2 = 2/3`. -/
theorem fluid_node_order_reduction_witness :
    KerCutCellCVTUpwind2nd twoD2Q9 sampleTypes (Real.fin (1 / 3)) sampleCoord nearWallTypes
        nearWallTags sampleField sampleF 1 = Real.fin (-5 / 24) ∧
    KerCutCellCVTUpwind2nd twoD2Q9 sampleTypes (Real.fin (1 / 3)) sampleCoord (fun _ _ => 10)
        noTags sampleField sampleF 1 = Real.fin (2 / 3) := by
  constructor
  · rw [fluid_node_order_reduction twoD2Q9 sampleTypes (Real.fin (1 / 3)) sampleCoord
      nearWallTypes nearWallTags sampleField sampleF 0 1 twoD2Q9_disjoint (by decide)
      (by decide) (by decide) (by decide) (by decide)]
    rw [if_pos (by decide), if_pos (by decide), if_neg (by decide), if_neg (by decide)]
    simp only [upwindTwoPointBackward, sampleField, sampleCoord, sampleX, sampleY, if_true]
    norm_num [Real.fin_div_fin, twoD2Q9, d2q9XI]
  · rw [fluid_node_order_reduction twoD2Q9 sampleTypes (Real.fin (1 / 3)) sampleCoord
      (fun _ _ => 10) noTags sampleField sampleF 0 1 twoD2Q9_disjoint (by decide)
      (by decide) (by decide) (by decide) (by decide)]
    rw [if_pos (by decide), if_neg (by decide), if_neg (by decide), if_neg (by decide)]
    simp only [upwindThreePointBackward, sampleField, sampleCoord, sampleX, sampleY, if_true]
    norm_num [Real.fin_div_fin, twoD2Q9, d2q9XI]

/-- C18 fails as stated: a fluid node whose neighbour at offset (-1,0) is fluid
and whose second neighbour at (-2,0) is an immersed solid, direction 1 (velocity
(1,0)).  The gradient is calculated, the order along x is not reduced, and the
three-point stencil reads `f` of the immersed-solid node: the value written is
2/3 with the sample field and -101/90 when `f` at offset (-2,0) alone is set to
zero. -/
theorem solid_two_cells_upwind_counterexample :
    thinGapTypes (-2) 0 = sampleTypes.Vertex_ImmersedSolid ∧
    (KerCutCellCVTUpwind2nd.flags sampleTypes thinGapTypes noTags 1 0).needCalc = true ∧
    (KerCutCellCVTUpwind2nd.flags sampleTypes thinGapTypes noTags 1 0).reduceOrderX = false ∧
    KerCutCellCVTUpwind2nd twoD2Q9 sampleTypes (Real.fin (1 / 3)) sampleCoord thinGapTypes
        noTags sampleField sampleF 1 = Real.fin (2 / 3) ∧
    KerCutCellCVTUpwind2nd twoD2Q9 sampleTypes (Real.fin (1 / 3)) sampleCoord thinGapTypes
        noTags (fun i dx dy => if dx = -2 ∧ dy = 0 then Real.fin 0 else sampleField i dx dy)
        sampleF 1 = Real.fin (-101 / 90) := by
  refine ⟨rfl, by decide, by decide, ?_, ?_⟩
  · rw [KerCutCellCVTUpwind2nd_at twoD2Q9 sampleTypes (Real.fin (1 / 3)) sampleCoord
      thinGapTypes noTags sampleField sampleF 0 1 twoD2Q9_disjoint (by decide) (by decide),
      if_pos (by decide)]
    have hx : twoD2Q9.XI (1 * twoD2Q9.LATTDIM) = 1 := by decide
    have hy : twoD2Q9.XI (1 * twoD2Q9.LATTDIM + 1) = 0 := by decide
    have hr : (KerCutCellCVTUpwind2nd.flags sampleTypes thinGapTypes noTags 1 0).reduceOrderX =
        false := by decide
    rw [hx, hy, hr]
    simp only [KerCutCellCVTUpwind2nd.xTerm, KerCutCellCVTUpwind2nd.yTerm,
      upwindThreePointBackward, sampleField, sampleCoord, sampleX, sampleY]
    norm_num [Real.fin_div_fin]
  · rw [KerCutCellCVTUpwind2nd_at twoD2Q9 sampleTypes (Real.fin (1 / 3)) sampleCoord
      thinGapTypes noTags _ sampleF 0 1 twoD2Q9_disjoint (by decide) (by decide),
      if_pos (by decide)]
    have hx : twoD2Q9.XI (1 * twoD2Q9.LATTDIM) = 1 := by decide
    have hy : twoD2Q9.XI (1 * twoD2Q9.LATTDIM + 1) = 0 := by decide
    have hr : (KerCutCellCVTUpwind2nd.flags sampleTypes thinGapTypes noTags 1 0).reduceOrderX =
        false := by decide
    rw [hx, hy, hr]
    simp only [KerCutCellCVTUpwind2nd.xTerm, KerCutCellCVTUpwind2nd.yTerm,
      upwindThreePointBackward, sampleField, sampleCoord, sampleX, sampleY]
    norm_num [Real.fin_div_fin]

/-- The flags at a boundary node. -/
theorem KerCutCellCVTUpwind2nd.flags_boundary (E : VertexTypes) (nodeType : Int → Int → Int)
    (geometry : Int → Int → VertexGeometryTypes) (cx cy : Int)
    (hb : nodeType 0 0 ≥ E.Vertex_Boundary) :
    KerCutCellCVTUpwind2nd.flags E nodeType geometry cx cy =
      KerCutCellCVTUpwind2nd.flagsBoundary E nodeType geometry cx cy
        (if nodeType 0 0 = E.Vertex_ImmersedSolid then
          UpwindFlags.clearNeedCalc
            { needCalc := true, reduceOrderX := false, reduceOrderY := false }
        else { needCalc := true, reduceOrderX := false, reduceOrderY := false }) := by
  have hnf : ¬ (nodeType 0 0 ≥ E.Vertex_Fluid ∧ nodeType 0 0 < E.Vertex_Boundary) := by omega
  unfold KerCutCellCVTUpwind2nd.flags
  dsimp only
  rw [if_pos hb, if_neg hnf]

theorem VertexGeometryTypes.face_x_cases (vg : VertexGeometryTypes) (fc : Face)
    (h : vg.faces = [fc]) (hax : fc.axis = Axis.I) :
    (vg = .VG_IP ∧ fc = ⟨.I, true⟩) ∨ (vg = .VG_IM ∧ fc = ⟨.I, false⟩) := by
  cases vg <;> simp [VertexGeometryTypes.faces] at h <;> subst h <;> simp at hax ⊢

theorem VertexGeometryTypes.face_y_cases (vg : VertexGeometryTypes) (fc : Face)
    (h : vg.faces = [fc]) (hax : fc.axis = Axis.J) :
    (vg = .VG_JP ∧ fc = ⟨.J, true⟩) ∨ (vg = .VG_JM ∧ fc = ⟨.J, false⟩) := by
  cases vg <;> simp [VertexGeometryTypes.faces] at h <;> subst h <;> simp at hax ⊢

theorem VertexGeometryTypes.outer_corner_cases (t : VertexGeometryTypes) (fc : Face)
    (hk : t.kind = .outerEdge) (h2 : t.is2D = true) (hmem : fc ∈ t.faces) :
    (fc = ⟨.I, true⟩ → t = .VG_IPJM_O ∨ t = .VG_IPJP_O) ∧
    (fc = ⟨.I, false⟩ → t = .VG_IMJM_O ∨ t = .VG_IMJP_O) ∧
    (fc = ⟨.J, true⟩ → t = .VG_IMJP_O ∨ t = .VG_IPJP_O) ∧
    (fc = ⟨.J, false⟩ → t = .VG_IMJM_O ∨ t = .VG_IPJM_O) := by
  cases t <;>
    simp [VertexGeometryTypes.kind, VertexGeometryTypes.is2D, VertexGeometryTypes.faces]
      at hk h2 hmem ⊢ <;>
    rcases hmem with rfl | rfl <;> simp

/-- At a node on a face normal to x, the order along y is reduced when the
y-upwind neighbour is an outer corner of that face and the node two cells upwind
is an immersed solid. -/
theorem KerCutCellCVTUpwind2nd.flags_face_x_solid (E : VertexTypes)
    (nodeType : Int → Int → Int) (geometry : Int → Int → VertexGeometryTypes) (cx cy : Int)
    (fc : Face) (hb : nodeType 0 0 ≥ E.Vertex_Boundary)
    (hcalc : (KerCutCellCVTUpwind2nd.flags E nodeType geometry cx cy).needCalc = true)
    (hfc : (geometry 0 0).faces = [fc]) (hax : fc.axis = Axis.I) (up : Int)
    (hup : (cy > 0 ∧ up = -1) ∨ (cy < 0 ∧ up = 1))
    (hk : (geometry 0 up).kind = .outerEdge) (h2 : (geometry 0 up).is2D = true)
    (hmem : fc ∈ (geometry 0 up).faces)
    (hsolid : nodeType 0 (2 * up) = E.Vertex_ImmersedSolid) :
    (KerCutCellCVTUpwind2nd.flags E nodeType geometry cx cy).reduceOrderY = true := by
  have hoc := VertexGeometryTypes.outer_corner_cases (geometry 0 up) fc hk h2 hmem
  rw [KerCutCellCVTUpwind2nd.flags_boundary E nodeType geometry cx cy hb] at hcalc ⊢
  rcases VertexGeometryTypes.face_x_cases (geometry 0 0) fc hfc hax with ⟨hg, hf⟩ | ⟨hg, hf⟩
  · rw [KerCutCellCVTUpwind2nd.flagsBoundary_VG_IP E nodeType geometry cx cy _ hg] at hcalc ⊢
    have ht := hoc.1 hf
    by_cases hcx : cx > 0
    · rw [if_pos hcx] at hcalc
      simp at hcalc
    · rw [if_neg hcx]
      rcases hup with ⟨hcy, rfl⟩ | ⟨hcy, rfl⟩
      · have hs : nodeType 0 (-2) = E.Vertex_ImmersedSolid := hsolid
        rcases ht with h | h <;> simp [hcy, h, hs]
      · have hs : nodeType 0 2 = E.Vertex_ImmersedSolid := hsolid
        rcases ht with h | h <;> simp [hcy, h, hs]
  · rw [KerCutCellCVTUpwind2nd.flagsBoundary_VG_IM E nodeType geometry cx cy _ hg] at hcalc ⊢
    have ht := hoc.2.1 hf
    by_cases hcx : cx < 0
    · rw [if_pos hcx] at hcalc
      simp at hcalc
    · rw [if_neg hcx]
      rcases hup with ⟨hcy, rfl⟩ | ⟨hcy, rfl⟩
      · have hs : nodeType 0 (-2) = E.Vertex_ImmersedSolid := hsolid
        rcases ht with h | h <;> simp [hcy, h, hs]
      · have hs : nodeType 0 2 = E.Vertex_ImmersedSolid := hsolid
        rcases ht with h | h <;> simp [hcy, h, hs]

/-- At a node on a face normal to y, the order along x is reduced when the
x-upwind neighbour is an outer corner of that face and the node two cells upwind
is an immersed solid. -/
theorem KerCutCellCVTUpwind2nd.flags_face_y_solid (E : VertexTypes)
    (nodeType : Int → Int → Int) (geometry : Int → Int → VertexGeometryTypes) (cx cy : Int)
    (fc : Face) (hb : nodeType 0 0 ≥ E.Vertex_Boundary)
    (hcalc : (KerCutCellCVTUpwind2nd.flags E nodeType geometry cx cy).needCalc = true)
    (hfc : (geometry 0 0).faces = [fc]) (hax : fc.axis = Axis.J) (up : Int)
    (hup : (cx > 0 ∧ up = -1) ∨ (cx < 0 ∧ up = 1))
    (hk : (geometry up 0).kind = .outerEdge) (h2 : (geometry up 0).is2D = true)
    (hmem : fc ∈ (geometry up 0).faces)
    (hsolid : nodeType (2 * up) 0 = E.Vertex_ImmersedSolid) :
    (KerCutCellCVTUpwind2nd.flags E nodeType geometry cx cy).reduceOrderX = true := by
  have hoc := VertexGeometryTypes.outer_corner_cases (geometry up 0) fc hk h2 hmem
  rw [KerCutCellCVTUpwind2nd.flags_boundary E nodeType geometry cx cy hb] at hcalc ⊢
  rcases VertexGeometryTypes.face_y_cases (geometry 0 0) fc hfc hax with ⟨hg, hf⟩ | ⟨hg, hf⟩
  · rw [KerCutCellCVTUpwind2nd.flagsBoundary_VG_JP E nodeType geometry cx cy _ hg] at hcalc ⊢
    have ht := hoc.2.2.1 hf
    by_cases hcy : cy > 0
    · rw [if_pos hcy] at hcalc
      simp at hcalc
    · rw [if_neg hcy]
      rcases hup with ⟨hcx, rfl⟩ | ⟨hcx, rfl⟩
      · have hs : nodeType (-2) 0 = E.Vertex_ImmersedSolid := hsolid
        rcases ht with h | h <;> simp [hcx, h, hs]
      · have hs : nodeType 2 0 = E.Vertex_ImmersedSolid := hsolid
        rcases ht with h | h <;> simp [hcx, h, hs]
  · rw [KerCutCellCVTUpwind2nd.flagsBoundary_VG_JM E nodeType geometry cx cy _ hg] at hcalc ⊢
    have ht := hoc.2.2.2 hf
    by_cases hcy : cy < 0
    · rw [if_pos hcy] at hcalc
      simp at hcalc
    · rw [if_neg hcy]
      rcases hup with ⟨hcx, rfl⟩ | ⟨hcx, rfl⟩
      · have hs : nodeType (-2) 0 = E.Vertex_ImmersedSolid := hsolid
        rcases ht with h | h <;> simp [hcx, h, hs]
      · have hs : nodeType 2 0 = E.Vertex_ImmersedSolid := hsolid
        rcases ht with h | h <;> simp [hcx, h, hs]

/-- C18, amended: in `KerCutCellCVTUpwind2nd`, at a boundary node tagged with a
face and for a direction for which the gradient is calculated, whenever the
one-cell upwind neighbour along the axis tangential to the face is tagged with
an outer corner of that face and the node two cells upwind along that axis is an
immersed solid, the contribution of that axis is the two-point term, which reads
`f` at the node and at its one-cell upwind neighbour only. -/
theorem face_node_solid_two_cells_upwind (L : Lattice) (E : VertexTypes) (CS : Real)
    (coordinateXYZ : Nat → Int → Int → Real) (nodeType : Int → Int → Int)
    (geometry : Int → Int → VertexGeometryTypes)
    (f : Nat → Int → Int → Real) (fGradient : Nat → Real) (c d : Nat) (fc : Face)
    (hL : L.Disjoint) (hc : c < L.NUMCOMPONENTS) (hd : L.inCompo c d)
    (hb : nodeType 0 0 ≥ E.Vertex_Boundary)
    (hcalc : (KerCutCellCVTUpwind2nd.flags E nodeType geometry (L.XI (d * L.LATTDIM))
      (L.XI (d * L.LATTDIM + 1))).needCalc = true)
    (hfc : (geometry 0 0).faces = [fc]) :
    (fc.axis = Axis.I → ∀ up : Int,
      ((L.XI (d * L.LATTDIM + 1) > 0 ∧ up = -1) ∨ (L.XI (d * L.LATTDIM + 1) < 0 ∧ up = 1)) →
      (geometry 0 up).kind = .outerEdge → (geometry 0 up).is2D = true →
      fc ∈ (geometry 0 up).faces → nodeType 0 (2 * up) = E.Vertex_ImmersedSolid →
      KerCutCellCVTUpwind2nd L E CS coordinateXYZ nodeType geometry f fGradient d =
        KerCutCellCVTUpwind2nd.xTerm CS (L.XI (d * L.LATTDIM))
            (KerCutCellCVTUpwind2nd.flags E nodeType geometry (L.XI (d * L.LATTDIM))
              (L.XI (d * L.LATTDIM + 1))).reduceOrderX coordinateXYZ (f d) +
          (if L.XI (d * L.LATTDIM + 1) > 0 then
            upwindTwoPointBackward CS (Real.fin (L.XI (d * L.LATTDIM + 1))) (f d 0 0)
              (f d 0 (-1)) (coordinateXYZ 1 0 0) (coordinateXYZ 1 0 (-1))
          else
            upwindTwoPointForward CS (Real.fin (L.XI (d * L.LATTDIM + 1))) (f d 0 1)
              (f d 0 0) (coordinateXYZ 1 0 1) (coordinateXYZ 1 0 0))) ∧
    (fc.axis = Axis.J → ∀ up : Int,
      ((L.XI (d * L.LATTDIM) > 0 ∧ up = -1) ∨ (L.XI (d * L.LATTDIM) < 0 ∧ up = 1)) →
      (geometry up 0).kind = .outerEdge → (geometry up 0).is2D = true →
      fc ∈ (geometry up 0).faces → nodeType (2 * up) 0 = E.Vertex_ImmersedSolid →
      KerCutCellCVTUpwind2nd L E CS coordinateXYZ nodeType geometry f fGradient d =
        (if L.XI (d * L.LATTDIM) > 0 then
            upwindTwoPointBackward CS (Real.fin (L.XI (d * L.LATTDIM))) (f d 0 0)
              (f d (-1) 0) (coordinateXYZ 0 0 0) (coordinateXYZ 0 (-1) 0)
          else
            upwindTwoPointForward CS (Real.fin (L.XI (d * L.LATTDIM))) (f d 1 0)
              (f d 0 0) (coordinateXYZ 0 1 0) (coordinateXYZ 0 0 0)) +
          KerCutCellCVTUpwind2nd.yTerm CS (L.XI (d * L.LATTDIM + 1))
            (KerCutCellCVTUpwind2nd.flags E nodeType geometry (L.XI (d * L.LATTDIM))
              (L.XI (d * L.LATTDIM + 1))).reduceOrderY coordinateXYZ (f d)) := by
  constructor
  · intro hax up hup hk h2 hmem hsolid
    have hr := KerCutCellCVTUpwind2nd.flags_face_x_solid E nodeType geometry _ _ fc hb hcalc hfc
      hax up hup hk h2 hmem hsolid
    rw [KerCutCellCVTUpwind2nd_at L E CS coordinateXYZ nodeType geometry f fGradient c d hL hc
      hd, if_pos hcalc, hr]
    congr 1
    unfold KerCutCellCVTUpwind2nd.yTerm
    rcases hup with ⟨hcy, _⟩ | ⟨hcy, _⟩
    · simp [hcy]
    · have hcy' : ¬ L.XI (d * L.LATTDIM + 1) > 0 := by omega
      simp [hcy, hcy']
  · intro hax up hup hk h2 hmem hsolid
    have hr := KerCutCellCVTUpwind2nd.flags_face_y_solid E nodeType geometry _ _ fc hb hcalc hfc
      hax up hup hk h2 hmem hsolid
    rw [KerCutCellCVTUpwind2nd_at L E CS coordinateXYZ nodeType geometry f fGradient c d hL hc
      hd, if_pos hcalc, hr]
    congr 1
    unfold KerCutCellCVTUpwind2nd.xTerm
    rcases hup with ⟨hcx, _⟩ | ⟨hcx, _⟩
    · simp [hcx]
    · have hcx' : ¬ L.XI (d * L.LATTDIM) > 0 := by omega
      simp [hcx, hcx']

/-- C18 amended, at a boundary node on the face `VG_IP` whose neighbour at offset
(0,-1) is the outer corner `VG_IPJP_O` and whose second neighbour at (0,-2) is an
immersed solid, direction 2 (velocity (0,1)) with `CS = 1/3`: the value written
is the two-point one, `(1/3)*(f(0,0) - f(0,-1))/(y(0) - y(-1)) = -2/3`. -/
theorem face_node_solid_two_cells_upwind_witness :
    KerCutCellCVTUpwind2nd twoD2Q9 sampleTypes (Real.fin (1 / 3)) sampleCoord faceColumnTypes
        faceColumnTags sampleField sampleF 2 = Real.fin (-2 / 3) := by
  rw [(face_node_solid_two_cells_upwind twoD2Q9 sampleTypes (Real.fin (1 / 3)) sampleCoord
    faceColumnTypes faceColumnTags sampleField sampleF 0 2 ⟨.I, true⟩ twoD2Q9_disjoint
    (by decide) (by decide) (by decide) (by decide) (by decide)).1 rfl (-1) (by decide)
    (by decide) (by decide) (by decide) (by decide)]
  have hx : twoD2Q9.XI (2 * twoD2Q9.LATTDIM) = 0 := by decide
  have hy : twoD2Q9.XI (2 * twoD2Q9.LATTDIM + 1) = 1 := by decide
  rw [hx, hy]
  simp only [KerCutCellCVTUpwind2nd.xTerm, upwindTwoPointBackward, sampleField, sampleCoord,
    sampleX, sampleY]
  norm_num [Real.fin_div_fin, Real.zero_add']

/-- C19 (per-axis independence of the order reduction): for a direction for
which the gradient is calculated, `KerCutCellCVTUpwind2nd` writes
`fGradient[d] = X + Y`, where the x-term `X` (zero when `cx = 0`) is the
two-point or the three-point x-formula according to `reduceOrderX` alone and
the y-term `Y` the two-point or three-point y-formula according to
`reduceOrderY` alone (a direction that is not calculated gets 0).  At a fluid
node `reduceOrderX` depends only on `cx` and on the type and tag of the x-upwind
neighbour, and `reduceOrderY` only on `cy` and on those of the y-upwind
neighbour. -/
theorem per_axis_order_reduction (L : Lattice) (E : VertexTypes) (CS : Real)
    (coordinateXYZ : Nat → Int → Int → Real) (f : Nat → Int → Int → Real)
    (fGradient : Nat → Real) (c d : Nat)
    (hL : L.Disjoint) (hc : c < L.NUMCOMPONENTS) (hd : L.inCompo c d) :
    (∀ (nodeType : Int → Int → Int) (geometry : Int → Int → VertexGeometryTypes),
      KerCutCellCVTUpwind2nd L E CS coordinateXYZ nodeType geometry f fGradient d =
        if (KerCutCellCVTUpwind2nd.flags E nodeType geometry (L.XI (d * L.LATTDIM))
            (L.XI (d * L.LATTDIM + 1))).needCalc = true then
          KerCutCellCVTUpwind2nd.xTerm CS (L.XI (d * L.LATTDIM))
              (KerCutCellCVTUpwind2nd.flags E nodeType geometry (L.XI (d * L.LATTDIM))
                (L.XI (d * L.LATTDIM + 1))).reduceOrderX coordinateXYZ (f d) +
            KerCutCellCVTUpwind2nd.yTerm CS (L.XI (d * L.LATTDIM + 1))
              (KerCutCellCVTUpwind2nd.flags E nodeType geometry (L.XI (d * L.LATTDIM))
                (L.XI (d * L.LATTDIM + 1))).reduceOrderY coordinateXYZ (f d)
        else Real.fin 0) ∧
    (∀ (nodeType nodeType' : Int → Int → Int)
      (geometry geometry' : Int → Int → VertexGeometryTypes) (cx cy cy' : Int),
      (nodeType 0 0 ≥ E.Vertex_Fluid ∧ nodeType 0 0 < E.Vertex_Boundary ∧
        nodeType 0 0 ≠ E.Vertex_ImmersedSolid) →
      (nodeType' 0 0 ≥ E.Vertex_Fluid ∧ nodeType' 0 0 < E.Vertex_Boundary ∧
        nodeType' 0 0 ≠ E.Vertex_ImmersedSolid) →
      (cx > 0 → nodeType (-1) 0 = nodeType' (-1) 0 ∧ geometry (-1) 0 = geometry' (-1) 0) →
      (cx < 0 → nodeType 1 0 = nodeType' 1 0 ∧ geometry 1 0 = geometry' 1 0) →
      (KerCutCellCVTUpwind2nd.flags E nodeType geometry cx cy).reduceOrderX =
        (KerCutCellCVTUpwind2nd.flags E nodeType' geometry' cx cy').reduceOrderX) ∧
    (∀ (nodeType nodeType' : Int → Int → Int)
      (geometry geometry' : Int → Int → VertexGeometryTypes) (cx cx' cy : Int),
      (nodeType 0 0 ≥ E.Vertex_Fluid ∧ nodeType 0 0 < E.Vertex_Boundary ∧
        nodeType 0 0 ≠ E.Vertex_ImmersedSolid) →
      (nodeType' 0 0 ≥ E.Vertex_Fluid ∧ nodeType' 0 0 < E.Vertex_Boundary ∧
        nodeType' 0 0 ≠ E.Vertex_ImmersedSolid) →
      (cy > 0 → nodeType 0 (-1) = nodeType' 0 (-1) ∧ geometry 0 (-1) = geometry' 0 (-1)) →
      (cy < 0 → nodeType 0 1 = nodeType' 0 1 ∧ geometry 0 1 = geometry' 0 1) →
      (KerCutCellCVTUpwind2nd.flags E nodeType geometry cx cy).reduceOrderY =
        (KerCutCellCVTUpwind2nd.flags E nodeType' geometry' cx' cy).reduceOrderY) := by
  refine ⟨?_, ?_, ?_⟩
  · intro nodeType geometry
    exact KerCutCellCVTUpwind2nd_at L E CS coordinateXYZ nodeType geometry f fGradient c d hL hc
      hd
  · intro nodeType nodeType' geometry geometry' cx cy cy' h h' hp hm
    rw [(KerCutCellCVTUpwind2nd.flags_fluid E nodeType geometry cx cy h.1 h.2.1 h.2.2).2.1,
      (KerCutCellCVTUpwind2nd.flags_fluid E nodeType' geometry' cx cy' h'.1 h'.2.1 h'.2.2).2.1]
    rcases lt_trichotomy cx 0 with hx | hx | hx
    · have hx' : ¬ cx > 0 := by omega
      simp only [hx, hx', (hm hx).1, (hm hx).2, false_and, true_and, false_or]
    · simp [hx]
    · have hx' : ¬ cx < 0 := by omega
      simp only [hx, hx', (hp hx).1, (hp hx).2, false_and, true_and, or_false]
  · intro nodeType nodeType' geometry geometry' cx cx' cy h h' hp hm
    rw [(KerCutCellCVTUpwind2nd.flags_fluid E nodeType geometry cx cy h.1 h.2.1 h.2.2).2.2,
      (KerCutCellCVTUpwind2nd.flags_fluid E nodeType' geometry' cx' cy h'.1 h'.2.1 h'.2.2).2.2]
    rcases lt_trichotomy cy 0 with hy | hy | hy
    · have hy' : ¬ cy > 0 := by omega
      simp only [hy, hy', (hm hy).1, (hm hy).2, false_and, true_and, false_or]
    · simp [hy]
    · have hy' : ¬ cy < 0 := by omega
      simp only [hy, hy', (hp hy).1, (hp hy).2, false_and, true_and, or_false]

/-- C19, at direction 5 (velocity (1,1)) of a fluid node whose neighbour at
offset (-1,0) is a boundary node tagged `VG_IP`, on the sample mesh with
`CS = 1/3`: the order is reduced along x and not along y, and the value is the
two-point x-term plus the three-point y-term, `-5/24 + 5/3 = 35/24`. -/
theorem per_axis_order_reduction_witness :
    (KerCutCellCVTUpwind2nd.flags sampleTypes nearWallTypes nearWallTags 1 1).reduceOrderX =
      true ∧
    (KerCutCellCVTUpwind2nd.flags sampleTypes nearWallTypes nearWallTags 1 1).reduceOrderY =
      false ∧
    KerCutCellCVTUpwind2nd twoD2Q9 sampleTypes (Real.fin (1 / 3)) sampleCoord nearWallTypes
        nearWallTags sampleField sampleF 5 = Real.fin (35 / 24) := by
  refine ⟨by decide, by decide, ?_⟩
  rw [(per_axis_order_reduction twoD2Q9 sampleTypes (Real.fin (1 / 3)) sampleCoord sampleField
    sampleF 0 5 twoD2Q9_disjoint (by decide) (by decide)).1 nearWallTypes nearWallTags,
    if_pos (by decide)]
  have hx : twoD2Q9.XI (5 * twoD2Q9.LATTDIM) = 1 := by decide
  have hy : twoD2Q9.XI (5 * twoD2Q9.LATTDIM + 1) = 1 := by decide
  have hrx : (KerCutCellCVTUpwind2nd.flags sampleTypes nearWallTypes nearWallTags 1 1).reduceOrderX
      = true := by decide
  have hry : (KerCutCellCVTUpwind2nd.flags sampleTypes nearWallTypes nearWallTags 1 1).reduceOrderY
      = false := by decide
  rw [hx, hy, hrx, hry]
  simp only [KerCutCellCVTUpwind2nd.xTerm, KerCutCellCVTUpwind2nd.yTerm, upwindTwoPointBackward,
    upwindThreePointBackward, sampleField, sampleCoord, sampleX, sampleY]
  norm_num [Real.fin_div_fin]

/-! ## Residual monitor: theorems -/

theorem forRange_succ {σ : Type} (n : Nat) (body : Nat → σ → σ) (s : σ) :
    forRange (n + 1) body s = body n (forRange n body s) := by
  unfold forRange
  rw [List.range_succ, List.foldl_append]
  rfl

/-- A loop `for (i = 0; i < n; i++)` whose body at `i` rewrites entry `i` alone. -/
theorem forRange_store_at {α : Type} (n : Nat) (body : Nat → (Nat → α) → (Nat → α))
    (g : Nat → α → α) (hbody : ∀ i s, body i s = store s i (g i (s i)))
    (s : Nat → α) (d : Nat) :
    forRange n body s d = if d < n then g d (s d) else s d := by
  unfold forRange
  rw [List.range_eq_range', foldl_range'_store_at body g hbody]
  simp

theorem opsParLoopReduce_sum {ι : Type} (range : List ι) (kernel : ι → Real → Real)
    (t : ι → Real) (hk : ∀ n acc, kernel n acc = acc + t n) (handle : Real) :
    opsParLoopReduce range kernel handle =
      (range.map t).foldl (fun acc x => acc + x) handle := by
  unfold opsParLoopReduce
  rw [List.foldl_map]
  congr 1
  funext acc n
  exact hk n acc

/-- The reductions over the blocks add up the terms of all nodes of all blocks. -/
theorem forRange_reduce_blocks {ι : Type} (B : Nat) (rng : Nat → List ι)
    (kernel : Nat → ι → Real → Real) (t : Nat → ι → Real)
    (hk : ∀ b n acc, kernel b n acc = acc + t b n) (v : Nat) (handle : Nat → Real) :
    forRange B (fun b handle =>
        store handle v (opsParLoopReduce (rng b) (kernel b) (handle v))) handle =
      store handle v
        ((((List.range B).flatMap (fun b => (rng b).map (fun n => (b, n)))).map
          (fun p => t p.1 p.2)).foldl (fun acc x => acc + x) (handle v)) := by
  induction B with
  | zero => simp [forRange, store_self]
  | succ B ih =>
    rw [forRange_succ, ih, store_store, store_same, List.range_succ, List.flatMap_append,
      List.map_append, List.foldl_append, opsParLoopReduce_sum (rng B) (kernel B) (t B) (hk B)]
    simp only [List.flatMap_singleton, List.map_map]
    rfl

/-- The handles after the loops that accumulate one reduction per variable. -/
theorem forRange_reduce_vars {ι : Type} (M B : Nat) (rng : Nat → List ι)
    (kernel : Nat → Nat → ι → Real → Real) (t : Nat → Nat → ι → Real)
    (hk : ∀ v b n acc, kernel v b n acc = acc + t v b n) (handle : Nat → Real) (v : Nat) :
    forRange M (fun v handle => forRange B (fun b handle =>
        store handle v (opsParLoopReduce (rng b) (kernel v b) (handle v))) handle) handle v =
      if v < M then
        ((((List.range B).flatMap (fun b => (rng b).map (fun n => (b, n)))).map
          (fun p => t v p.1 p.2)).foldl (fun acc x => acc + x) (handle v))
      else handle v := by
  rw [forRange_store_at M _ (fun v old =>
    ((((List.range B).flatMap (fun b => (rng b).map (fun n => (b, n)))).map
      (fun p => t v p.1 p.2)).foldl (fun acc x => acc + x) old))]
  intro i s
  exact forRange_reduce_blocks B rng (kernel i) (t i) (hk i) i s

/-- The residuals and the handles after the loop of `ops_reduction_result`. -/
theorem opsReductionResult_fst (v k : Nat) (p : (Nat → Real) × (Nat → Real)) :
    (opsReductionResult v k p).1 = store p.1 k (p.2 v) := rfl

theorem opsReductionResult_snd (v k : Nat) (p : (Nat → Real) × (Nat → Real)) :
    (opsReductionResult v k p).2 = store p.2 v (Real.fin 0) := rfl

theorem forRange_reduction_result (M k : Nat) (resid handle : Nat → Real) :
    (∀ v, v < M →
      (forRange M (fun v p => opsReductionResult v (2 * v + k) p) (resid, handle)).1
        (2 * v + k) = handle v) ∧
    (∀ j, (∀ v, v < M → j ≠ 2 * v + k) →
      (forRange M (fun v p => opsReductionResult v (2 * v + k) p) (resid, handle)).1 j =
        resid j) ∧
    (∀ v, (forRange M (fun v p => opsReductionResult v (2 * v + k) p) (resid, handle)).2 v =
      if v < M then Real.fin 0 else handle v) := by
  induction M with
  | zero =>
    refine ⟨fun v hv => absurd hv (Nat.not_lt_zero v), fun j _ => rfl, fun v => ?_⟩
    simp [forRange]
  | succ M ih =>
    obtain ⟨h1, h2, h3⟩ := ih
    rw [forRange_succ]
    refine ⟨?_, ?_, ?_⟩
    · intro v hv
      by_cases hvM : v = M
      · subst hvM
        rw [opsReductionResult_fst, store_same]
        rw [h3 v, if_neg (Nat.lt_irrefl v)]
      · have hv' : v < M := by omega
        rw [opsReductionResult_fst, store_other _ _ _ _ (by omega), h1 v hv']
    · intro j hj
      rw [opsReductionResult_fst, store_other _ _ _ _ (hj M (Nat.lt_succ_self M)),
        h2 j (fun v hv => hj v (Nat.lt_succ_of_lt hv))]
    · intro v
      rw [opsReductionResult_snd]
      by_cases hvM : v = M
      · subst hvM
        rw [store_same, if_pos (Nat.lt_succ_self v)]
      · rw [store_other _ _ _ _ hvM, h3 v]
        by_cases hv : v < M
        · rw [if_pos hv, if_pos (Nat.lt_succ_of_lt hv)]
        · rw [if_neg hv, if_neg (by omega)]

theorem KerCopyMacroVars_at (N : Nat) (src dest : Nat → Real) (idx : Nat) (h : idx < N) :
    KerCopyMacroVars N src dest idx = src idx := by
  unfold KerCopyMacroVars
  rw [forRange_store_at N _ (fun i _ => src i) (fun i s => rfl), if_pos h]

/-- After a writing loop over a range, the array of a node of the range is one
that the kernel has produced there. -/
theorem opsParLoopWrite_at {ι : Type} [DecidableEq ι] (range : List ι)
    (kernel : ι → (Nat → Real) → (Nat → Real)) (target : Real) (n : ι) (idx : Nat)
    (hk : ∀ dest, kernel n dest idx = target) (dat : ι → Nat → Real)
    (h : n ∈ range ∨ dat n idx = target) :
    opsParLoopWrite range kernel dat n idx = target := by
  unfold opsParLoopWrite
  induction range generalizing dat with
  | nil =>
    rcases h with h | h
    · simp at h
    · exact h
  | cons a rest ih =>
    rw [List.foldl_cons]
    apply ih
    by_cases han : a = n
    · subst han
      right
      simp [hk]
    · rcases h with h | h
      · left
        rcases List.mem_cons.mp h with h | h
        · exact absurd h.symm han
        · exact h
      · right
        rw [Function.update_noteq (Ne.symm han)]
        exact h

/-- The residuals, the snapshot and the handles after `CalcResidualError`, when
the handles are reset on entry. -/
theorem CalcResidualError_result {ι : Type} [DecidableEq ι] (C : CaseSetup ι) (s : ResidualState ι)
    (hreset : ∀ v, v < C.MacroVarsNum → s.g_ResidualErrorHandle v = Real.fin 0) :
    (∀ v, v < C.MacroVarsNum →
      (CalcResidualError C s).g_ResidualError (2 * v) =
        Real.sum (C.allNodes.map (fun p =>
          (s.g_MacroVars p.1 p.2 v - s.g_MacroVarsCopy p.1 p.2 v) *
            (s.g_MacroVars p.1 p.2 v - s.g_MacroVarsCopy p.1 p.2 v))) ∧
      (CalcResidualError C s).g_ResidualError (2 * v + 1) =
        Real.sum (C.allNodes.map (fun p =>
          s.g_MacroVars p.1 p.2 v * s.g_MacroVars p.1 p.2 v)) ∧
      (CalcResidualError C s).g_ResidualErrorHandle v = Real.fin 0) ∧
    (∀ b n idx, b < C.BlockNum → n ∈ C.BlockIterRngWhole b → idx < C.NUMMACROVAR →
      (CalcResidualError C s).g_MacroVarsCopy b n idx = s.g_MacroVars b n idx) ∧
    (CalcResidualError C s).g_MacroVars = s.g_MacroVars := by
  refine ⟨?_, ?_, rfl⟩
  rotate_left
  · intro b n idx hb hn hidx
    show forRange C.BlockNum (fun blockIdx copy =>
      store copy blockIdx
        (opsParLoopWrite (C.BlockIterRngWhole blockIdx)
          (fun n dest => KerCopyMacroVars C.NUMMACROVAR (s.g_MacroVars blockIdx n) dest)
          (copy blockIdx))) s.g_MacroVarsCopy b n idx = _
    rw [forRange_store_at C.BlockNum _ (fun blockIdx old =>
      opsParLoopWrite (C.BlockIterRngWhole blockIdx)
        (fun n dest => KerCopyMacroVars C.NUMMACROVAR (s.g_MacroVars blockIdx n) dest) old)
      (fun i s => rfl), if_pos hb]
    exact opsParLoopWrite_at _ _ _ n idx
      (fun dest => KerCopyMacroVars_at C.NUMMACROVAR _ dest idx hidx) _ (Or.inl hn)
  intro v hv
  have r1 := forRange_reduction_result C.MacroVarsNum 0 s.g_ResidualError
    (forRange C.MacroVarsNum (fun macroVarIdx handle =>
      forRange C.BlockNum (fun blockIdx handle =>
        store handle macroVarIdx
          (opsParLoopReduce (C.BlockIterRngWhole blockIdx)
            (fun n sumSquareDiff =>
              KerCalcMacroVarSquareofDifference (s.g_MacroVars blockIdx n)
                (s.g_MacroVarsCopy blockIdx n) macroVarIdx sumSquareDiff)
            (handle macroVarIdx))) handle) s.g_ResidualErrorHandle)
  simp only [Nat.add_zero] at r1
  obtain ⟨r1a, r1b, r1c⟩ := r1
  have acc1 := forRange_reduce_vars C.MacroVarsNum C.BlockNum C.BlockIterRngWhole
    (fun v b n acc => KerCalcMacroVarSquareofDifference (s.g_MacroVars b n)
      (s.g_MacroVarsCopy b n) v acc)
    (fun v b n => (s.g_MacroVars b n v - s.g_MacroVarsCopy b n v) *
      (s.g_MacroVars b n v - s.g_MacroVarsCopy b n v))
    (fun v b n acc => rfl) s.g_ResidualErrorHandle v
  rw [if_pos hv, hreset v hv] at acc1
  generalize hp : forRange C.MacroVarsNum (fun macroVarIdx p =>
    opsReductionResult macroVarIdx (2 * macroVarIdx) p) (s.g_ResidualError,
      forRange C.MacroVarsNum (fun macroVarIdx handle =>
      forRange C.BlockNum (fun blockIdx handle =>
        store handle macroVarIdx
          (opsParLoopReduce (C.BlockIterRngWhole blockIdx)
            (fun n sumSquareDiff =>
              KerCalcMacroVarSquareofDifference (s.g_MacroVars blockIdx n)
                (s.g_MacroVarsCopy blockIdx n) macroVarIdx sumSquareDiff)
            (handle macroVarIdx))) handle) s.g_ResidualErrorHandle) = p at r1a r1b r1c
  have r2 := forRange_reduction_result C.MacroVarsNum 1 p.1
    (forRange C.MacroVarsNum (fun macroVarIdx handle =>
      forRange C.BlockNum (fun blockIdx handle =>
        store handle macroVarIdx
          (opsParLoopReduce (C.BlockIterRngWhole blockIdx)
            (fun n sumSquare =>
              KerCalcMacroVarSquare (s.g_MacroVars blockIdx n) macroVarIdx sumSquare)
            (handle macroVarIdx))) handle) p.2)
  obtain ⟨r2a, r2b, r2c⟩ := r2
  have acc2 := forRange_reduce_vars C.MacroVarsNum C.BlockNum C.BlockIterRngWhole
    (fun v b n acc => KerCalcMacroVarSquare (s.g_MacroVars b n) v acc)
    (fun v b n => s.g_MacroVars b n v * s.g_MacroVars b n v)
    (fun v b n acc => rfl) p.2 v
  rw [if_pos hv, r1c v, if_pos hv] at acc2
  have hres : (CalcResidualError C s).g_ResidualError =
      (forRange C.MacroVarsNum (fun macroVarIdx p =>
        opsReductionResult macroVarIdx (2 * macroVarIdx + 1) p) (p.1,
        forRange C.MacroVarsNum (fun macroVarIdx handle =>
          forRange C.BlockNum (fun blockIdx handle =>
            store handle macroVarIdx
              (opsParLoopReduce (C.BlockIterRngWhole blockIdx)
                (fun n sumSquare =>
                  KerCalcMacroVarSquare (s.g_MacroVars blockIdx n) macroVarIdx sumSquare)
                (handle macroVarIdx))) handle) p.2)).1 := by
    rw [← hp]
    rfl
  have hhan : (CalcResidualError C s).g_ResidualErrorHandle =
      (forRange C.MacroVarsNum (fun macroVarIdx p =>
        opsReductionResult macroVarIdx (2 * macroVarIdx + 1) p) (p.1,
        forRange C.MacroVarsNum (fun macroVarIdx handle =>
          forRange C.BlockNum (fun blockIdx handle =>
            store handle macroVarIdx
              (opsParLoopReduce (C.BlockIterRngWhole blockIdx)
                (fun n sumSquare =>
                  KerCalcMacroVarSquare (s.g_MacroVars blockIdx n) macroVarIdx sumSquare)
                (handle macroVarIdx))) handle) p.2)).2 := by
    rw [← hp]
    rfl
  refine ⟨?_, ?_, ?_⟩
  · rw [hres, r2b (2 * v) (fun w _ => by omega), r1a v hv]
    exact acc1
  · rw [hres, r2a v hv]
    exact acc2
  · rw [hhan, r2c v, if_pos hv]

/-- C20: after `CalcResidualError`, for every macro variable `v`,
`g_ResidualError[2v]` is the sum over all blocks and all nodes of
`(MacroVars[v] - MacroVarsCopy[v])^2` with the snapshot as it was on entry,
`g_ResidualError[2v+1]` is the sum over all blocks and nodes of `MacroVars[v]^2`,
the snapshot `MacroVarsCopy` equals `MacroVars` at every node of every block, and
`MacroVars` is unchanged.  The reduction handles are reset on entry, and the
call leaves them reset. -/
theorem calc_residual_error {ι : Type} [DecidableEq ι] (C : CaseSetup ι) (s : ResidualState ι)
    (hreset : ∀ v, v < C.MacroVarsNum → s.g_ResidualErrorHandle v = Real.fin 0) :
    (∀ v, v < C.MacroVarsNum →
      (CalcResidualError C s).g_ResidualError (2 * v) =
        Real.sum (C.allNodes.map (fun p =>
          (s.g_MacroVars p.1 p.2 v - s.g_MacroVarsCopy p.1 p.2 v) *
            (s.g_MacroVars p.1 p.2 v - s.g_MacroVarsCopy p.1 p.2 v))) ∧
      (CalcResidualError C s).g_ResidualError (2 * v + 1) =
        Real.sum (C.allNodes.map (fun p =>
          s.g_MacroVars p.1 p.2 v * s.g_MacroVars p.1 p.2 v)) ∧
      (CalcResidualError C s).g_ResidualErrorHandle v = Real.fin 0) ∧
    (∀ b n idx, b < C.BlockNum → n ∈ C.BlockIterRngWhole b → idx < C.NUMMACROVAR →
      (CalcResidualError C s).g_MacroVarsCopy b n idx = s.g_MacroVars b n idx) ∧
    (CalcResidualError C s).g_MacroVars = s.g_MacroVars :=
  CalcResidualError_result C s hreset

theorem calc_residual_error_witness :
    (∀ v, v < sampleCase.MacroVarsNum →
      sampleResidualState.g_ResidualErrorHandle v = Real.fin 0) ∧
    (CalcResidualError sampleCase sampleResidualState).g_ResidualError 0 = Real.fin 2 ∧
    (CalcResidualError sampleCase sampleResidualState).g_ResidualError 3 = Real.fin 22 ∧
    (CalcResidualError sampleCase sampleResidualState).g_MacroVarsCopy 0 (1, 0) 1 =
      Real.fin 3 := by
  have h := calc_residual_error sampleCase sampleResidualState (fun _ _ => rfl)
  refine ⟨fun _ _ => rfl, ?_, ?_, ?_⟩
  · rw [(h.1 0 (by decide)).1]
    simp [Real.sum, CaseSetup.allNodes, sampleCase, sampleResidualState, List.range_succ]
    norm_num
  · rw [(h.1 1 (by decide)).2.1]
    simp [Real.sum, CaseSetup.allNodes, sampleCase, sampleResidualState, List.range_succ]
    norm_num
  · rw [h.2.1 0 (1, 0) 1 (by decide) (by decide) (by decide)]
    simp [sampleResidualState]
    norm_num

/-! ## Display of the residuals: theorems -/

/-- A loop that appends one item per index yields the items in order. -/
theorem forRange_append {α : Type} (n : Nat) (g : Nat → α) (out : List α) :
    forRange n (fun i out => out ++ [g i]) out = out ++ (List.range n).map g := by
  induction n with
  | zero => simp [forRange]
  | succ n ih => rw [forRange_succ, ih, List.range_succ, List.map_append, List.append_assoc]; rfl

/-- C21: for every macro variable `v`, the residual that
`DispResidualError(iter, checkPeriod)` reports is
`g_ResidualError[2v] / g_ResidualError[2v+1] / (checkPeriod * TimeStep())`, and
the reported residuals do not depend on `iter`. -/
theorem disp_residual_error (MacroVarsNum : Nat) (TimeStep : Real)
    (g_ResidualError : Nat → Real) (iter : Int) (checkPeriod : Real) (v : Nat)
    (hv : v < MacroVarsNum) :
    (DispResidualError MacroVarsNum TimeStep g_ResidualError iter checkPeriod).lines[v]? =
      some (v, g_ResidualError (2 * v) / g_ResidualError (2 * v + 1) /
        (checkPeriod * TimeStep)) ∧
    (DispResidualError MacroVarsNum TimeStep g_ResidualError iter checkPeriod).lines.length =
      MacroVarsNum ∧
    ∀ iter' : Int,
      (DispResidualError MacroVarsNum TimeStep g_ResidualError iter' checkPeriod).lines =
        (DispResidualError MacroVarsNum TimeStep g_ResidualError iter checkPeriod).lines := by
  refine ⟨?_, ?_, fun _ => rfl⟩
  · show (forRange MacroVarsNum (fun macroVarIdx out => out ++ [(macroVarIdx,
      g_ResidualError (2 * macroVarIdx) / g_ResidualError (2 * macroVarIdx + 1) /
        (checkPeriod * TimeStep))]) [])[v]? = _
    rw [forRange_append MacroVarsNum (fun i => (i, g_ResidualError (2 * i) /
      g_ResidualError (2 * i + 1) / (checkPeriod * TimeStep)))]
    simp [List.getElem?_range hv]
  · show (forRange MacroVarsNum (fun macroVarIdx out => out ++ [(macroVarIdx,
      g_ResidualError (2 * macroVarIdx) / g_ResidualError (2 * macroVarIdx + 1) /
        (checkPeriod * TimeStep))]) []).length = _
    rw [forRange_append MacroVarsNum (fun i => (i, g_ResidualError (2 * i) /
      g_ResidualError (2 * i + 1) / (checkPeriod * TimeStep)))]
    simp

/-- C21, with two macro variables, residual pairs (1, 4) and (2, 4), check period
10 and time step 1/20: the report holds 1/4/(1/2) = 1/2 and 2/4/(1/2) = 1, at
time step 7 and at time step 8. -/
theorem disp_residual_error_witness :
    (DispResidualError 2 (Real.fin (1 / 20)) sampleResiduals 7 (Real.fin 10)).lines[1]? =
      some (1, Real.fin 1) ∧
    (DispResidualError 2 (Real.fin (1 / 20)) sampleResiduals 8 (Real.fin 10)).lines =
      (DispResidualError 2 (Real.fin (1 / 20)) sampleResiduals 7 (Real.fin 10)).lines := by
  have h := disp_residual_error 2 (Real.fin (1 / 20)) sampleResiduals 7 (Real.fin 10) 1
    (by decide)
  refine ⟨?_, h.2.2 8⟩
  rw [h.1]
  simp only [sampleResiduals]
  norm_num [Real.fin_div_fin, Real.fin_mul_fin]

/-! ## The sets `streamRequired`: theorems -/

/-- C27 fails as stated: with the sample enumerators, a node of type
`Vertex_FreeFlux` is `streamRequired` neither in `KerStream` nor in
`KerStream3D`. -/
theorem free_flux_stream_required_counterexample :
    KerStream.streamRequired sampleTypes sampleTypes.Vertex_FreeFlux = false ∧
    KerStream3D.streamRequired sampleTypes sampleTypes.Vertex_FreeFlux = false ∧
    ¬ (KerStream.streamRequired sampleTypes sampleTypes.Vertex_FreeFlux = true ∧
      KerStream3D.streamRequired sampleTypes sampleTypes.Vertex_FreeFlux = false) := by
  decide

/-- C27, amended: the sets `streamRequired` of the two streaming kernels differ.
`KerStream` has `Vertex_ZouHeVelocity`, `Vertex_EQMDiffuseRefl`,
`Vertex_ExtrapolPressure1ST` and `Vertex_ExtrapolPressure2ND`; `KerStream3D` has
`Vertex_EQMDiffuseRefl`, `Vertex_ExtrapolPressure1ST` and `Vertex_Periodic`.  With
distinct enumerators the two differ on `Vertex_ZouHeVelocity` and
`Vertex_ExtrapolPressure2ND` (2D only) and on `Vertex_Periodic` (3D only), and
`Vertex_FreeFlux` is in neither. -/
theorem stream_required_sets (E : VertexTypes) (hE : E.boundaryKinds.Nodup) :
    (∀ vt : Int, KerStream.streamRequired E vt = true ↔
      (vt = E.Vertex_ZouHeVelocity ∨ vt = E.Vertex_EQMDiffuseRefl ∨
        vt = E.Vertex_ExtrapolPressure1ST ∨ vt = E.Vertex_ExtrapolPressure2ND)) ∧
    (∀ vt : Int, KerStream3D.streamRequired E vt = true ↔
      (vt = E.Vertex_EQMDiffuseRefl ∨ vt = E.Vertex_ExtrapolPressure1ST ∨
        vt = E.Vertex_Periodic)) ∧
    (KerStream.streamRequired E E.Vertex_FreeFlux = false ∧
      KerStream3D.streamRequired E E.Vertex_FreeFlux = false) ∧
    (KerStream.streamRequired E E.Vertex_ZouHeVelocity = true ∧
      KerStream3D.streamRequired E E.Vertex_ZouHeVelocity = false) ∧
    (KerStream.streamRequired E E.Vertex_ExtrapolPressure2ND = true ∧
      KerStream3D.streamRequired E E.Vertex_ExtrapolPressure2ND = false) ∧
    (KerStream.streamRequired E E.Vertex_Periodic = false ∧
      KerStream3D.streamRequired E E.Vertex_Periodic = true) := by
  simp only [VertexTypes.boundaryKinds, List.nodup_cons, List.mem_cons, List.mem_singleton,
    not_or, List.not_mem_nil, not_false_eq_true, List.nodup_nil, and_true] at hE
  obtain ⟨⟨h12, h13, h14, h15, h16⟩, ⟨h23, h24, h25, h26⟩, ⟨h34, h35, h36⟩, ⟨h45, h46⟩, h56⟩ := hE
  refine ⟨?_, ?_, ?_, ?_, ?_, ?_⟩
  · intro vt
    simp [KerStream.streamRequired, or_assoc]
  · intro vt
    simp [KerStream3D.streamRequired, or_assoc]
  · simp [KerStream.streamRequired, KerStream3D.streamRequired, Ne.symm h16, Ne.symm h26,
      Ne.symm h36, Ne.symm h46, Ne.symm h56]
  · simp [KerStream.streamRequired, KerStream3D.streamRequired, h12, h13, h15]
  · simp [KerStream.streamRequired, KerStream3D.streamRequired, Ne.symm h24, Ne.symm h34, h45]
  · simp [KerStream.streamRequired, KerStream3D.streamRequired, Ne.symm h15, Ne.symm h25,
      Ne.symm h35, Ne.symm h45]

/-- C27 amended, with the sample enumerators. -/
theorem stream_required_sets_witness :
    sampleTypes.boundaryKinds.Nodup ∧
    (KerStream.streamRequired sampleTypes sampleTypes.Vertex_FreeFlux = false ∧
      KerStream3D.streamRequired sampleTypes sampleTypes.Vertex_FreeFlux = false) ∧
    (KerStream.streamRequired sampleTypes sampleTypes.Vertex_Periodic = false ∧
      KerStream3D.streamRequired sampleTypes sampleTypes.Vertex_Periodic = true) :=
  ⟨by decide, (stream_required_sets sampleTypes (by decide)).2.2.1,
    (stream_required_sets sampleTypes (by decide)).2.2.2.2.2⟩

/-! ## Tags that the kernels do not name: theorems -/

theorem KerStream.switchVg_unnamed2D (vg : VertexGeometryTypes) (streamRequired : Bool)
    (cx cy : Int) (h : vg.unnamed2D = true) :
    KerStream.switchVg vg streamRequired cx cy = false := by
  cases vg <;>
    simp [VertexGeometryTypes.unnamed2D, VertexGeometryTypes.kind, VertexGeometryTypes.is2D,
      VertexGeometryTypes.faces, KerStream.switchVg] at h ⊢

theorem KerStream3D.switchVg_unnamed3D (vg : VertexGeometryTypes) (streamRequired : Bool)
    (cx cy cz : Int) (h : vg.unnamed3D = true) :
    KerStream3D.switchVg vg streamRequired cx cy cz = false := by
  cases vg <;>
    simp [VertexGeometryTypes.unnamed3D, VertexGeometryTypes.kind, KerStream3D.switchVg] at h ⊢

theorem KerCutCellCVTUpwind1st.needCalc_unnamed (E : VertexTypes) (vt : Int)
    (vg : VertexGeometryTypes) (cx cy : Int) (hs : vt ≠ E.Vertex_ImmersedSolid)
    (h : vg.unnamed2D = true) :
    KerCutCellCVTUpwind1st.needCalc E vt vg cx cy = true := by
  unfold KerCutCellCVTUpwind1st.needCalc
  cases vg <;>
    simp [VertexGeometryTypes.unnamed2D, VertexGeometryTypes.kind, VertexGeometryTypes.is2D,
      VertexGeometryTypes.faces, hs] at h ⊢

/-- C28: at a boundary node (`vt >= Vertex_Boundary`) whose tag is none of the
tags that the `switch (vg)` of the kernel names, `KerStream` and `KerStream3D`
leave `f[d]` unchanged for every direction that is not the zero velocity; the
gradient and time-marching kernels fall through their switch with `needCalc`,
`needMarch` true (the order of the second order kernel is not reduced), and
the explicit kernel marches the direction. -/
theorem unnamed_tag_silent (L : Lattice) (E : VertexTypes) (c d : Nat)
    (hL : L.Disjoint) (hc : c < L.NUMCOMPONENTS) (hd : L.inCompo c d) :
    (∀ (vt : Int) (vg : VertexGeometryTypes) (fStage : Nat → Int → Int → Real)
      (f : Nat → Real), vt ≥ E.Vertex_Boundary → vg.unnamed2D = true →
      ¬ (L.XI (d * L.LATTDIM) = 0 ∧ L.XI (d * L.LATTDIM + 1) = 0) →
      KerStream L E vt vg fStage f d = f d) ∧
    (∀ (nodeType : Nat → Int) (vg : VertexGeometryTypes)
      (fStage : Nat → Int → Int → Int → Real) (f : Nat → Real),
      nodeType c ≥ E.Vertex_Boundary → vg.unnamed3D = true →
      ¬ (L.XI (d * L.LATTDIM) = 0 ∧ L.XI (d * L.LATTDIM + 1) = 0 ∧
        L.XI (d * L.LATTDIM + 2) = 0) →
      KerStream3D L E nodeType vg fStage f d = f d) ∧
    (∀ (nodeType : Int → Int → Int) (geometry : Int → Int → VertexGeometryTypes)
      (cx cy : Int), nodeType 0 0 ≥ E.Vertex_Boundary →
      nodeType 0 0 ≠ E.Vertex_ImmersedSolid → (geometry 0 0).unnamed2D = true →
      KerCutCellCVTUpwind1st.needCalc E (nodeType 0 0) (geometry 0 0) cx cy = true ∧
      KerCutCellCVTUpwind2nd.flags E nodeType geometry cx cy =
        { needCalc := true, reduceOrderX := false, reduceOrderY := false } ∧
      KerCutCellExplicitTimeMach.needMarch E (nodeType 0 0) (geometry 0 0) cx cy = true ∧
      KerCutCellSemiImplicitTimeMach.needMarch E (nodeType 0 0) (geometry 0 0) cx cy = true) ∧
    (∀ (vt : Int) (vg : VertexGeometryTypes) (dt schemeCoeff : Real)
      (fGradient feq relaxationTime bodyForce f : Nat → Real), vt ≥ E.Vertex_Boundary →
      vt ≠ E.Vertex_ImmersedSolid → vg.unnamed2D = true →
      KerCutCellExplicitTimeMach L E dt schemeCoeff vt vg fGradient feq relaxationTime
          bodyForce f d =
        f d + dt * schemeCoeff *
          (bodyForce d - fGradient d + (feq d - f d) / relaxationTime c)) := by
  refine ⟨?_, ?_, ?_, ?_⟩
  · intro vt vg fStage f hb hu hnz
    rw [KerStream_at_boundary L E vt vg fStage f c d hL hc hd hb hnz,
      KerStream.switchVg_unnamed2D vg _ _ _ hu, if_neg (by decide)]
  · intro nodeType vg fStage f hb hu hnz
    rw [KerStream3D_at_boundary L E nodeType vg fStage f c d hL hc hd hb hnz,
      KerStream3D.switchVg_unnamed3D vg _ _ _ _ hu, if_neg (by decide)]
  · intro nodeType geometry cx cy hb hs hu
    have h1 := KerCutCellCVTUpwind1st.needCalc_unnamed E (nodeType 0 0) (geometry 0 0) cx cy
      hs hu
    refine ⟨h1, ?_, h1, h1⟩
    rw [KerCutCellCVTUpwind2nd.flags_boundary E nodeType geometry cx cy hb, if_neg hs]
    unfold KerCutCellCVTUpwind2nd.flagsBoundary
    cases hg : geometry 0 0 <;>
      simp [hg, VertexGeometryTypes.unnamed2D, VertexGeometryTypes.kind,
        VertexGeometryTypes.is2D, VertexGeometryTypes.faces] at hu ⊢
  · intro vt vg dt schemeCoeff fGradient feq relaxationTime bodyForce f hb hs hu
    rw [KerCutCellExplicitTimeMach_at L E dt schemeCoeff vt vg fGradient feq relaxationTime
      bodyForce f c d hL hc hd]
    exact if_pos (KerCutCellCVTUpwind1st.needCalc_unnamed E vt vg _ _ hs hu)

/-- C28, at direction 1 (velocity (1,0)) of a boundary node of type
`Vertex_EQMDiffuseRefl` whose tag is none that the kernels name: `KerStream`
leaves `f[1] = 2`, and `needCalc` is true. -/
theorem unnamed_tag_silent_witness :
    KerStream twoD2Q9 sampleTypes 1013 (.VG_Other 7) sampleStage2D sampleF 1 = Real.fin 2 ∧
    KerCutCellCVTUpwind1st.needCalc sampleTypes 1013 (.VG_Other 7) 1 0 = true := by
  have h := unnamed_tag_silent twoD2Q9 sampleTypes 0 1 twoD2Q9_disjoint (by decide) (by decide)
  refine ⟨?_, (h.2.2.1 (fun _ _ => 1013) (fun _ _ => .VG_Other 7) 1 0 (by decide) (by decide)
    rfl).1⟩
  rw [h.1 1013 (.VG_Other 7) sampleStage2D sampleF (by decide) rfl (by decide)]
  simp only [sampleF, Real.fin_inj]
  norm_num

/-! ## Order reduction at a face node: theorems -/

theorem VertexGeometryTypes.reflectX_reflectX (vg : VertexGeometryTypes) :
    vg.reflectX.reflectX = vg := by
  cases vg <;> rfl

theorem VertexGeometryTypes.swapXY_swapXY (vg : VertexGeometryTypes) :
    vg.swapXY.swapXY = vg := by
  cases vg <;> rfl

theorem VertexGeometryTypes.reflectX_eq_iff (vg t : VertexGeometryTypes) :
    vg.reflectX = t ↔ vg = t.reflectX :=
  ⟨fun h => by rw [← h, VertexGeometryTypes.reflectX_reflectX],
    fun h => by rw [h, VertexGeometryTypes.reflectX_reflectX]⟩

theorem VertexGeometryTypes.swapXY_eq_iff (vg t : VertexGeometryTypes) :
    vg.swapXY = t ↔ vg = t.swapXY :=
  ⟨fun h => by rw [← h, VertexGeometryTypes.swapXY_swapXY],
    fun h => by rw [h, VertexGeometryTypes.swapXY_swapXY]⟩

theorem UpwindFlags.eq_of_fields (s t : UpwindFlags) (h1 : s.needCalc = t.needCalc)
    (h2 : s.reduceOrderX = t.reduceOrderX) (h3 : s.reduceOrderY = t.reduceOrderY) : s = t := by
  cases s; cases t; simp_all

/-- The flags of `KerCutCellCVTUpwind2nd` at a boundary node tagged `VG_IP`. -/
theorem KerCutCellCVTUpwind2nd.flags_VG_IP (E : VertexTypes) (nodeType : Int → Int → Int)
    (geometry : Int → Int → VertexGeometryTypes) (cx cy : Int)
    (hb : nodeType 0 0 ≥ E.Vertex_Boundary) (hg : geometry 0 0 = .VG_IP) :
    KerCutCellCVTUpwind2nd.flags E nodeType geometry cx cy =
      { needCalc := decide (nodeType 0 0 ≠ E.Vertex_ImmersedSolid ∧ cx ≤ 0)
        reduceOrderX := false
        reduceOrderY := decide (cx ≤ 0 ∧
          ((cy > 0 ∧
            (((geometry 0 (-1) = .VG_IPJM_O ∨ geometry 0 (-1) = .VG_IPJP_O) ∧
                nodeType 0 (-2) = E.Vertex_ImmersedSolid) ∨
              geometry 0 (-1) = .VG_IPJM_I ∨ geometry 0 (-1) = .VG_IPJP_I)) ∨
          (cy < 0 ∧
            (((geometry 0 1 = .VG_IPJM_O ∨ geometry 0 1 = .VG_IPJP_O) ∧
                nodeType 0 2 = E.Vertex_ImmersedSolid) ∨
              geometry 0 1 = .VG_IPJM_I ∨ geometry 0 1 = .VG_IPJP_I)))) } := by
  rw [KerCutCellCVTUpwind2nd.flags_boundary E nodeType geometry cx cy hb,
    KerCutCellCVTUpwind2nd.flagsBoundary_VG_IP E nodeType geometry cx cy _ hg]
  by_cases hs : nodeType 0 0 = E.Vertex_ImmersedSolid <;> by_cases hx : cx > 0
  all_goals
    have hx' : (cx ≤ 0) = ¬ (cx > 0) := by simp
    apply UpwindFlags.eq_of_fields <;> simp [hs, hx, hx']

/-- The flags of `KerCutCellCVTUpwind2nd` at a boundary node tagged `VG_IM`. -/
theorem KerCutCellCVTUpwind2nd.flags_VG_IM (E : VertexTypes) (nodeType : Int → Int → Int)
    (geometry : Int → Int → VertexGeometryTypes) (cx cy : Int)
    (hb : nodeType 0 0 ≥ E.Vertex_Boundary) (hg : geometry 0 0 = .VG_IM) :
    KerCutCellCVTUpwind2nd.flags E nodeType geometry cx cy =
      { needCalc := decide (nodeType 0 0 ≠ E.Vertex_ImmersedSolid ∧ cx ≥ 0)
        reduceOrderX := false
        reduceOrderY := decide (cx ≥ 0 ∧
          ((cy > 0 ∧
            (((geometry 0 (-1) = .VG_IMJM_O ∨ geometry 0 (-1) = .VG_IMJP_O) ∧
                nodeType 0 (-2) = E.Vertex_ImmersedSolid) ∨
              geometry 0 (-1) = .VG_IMJM_I ∨ geometry 0 (-1) = .VG_IMJP_I)) ∨
          (cy < 0 ∧
            (((geometry 0 1 = .VG_IMJM_O ∨ geometry 0 1 = .VG_IMJP_O) ∧
                nodeType 0 2 = E.Vertex_ImmersedSolid) ∨
              geometry 0 1 = .VG_IMJM_I ∨ geometry 0 1 = .VG_IMJP_I)))) } := by
  rw [KerCutCellCVTUpwind2nd.flags_boundary E nodeType geometry cx cy hb,
    KerCutCellCVTUpwind2nd.flagsBoundary_VG_IM E nodeType geometry cx cy _ hg]
  by_cases hs : nodeType 0 0 = E.Vertex_ImmersedSolid <;> by_cases hx : cx < 0
  all_goals
    have hx' : (cx ≥ 0) = ¬ (cx < 0) := by simp
    apply UpwindFlags.eq_of_fields <;> simp [hs, hx, hx']

/-- The flags of `KerCutCellCVTUpwind2nd` at a boundary node tagged `VG_JP`. -/
theorem KerCutCellCVTUpwind2nd.flags_VG_JP (E : VertexTypes) (nodeType : Int → Int → Int)
    (geometry : Int → Int → VertexGeometryTypes) (cx cy : Int)
    (hb : nodeType 0 0 ≥ E.Vertex_Boundary) (hg : geometry 0 0 = .VG_JP) :
    KerCutCellCVTUpwind2nd.flags E nodeType geometry cx cy =
      { needCalc := decide (nodeType 0 0 ≠ E.Vertex_ImmersedSolid ∧ cy ≤ 0)
        reduceOrderX := decide (cy ≤ 0 ∧
          ((cx > 0 ∧
            (((geometry (-1) 0 = .VG_IMJP_O ∨ geometry (-1) 0 = .VG_IPJP_O) ∧
                nodeType (-2) 0 = E.Vertex_ImmersedSolid) ∨
              geometry (-1) 0 = .VG_IMJP_I ∨ geometry (-1) 0 = .VG_IPJP_I)) ∨
          (cx < 0 ∧
            (((geometry 1 0 = .VG_IMJP_O ∨ geometry 1 0 = .VG_IPJP_O) ∧
                nodeType 2 0 = E.Vertex_ImmersedSolid) ∨
              geometry 1 0 = .VG_IMJP_I ∨ geometry 1 0 = .VG_IPJP_I))))
        reduceOrderY := false } := by
  rw [KerCutCellCVTUpwind2nd.flags_boundary E nodeType geometry cx cy hb,
    KerCutCellCVTUpwind2nd.flagsBoundary_VG_JP E nodeType geometry cx cy _ hg]
  by_cases hs : nodeType 0 0 = E.Vertex_ImmersedSolid <;> by_cases hx : cy > 0
  all_goals
    have hx' : (cy ≤ 0) = ¬ (cy > 0) := by simp
    apply UpwindFlags.eq_of_fields <;> simp [hs, hx, hx']

/-- The flags of `KerCutCellCVTUpwind2nd` at a boundary node tagged `VG_JM`. -/
theorem KerCutCellCVTUpwind2nd.flags_VG_JM (E : VertexTypes) (nodeType : Int → Int → Int)
    (geometry : Int → Int → VertexGeometryTypes) (cx cy : Int)
    (hb : nodeType 0 0 ≥ E.Vertex_Boundary) (hg : geometry 0 0 = .VG_JM) :
    KerCutCellCVTUpwind2nd.flags E nodeType geometry cx cy =
      { needCalc := decide (nodeType 0 0 ≠ E.Vertex_ImmersedSolid ∧ cy ≥ 0)
        reduceOrderX := decide (cy ≥ 0 ∧
          ((cx > 0 ∧
            (((geometry (-1) 0 = .VG_IMJM_O ∨ geometry (-1) 0 = .VG_IPJM_O) ∧
                nodeType (-2) 0 = E.Vertex_ImmersedSolid) ∨
              geometry (-1) 0 = .VG_IMJM_I ∨ geometry (-1) 0 = .VG_IPJM_I)) ∨
          (cx < 0 ∧
            (((geometry 1 0 = .VG_IPJM_O ∨ geometry 1 0 = .VG_IMJM_O) ∧
                nodeType 2 0 = E.Vertex_ImmersedSolid) ∨
              geometry 1 0 = .VG_IMJM_I ∨ geometry 1 0 = .VG_IPJM_I))))
        reduceOrderY := false } := by
  rw [KerCutCellCVTUpwind2nd.flags_boundary E nodeType geometry cx cy hb,
    KerCutCellCVTUpwind2nd.flagsBoundary_VG_JM E nodeType geometry cx cy _ hg]
  by_cases hs : nodeType 0 0 = E.Vertex_ImmersedSolid <;> by_cases hx : cy < 0
  all_goals
    have hx' : (cy ≥ 0) = ¬ (cy < 0) := by simp
    apply UpwindFlags.eq_of_fields <;> simp [hs, hx, hx']

/-- C29: order reduction at a face node in `KerCutCellCVTUpwind2nd`.  At a
boundary node tagged `VG_IP` the x order is never reduced, and for a direction
with `cx <= 0` and `cy > 0` (`cy < 0`) the y order is reduced iff the tag of the
neighbour at (0,-1) (at (0,+1)) is `VG_IPJM_I` or `VG_IPJP_I`, or is `VG_IPJM_O`
or `VG_IPJP_O` while the node at (0,-2) (at (0,+2)) is `Vertex_ImmersedSolid`.
The flags at a node tagged `VG_IM` are those of its mirror image under the
reflection of x, a node tagged `VG_IP`; the flags at `VG_JP` are those of the
image under the exchange of the axes, with `reduceOrderX` and `reduceOrderY`
exchanged; the flags at `VG_JM` those of the image under both. -/
theorem face_node_order_reduction (E : VertexTypes) (nodeType : Int → Int → Int)
    (geometry : Int → Int → VertexGeometryTypes) (cx cy : Int)
    (hb : nodeType 0 0 ≥ E.Vertex_Boundary) :
    (geometry 0 0 = .VG_IP →
      (KerCutCellCVTUpwind2nd.flags E nodeType geometry cx cy).reduceOrderX = false ∧
      (cx ≤ 0 → cy > 0 →
        ((KerCutCellCVTUpwind2nd.flags E nodeType geometry cx cy).reduceOrderY = true ↔
          (geometry 0 (-1) = .VG_IPJM_I ∨ geometry 0 (-1) = .VG_IPJP_I ∨
            ((geometry 0 (-1) = .VG_IPJM_O ∨ geometry 0 (-1) = .VG_IPJP_O) ∧
              nodeType 0 (-2) = E.Vertex_ImmersedSolid)))) ∧
      (cx ≤ 0 → cy < 0 →
        ((KerCutCellCVTUpwind2nd.flags E nodeType geometry cx cy).reduceOrderY = true ↔
          (geometry 0 1 = .VG_IPJM_I ∨ geometry 0 1 = .VG_IPJP_I ∨
            ((geometry 0 1 = .VG_IPJM_O ∨ geometry 0 1 = .VG_IPJP_O) ∧
              nodeType 0 2 = E.Vertex_ImmersedSolid))))) ∧
    (geometry 0 0 = .VG_IM →
      KerCutCellCVTUpwind2nd.flags E nodeType geometry cx cy =
        KerCutCellCVTUpwind2nd.flags E (fun dx dy => nodeType (-dx) dy)
          (fun dx dy => (geometry (-dx) dy).reflectX) (-cx) cy) ∧
    (geometry 0 0 = .VG_JP →
      KerCutCellCVTUpwind2nd.flags E nodeType geometry cx cy =
        (KerCutCellCVTUpwind2nd.flags E (fun dx dy => nodeType dy dx)
          (fun dx dy => (geometry dy dx).swapXY) cy cx).swapXY) ∧
    (geometry 0 0 = .VG_JM →
      KerCutCellCVTUpwind2nd.flags E nodeType geometry cx cy =
        (KerCutCellCVTUpwind2nd.flags E (fun dx dy => nodeType dy (-dx))
          (fun dx dy => (geometry dy (-dx)).swapXY.reflectX) (-cy) cx).swapXY) := by
  refine ⟨?_, ?_, ?_, ?_⟩
  · intro hg
    rw [KerCutCellCVTUpwind2nd.flags_VG_IP E nodeType geometry cx cy hb hg]
    refine ⟨rfl, ?_, ?_⟩
    · intro hx hy
      have hy' : ¬ cy < 0 := by omega
      simp only [hx, hy, hy', true_and, false_and, or_false, decide_eq_true_eq]
      tauto
    · intro hx hy
      have hy' : ¬ cy > 0 := by omega
      simp only [hx, hy, hy', true_and, false_and, false_or, decide_eq_true_eq]
      tauto
  · intro hg
    rw [KerCutCellCVTUpwind2nd.flags_VG_IM E nodeType geometry cx cy hb hg,
      KerCutCellCVTUpwind2nd.flags_VG_IP E (fun dx dy => nodeType (-dx) dy)
        (fun dx dy => (geometry (-dx) dy).reflectX) (-cx) cy (by simpa using hb)
        (by simp [hg, VertexGeometryTypes.reflectX])]
    apply UpwindFlags.eq_of_fields <;>
      (simp only [VertexGeometryTypes.reflectX_eq_iff]
       try simp [VertexGeometryTypes.reflectX])
  · intro hg
    rw [KerCutCellCVTUpwind2nd.flags_VG_JP E nodeType geometry cx cy hb hg,
      KerCutCellCVTUpwind2nd.flags_VG_IP E (fun dx dy => nodeType dy dx)
        (fun dx dy => (geometry dy dx).swapXY) cy cx (by simpa using hb)
        (by simp [hg, VertexGeometryTypes.swapXY])]
    apply UpwindFlags.eq_of_fields <;>
      (simp only [UpwindFlags.swapXY, VertexGeometryTypes.swapXY_eq_iff]
       try simp [VertexGeometryTypes.swapXY])
  · intro hg
    rw [KerCutCellCVTUpwind2nd.flags_VG_JM E nodeType geometry cx cy hb hg,
      KerCutCellCVTUpwind2nd.flags_VG_IP E (fun dx dy => nodeType dy (-dx))
        (fun dx dy => (geometry dy (-dx)).swapXY.reflectX) (-cy) cx (by simpa using hb)
        (by simp [hg, VertexGeometryTypes.swapXY, VertexGeometryTypes.reflectX])]
    apply UpwindFlags.eq_of_fields <;>
      (simp only [UpwindFlags.swapXY, VertexGeometryTypes.swapXY_eq_iff,
        VertexGeometryTypes.reflectX_eq_iff]
       try simp [VertexGeometryTypes.swapXY, VertexGeometryTypes.reflectX])
    rw [Bool.or_comm (decide (geometry 1 0 = VertexGeometryTypes.VG_IPJM_O))]

/-- C29, at a boundary node tagged `VG_IM` whose neighbour at offset (0,1) is the
inner corner `VG_IMJM_I`, direction (1,-1): the flags are those of the mirror
image, a node tagged `VG_IP` with the corner `VG_IPJM_I` at (0,1) and direction
(-1,-1); the y order is reduced and the x order is not. -/
theorem face_node_order_reduction_witness :
    KerCutCellCVTUpwind2nd.flags sampleTypes faceColumnTypes faceIMTags 1 (-1) =
      KerCutCellCVTUpwind2nd.flags sampleTypes (fun dx dy => faceColumnTypes (-dx) dy)
        (fun dx dy => (faceIMTags (-dx) dy).reflectX) (-1) (-1) ∧
    KerCutCellCVTUpwind2nd.flags sampleTypes faceColumnTypes faceIMTags 1 (-1) =
      { needCalc := true, reduceOrderX := false, reduceOrderY := true } :=
  ⟨(face_node_order_reduction sampleTypes faceColumnTypes faceIMTags 1 (-1)
    (by decide)).2.1 rfl, by decide⟩

/-! ## Runtime diagnostics: theorems -/

/-- A loop whose body tests a condition on the index and ends the run when it
holds: the run ends iff the condition holds at an index of the loop, otherwise
the result is the one of the loop without the test. -/
theorem foldl_checked {σ : Type} (l : List Nat) (bad : Nat → Bool) (T : Nat → σ → σ) (s : σ) :
    l.foldl (fun st i => st.bind (fun s => if bad i = true then none else some (T i s)))
        (some s) =
      if l.any bad = true then none else some (l.foldl (fun s i => T i s) s) := by
  induction l generalizing s with
  | nil => simp
  | cons a rest ih =>
    rw [List.foldl_cons, List.any_cons]
    by_cases ha : bad a = true
    · have hnone : ∀ l : List Nat, l.foldl (fun st i => Option.bind st
          (fun s => if bad i = true then none else some (T i s))) (none : Option σ) = none := by
        intro l
        induction l with
        | nil => rfl
        | cons b r ihr => rw [List.foldl_cons]; exact ihr
      simp only [Option.some_bind, ha, if_true, Bool.true_or]
      exact hnone rest
    · simp only [Option.some_bind, ha, if_false, Bool.false_eq_true, Bool.false_or]
      rw [ih, List.foldl_cons]

theorem ite_none_some_eq_none_iff {α : Type} (p : Prop) [Decidable p] (x : α) :
    (if p then none else some x) = none ↔ p := by
  by_cases h : p <;> simp [h]

theorem Real.invalid_fin (q : ℚ) : (Real.fin q).invalid = decide (q ≤ 0) := rfl

theorem Lattice.mem_range'_iff (L : Lattice) (c d : Nat) :
    d ∈ List.range' (L.COMPOINDEX (2 * c))
        (L.COMPOINDEX (2 * c + 1) + 1 - L.COMPOINDEX (2 * c)) ↔ L.inCompo c d := by
  rw [List.mem_range'_1]
  unfold Lattice.inCompo
  omega

/-- C26 fails as stated: compiled with the runtime diagnostics, both
time-marching kernels return and store an invalid value.  At a fluid node,
direction 3: the explicit kernel with `feq[3] = -40` stores
`4 + 1/2 * (3/4 - 3/8 - 44) = -285/16`; the semi-implicit kernel with `dt = 0`
and relaxation time 0 stores the result of a division by zero. -/
theorem time_march_diagnostics_counterexample :
    (∃ g, KerCutCellExplicitTimeMach.cpu twoD2Q9 sampleTypes (Real.fin (1 / 2)) (Real.fin 1)
        10 (.VG_Other 0) sampleGradient sampleFeqNegative sampleTau sampleForce sampleF =
          some g ∧
      g 3 = Real.fin (-285 / 16) ∧ (g 3).invalid = true) ∧
    (∃ g, KerCutCellSemiImplicitTimeMach.cpu twoD2Q9 sampleTypes (Real.fin 0) (Real.fin 1)
        10 (.VG_Other 0) sampleGradient sampleFeq (fun _ => Real.fin 0) sampleForce sampleF =
          some g ∧
      g 3 = Real.nan ∧ (g 3).invalid = true) := by
  have h1 : KerCutCellExplicitTimeMach twoD2Q9 sampleTypes (Real.fin (1 / 2)) (Real.fin 1)
      10 (.VG_Other 0) sampleGradient sampleFeqNegative sampleTau sampleForce sampleF 3 =
      Real.fin (-285 / 16) := by
    rw [KerCutCellExplicitTimeMach_at twoD2Q9 sampleTypes (Real.fin (1 / 2)) (Real.fin 1) 10
      (.VG_Other 0) sampleGradient sampleFeqNegative sampleTau sampleForce sampleF 0 3
      twoD2Q9_disjoint (by decide) (by decide), if_pos (by decide)]
    simp only [sampleF, sampleFeqNegative, sampleTau, sampleForce, sampleGradient]
    norm_num [Real.fin_div_fin, Real.fin_mul_fin, Real.fin_add_fin, Real.fin_sub_fin]
  have h2 : KerCutCellSemiImplicitTimeMach twoD2Q9 sampleTypes (Real.fin 0) (Real.fin 1)
      10 (.VG_Other 0) sampleGradient sampleFeq (fun _ => Real.fin 0) sampleForce sampleF 3 =
      Real.nan := by
    rw [KerCutCellSemiImplicitTimeMach_at twoD2Q9 sampleTypes (Real.fin 0) (Real.fin 1) 10
      (.VG_Other 0) sampleGradient sampleFeq (fun _ => Real.fin 0) sampleForce sampleF 0 3
      twoD2Q9_disjoint (by decide) (by decide), if_pos (by decide)]
    rw [Real.fin_add_fin, show ((0 : ℚ) + 0) = 0 by norm_num]
    simp only [sampleF, sampleFeq, sampleForce, sampleGradient, Real.fin_mul_fin,
      Real.fin_add_fin, Real.fin_sub_fin]
    exact Real.fin_div_zero _
  refine ⟨⟨_, rfl, h1, ?_⟩, ⟨_, rfl, h2, ?_⟩⟩
  · rw [h1, Real.invalid_fin]
    norm_num
  · rw [h2]
    rfl

/-- C26, amended: the time-marching kernels have no runtime diagnostic.
Compiled with `CPU` they return as without it, and for a marched direction the
value of the update formula is stored in `f[d]` whatever it is, also when it is
no finite number or not positive. -/
theorem time_march_no_diagnostics (L : Lattice) (E : VertexTypes) (dt schemeCoeff : Real)
    (vt : Int) (vg : VertexGeometryTypes)
    (fGradient feq relaxationTime bodyForce f : Nat → Real) (c d : Nat)
    (hL : L.Disjoint) (hc : c < L.NUMCOMPONENTS) (hd : L.inCompo c d)
    (hm : KerCutCellExplicitTimeMach.needMarch E vt vg (L.XI (d * L.LATTDIM))
      (L.XI (d * L.LATTDIM + 1)) = true) :
    (∃ g, KerCutCellExplicitTimeMach.cpu L E dt schemeCoeff vt vg fGradient feq
        relaxationTime bodyForce f = some g ∧
      g d = f d + dt * schemeCoeff *
        (bodyForce d - fGradient d + (feq d - f d) / relaxationTime c)) ∧
    (∃ g, KerCutCellSemiImplicitTimeMach.cpu L E dt schemeCoeff vt vg fGradient feq
        relaxationTime bodyForce f = some g ∧
      g d = (feq d * dt + bodyForce d * dt * relaxationTime c -
          fGradient d * dt * relaxationTime c + f d * relaxationTime c) /
        (dt + relaxationTime c)) := by
  refine ⟨⟨_, rfl, ?_⟩, ⟨_, rfl, ?_⟩⟩
  · rw [KerCutCellExplicitTimeMach_at L E dt schemeCoeff vt vg fGradient feq relaxationTime
      bodyForce f c d hL hc hd]
    exact if_pos hm
  · rw [KerCutCellSemiImplicitTimeMach_at L E dt schemeCoeff vt vg fGradient feq relaxationTime
      bodyForce f c d hL hc hd]
    exact if_pos hm

/-- C26 amended, at a fluid node, direction 3, with `feq[3] = -40`: the explicit
kernel compiled with `CPU` returns an array with `f[3] = -285/16`. -/
theorem time_march_no_diagnostics_witness :
    ∃ g, KerCutCellExplicitTimeMach.cpu twoD2Q9 sampleTypes (Real.fin (1 / 2)) (Real.fin 1)
        10 (.VG_Other 0) sampleGradient sampleFeqNegative sampleTau sampleForce sampleF =
          some g ∧
      g 3 = Real.fin (-285 / 16) := by
  obtain ⟨g, hg, hval⟩ := (time_march_no_diagnostics twoD2Q9 sampleTypes (Real.fin (1 / 2))
    (Real.fin 1) 10 (.VG_Other 0) sampleGradient sampleFeqNegative sampleTau sampleForce
    sampleF 0 3 twoD2Q9_disjoint (by decide) (by decide) (by decide)).1
  refine ⟨g, hg, ?_⟩
  rw [hval]
  simp only [sampleF, sampleFeqNegative, sampleTau, sampleForce, sampleGradient]
  norm_num [Real.fin_div_fin, Real.fin_mul_fin, Real.fin_add_fin, Real.fin_sub_fin]

/-! ## The wrap functions, entry by entry -/

/-- After a writing loop over a range, an entry that the kernel leaves as it is
holds its old value. -/
theorem opsParLoopWrite_unchanged {ι : Type} [DecidableEq ι] (range : List ι)
    (kernel : ι → (Nat → Real) → (Nat → Real)) (n : ι) (idx : Nat)
    (hk : ∀ dest, kernel n dest idx = dest idx) (dat : ι → Nat → Real) :
    opsParLoopWrite range kernel dat n idx = dat n idx := by
  unfold opsParLoopWrite
  induction range generalizing dat with
  | nil => rfl
  | cons a rest ih =>
    rw [List.foldl_cons, ih]
    by_cases han : a = n
    · subst han
      simp [hk]
    · rw [Function.update_noteq (Ne.symm han)]

/-- The data set of block `b` after the loop over the blocks. -/
theorem forRange_blocks_at {α : Type} (B : Nat) (W : Nat → α → α) (dat : Nat → α) (b : Nat)
    (hb : b < B) :
    forRange B (fun blockIndex dat => store dat blockIndex (W blockIndex (dat blockIndex))) dat
      b = W b (dat b) := by
  rw [forRange_store_at B _ W (fun i s => rfl), if_pos hb]

theorem KerCopyf_at (N : Nat) (src dest : Nat → Real) (idx : Nat) (h : idx < N) :
    KerCopyf N src dest idx = src idx := by
  unfold KerCopyf
  rw [forRange_store_at N _ (fun i _ => src i) (fun i s => rfl), if_pos h]

/-- `CopyDistribution` at a node of the whole range of a block. -/
theorem CopyDistribution_at {ι : Type} [DecidableEq ι] (M : Mesh ι)
    (fSrc fDest : Nat → ι → Nat → Real) (b : Nat) (n : ι) (d : Nat) (hb : b < M.BlockNum)
    (hn : n ∈ M.BlockIterRngWhole b) (hd : d < M.NUMXI) :
    CopyDistribution M fSrc fDest b n d = fSrc b n d := by
  unfold CopyDistribution
  rw [forRange_blocks_at M.BlockNum (fun blockIndex old =>
    opsParLoopWrite (M.BlockIterRngWhole blockIndex)
      (fun n dest => KerCopyf M.NUMXI (fSrc blockIndex n) dest) old) fDest b hb]
  exact opsParLoopWrite_at _ _ _ n d (fun dest => KerCopyf_at M.NUMXI _ dest d hd) _ (Or.inl hn)

/-- `Collision` at a node that requires collision. -/
theorem Collision_at_required {ι : Type} [DecidableEq ι] (L : Lattice) (E : VertexTypes)
    (M : Mesh ι) (TimeStep : Real) (s : FlowField ι) (b : Nat) (n : ι) (c d : Nat)
    (hL : L.Disjoint) (hc : c < L.NUMCOMPONENTS) (hd : L.inCompo c d) (hb : b < M.BlockNum)
    (hn : n ∈ M.BlockIterRngWhole b)
    (hvt : KerCollide.collisionRequired E (s.g_NodeType b n) = true) :
    (Collision L E M TimeStep s).g_fStage b n d =
      s.g_f b n d - TimeStep / (s.g_Tau b n c + Real.fin (1 / 2) * TimeStep) *
          (s.g_f b n d - s.g_feq b n d) +
        s.g_Tau b n c * (TimeStep / (s.g_Tau b n c + Real.fin (1 / 2) * TimeStep)) *
          s.g_Bodyforce b n d := by
  show forRange M.BlockNum (fun blockIndex g_fStage =>
      store g_fStage blockIndex
        (opsParLoopWrite (M.BlockIterRngWhole blockIndex)
          (fun n fStage => KerCollide L E TimeStep (s.g_NodeType blockIndex n)
            (s.g_f blockIndex n) (s.g_feq blockIndex n) (s.g_Tau blockIndex n)
            (s.g_Bodyforce blockIndex n) fStage)
          (g_fStage blockIndex))) s.g_fStage b n d = _
  rw [forRange_blocks_at M.BlockNum (fun blockIndex old =>
    opsParLoopWrite (M.BlockIterRngWhole blockIndex)
      (fun n fStage => KerCollide L E TimeStep (s.g_NodeType blockIndex n)
        (s.g_f blockIndex n) (s.g_feq blockIndex n) (s.g_Tau blockIndex n)
        (s.g_Bodyforce blockIndex n) fStage) old) s.g_fStage b hb]
  exact opsParLoopWrite_at _ _ _ n d
    (fun dest => KerCollide_at L E TimeStep _ _ _ _ _ dest c d hL hc hd hvt) _ (Or.inl hn)

/-- `Collision` at a node that does not require collision: `g_fStage` is kept. -/
theorem Collision_at_skipped {ι : Type} [DecidableEq ι] (L : Lattice) (E : VertexTypes)
    (M : Mesh ι) (TimeStep : Real) (s : FlowField ι) (b : Nat) (n : ι) (d : Nat)
    (hb : b < M.BlockNum)
    (hvt : KerCollide.collisionRequired E (s.g_NodeType b n) = false) :
    (Collision L E M TimeStep s).g_fStage b n d = s.g_fStage b n d := by
  show forRange M.BlockNum (fun blockIndex g_fStage =>
      store g_fStage blockIndex
        (opsParLoopWrite (M.BlockIterRngWhole blockIndex)
          (fun n fStage => KerCollide L E TimeStep (s.g_NodeType blockIndex n)
            (s.g_f blockIndex n) (s.g_feq blockIndex n) (s.g_Tau blockIndex n)
            (s.g_Bodyforce blockIndex n) fStage)
          (g_fStage blockIndex))) s.g_fStage b n d = _
  rw [forRange_blocks_at M.BlockNum (fun blockIndex old =>
    opsParLoopWrite (M.BlockIterRngWhole blockIndex)
      (fun n fStage => KerCollide L E TimeStep (s.g_NodeType blockIndex n)
        (s.g_f blockIndex n) (s.g_feq blockIndex n) (s.g_Tau blockIndex n)
        (s.g_Bodyforce blockIndex n) fStage) old) s.g_fStage b hb]
  refine opsParLoopWrite_unchanged _ _ n d (fun dest => ?_) _
  unfold KerCollide
  simp [hvt]

/-- `Stream` at an interior fluid node of the whole range of a block. -/
theorem Stream_at_fluid {ι : Type} [DecidableEq ι] (L : Lattice) (E : VertexTypes)
    (M : Mesh ι) (s : FlowField ι) (b : Nat) (n : ι) (c d : Nat)
    (hL : L.Disjoint) (hc : c < L.NUMCOMPONENTS) (hd : L.inCompo c d) (hb : b < M.BlockNum)
    (hn : n ∈ M.BlockIterRngWhole b)
    (hvt : s.g_NodeType b n ≥ E.Vertex_Fluid ∧ s.g_NodeType b n < E.Vertex_Boundary) :
    (Stream L E M s).g_f b n d =
      s.g_fStage b (M.offset n (-L.XI (d * L.LATTDIM)) (-L.XI (d * L.LATTDIM + 1))) d := by
  show forRange M.BlockNum (fun blockIndex g_f =>
      store g_f blockIndex
        (opsParLoopWrite (M.BlockIterRngWhole blockIndex)
          (fun n f => KerStream L E (s.g_NodeType blockIndex n)
            (s.g_GeometryProperty blockIndex n)
            (fun xiIndex dx dy => s.g_fStage blockIndex (M.offset n dx dy) xiIndex) f)
          (g_f blockIndex))) s.g_f b n d = _
  rw [forRange_blocks_at M.BlockNum (fun blockIndex old =>
    opsParLoopWrite (M.BlockIterRngWhole blockIndex)
      (fun n f => KerStream L E (s.g_NodeType blockIndex n)
        (s.g_GeometryProperty blockIndex n)
        (fun xiIndex dx dy => s.g_fStage blockIndex (M.offset n dx dy) xiIndex) f) old)
    s.g_f b hb]
  refine opsParLoopWrite_at _ _ _ n d (fun dest => ?_) _ (Or.inl hn)
  rw [KerStream_at L E _ _ _ dest c d hL hc hd, if_pos hvt]

/-! ## The stream-collision update: theorems -/

theorem Real.div_two (x : Real) : x / Real.fin 2 = Real.fin (1 / 2) * x :=
  (Real.half_mul x).symm

/-- C30: the composite update at an interior node.  After
`CopyDistribution(g_f, g_fStage)`, `Collision` and `Stream`, at a node `x` of the
whole range of a block with `Vertex_Fluid <= vt < Vertex_Boundary`, for a
direction `d` of component `c` with velocity `c_d` whose upwind node
`y = x - c_d` belongs to the whole range, the new `f(x,d)` is
`f(y,d) - k*(f(y,d) - feq(y,d)) + tau*k*bodyForce(y,d)` with `tau` the relaxation
time of `c` at `y` and `k = dt/(tau + dt/2)` when the vertex type at `y` requires
collision, and the old `f(y,d)` otherwise. -/
theorem stream_collision_interior {ι : Type} [DecidableEq ι] (L : Lattice) (E : VertexTypes)
    (M : Mesh ι) (TimeStep : Real) (s : FlowField ι) (b : Nat) (x : ι) (c d : Nat)
    (hL : L.Disjoint) (hc : c < L.NUMCOMPONENTS) (hd : L.inCompo c d) (hN : d < M.NUMXI)
    (hb : b < M.BlockNum) (hx : x ∈ M.BlockIterRngWhole b)
    (hvt : s.g_NodeType b x ≥ E.Vertex_Fluid ∧ s.g_NodeType b x < E.Vertex_Boundary)
    (hy : M.offset x (-L.XI (d * L.LATTDIM)) (-L.XI (d * L.LATTDIM + 1)) ∈
      M.BlockIterRngWhole b) :
    (Stream L E M (Collision L E M TimeStep
        { s with g_fStage := CopyDistribution M s.g_f s.g_fStage })).g_f b x d =
      if KerCollide.collisionRequired E
          (s.g_NodeType b (M.offset x (-L.XI (d * L.LATTDIM)) (-L.XI (d * L.LATTDIM + 1)))) =
          true then
        s.g_f b (M.offset x (-L.XI (d * L.LATTDIM)) (-L.XI (d * L.LATTDIM + 1))) d -
          TimeStep / (s.g_Tau b (M.offset x (-L.XI (d * L.LATTDIM))
              (-L.XI (d * L.LATTDIM + 1))) c + TimeStep / Real.fin 2) *
            (s.g_f b (M.offset x (-L.XI (d * L.LATTDIM)) (-L.XI (d * L.LATTDIM + 1))) d -
              s.g_feq b (M.offset x (-L.XI (d * L.LATTDIM)) (-L.XI (d * L.LATTDIM + 1))) d) +
          s.g_Tau b (M.offset x (-L.XI (d * L.LATTDIM)) (-L.XI (d * L.LATTDIM + 1))) c *
            (TimeStep / (s.g_Tau b (M.offset x (-L.XI (d * L.LATTDIM))
              (-L.XI (d * L.LATTDIM + 1))) c + TimeStep / Real.fin 2)) *
            s.g_Bodyforce b (M.offset x (-L.XI (d * L.LATTDIM)) (-L.XI (d * L.LATTDIM + 1))) d
      else s.g_f b (M.offset x (-L.XI (d * L.LATTDIM)) (-L.XI (d * L.LATTDIM + 1))) d := by
  refine (Stream_at_fluid L E M (Collision L E M TimeStep
    { s with g_fStage := CopyDistribution M s.g_f s.g_fStage }) b x c d hL hc hd hb hx
    hvt).trans ?_
  generalize M.offset x (-L.XI (d * L.LATTDIM)) (-L.XI (d * L.LATTDIM + 1)) = y at hy ⊢
  by_cases hcr : KerCollide.collisionRequired E (s.g_NodeType b y) = true
  · rw [if_pos hcr, Real.div_two]
    exact Collision_at_required L E M TimeStep
      { s with g_fStage := CopyDistribution M s.g_f s.g_fStage } b y c d hL hc hd hb hy hcr
  · rw [if_neg hcr]
    rw [Collision_at_skipped L E M TimeStep
      { s with g_fStage := CopyDistribution M s.g_f s.g_fStage } b y d hb (by simpa using hcr)]
    exact CopyDistribution_at M s.g_f s.g_fStage b y d hb hy hN

theorem sampleMesh_mem (x y : Int) (hx : 0 ≤ x ∧ x < 3) (hy : 0 ≤ y ∧ y < 3) :
    (x, y) ∈ sampleMesh.BlockIterRngWhole 0 := by
  obtain ⟨hx0, hx3⟩ := hx
  obtain ⟨hy0, hy3⟩ := hy
  interval_cases x <;> interval_cases y <;> decide

theorem sampleMesh_bounds (n : Int × Int) (b : Nat) (hn : n ∈ sampleMesh.BlockIterRngWhole b) :
    (0 ≤ n.1 ∧ n.1 < 3) ∧ (0 ≤ n.2 ∧ n.2 < 3) := by
  simp only [sampleMesh, List.mem_cons, List.mem_singleton, List.not_mem_nil, or_false] at hn
  rcases hn with h | h | h | h | h | h | h | h | h <;> subst h <;> decide

theorem sampleMesh_periodic : sampleMesh.Periodic := by
  intro b hb
  have hb0 : b = 0 := by
    have : b < 1 := hb
    omega
  subst hb0
  refine ⟨by decide, ?_, ?_⟩
  · intro n dx dy _
    exact sampleMesh_mem _ _ ⟨Int.emod_nonneg _ (by decide), Int.emod_lt_of_pos _ (by decide)⟩
      ⟨Int.emod_nonneg _ (by decide), Int.emod_lt_of_pos _ (by decide)⟩
  · intro n dx dy hn
    obtain ⟨⟨h1, h2⟩, ⟨h3, h4⟩⟩ := sampleMesh_bounds n 0 hn
    show ((((n.1 + dx) % 3 + -dx) % 3, ((n.2 + dy) % 3 + -dy) % 3) : Int × Int) = n
    have e1 : ((n.1 + dx) % 3 + -dx) % 3 = n.1 := by omega
    have e2 : ((n.2 + dy) % 3 + -dy) % 3 = n.2 := by omega
    rw [e1, e2]

/-- C30, on the periodic sample mesh with `dt = 1/2`, relaxation time 1 and body
force 1/4: at node (1,1), direction 1 (velocity (1,0)) the upwind node is
(0,1), where `f = 5` and `feq = 11`; the new value is
`5 - 2/5 * (5 - 11) + 2/5 * 1/4 = 15/2`. -/
theorem stream_collision_interior_witness :
    (Stream twoD2Q9 sampleTypes sampleMesh (Collision twoD2Q9 sampleTypes sampleMesh
        (Real.fin (1 / 2))
        { sampleFlow 1 (1 / 4) with
          g_fStage := CopyDistribution sampleMesh (sampleFlow 1 (1 / 4)).g_f
            (sampleFlow 1 (1 / 4)).g_fStage })).g_f 0 (1, 1) 1 = Real.fin (15 / 2) := by
  rw [stream_collision_interior twoD2Q9 sampleTypes sampleMesh (Real.fin (1 / 2))
    (sampleFlow 1 (1 / 4)) 0 (1, 1) 0 1 twoD2Q9_disjoint (by decide) (by decide) (by decide)
    (by decide) (by decide) (by decide) (by decide)]
  have hy : sampleMesh.offset (1, 1) (-twoD2Q9.XI (1 * twoD2Q9.LATTDIM))
      (-twoD2Q9.XI (1 * twoD2Q9.LATTDIM + 1)) = (0, 1) := by decide
  rw [hy, if_pos (by decide)]
  simp only [sampleFlow]
  norm_num [Real.fin_div_fin, Real.fin_mul_fin, Real.fin_add_fin, Real.fin_sub_fin]

/-! ## Streaming round trip: theorems -/

theorem Lattice.negate_disjoint (L : Lattice) (hL : L.Disjoint) : L.negate.Disjoint := hL

/-- `Stream3D` at an interior fluid node of the whole range of a block. -/
theorem Stream3D_at_fluid {ι : Type} [DecidableEq ι] (L : Lattice) (E : VertexTypes)
    (M : Mesh3D ι) (s : FlowField3D ι) (b : Nat) (n : ι) (c d : Nat)
    (hL : L.Disjoint) (hc : c < L.NUMCOMPONENTS) (hd : L.inCompo c d) (hb : b < M.BlockNum)
    (hn : n ∈ M.BlockIterRngWhole b)
    (hvt : s.g_NodeType b n c ≥ E.Vertex_Fluid ∧ s.g_NodeType b n c < E.Vertex_Boundary) :
    (Stream3D L E M s).g_f b n d =
      s.g_fStage b (M.offset n (-L.XI (d * L.LATTDIM)) (-L.XI (d * L.LATTDIM + 1))
        (-L.XI (d * L.LATTDIM + 2))) d := by
  show forRange M.BlockNum (fun blockIndex g_f =>
      store g_f blockIndex
        (opsParLoopWrite (M.BlockIterRngWhole blockIndex)
          (fun n f => KerStream3D L E (s.g_NodeType blockIndex n)
            (s.g_GeometryProperty blockIndex n)
            (fun xiIndex dx dy dz => s.g_fStage blockIndex (M.offset n dx dy dz) xiIndex) f)
          (g_f blockIndex))) s.g_f b n d = _
  rw [forRange_blocks_at M.BlockNum (fun blockIndex old =>
    opsParLoopWrite (M.BlockIterRngWhole blockIndex)
      (fun n f => KerStream3D L E (s.g_NodeType blockIndex n)
        (s.g_GeometryProperty blockIndex n)
        (fun xiIndex dx dy dz => s.g_fStage blockIndex (M.offset n dx dy dz) xiIndex) f) old)
    s.g_f b hb]
  refine opsParLoopWrite_at _ _ _ n d (fun dest => ?_) _ (Or.inl hn)
  rw [KerStream3D_at L E _ _ _ dest c d hL hc hd, if_pos hvt]

/-- C23: the streaming round trip.  On a periodic mesh whose nodes are all
interior fluid (`Vertex_Fluid <= vt < Vertex_Boundary`), the streaming step is
`f(x,d) := fStage(x - c_d, d)`, and this step followed by the same step with
every lattice velocity negated, applied to the result as staged field, returns
the original staged field at every node of the whole range and every direction
of a component: for `Stream` with `KerStream`, and for the 3D step with
`KerStream3D`. -/
theorem stream_round_trip {ι : Type} [DecidableEq ι] (L : Lattice) (E : VertexTypes)
    (b : Nat) (x : ι) (c d : Nat) (hL : L.Disjoint) (hc : c < L.NUMCOMPONENTS)
    (hd : L.inCompo c d) :
    (∀ (M : Mesh ι) (s : FlowField ι), M.Periodic →
      (∀ n, n ∈ M.BlockIterRngWhole b →
        s.g_NodeType b n ≥ E.Vertex_Fluid ∧ s.g_NodeType b n < E.Vertex_Boundary) →
      b < M.BlockNum → x ∈ M.BlockIterRngWhole b →
      (Stream L E M s).g_f b x d =
        s.g_fStage b (M.offset x (-L.XI (d * L.LATTDIM)) (-L.XI (d * L.LATTDIM + 1))) d ∧
      (Stream L.negate E M
          { Stream L E M s with g_fStage := (Stream L E M s).g_f }).g_f b x d =
        s.g_fStage b x d) ∧
    (∀ (M : Mesh3D ι) (s : FlowField3D ι), M.Periodic →
      (∀ n, n ∈ M.BlockIterRngWhole b →
        s.g_NodeType b n c ≥ E.Vertex_Fluid ∧ s.g_NodeType b n c < E.Vertex_Boundary) →
      b < M.BlockNum → x ∈ M.BlockIterRngWhole b →
      (Stream3D L E M s).g_f b x d =
        s.g_fStage b (M.offset x (-L.XI (d * L.LATTDIM)) (-L.XI (d * L.LATTDIM + 1))
          (-L.XI (d * L.LATTDIM + 2))) d ∧
      (Stream3D L.negate E M
          { Stream3D L E M s with g_fStage := (Stream3D L E M s).g_f }).g_f b x d =
        s.g_fStage b x d) := by
  constructor
  · intro M s hP hfluid hb hx
    obtain ⟨-, hclosed, hback⟩ := hP b hb
    refine ⟨Stream_at_fluid L E M s b x c d hL hc hd hb hx (hfluid x hx), ?_⟩
    refine (Stream_at_fluid L.negate E M
      { Stream L E M s with g_fStage := (Stream L E M s).g_f } b x c d
      (L.negate_disjoint hL) hc hd hb hx (hfluid x hx)).trans ?_
    show (Stream L E M s).g_f b (M.offset x (- -L.XI (d * L.LATTDIM))
      (- -L.XI (d * L.LATTDIM + 1))) d = _
    rw [neg_neg, neg_neg,
      Stream_at_fluid L E M s b _ c d hL hc hd hb (hclosed x _ _ hx)
        (hfluid _ (hclosed x _ _ hx)),
      hback x _ _ hx]
  · intro M s hP hfluid hb hx
    obtain ⟨-, hclosed, hback⟩ := hP b hb
    refine ⟨Stream3D_at_fluid L E M s b x c d hL hc hd hb hx (hfluid x hx), ?_⟩
    refine (Stream3D_at_fluid L.negate E M
      { Stream3D L E M s with g_fStage := (Stream3D L E M s).g_f } b x c d
      (L.negate_disjoint hL) hc hd hb hx (hfluid x hx)).trans ?_
    show (Stream3D L E M s).g_f b (M.offset x (- -L.XI (d * L.LATTDIM))
      (- -L.XI (d * L.LATTDIM + 1)) (- -L.XI (d * L.LATTDIM + 2))) d = _
    rw [neg_neg, neg_neg, neg_neg,
      Stream3D_at_fluid L E M s b _ c d hL hc hd hb (hclosed x _ _ _ hx)
        (hfluid _ (hclosed x _ _ _ hx)),
      hback x _ _ _ hx]

theorem sampleMesh3D_periodic : sampleMesh3D.Periodic := by
  intro b hb
  have hb0 : b = 0 := by
    have : b < 1 := hb
    omega
  subst hb0
  have hmem : ∀ x y z : Int, 0 ≤ x ∧ x < 2 → 0 ≤ y ∧ y < 2 → 0 ≤ z ∧ z < 2 →
      (x, y, z) ∈ sampleMesh3D.BlockIterRngWhole 0 := by
    rintro x y z ⟨hx0, hx2⟩ ⟨hy0, hy2⟩ ⟨hz0, hz2⟩
    interval_cases x <;> interval_cases y <;> interval_cases z <;> decide
  have hbounds : ∀ n : Int × Int × Int, n ∈ sampleMesh3D.BlockIterRngWhole 0 →
      (0 ≤ n.1 ∧ n.1 < 2) ∧ (0 ≤ n.2.1 ∧ n.2.1 < 2) ∧ (0 ≤ n.2.2 ∧ n.2.2 < 2) := by
    intro n hn
    simp only [sampleMesh3D, List.mem_cons, List.mem_singleton, List.not_mem_nil,
      or_false] at hn
    rcases hn with h | h | h | h | h | h | h | h <;> subst h <;> decide
  refine ⟨by decide, ?_, ?_⟩
  · intro n dx dy dz _
    exact hmem _ _ _ ⟨Int.emod_nonneg _ (by decide), Int.emod_lt_of_pos _ (by decide)⟩
      ⟨Int.emod_nonneg _ (by decide), Int.emod_lt_of_pos _ (by decide)⟩
      ⟨Int.emod_nonneg _ (by decide), Int.emod_lt_of_pos _ (by decide)⟩
  · intro n dx dy dz hn
    obtain ⟨⟨h1, h2⟩, ⟨h3, h4⟩, ⟨h5, h6⟩⟩ := hbounds n hn
    show ((((n.1 + dx) % 2 + -dx) % 2, ((n.2.1 + dy) % 2 + -dy) % 2,
      ((n.2.2 + dz) % 2 + -dz) % 2) : Int × Int × Int) = n
    have e1 : ((n.1 + dx) % 2 + -dx) % 2 = n.1 := by omega
    have e2 : ((n.2.1 + dy) % 2 + -dy) % 2 = n.2.1 := by omega
    have e3 : ((n.2.2 + dz) % 2 + -dz) % 2 = n.2.2 := by omega
    rw [e1, e2, e3]

/-- C23, on the periodic sample mesh, node (0,2) and direction 5 (velocity
(1,1)): the first step brings the staged value of node (2,1), `500 + 2 + 10`,
and the step with the negated velocities brings back the one of node (0,2),
`500 + 0 + 20`.  On the periodic 3D sample mesh, node (0,1,0) and direction 7
(velocity (1,1,0)): the round trip brings back `7000 + 0 + 10 + 0`. -/
theorem stream_round_trip_witness :
    ((Stream twoD2Q9 sampleTypes sampleMesh (sampleFlow 1 0)).g_f 0 (0, 2) 5 = Real.fin 512 ∧
      (Stream twoD2Q9.negate sampleTypes sampleMesh
          { Stream twoD2Q9 sampleTypes sampleMesh (sampleFlow 1 0) with
            g_fStage := (Stream twoD2Q9 sampleTypes sampleMesh (sampleFlow 1 0)).g_f }).g_f
        0 (0, 2) 5 = Real.fin 520) ∧
    (Stream3D twoD3Q19.negate sampleTypes sampleMesh3D
        { Stream3D twoD3Q19 sampleTypes sampleMesh3D sampleFlow3D with
          g_fStage := (Stream3D twoD3Q19 sampleTypes sampleMesh3D sampleFlow3D).g_f }).g_f
      0 (0, 1, 0) 7 = Real.fin 7010 := by
  constructor
  · have h := (stream_round_trip twoD2Q9 sampleTypes 0 ((0, 2) : Int × Int) 0 5
      twoD2Q9_disjoint (by decide) (by decide)).1 sampleMesh (sampleFlow 1 0)
      sampleMesh_periodic
      (fun _ _ => ⟨by simp [sampleFlow, sampleTypes], by simp [sampleFlow, sampleTypes]⟩)
      (by decide) (by decide)
    refine ⟨?_, ?_⟩
    · rw [h.1]
      have hy : sampleMesh.offset (0, 2) (-twoD2Q9.XI (5 * twoD2Q9.LATTDIM))
          (-twoD2Q9.XI (5 * twoD2Q9.LATTDIM + 1)) = (2, 1) := by decide
      rw [hy]
      simp only [sampleFlow]
      norm_num
    · rw [h.2]
      simp only [sampleFlow]
      norm_num
  · have h := (stream_round_trip twoD3Q19 sampleTypes 0 ((0, 1, 0) : Int × Int × Int) 0 7
      twoD3Q19_disjoint (by decide) (by decide)).2 sampleMesh3D sampleFlow3D
      sampleMesh3D_periodic
      (fun _ _ => ⟨by simp [sampleFlow3D, sampleTypes], by simp [sampleFlow3D, sampleTypes]⟩)
      (by decide) (by decide)
    rw [h.2]
    simp only [sampleFlow3D]
    norm_num

/-! ## Mass conservation: theorems -/

theorem Real.add_nan (x : Real) : x + Real.nan = Real.nan := by
  cases x <;> rfl

theorem Real.nan_add (x : Real) : Real.nan + x = Real.nan := rfl

theorem Real.foldl_add_nan (l : List Real) :
    l.foldl (fun acc x => acc + x) Real.nan = Real.nan := by
  induction l with
  | nil => rfl
  | cons a rest ih => rw [List.foldl_cons, Real.nan_add]; exact ih

theorem Real.foldl_add_fin {α : Type} (l : List α) (g : α → Real) (q : α → ℚ)
    (h : ∀ a ∈ l, g a = Real.fin (q a)) (acc : ℚ) :
    (l.map g).foldl (fun acc x => acc + x) (Real.fin acc) = Real.fin (acc + (l.map q).sum) := by
  induction l generalizing acc with
  | nil => simp
  | cons a rest ih =>
    rw [List.map_cons, List.foldl_cons, h a (List.mem_cons_self _ _), Real.fin_add_fin,
      ih (fun x hx => h x (List.mem_cons_of_mem _ hx)), List.map_cons, List.sum_cons, add_assoc]

/-- The sum of finite values is the finite sum. -/
theorem Real.sum_map_fin {α : Type} (l : List α) (g : α → Real) (q : α → ℚ)
    (h : ∀ a ∈ l, g a = Real.fin (q a)) :
    Real.sum (l.map g) = Real.fin ((l.map q).sum) := by
  unfold Real.sum
  rw [Real.foldl_add_fin l g q h 0, zero_add]

/-- A sum with a term that is no finite number is no finite number. -/
theorem Real.sum_map_nan {α : Type} (l : List α) (g : α → Real) (a : α) (ha : a ∈ l)
    (hg : g a = Real.nan) : Real.sum (l.map g) = Real.nan := by
  unfold Real.sum
  generalize Real.fin 0 = acc
  induction l generalizing acc with
  | nil => simp at ha
  | cons x rest ih =>
    rw [List.map_cons, List.foldl_cons]
    rcases List.mem_cons.mp ha with h | h
    · rw [← h, hg, Real.add_nan]
      exact Real.foldl_add_nan _
    · exact ih h _

theorem sum_map_swap {α β : Type} (l : List α) (m : List β) (F : α → β → ℚ) :
    (l.map (fun a => (m.map (fun b => F a b)).sum)).sum =
      (m.map (fun b => (l.map (fun a => F a b)).sum)).sum := by
  induction l with
  | nil => simp
  | cons a rest ih =>
    simp only [List.map_cons, List.sum_cons]
    rw [ih, List.sum_map_add]

theorem sum_map_swap3 {α β γ : Type} (l : List α) (m : List β) (k : β → List γ)
    (H : α → β → γ → ℚ) :
    (l.map (fun a => (m.map (fun b => ((k b).map (fun g => H a b g)).sum)).sum)).sum =
      (m.map (fun b => ((k b).map (fun g => (l.map (fun a => H a b g)).sum)).sum)).sum := by
  rw [sum_map_swap l m (fun a b => ((k b).map (fun g => H a b g)).sum)]
  congr 1
  apply List.map_congr_left
  intro b _
  exact sum_map_swap l (k b) (fun a g => H a b g)

/-- The sum over the directions of a component of the values after collision. -/
theorem sum_map_collide (l : List Nat) (a e F : Nat → ℚ) (k t : ℚ) :
    (l.map (fun d => a d - k * (a d - e d) + t * k * F d)).sum =
      (l.map a).sum - k * ((l.map a).sum - (l.map e).sum) + t * k * (l.map F).sum := by
  induction l with
  | nil => simp
  | cons x rest ih =>
    simp only [List.map_cons, List.sum_cons]
    rw [ih]
    ring

/-- On a periodic mesh the nodes at a fixed offset of the nodes of the whole
range are the nodes of the whole range, in another order. -/
theorem Mesh.Periodic.offset_perm {ι : Type} (M : Mesh ι) (hP : M.Periodic) (b : Nat)
    (hb : b < M.BlockNum) (dx dy : Int) :
    ((M.BlockIterRngWhole b).map (fun n => M.offset n dx dy)).Perm (M.BlockIterRngWhole b) := by
  obtain ⟨hnd, hclosed, hback⟩ := hP b hb
  have hinj : ∀ x ∈ M.BlockIterRngWhole b, ∀ y ∈ M.BlockIterRngWhole b,
      M.offset x dx dy = M.offset y dx dy → x = y := by
    intro x hx y hy hxy
    rw [← hback x dx dy hx, hxy, hback y dx dy hy]
  have hnd' : ((M.BlockIterRngWhole b).map (fun n => M.offset n dx dy)).Nodup :=
    List.Nodup.map_on hinj hnd
  have hsub : (M.BlockIterRngWhole b).map (fun n => M.offset n dx dy) ⊆
      M.BlockIterRngWhole b := by
    intro y hy
    obtain ⟨x, hx, rfl⟩ := List.mem_map.mp hy
    exact hclosed x dx dy hx
  exact (List.subperm_of_subset hnd' hsub).perm_of_length_le (by simp)

theorem KerCollide.collisionRequired_fluid (E : VertexTypes) :
    KerCollide.collisionRequired E E.Vertex_Fluid = true := by
  simp [KerCollide.collisionRequired]

/-- The value after `Collision` and `Stream` at a node of a periodic mesh of
fluid nodes, for finite fields. -/
theorem Stream_Collision_at_fin {ι : Type} [DecidableEq ι] (L : Lattice) (E : VertexTypes)
    (M : Mesh ι) (dt : ℚ) (s : FlowField ι) (qf qfeq qF qtau : Nat → ι → Nat → ℚ)
    (hL : L.Disjoint) (hP : M.Periodic) (hE : E.Vertex_Fluid < E.Vertex_Boundary)
    (hfluid : ∀ b n, b < M.BlockNum → n ∈ M.BlockIterRngWhole b →
      s.g_NodeType b n = E.Vertex_Fluid)
    (hf : ∀ b n d, s.g_f b n d = Real.fin (qf b n d))
    (hfeq : ∀ b n d, s.g_feq b n d = Real.fin (qfeq b n d))
    (hF : ∀ b n d, s.g_Bodyforce b n d = Real.fin (qF b n d))
    (htau : ∀ b n c, s.g_Tau b n c = Real.fin (qtau b n c))
    (hne : ∀ b n c, b < M.BlockNum → n ∈ M.BlockIterRngWhole b → c < L.NUMCOMPONENTS →
      qtau b n c + dt / 2 ≠ 0)
    (b : Nat) (n : ι) (c d : Nat) (hb : b < M.BlockNum) (hn : n ∈ M.BlockIterRngWhole b)
    (hc : c < L.NUMCOMPONENTS) (hd : L.inCompo c d) :
    (Stream L E M (Collision L E M (Real.fin dt) s)).g_f b n d =
      Real.fin ((fun m : ι => qf b m d - dt / (qtau b m c + 1 / 2 * dt) *
          (qf b m d - qfeq b m d) + qtau b m c * (dt / (qtau b m c + 1 / 2 * dt)) * qF b m d)
        (M.offset n (-L.XI (d * L.LATTDIM)) (-L.XI (d * L.LATTDIM + 1)))) := by
  obtain ⟨-, hclosed, -⟩ := hP b hb
  have hvt : s.g_NodeType b n ≥ E.Vertex_Fluid ∧ s.g_NodeType b n < E.Vertex_Boundary := by
    rw [hfluid b n hb hn]
    exact ⟨le_refl _, hE⟩
  refine (Stream_at_fluid L E M (Collision L E M (Real.fin dt) s) b n c d hL hc hd hb hn
    hvt).trans ?_
  have hy := hclosed n (-L.XI (d * L.LATTDIM)) (-L.XI (d * L.LATTDIM + 1)) hn
  generalize M.offset n (-L.XI (d * L.LATTDIM)) (-L.XI (d * L.LATTDIM + 1)) = y at hy ⊢
  have hcr : KerCollide.collisionRequired E (s.g_NodeType b y) = true := by
    rw [hfluid b y hb hy]
    exact KerCollide.collisionRequired_fluid E
  have hne' : qtau b y c + 1 / 2 * dt ≠ 0 := by
    intro h
    apply hne b y c hb hy hc
    rw [← h]
    ring
  rw [Collision_at_required L E M (Real.fin dt) s b y c d hL hc hd hb hy hcr, hf, hfeq, hF,
    htau, Real.fin_mul_fin, Real.fin_add_fin, Real.fin_div_fin _ _ hne']
  rfl

/-- C22 fails as stated: on the periodic mesh of one fluid node, with `f = feq`
and no body force, but with `dt = 0` and relaxation time 0, the quotient
`dt / (tau + dt/2)` is a division by zero; the total mass is 90 before the step
and no finite number after `Collision` and `Stream`. -/
theorem mass_conservation_counterexample :
    oneNodeMesh.Periodic ∧
    (∀ b n, (sampleFlow 0 0).g_NodeType b n = sampleTypes.Vertex_Fluid) ∧
    (∀ b n d, (sampleFlow 0 0).g_Bodyforce b n d = Real.fin 0) ∧
    totalMass twoD2Q9 oneNodeMesh
      { sampleFlow 0 0 with g_feq := (sampleFlow 0 0).g_f }.g_f = Real.fin 90 ∧
    totalMass twoD2Q9 oneNodeMesh
      (Stream twoD2Q9 sampleTypes oneNodeMesh (Collision twoD2Q9 sampleTypes oneNodeMesh
        (Real.fin 0) { sampleFlow 0 0 with g_feq := (sampleFlow 0 0).g_f })).g_f = Real.nan ∧
    totalMass twoD2Q9 oneNodeMesh
      (Stream twoD2Q9 sampleTypes oneNodeMesh (Collision twoD2Q9 sampleTypes oneNodeMesh
        (Real.fin 0) { sampleFlow 0 0 with g_feq := (sampleFlow 0 0).g_f })).g_f ≠
      totalMass twoD2Q9 oneNodeMesh
        { sampleFlow 0 0 with g_feq := (sampleFlow 0 0).g_f }.g_f := by
  have h1 : totalMass twoD2Q9 oneNodeMesh
      { sampleFlow 0 0 with g_feq := (sampleFlow 0 0).g_f }.g_f = Real.fin 90 := by
    simp only [totalMass, oneNodeMesh, sampleFlow, twoD2Q9, Lattice.directions, Real.sum,
      List.range_succ, List.range_zero, List.nil_append, List.map_cons, List.map_nil,
      List.foldl_cons, List.foldl_nil, List.singleton_append, List.getD_cons_zero,
      List.getD_cons_succ, List.range', Real.fin_add_fin, Real.fin_inj]
    norm_num
  have h2 : totalMass twoD2Q9 oneNodeMesh
      (Stream twoD2Q9 sampleTypes oneNodeMesh (Collision twoD2Q9 sampleTypes oneNodeMesh
        (Real.fin 0) { sampleFlow 0 0 with g_feq := (sampleFlow 0 0).g_f })).g_f = Real.nan := by
    unfold totalMass
    refine Real.sum_map_nan _ _ 0 (by decide) ?_
    refine Real.sum_map_nan _ _ (0, 0) (by decide) ?_
    refine Real.sum_map_nan _ _ 0 (by decide) ?_
    refine Real.sum_map_nan _ _ 0 (by decide) ?_
    rw [Stream_at_fluid twoD2Q9 sampleTypes oneNodeMesh _ 0 (0, 0) 0 0 twoD2Q9_disjoint
      (by decide) (by decide) (by decide) (by decide) (by decide)]
    have hy : oneNodeMesh.offset (0, 0) (-twoD2Q9.XI (0 * twoD2Q9.LATTDIM))
        (-twoD2Q9.XI (0 * twoD2Q9.LATTDIM + 1)) = (0, 0) := rfl
    rw [hy, Collision_at_required twoD2Q9 sampleTypes oneNodeMesh (Real.fin 0) _ 0 (0, 0) 0 0
      twoD2Q9_disjoint (by decide) (by decide) (by decide) (by decide) (by decide)]
    simp only [sampleFlow, Real.fin_mul_fin, Real.fin_add_fin]
    rw [show ((0 : ℚ) + 1 / 2 * 0) = 0 by norm_num, Real.fin_div_zero]
    rfl
  have hP : oneNodeMesh.Periodic := by
    intro b _
    refine ⟨by simp [oneNodeMesh], fun n dx dy _ => by simp [oneNodeMesh], ?_⟩
    intro n dx dy hn
    simp only [oneNodeMesh, List.mem_singleton] at hn ⊢
    exact hn.symm
  refine ⟨hP, fun _ _ => rfl, fun _ _ _ => rfl, h1, h2, ?_⟩
  rw [h1, h2]
  simp [Real.nan, Real.fin]

/-- C22, amended (mass conservation): on a periodic mesh in which every node is
fluid, for finite values of `f`, `feq`, the body force, the relaxation times and
`dt` with `tau + dt/2` not zero at every node and component, if at every node and
for each component the sum of `feq` over the directions equals the sum of `f`
and the sum of the body force is zero, then the sum of `f` over all nodes and
directions after `Collision` followed by `Stream` equals the sum before. -/
theorem mass_conservation {ι : Type} [DecidableEq ι] (L : Lattice) (E : VertexTypes)
    (M : Mesh ι) (dt : ℚ) (s : FlowField ι) (qf qfeq qF qtau : Nat → ι → Nat → ℚ)
    (hL : L.Disjoint) (hP : M.Periodic) (hE : E.Vertex_Fluid < E.Vertex_Boundary)
    (hfluid : ∀ b n, b < M.BlockNum → n ∈ M.BlockIterRngWhole b →
      s.g_NodeType b n = E.Vertex_Fluid)
    (hf : ∀ b n d, s.g_f b n d = Real.fin (qf b n d))
    (hfeq : ∀ b n d, s.g_feq b n d = Real.fin (qfeq b n d))
    (hF : ∀ b n d, s.g_Bodyforce b n d = Real.fin (qF b n d))
    (htau : ∀ b n c, s.g_Tau b n c = Real.fin (qtau b n c))
    (hne : ∀ b n c, b < M.BlockNum → n ∈ M.BlockIterRngWhole b → c < L.NUMCOMPONENTS →
      qtau b n c + dt / 2 ≠ 0)
    (hsum : ∀ b n c, b < M.BlockNum → n ∈ M.BlockIterRngWhole b → c < L.NUMCOMPONENTS →
      ((L.directions c).map (qfeq b n)).sum = ((L.directions c).map (qf b n)).sum)
    (hzero : ∀ b n c, b < M.BlockNum → n ∈ M.BlockIterRngWhole b → c < L.NUMCOMPONENTS →
      ((L.directions c).map (qF b n)).sum = 0) :
    totalMass L M (Stream L E M (Collision L E M (Real.fin dt) s)).g_f =
      totalMass L M s.g_f := by
  have hbefore : totalMass L M s.g_f =
      Real.fin (((List.range M.BlockNum).map (fun b =>
        ((M.BlockIterRngWhole b).map (fun n =>
          ((List.range L.NUMCOMPONENTS).map (fun c =>
            ((L.directions c).map (fun d => qf b n d)).sum)).sum)).sum)).sum) := by
    unfold totalMass
    exact Real.sum_map_fin _ _ _ (fun b _ =>
      Real.sum_map_fin _ _ _ (fun n _ =>
        Real.sum_map_fin _ _ _ (fun c _ =>
          Real.sum_map_fin _ _ _ (fun d _ => hf b n d))))
  have hafter : totalMass L M (Stream L E M (Collision L E M (Real.fin dt) s)).g_f =
      Real.fin (((List.range M.BlockNum).map (fun b =>
        ((M.BlockIterRngWhole b).map (fun n =>
          ((List.range L.NUMCOMPONENTS).map (fun c =>
            ((L.directions c).map (fun d =>
              (fun m : ι => qf b m d - dt / (qtau b m c + 1 / 2 * dt) *
                (qf b m d - qfeq b m d) +
                qtau b m c * (dt / (qtau b m c + 1 / 2 * dt)) * qF b m d)
              (M.offset n (-L.XI (d * L.LATTDIM)) (-L.XI (d * L.LATTDIM + 1))))).sum)).sum)).sum)).sum) := by
    unfold totalMass
    exact Real.sum_map_fin _ _ _ (fun b hb =>
      Real.sum_map_fin _ _ _ (fun n hn =>
        Real.sum_map_fin _ _ _ (fun c hc =>
          Real.sum_map_fin _ _ _ (fun d hd =>
            Stream_Collision_at_fin L E M dt s qf qfeq qF qtau hL hP hE hfluid hf hfeq hF htau
              hne b n c d (List.mem_range.mp hb) hn (List.mem_range.mp hc)
              ((L.mem_range'_iff c d).mp hd)))))
  rw [hbefore, hafter]
  congr 2
  apply List.map_congr_left
  intro b hb
  have hb' : b < M.BlockNum := List.mem_range.mp hb
  rw [sum_map_swap3 (M.BlockIterRngWhole b) (List.range L.NUMCOMPONENTS) L.directions
    (fun n c d => (fun m : ι => qf b m d - dt / (qtau b m c + 1 / 2 * dt) *
        (qf b m d - qfeq b m d) + qtau b m c * (dt / (qtau b m c + 1 / 2 * dt)) * qF b m d)
      (M.offset n (-L.XI (d * L.LATTDIM)) (-L.XI (d * L.LATTDIM + 1))))]
  have hperm : ∀ c d, ((M.BlockIterRngWhole b).map (fun n =>
      (fun m : ι => qf b m d - dt / (qtau b m c + 1 / 2 * dt) *
        (qf b m d - qfeq b m d) + qtau b m c * (dt / (qtau b m c + 1 / 2 * dt)) * qF b m d)
      (M.offset n (-L.XI (d * L.LATTDIM)) (-L.XI (d * L.LATTDIM + 1))))).sum =
      ((M.BlockIterRngWhole b).map (fun m : ι => qf b m d - dt / (qtau b m c + 1 / 2 * dt) *
        (qf b m d - qfeq b m d) +
        qtau b m c * (dt / (qtau b m c + 1 / 2 * dt)) * qF b m d)).sum := by
    intro c d
    have h := ((Mesh.Periodic.offset_perm M hP b hb' (-L.XI (d * L.LATTDIM))
      (-L.XI (d * L.LATTDIM + 1))).map (fun m : ι => qf b m d -
        dt / (qtau b m c + 1 / 2 * dt) * (qf b m d - qfeq b m d) +
        qtau b m c * (dt / (qtau b m c + 1 / 2 * dt)) * qF b m d)).sum_eq
    rw [List.map_map] at h
    exact h
  simp only [hperm]
  rw [← sum_map_swap3 (M.BlockIterRngWhole b) (List.range L.NUMCOMPONENTS) L.directions
    (fun m c d => qf b m d - dt / (qtau b m c + 1 / 2 * dt) *
        (qf b m d - qfeq b m d) + qtau b m c * (dt / (qtau b m c + 1 / 2 * dt)) * qF b m d)]
  apply congrArg
  apply List.map_congr_left
  intro n hn
  apply congrArg
  apply List.map_congr_left
  intro c hc
  have hc' : c < L.NUMCOMPONENTS := List.mem_range.mp hc
  rw [sum_map_collide (L.directions c) (qf b n) (qfeq b n) (qF b n)
    (dt / (qtau b n c + 1 / 2 * dt)) (qtau b n c), hsum b n c hb' hn hc', hzero b n c hb' hn hc']
  ring

/-- C22 amended, on the periodic sample mesh of 3 x 3 fluid nodes with `dt = 1/2`,
relaxation time 1 and no body force; the equilibrium differs from `f` and has
the same sum over the nine directions of each component. -/
theorem mass_conservation_witness :
    totalMass twoD2Q9 sampleMesh
        (Stream twoD2Q9 sampleTypes sampleMesh (Collision twoD2Q9 sampleTypes sampleMesh
          (Real.fin (1 / 2)) (sampleFlow 1 0))).g_f =
      totalMass twoD2Q9 sampleMesh (sampleFlow 1 0).g_f := by
  refine mass_conservation twoD2Q9 sampleTypes sampleMesh (1 / 2) (sampleFlow 1 0)
    (fun _ n d => ((d % 9 : Nat) : ℚ) + 1 + n.1 + 3 * n.2)
    (fun _ n d => 8 - ((d % 9 : Nat) : ℚ) + 1 + n.1 + 3 * n.2)
    (fun _ _ _ => 0) (fun _ _ _ => 1)
    twoD2Q9_disjoint sampleMesh_periodic (by decide) (fun _ _ _ _ => rfl)
    (fun _ _ _ => rfl) (fun _ _ _ => rfl) (fun _ _ _ => rfl) (fun _ _ _ => rfl)
    (fun _ _ _ _ _ _ => by norm_num) ?_ ?_
  · intro b n c _ _ hc
    have hc' : c = 0 ∨ c = 1 := by
      have : c < 2 := hc
      omega
    rcases hc' with rfl | rfl <;>
      simp [Lattice.directions, twoD2Q9, List.range'] <;> ring
  · intro b n c _ _ _
    simp

/-! ## The order of the steps of `StreamCollision`: theorems -/

/-- An entry after a loop over the blocks whose kernel writes a value that does
not depend on the old content. -/
theorem blocks_write_at {ι : Type} [DecidableEq ι] (B : Nat) (rng : Nat → List ι)
    (k : Nat → ι → (Nat → Real) → (Nat → Real)) (dat : Nat → ι → Nat → Real)
    (b : Nat) (n : ι) (idx : Nat) (target : Real) (hb : b < B) (hn : n ∈ rng b)
    (hk : ∀ dest, k b n dest idx = target) :
    forRange B (fun blockIndex dat =>
      store dat blockIndex (opsParLoopWrite (rng blockIndex) (k blockIndex) (dat blockIndex)))
      dat b n idx = target := by
  rw [forRange_blocks_at B (fun blockIndex old =>
    opsParLoopWrite (rng blockIndex) (k blockIndex) old) dat b hb]
  exact opsParLoopWrite_at _ _ _ n idx hk _ (Or.inl hn)

/-- C24: `StreamCollision` runs `UpdateMacroVars`, `CopyDistribution(g_f,
g_fStage)`, `UpdateFeqandBodyforce`, `UpdateTau`, `Collision`, `Stream` and
`ImplementBoundaryConditions` in this order, and `Stream` reads the `g_fStage`
that `Collision` produced; but the body force that `Collision` reads is the one
stored before the call, not one computed from the macro variables of the
current `f`.  On the sample mesh two calls that start from the same `f`, with
stored body force 0 and 5, give `f = 5` and `f = 7` at node (1,1), direction 1. -/
theorem stream_collision_body_force_stale :
    (∀ (L : Lattice) (E : VertexTypes) (M : Mesh (Int × Int)) (K : ModelKernels (Int × Int))
      (TimeStep : Real) (s : FlowField (Int × Int)),
      StreamCollision L E M K TimeStep s =
        K.ImplementBoundaryConditions
          (Stream L E M (Collision L E M TimeStep (StreamCollision.beforeCollision M K s))) ∧
      (StreamCollision.beforeCollision M K s).g_Bodyforce = s.g_Bodyforce ∧
      (StreamCollision.beforeCollision M K s).g_f = s.g_f) ∧
    (sampleFlow 1 0).g_f = (sampleFlow 1 5).g_f ∧
    (StreamCollision twoD2Q9 sampleTypes sampleMesh sampleKernels (Real.fin (1 / 2))
      (sampleFlow 1 0)).g_f 0 (1, 1) 1 = Real.fin 5 ∧
    (StreamCollision twoD2Q9 sampleTypes sampleMesh sampleKernels (Real.fin (1 / 2))
      (sampleFlow 1 5)).g_f 0 (1, 1) 1 = Real.fin 7 := by
  have key : ∀ F : ℚ,
      (StreamCollision twoD2Q9 sampleTypes sampleMesh sampleKernels (Real.fin (1 / 2))
        (sampleFlow 1 F)).g_f 0 (1, 1) 1 = Real.fin (5 + 2 / 5 * F) := by
    intro F
    have hy : sampleMesh.offset (1, 1) (-twoD2Q9.XI (1 * twoD2Q9.LATTDIM))
        (-twoD2Q9.XI (1 * twoD2Q9.LATTDIM + 1)) = (0, 1) := by decide
    have hmv : (UpdateMacroVars sampleMesh sampleKernels (sampleFlow 1 F)).g_MacroVars
        0 (0, 1) 1 = Real.fin 5 :=
      (blocks_write_at _ _ _ _ 0 (0, 1) 1 ((sampleFlow 1 F).g_f 0 (0, 1) 1) (by decide)
        (by decide) (fun _ => rfl)).trans (by simp only [sampleFlow]; norm_num)
    have hfeq : (StreamCollision.beforeCollision sampleMesh sampleKernels
        (sampleFlow 1 F)).g_feq 0 (0, 1) 1 = Real.fin 5 :=
      (blocks_write_at _ _ _ _ 0 (0, 1) 1
        ((UpdateMacroVars sampleMesh sampleKernels (sampleFlow 1 F)).g_MacroVars 0 (0, 1) 1)
        (by decide) (by decide) (fun _ => rfl)).trans hmv
    have htau : (StreamCollision.beforeCollision sampleMesh sampleKernels
        (sampleFlow 1 F)).g_Tau 0 (0, 1) 0 = Real.fin 1 :=
      blocks_write_at _ _ _ _ 0 (0, 1) 0 (Real.fin 1) (by decide) (by decide) (fun _ => rfl)
    have hf : (StreamCollision.beforeCollision sampleMesh sampleKernels
        (sampleFlow 1 F)).g_f 0 (0, 1) 1 = Real.fin 5 := by
      show (sampleFlow 1 F).g_f 0 (0, 1) 1 = Real.fin 5
      simp only [sampleFlow]
      norm_num
    have hF : (StreamCollision.beforeCollision sampleMesh sampleKernels
        (sampleFlow 1 F)).g_Bodyforce 0 (0, 1) 1 = Real.fin F := rfl
    show (Stream twoD2Q9 sampleTypes sampleMesh (Collision twoD2Q9 sampleTypes sampleMesh
      (Real.fin (1 / 2)) (StreamCollision.beforeCollision sampleMesh sampleKernels
        (sampleFlow 1 F)))).g_f 0 (1, 1) 1 = _
    refine (Stream_at_fluid twoD2Q9 sampleTypes sampleMesh (Collision twoD2Q9 sampleTypes
      sampleMesh (Real.fin (1 / 2)) (StreamCollision.beforeCollision sampleMesh sampleKernels
        (sampleFlow 1 F))) 0 (1, 1) 0 1 twoD2Q9_disjoint (by decide) (by decide) (by decide)
      (by decide)
      (show (10 : Int) ≥ sampleTypes.Vertex_Fluid ∧ (10 : Int) < sampleTypes.Vertex_Boundary
        from by decide)).trans ?_
    rw [hy, Collision_at_required twoD2Q9 sampleTypes sampleMesh (Real.fin (1 / 2))
      (StreamCollision.beforeCollision sampleMesh sampleKernels (sampleFlow 1 F)) 0 (0, 1) 0 1
      twoD2Q9_disjoint (by decide) (by decide) (by decide) (by decide)
      (show KerCollide.collisionRequired sampleTypes 10 = true from by decide),
      hf, hfeq, htau, hF]
    norm_num [Real.fin_div_fin, Real.fin_mul_fin, Real.fin_add_fin, Real.fin_sub_fin]
  refine ⟨fun L E M K TimeStep s => ⟨rfl, rfl, rfl⟩, rfl, ?_, ?_⟩
  · rw [key 0]
    norm_num
  · rw [key 5]
    norm_num

/-! ## Semi-implicit time marching as a backward-Euler step -/

/-- The quotient written by the semi-implicit kernel solves the backward-Euler
equation of the relaxation step. -/
theorem Real.backward_euler (dt tau : ℚ) (f feq F G : Real) (htau : tau ≠ 0)
    (hsum : dt + tau ≠ 0) :
    (feq * Real.fin dt + F * Real.fin dt * Real.fin tau - G * Real.fin dt * Real.fin tau +
        f * Real.fin tau) / (Real.fin dt + Real.fin tau) =
      f + Real.fin dt * (F - G +
        (feq - (feq * Real.fin dt + F * Real.fin dt * Real.fin tau -
          G * Real.fin dt * Real.fin tau + f * Real.fin tau) /
            (Real.fin dt + Real.fin tau)) / Real.fin tau) := by
  cases f with
  | none => cases feq <;> cases F <;> cases G <;> rfl
  | some f =>
    cases feq with
    | none => cases F <;> cases G <;> rfl
    | some feq =>
      cases F with
      | none => cases G <;> rfl
      | some F =>
        cases G with
        | none => rfl
        | some G =>
          show (Real.fin feq * Real.fin dt + Real.fin F * Real.fin dt * Real.fin tau -
              Real.fin G * Real.fin dt * Real.fin tau + Real.fin f * Real.fin tau) /
              (Real.fin dt + Real.fin tau) =
            Real.fin f + Real.fin dt * (Real.fin F - Real.fin G +
              (Real.fin feq - (Real.fin feq * Real.fin dt +
                Real.fin F * Real.fin dt * Real.fin tau -
                Real.fin G * Real.fin dt * Real.fin tau + Real.fin f * Real.fin tau) /
                  (Real.fin dt + Real.fin tau)) / Real.fin tau)
          simp only [Real.fin_add_fin, Real.fin_sub_fin, Real.fin_mul_fin,
            Real.fin_div_fin _ _ hsum, Real.fin_div_fin _ _ htau]
          apply congrArg Real.fin
          field_simp
          ring

/-- C31: for a marched direction `d` of component `c` with a finite time step
`dt` and a finite relaxation time `tau` such that `tau ≠ 0` and `dt + tau ≠ 0`,
the value `g` that `KerCutCellSemiImplicitTimeMach` writes satisfies
`g = f + dt*(bodyForce - fGradient + (feq - g)/tau)`, where `f` is the value
before the update, and the kernel gives the same array for every `schemeCoeff`. -/
theorem semi_implicit_backward_euler (L : Lattice) (E : VertexTypes) (dt tau : ℚ)
    (schemeCoeff : Real) (vt : Int) (vg : VertexGeometryTypes)
    (fGradient feq relaxationTime bodyForce f : Nat → Real) (c d : Nat)
    (hL : L.Disjoint) (hc : c < L.NUMCOMPONENTS) (hd : L.inCompo c d)
    (hm : KerCutCellSemiImplicitTimeMach.needMarch E vt vg (L.XI (d * L.LATTDIM))
      (L.XI (d * L.LATTDIM + 1)) = true)
    (hrel : relaxationTime c = Real.fin tau) (htau : tau ≠ 0) (hsum : dt + tau ≠ 0) :
    KerCutCellSemiImplicitTimeMach L E (Real.fin dt) schemeCoeff vt vg fGradient feq
        relaxationTime bodyForce f d =
      f d + Real.fin dt * (bodyForce d - fGradient d +
        (feq d - KerCutCellSemiImplicitTimeMach L E (Real.fin dt) schemeCoeff vt vg fGradient
          feq relaxationTime bodyForce f d) / Real.fin tau) ∧
    ∀ schemeCoeff' : Real,
      KerCutCellSemiImplicitTimeMach L E (Real.fin dt) schemeCoeff' vt vg fGradient feq
          relaxationTime bodyForce f =
        KerCutCellSemiImplicitTimeMach L E (Real.fin dt) schemeCoeff vt vg fGradient feq
          relaxationTime bodyForce f := by
  refine ⟨?_, fun _ => rfl⟩
  rw [KerCutCellSemiImplicitTimeMach_at L E (Real.fin dt) schemeCoeff vt vg fGradient feq
    relaxationTime bodyForce f c d hL hc hd, if_pos hm, hrel]
  exact Real.backward_euler dt tau (f d) (feq d) (bodyForce d) (fGradient d) htau hsum

/-- C31, at direction 12 of component 1 (relaxation time 3/2) of a fluid node
with `dt = 1/2`, `f = 13`, `feq = 27`, `bodyForce = 3`, `fGradient = 3/2`: the
written value is `g = 273/16`, and `13 + (1/2)*(3 - 3/2 + (27 - 273/16)/(3/2))`
is `273/16` again. -/
theorem semi_implicit_backward_euler_witness :
    KerCutCellSemiImplicitTimeMach twoD2Q9 sampleTypes (Real.fin (1 / 2)) (Real.fin 7) 10 .VG_IM
        sampleGradient sampleFeq sampleTau sampleForce sampleF 12 = Real.fin (273 / 16) ∧
    sampleF 12 + Real.fin (1 / 2) * (sampleForce 12 - sampleGradient 12 +
        (sampleFeq 12 - Real.fin (273 / 16)) / Real.fin (3 / 2)) = Real.fin (273 / 16) := by
  have h := (semi_implicit_backward_euler twoD2Q9 sampleTypes (1 / 2) (3 / 2) (Real.fin 7) 10
    .VG_IM sampleGradient sampleFeq sampleTau sampleForce sampleF 1 12 twoD2Q9_disjoint
    (by decide) (by decide) (by decide) (by simp [sampleTau]) (by norm_num) (by norm_num)).1
  have hg : KerCutCellSemiImplicitTimeMach twoD2Q9 sampleTypes (Real.fin (1 / 2)) (Real.fin 7)
      10 .VG_IM sampleGradient sampleFeq sampleTau sampleForce sampleF 12 =
      Real.fin (273 / 16) := by
    rw [KerCutCellSemiImplicitTimeMach_at twoD2Q9 sampleTypes (Real.fin (1 / 2)) (Real.fin 7)
      10 .VG_IM sampleGradient sampleFeq sampleTau sampleForce sampleF 1 12 twoD2Q9_disjoint
      (by decide) (by decide), if_pos (by decide)]
    simp only [sampleF, sampleFeq, sampleTau, sampleForce, sampleGradient]
    norm_num [Real.fin_div_fin]
  rw [hg] at h
  exact ⟨hg, h.symm⟩

/-! ## Positivity of the collision -/

/-- The relaxation factor `k = dt/(tau + dt/2)` lies in `(0, 1]` for `dt > 0` and
`tau >= dt/2`. -/
theorem collide_factor_bounds (dt tau : ℚ) (hdt : 0 < dt) (htau : dt / 2 ≤ tau) :
    0 < tau + 1 / 2 * dt ∧ 0 < dt / (tau + 1 / 2 * dt) ∧ dt / (tau + 1 / 2 * dt) ≤ 1 := by
  have hpos : 0 < tau + 1 / 2 * dt := by linarith
  refine ⟨hpos, div_pos hdt hpos, ?_⟩
  rw [div_le_one hpos]
  linarith

/-- The value written by the collision, for finite data with `tau + dt/2 ≠ 0`. -/
theorem Real.collide_value (dt tau f feq F : ℚ) (h : tau + 1 / 2 * dt ≠ 0) :
    Real.fin f - Real.fin dt / (Real.fin tau + Real.fin (1 / 2) * Real.fin dt) *
          (Real.fin f - Real.fin feq) +
        Real.fin tau * (Real.fin dt / (Real.fin tau + Real.fin (1 / 2) * Real.fin dt)) *
          Real.fin F =
      Real.fin ((1 - dt / (tau + 1 / 2 * dt)) * f + dt / (tau + 1 / 2 * dt) * feq +
        tau * (dt / (tau + 1 / 2 * dt)) * F) := by
  simp only [Real.fin_mul_fin, Real.fin_add_fin, Real.fin_sub_fin, Real.fin_div_fin _ _ h]
  apply congrArg Real.fin
  ring

/-- A convex combination with a non-negative addend is positive, and without the
addend it lies between the two values. -/
theorem collide_value_bounds (k tau f feq F : ℚ) (hk0 : 0 < k) (hk1 : k ≤ 1) (htau : 0 ≤ tau)
    (hf : 0 < f) (hfeq : 0 < feq) (hF : 0 ≤ F) :
    0 < (1 - k) * f + k * feq + tau * k * F ∧
    (F = 0 → min f feq ≤ (1 - k) * f + k * feq + tau * k * F ∧
      (1 - k) * f + k * feq + tau * k * F ≤ max f feq) := by
  have h1 : 0 ≤ (1 - k) * f := mul_nonneg (by linarith) hf.le
  have h2 : 0 < k * feq := mul_pos hk0 hfeq
  have h3 : 0 ≤ tau * k * F := mul_nonneg (mul_nonneg htau hk0.le) hF
  refine ⟨by linarith, ?_⟩
  intro hF0
  subst hF0
  have hk : 0 ≤ 1 - k := by linarith
  constructor
  · rcases le_total f feq with h | h
    · rw [min_eq_left h]
      nlinarith [mul_nonneg hk0.le (sub_nonneg.mpr h)]
    · rw [min_eq_right h]
      nlinarith [mul_nonneg hk (sub_nonneg.mpr h)]
  · rcases le_total f feq with h | h
    · rw [max_eq_right h]
      nlinarith [mul_nonneg hk (sub_nonneg.mpr h)]
    · rw [max_eq_left h]
      nlinarith [mul_nonneg hk0.le (sub_nonneg.mpr h)]

/-! ## Rounding to the nearest number of the format -/

theorem Real.roundTiesEven_nearest (m : ℚ) (k : ℤ) :
    |m - Real.roundTiesEven m| ≤ |m - k| := by
  have hfl := Int.floor_le m
  have hlt := Int.lt_floor_add_one m
  have hk : (k : ℚ) ≤ ⌊m⌋ ∨ ((⌊m⌋ : ℚ) + 1 ≤ k) := by
    rcases le_or_lt k ⌊m⌋ with h | h
    · left
      exact_mod_cast h
    · right
      exact_mod_cast h
  unfold Real.roundTiesEven
  split_ifs with h1 h2 h3
  · rw [abs_of_nonneg (by linarith : (0 : ℚ) ≤ m - ⌊m⌋)]
    rcases hk with hk | hk
    · rw [abs_of_nonneg (by linarith)]
      linarith
    · rw [abs_of_nonpos (by linarith)]
      linarith
  · push_cast
    rw [abs_of_nonpos (by linarith : m - ((⌊m⌋ : ℚ) + 1) ≤ 0)]
    rcases hk with hk | hk
    · rw [abs_of_nonneg (by linarith)]
      linarith
    · rw [abs_of_nonpos (by linarith)]
      linarith
  · have h12 : m - ⌊m⌋ = 1 / 2 := le_antisymm (not_lt.mp h2) (not_lt.mp h1)
    rw [abs_of_nonneg (by linarith : (0 : ℚ) ≤ m - ⌊m⌋)]
    rcases hk with hk | hk
    · rw [abs_of_nonneg (by linarith)]
      linarith
    · rw [abs_of_nonpos (by linarith)]
      linarith
  · have h12 : m - ⌊m⌋ = 1 / 2 := le_antisymm (not_lt.mp h2) (not_lt.mp h1)
    push_cast
    rw [abs_of_nonpos (by linarith : m - ((⌊m⌋ : ℚ) + 1) ≤ 0)]
    rcases hk with hk | hk
    · rw [abs_of_nonneg (by linarith)]
      linarith
    · rw [abs_of_nonpos (by linarith)]
      linarith

/-- The rounded value is a multiple of the unit in the last place that is
nearest among the multiples. -/
theorem Real.round64_nearest_multiple (q : ℚ) (hq : q ≠ 0) (k : ℤ) :
    |q - Real.round64 q| ≤ |q - k * 2 ^ (Int.log 2 |q| - 52)| := by
  have hu : (0 : ℚ) < 2 ^ (Int.log 2 |q| - 52) := zpow_pos (by norm_num) _
  unfold Real.round64
  rw [if_neg hq]
  generalize (2 : ℚ) ^ (Int.log 2 |q| - 52) = u at hu ⊢
  have h := Real.roundTiesEven_nearest (q / u) k
  have e1 : q - (Real.roundTiesEven (q / u) : ℚ) * u =
      (q / u - Real.roundTiesEven (q / u)) * u := by
    rw [sub_mul, div_mul_cancel₀ _ hu.ne']
  have e2 : q - (k : ℚ) * u = (q / u - k) * u := by
    rw [sub_mul, div_mul_cancel₀ _ hu.ne']
  rw [e1, e2, abs_mul, abs_mul, abs_of_pos hu]
  exact mul_le_mul_of_nonneg_right h hu.le

theorem Real.roundTiesEven_cases (m : ℚ) :
    Real.roundTiesEven m = ⌊m⌋ ∨ Real.roundTiesEven m = ⌊m⌋ + 1 := by
  unfold Real.roundTiesEven
  split_ifs <;> simp

theorem Real.round64_zero : Real.round64 0 = 0 := by
  unfold Real.round64
  rw [if_pos rfl]

/-- The bounds of the binade of a number that is not zero. -/
theorem Real.binade_bounds (q : ℚ) (hq : q ≠ 0) :
    (2 : ℚ) ^ Int.log 2 |q| ≤ |q| ∧ |q| < 2 ^ (Int.log 2 |q| + 1) := by
  have h := Int.zpow_log_le_self (b := 2) (r := |q|) (by norm_num) (abs_pos.mpr hq)
  have h' := Int.lt_zpow_succ_log_self (b := 2) (by norm_num) |q|
  exact ⟨by exact_mod_cast h, by exact_mod_cast h'⟩

/-- The rounded value is nearest to `q` among the numbers of the format. -/
theorem Real.round64_nearest (q z : ℚ) (hz : Real.representable64 z) :
    |q - Real.round64 q| ≤ |q - z| := by
  by_cases hq : q = 0
  · subst hq
    rw [Real.round64_zero, sub_zero, abs_zero]
    exact abs_nonneg _
  obtain ⟨m, e', hm, rfl⟩ := hz
  obtain ⟨hlo, -⟩ := Real.binade_bounds q hq
  have hgrid := Real.round64_nearest_multiple q hq
  generalize Int.log 2 |q| = e at hlo hgrid
  by_cases he : e - 52 ≤ e'
  · obtain ⟨n, hn⟩ := Int.eq_ofNat_of_zero_le (sub_nonneg.mpr he)
    have hz : (m : ℚ) * 2 ^ e' = ((m * 2 ^ n : ℤ) : ℚ) * 2 ^ (e - 52) := by
      have : e' = (n : ℤ) + (e - 52) := by omega
      rw [this, zpow_add₀ (by norm_num : (2 : ℚ) ≠ 0), zpow_natCast]
      push_cast
      ring
    rw [hz]
    exact hgrid _
  · have he' : 53 + e' ≤ e := by omega
    have hm' : |(m : ℚ)| < 2 ^ 53 := by exact_mod_cast hm
    have hzlt : |(m : ℚ) * 2 ^ e'| < 2 ^ e := by
      have hp : (0 : ℚ) < 2 ^ e' := zpow_pos (by norm_num) _
      rw [abs_mul, abs_of_pos hp]
      calc |(m : ℚ)| * 2 ^ e' < 2 ^ 53 * 2 ^ e' := mul_lt_mul_of_pos_right hm' hp
        _ = 2 ^ (53 + e') := by
          rw [zpow_add₀ (by norm_num : (2 : ℚ) ≠ 0)]
          norm_num
        _ ≤ 2 ^ e := zpow_le_zpow_right₀ (by norm_num) he'
    have h2e : (2 : ℚ) ^ e = ((2 ^ 52 : ℤ) : ℚ) * 2 ^ (e - 52) := by
      have : e = 52 + (e - 52) := by omega
      rw [show ((2 ^ 52 : ℤ) : ℚ) = 2 ^ (52 : ℤ) by norm_num,
        ← zpow_add₀ (by norm_num : (2 : ℚ) ≠ 0), ← this]
    have hzb := abs_lt.mp hzlt
    rcases lt_or_gt_of_ne hq with hneg | hpos
    · have hk := hgrid (-(2 ^ 52))
      rw [show ((-(2 ^ 52) : ℤ) : ℚ) = -((2 ^ 52 : ℤ) : ℚ) by push_cast; ring, neg_mul,
        ← h2e] at hk
      rw [abs_of_neg hneg] at hlo
      rw [abs_of_nonpos (by linarith : q - -(2 : ℚ) ^ e ≤ 0)] at hk
      rw [abs_of_nonpos (by linarith : q - (m : ℚ) * 2 ^ e' ≤ 0)]
      linarith
    · have hk := hgrid (2 ^ 52)
      rw [← h2e] at hk
      rw [abs_of_pos hpos] at hlo
      rw [abs_of_nonneg (by linarith : 0 ≤ q - (2 : ℚ) ^ e)] at hk
      rw [abs_of_nonneg (by linarith : 0 ≤ q - (m : ℚ) * 2 ^ e')]
      linarith

/-- The rounded value is a number of the format. -/
theorem Real.round64_representable (q : ℚ) : Real.representable64 (Real.round64 q) := by
  by_cases hq : q = 0
  · subst hq
    rw [Real.round64_zero]
    exact ⟨0, 0, by norm_num, by norm_num⟩
  obtain ⟨-, hhi⟩ := Real.binade_bounds q hq
  unfold Real.round64
  rw [if_neg hq]
  generalize Int.log 2 |q| = e at hhi ⊢
  have hu : (0 : ℚ) < 2 ^ (e - 52) := zpow_pos (by norm_num) _
  have hM : |q / 2 ^ (e - 52)| < 2 ^ 53 := by
    rw [abs_div, abs_of_pos hu, div_lt_iff₀ hu]
    calc |q| < 2 ^ (e + 1) := hhi
      _ = 2 ^ 53 * 2 ^ (e - 52) := by
        rw [show e + 1 = 53 + (e - 52) by omega, zpow_add₀ (by norm_num : (2 : ℚ) ≠ 0)]
        norm_num
  generalize q / 2 ^ (e - 52) = M at hM
  obtain ⟨hM1, hM2⟩ := abs_lt.mp hM
  have hfl1 : -(2 ^ 53 : ℤ) ≤ ⌊M⌋ := Int.le_floor.mpr (by push_cast; linarith)
  have hfl2 : ⌊M⌋ < (2 ^ 53 : ℤ) := Int.floor_lt.mpr (by push_cast; linarith)
  have hr : -(2 ^ 53 : ℤ) ≤ Real.roundTiesEven M ∧ Real.roundTiesEven M ≤ 2 ^ 53 := by
    rcases Real.roundTiesEven_cases M with h | h <;> rw [h] <;> constructor <;> omega
  generalize Real.roundTiesEven M = r at hr
  by_cases h1 : r = 2 ^ 53
  · refine ⟨1, e + 1, by norm_num, ?_⟩
    rw [h1, show e + 1 = 53 + (e - 52) by omega, zpow_add₀ (by norm_num : (2 : ℚ) ≠ 0)]
    norm_num
  by_cases h2 : r = -(2 ^ 53)
  · refine ⟨-1, e + 1, by norm_num, ?_⟩
    rw [h2, show e + 1 = 53 + (e - 52) by omega, zpow_add₀ (by norm_num : (2 : ℚ) ≠ 0)]
    norm_num
  · exact ⟨r, e - 52, abs_lt.mpr ⟨by omega, by omega⟩, rfl⟩

/-- A number of the format is its own rounded value. -/
theorem Real.round64_of_representable (x : ℚ) (hx : Real.representable64 x) :
    Real.round64 x = x := by
  have h := Real.round64_nearest x x hx
  rw [sub_self, abs_zero] at h
  have h0 := abs_eq_zero.mp (le_antisymm h (abs_nonneg _))
  linarith

/-- Rounding to nearest is monotone. -/
theorem Real.round64_mono (x y : ℚ) (hxy : x ≤ y) : Real.round64 x ≤ Real.round64 y := by
  rcases eq_or_lt_of_le hxy with heq | hxy
  · rw [heq]
  by_contra hlt
  push_neg at hlt
  have hx := Real.round64_nearest x (Real.round64 y) (Real.round64_representable y)
  have hy := Real.round64_nearest y (Real.round64 x) (Real.round64_representable x)
  generalize Real.round64 x = b at hlt hx hy
  generalize Real.round64 y = a at hlt hx hy
  rcases le_or_lt a x with hax | hax
  · rw [abs_of_nonneg (by linarith : 0 ≤ x - a)] at hx
    rw [abs_of_nonneg (by linarith : 0 ≤ y - a)] at hy
    rcases le_or_lt y b with hyb | hyb
    · rw [abs_of_nonpos (by linarith : y - b ≤ 0)] at hy
      rw [abs_of_neg (by linarith : x - b < 0)] at hx
      linarith
    · rw [abs_of_pos (by linarith : 0 < y - b)] at hy
      linarith
  · rw [abs_of_neg (by linarith : x - a < 0), abs_of_neg (by linarith : x - b < 0)] at hx
    linarith

/-- The exponent of a number between `2^e` and `2^(e+1)`. -/
theorem Real.log_eq_of_bounds (r : ℚ) (e : ℤ) (h1 : (2 : ℚ) ^ e ≤ r) (h2 : r < 2 ^ (e + 1)) :
    Int.log 2 r = e := by
  have hr : 0 < r := lt_of_lt_of_le (zpow_pos (by norm_num) e) h1
  have a := (Int.zpow_le_iff_le_log (b := 2) (by norm_num) hr (x := e)).mp (by exact_mod_cast h1)
  have b := (Int.lt_zpow_iff_log_lt (b := 2) (by norm_num) hr (x := e + 1)).mp
    (by exact_mod_cast h2)
  omega

/-- The difference `1 - 2^(-60)` rounds to 1: it lies above the midpoint
`1 - 2^(-54)` of the two neighbouring numbers of the format. -/
theorem Real.round64_one_sub : Real.round64 (1 - 1 / 2 ^ 60) = 1 := by
  have hlog : Int.log 2 |(1 - 1 / 2 ^ 60 : ℚ)| = -1 := by
    rw [abs_of_pos (by norm_num)]
    exact Real.log_eq_of_bounds _ _ (by norm_num) (by norm_num)
  have hfl : ⌊((1 - 1 / 2 ^ 60 : ℚ)) / 2 ^ (-1 - 52 : ℤ)⌋ = 2 ^ 53 - 1 := by
    rw [Int.floor_eq_iff]
    constructor <;> norm_num
  unfold Real.round64
  rw [if_neg (by norm_num), hlog]
  unfold Real.roundTiesEven
  rw [hfl, if_neg (by norm_num), if_pos (by norm_num)]
  norm_num

theorem Real.representable64_zero : Real.representable64 0 :=
  ⟨0, 0, by norm_num, by norm_num⟩

theorem Real.representable64_one : Real.representable64 1 :=
  ⟨1, 0, by norm_num, by norm_num⟩

theorem Real.representable64_half : Real.representable64 (1 / 2) :=
  ⟨1, -1, by norm_num, by norm_num⟩

/-! ## The collision in the arithmetic of `double` -/

@[simp] theorem Real.rounded_fin (rnd : ℚ → ℚ) (q : ℚ) :
    Real.rounded rnd (Real.fin q) = Real.fin (rnd q) := rfl

/-- Entry `d` of `fStage` after `KerCollide3D` in rounded arithmetic. -/
theorem KerCollide3D.rounded_at (rnd : ℚ → ℚ) (L : Lattice) (E : VertexTypes) (dt : Real)
    (nodeType : Nat → Int) (f feq relaxationTime bodyForce fStage : Nat → Real) (c d : Nat)
    (hL : L.Disjoint) (hc : c < L.NUMCOMPONENTS) (hd : L.inCompo c d) :
    KerCollide3D.rounded rnd L E dt nodeType f feq relaxationTime bodyForce fStage d =
      if KerCollide3D.collisionRequired E (nodeType c) = true then
        KerCollide3D.valueRounded rnd dt (relaxationTime c) (f d) (feq d) (bodyForce d)
      else fStage d := by
  unfold KerCollide3D.rounded
  rw [forCompo_at L _ (fun c d old =>
      if KerCollide3D.collisionRequired E (nodeType c) = true then
        KerCollide3D.valueRounded rnd dt (relaxationTime c) (f d) (feq d) (bodyForce d)
      else old) _ fStage c d hL hc hd]
  intro c s d
  by_cases h : KerCollide3D.collisionRequired E (nodeType c) = true
  · simp only [h, if_true]
    rw [forXi_at L c _ (fun d _ =>
        KerCollide3D.valueRounded rnd dt (relaxationTime c) (f d) (feq d) (bodyForce d))]
    intro i s
    rfl
  · simp [h]

/-- The kernel with diagnostics in rounded arithmetic: the run ends iff a value
to be written fails the test, and otherwise the result is the one of the kernel
without diagnostics. -/
theorem KerCollide3D.cpuRounded_eq (rnd : ℚ → ℚ) (L : Lattice) (E : VertexTypes) (dt : Real)
    (nodeType : Nat → Int) (f feq relaxationTime bodyForce fStage : Nat → Real) :
    KerCollide3D.cpuRounded rnd L E dt nodeType f feq relaxationTime bodyForce fStage =
      if (List.range L.NUMCOMPONENTS).any (fun c =>
          KerCollide3D.collisionRequired E (nodeType c) &&
            (List.range' (L.COMPOINDEX (2 * c))
                (L.COMPOINDEX (2 * c + 1) + 1 - L.COMPOINDEX (2 * c))).any (fun d =>
              (KerCollide3D.valueRounded rnd dt (relaxationTime c) (f d) (feq d)
                (bodyForce d)).invalid)) = true then none
      else some (KerCollide3D.rounded rnd L E dt nodeType f feq relaxationTime bodyForce
        fStage) := by
  unfold KerCollide3D.cpuRounded KerCollide3D.rounded forCompo
  rw [← foldl_checked]
  congr 1
  funext st c
  cases st with
  | none => rfl
  | some s =>
    simp only [Option.some_bind]
    by_cases hcr : KerCollide3D.collisionRequired E (nodeType c) = true
    · simp only [hcr, if_true, Bool.true_and]
      unfold forXi
      rw [← foldl_checked]
      congr 1
      funext st d
      cases st with
      | none => rfl
      | some s =>
        simp only [Option.some_bind, store_same]
        rfl
    · simp [hcr]

/-- The run of the kernel with diagnostics in rounded arithmetic ends iff the
value computed for some direction of a component that requires collision fails
the test. -/
theorem KerCollide3D.cpuRounded_eq_none_iff (rnd : ℚ → ℚ) (L : Lattice) (E : VertexTypes)
    (dt : Real) (nodeType : Nat → Int) (f feq relaxationTime bodyForce fStage : Nat → Real) :
    KerCollide3D.cpuRounded rnd L E dt nodeType f feq relaxationTime bodyForce fStage = none ↔
      ∃ c d, c < L.NUMCOMPONENTS ∧ KerCollide3D.collisionRequired E (nodeType c) = true ∧
        L.inCompo c d ∧
        (KerCollide3D.valueRounded rnd dt (relaxationTime c) (f d) (feq d)
          (bodyForce d)).invalid = true := by
  rw [KerCollide3D.cpuRounded_eq, ite_none_some_eq_none_iff]
  simp only [List.any_eq_true, Bool.and_eq_true, List.mem_range, Lattice.mem_range'_iff]
  constructor
  · rintro ⟨c, hc, hcr, d, hd, hbad⟩
    exact ⟨c, d, hc, hcr, hd, hbad⟩
  · rintro ⟨c, d, hc, hcr, hd, hbad⟩
    exact ⟨c, hc, hcr, d, hd, hbad⟩

/-- In rounded arithmetic, with a monotone rounding that keeps 0, 1, `dt`, `dt/2`
and `f`, the value of the collision is a finite number that is not negative. -/
theorem KerCollide3D.valueRounded_nonneg (rnd : ℚ → ℚ) (dt tau f feq F : ℚ)
    (hmono : ∀ x y, x ≤ y → rnd x ≤ rnd y) (h0 : rnd 0 = 0) (h1 : rnd 1 = 1)
    (hrdt : rnd dt = dt) (hrhalf : rnd (1 / 2 * dt) = 1 / 2 * dt) (hrf : rnd f = f)
    (hdt : 0 < dt) (htau : dt / 2 ≤ tau) (hf : 0 < f) (hfeq : 0 < feq) (hF : 0 ≤ F) :
    ∃ v : ℚ, 0 ≤ v ∧
      KerCollide3D.valueRounded rnd (Real.fin dt) (Real.fin tau) (Real.fin f) (Real.fin feq)
        (Real.fin F) = Real.fin v := by
  have hD : dt ≤ rnd (tau + rnd (1 / 2 * dt)) := by
    rw [hrhalf]
    calc dt = rnd dt := hrdt.symm
      _ ≤ rnd (tau + 1 / 2 * dt) := hmono _ _ (by linarith)
  have hDpos : 0 < rnd (tau + rnd (1 / 2 * dt)) := lt_of_lt_of_le hdt hD
  have hk0 : 0 ≤ rnd (dt / rnd (tau + rnd (1 / 2 * dt))) :=
    le_of_eq_of_le h0.symm (hmono _ _ (div_nonneg hdt.le hDpos.le))
  have hk1 : rnd (dt / rnd (tau + rnd (1 / 2 * dt))) ≤ 1 :=
    le_of_le_of_eq (hmono _ _ ((div_le_one hDpos).mpr hD)) h1
  have hval : KerCollide3D.valueRounded rnd (Real.fin dt) (Real.fin tau) (Real.fin f)
      (Real.fin feq) (Real.fin F) =
      Real.fin (rnd (rnd (f - rnd (rnd (dt / rnd (tau + rnd (1 / 2 * dt))) * rnd (f - feq))) +
        rnd (rnd (tau * rnd (dt / rnd (tau + rnd (1 / 2 * dt)))) * F))) := by
    unfold KerCollide3D.valueRounded
    simp only [Real.fin_mul_fin, Real.rounded_fin, Real.fin_add_fin,
      Real.fin_div_fin _ _ hDpos.ne', Real.fin_sub_fin]
  generalize rnd (dt / rnd (tau + rnd (1 / 2 * dt))) = k at hk0 hk1 hval
  have hc : 0 ≤ rnd (f - rnd (k * rnd (f - feq))) := by
    refine le_of_eq_of_le h0.symm (hmono _ _ ?_)
    rcases le_total feq f with h | h
    · have ha0 : 0 ≤ rnd (f - feq) := le_of_eq_of_le h0.symm (hmono _ _ (by linarith))
      have haf : rnd (f - feq) ≤ f := le_of_le_of_eq (hmono _ _ (by linarith)) hrf
      have hb : rnd (k * rnd (f - feq)) ≤ f :=
        le_of_le_of_eq (hmono _ _ (by nlinarith [mul_nonneg (sub_nonneg.mpr hk1) ha0])) hrf
      linarith
    · have ha0 : rnd (f - feq) ≤ 0 := le_of_le_of_eq (hmono _ _ (by linarith)) h0
      have hb : rnd (k * rnd (f - feq)) ≤ 0 :=
        le_of_le_of_eq (hmono _ _ (by nlinarith [mul_nonneg hk0 (neg_nonneg.mpr ha0)])) h0
      linarith
  have hd : 0 ≤ rnd (tau * k) :=
    le_of_eq_of_le h0.symm (hmono _ _ (mul_nonneg (by linarith) hk0))
  have he : 0 ≤ rnd (rnd (tau * k) * F) :=
    le_of_eq_of_le h0.symm (hmono _ _ (mul_nonneg hd hF))
  exact ⟨_, le_of_eq_of_le h0.symm (hmono _ _ (by linarith)), hval⟩

/-- The value of the collision in the arithmetic of `double` at `dt = 1`,
`tau = 1/2`, `f = 1`, `feq = 2^(-60)` and no body force: `dt/(tau + dt/2)` is 1,
`f - feq` rounds to 1, and `1 - 1*1 = 0`. -/
theorem KerCollide3D.valueRounded_absorbed :
    KerCollide3D.valueRounded Real.round64 (Real.fin 1) (Real.fin (1 / 2)) (Real.fin 1)
      (Real.fin (1 / 2 ^ 60)) (Real.fin 0) = Real.fin 0 := by
  have r1 : Real.round64 1 = 1 := Real.round64_of_representable 1 Real.representable64_one
  have rh : Real.round64 (1 / 2) = 1 / 2 :=
    Real.round64_of_representable _ Real.representable64_half
  have hD : Real.round64 (1 / 2 + 1 / 2) = 1 := by
    rw [show (1 / 2 : ℚ) + 1 / 2 = 1 by norm_num, r1]
  unfold KerCollide3D.valueRounded
  simp only [Real.fin_mul_fin, Real.rounded_fin, Real.fin_add_fin, Real.fin_sub_fin, hD,
    Real.fin_div_fin _ _ one_ne_zero, div_one, r1, rh, mul_one, one_mul,
    Real.round64_one_sub, sub_self, Real.round64_zero, mul_zero, add_zero]

/-- C32 fails as stated: in the arithmetic of `double`, at a node whose
components are fluid, with `dt = 1`, `tau = 1/2`, `f = 1`, `feq = 2^(-60)` and
body force 0 in every direction.  The preconditions hold (`dt > 0`,
`tau >= dt/2`, `f > 0`, `feq > 0`, `bodyForce >= 0`); `f - feq` rounds to 1, the
value written to `fStage[3]` is 0, and the test `res <= 0` of the diagnostics
ends the run. -/
theorem collide_positivity_counterexample :
    ((0 : ℚ) < 1 ∧ (1 : ℚ) / 2 ≤ 1 / 2 ∧ (0 : ℚ) < 1 ∧ (0 : ℚ) < 1 / 2 ^ 60 ∧ (0 : ℚ) ≤ 0) ∧
    Real.round64 (1 - 1 / 2 ^ 60) = 1 ∧
    KerCollide3D.rounded Real.round64 twoD3Q19 sampleTypes (Real.fin 1) (fun _ => 10)
        (fun _ => Real.fin 1) (fun _ => Real.fin (1 / 2 ^ 60)) (fun _ => Real.fin (1 / 2))
        (fun _ => Real.fin 0) sampleF 3 = Real.fin 0 ∧
    KerCollide3D.cpuRounded Real.round64 twoD3Q19 sampleTypes (Real.fin 1) (fun _ => 10)
        (fun _ => Real.fin 1) (fun _ => Real.fin (1 / 2 ^ 60)) (fun _ => Real.fin (1 / 2))
        (fun _ => Real.fin 0) sampleF = none := by
  refine ⟨by norm_num, Real.round64_one_sub, ?_, ?_⟩
  · rw [KerCollide3D.rounded_at Real.round64 twoD3Q19 sampleTypes (Real.fin 1) (fun _ => 10)
      _ _ _ _ sampleF 0 3 twoD3Q19_disjoint (by decide) (by decide), if_pos (by decide)]
    exact KerCollide3D.valueRounded_absorbed
  · rw [KerCollide3D.cpuRounded_eq_none_iff]
    refine ⟨0, 3, by decide, by decide, by decide, ?_⟩
    show (KerCollide3D.valueRounded Real.round64 (Real.fin 1) (Real.fin (1 / 2)) (Real.fin 1)
      (Real.fin (1 / 2 ^ 60)) (Real.fin 0)).invalid = true
    rw [KerCollide3D.valueRounded_absorbed, Real.invalid_fin]
    decide

/-- The value of the collision in exact arithmetic: for `dt > 0`,
`tau_c >= dt/2`, `f[d] > 0`, `feq[d] > 0` and `bodyForce[d] >= 0` the factor
`k = dt/(tau_c + dt/2)` is in `(0, 1]` and the value
`(1-k)*f[d] + k*feq[d] + tau_c*k*bodyForce[d]` that both kernels give is positive,
and between `min(f[d], feq[d])` and `max(f[d], feq[d])` when `bodyForce[d] = 0`. -/
theorem collide_exact_positive (L : Lattice) (E : VertexTypes) (dt : ℚ)
    (tau f feq F : Nat → ℚ) (fStage : Nat → Real) (c d : Nat) (hL : L.Disjoint)
    (hdt : 0 < dt) (hc : c < L.NUMCOMPONENTS) (hd : L.inCompo c d) (htau : dt / 2 ≤ tau c)
    (hf : 0 < f d) (hfeq : 0 < feq d) (hF : 0 ≤ F d) :
    ∃ k v : ℚ, k = dt / (tau c + 1 / 2 * dt) ∧ 0 < k ∧ k ≤ 1 ∧
      v = (1 - k) * f d + k * feq d + tau c * k * F d ∧ 0 < v ∧
      (F d = 0 → min (f d) (feq d) ≤ v ∧ v ≤ max (f d) (feq d)) ∧
      (∀ vt : Int, KerCollide.collisionRequired E vt = true →
        KerCollide L E (Real.fin dt) vt (fun i => Real.fin (f i)) (fun i => Real.fin (feq i))
          (fun i => Real.fin (tau i)) (fun i => Real.fin (F i)) fStage d = Real.fin v) ∧
      (∀ nodeType : Nat → Int, KerCollide3D.collisionRequired E (nodeType c) = true →
        KerCollide3D L E (Real.fin dt) nodeType (fun i => Real.fin (f i))
          (fun i => Real.fin (feq i)) (fun i => Real.fin (tau i)) (fun i => Real.fin (F i))
          fStage d = Real.fin v) := by
  obtain ⟨hpos, hk0, hk1⟩ := collide_factor_bounds dt (tau c) hdt htau
  have hb := collide_value_bounds (dt / (tau c + 1 / 2 * dt)) (tau c) (f d) (feq d) (F d)
    hk0 hk1 (by linarith) hf hfeq hF
  refine ⟨dt / (tau c + 1 / 2 * dt), _, rfl, hk0, hk1, rfl, hb.1, hb.2, ?_, ?_⟩
  · intro vt hvt
    rw [KerCollide_at L E (Real.fin dt) vt _ _ _ _ fStage c d hL hc hd hvt]
    exact Real.collide_value dt (tau c) (f d) (feq d) (F d) hpos.ne'
  · intro nodeType hvt
    rw [KerCollide3D_at L E (Real.fin dt) nodeType _ _ _ _ fStage c d hL hc hd, if_pos hvt]
    exact Real.collide_value dt (tau c) (f d) (feq d) (F d) hpos.ne'

/-- C32, amended: for finite data, `dt > 0` and a direction `d` of component `c`
with `tau_c >= dt/2`, `f[d] > 0`, `feq[d] > 0` and `bodyForce[d] >= 0`.  In exact
arithmetic the factor `k = dt/(tau_c + dt/2)` satisfies `0 < k <= 1` and the value
`v = (1-k)*f[d] + k*feq[d] + tau_c*k*bodyForce[d]` that `KerCollide` and
`KerCollide3D` give at a node that requires collision is strictly positive, and
lies between `min(f[d], feq[d])` and `max(f[d], feq[d])` when `bodyForce[d] = 0`.
In the arithmetic of `double`, for every rounding `rnd` that is monotone and
keeps 0, 1, `dt`, `dt/2` and the values of `f`, the value that `KerCollide3D`
writes is a finite number `>= 0`, and when the preconditions hold for every
direction of every component that requires collision, `KerCollide3D` with the
runtime diagnostics ends the run iff one of the values written is 0, and
otherwise returns the result of the kernel. -/
theorem collide_positivity (L : Lattice) (E : VertexTypes) (dt : ℚ) (tau f feq F : Nat → ℚ)
    (fStage : Nat → Real) (hL : L.Disjoint) (hdt : 0 < dt) :
    (∀ c d, c < L.NUMCOMPONENTS → L.inCompo c d → dt / 2 ≤ tau c → 0 < f d → 0 < feq d →
      0 ≤ F d →
      ∃ k v : ℚ, k = dt / (tau c + 1 / 2 * dt) ∧ 0 < k ∧ k ≤ 1 ∧
        v = (1 - k) * f d + k * feq d + tau c * k * F d ∧ 0 < v ∧
        (F d = 0 → min (f d) (feq d) ≤ v ∧ v ≤ max (f d) (feq d)) ∧
        (∀ vt : Int, KerCollide.collisionRequired E vt = true →
          KerCollide L E (Real.fin dt) vt (fun i => Real.fin (f i)) (fun i => Real.fin (feq i))
            (fun i => Real.fin (tau i)) (fun i => Real.fin (F i)) fStage d = Real.fin v) ∧
        (∀ nodeType : Nat → Int, KerCollide3D.collisionRequired E (nodeType c) = true →
          KerCollide3D L E (Real.fin dt) nodeType (fun i => Real.fin (f i))
            (fun i => Real.fin (feq i)) (fun i => Real.fin (tau i)) (fun i => Real.fin (F i))
            fStage d = Real.fin v)) ∧
    (∀ (rnd : ℚ → ℚ) (nodeType : Nat → Int),
      (∀ x y, x ≤ y → rnd x ≤ rnd y) → rnd 0 = 0 → rnd 1 = 1 → rnd dt = dt →
      rnd (1 / 2 * dt) = 1 / 2 * dt → (∀ d, rnd (f d) = f d) →
      (∀ c d, c < L.NUMCOMPONENTS → L.inCompo c d →
        KerCollide3D.collisionRequired E (nodeType c) = true →
        dt / 2 ≤ tau c ∧ 0 < f d ∧ 0 < feq d ∧ 0 ≤ F d) →
      (∀ c d, c < L.NUMCOMPONENTS → L.inCompo c d →
        KerCollide3D.collisionRequired E (nodeType c) = true →
        ∃ v : ℚ, 0 ≤ v ∧
          KerCollide3D.rounded rnd L E (Real.fin dt) nodeType (fun i => Real.fin (f i))
            (fun i => Real.fin (feq i)) (fun i => Real.fin (tau i)) (fun i => Real.fin (F i))
            fStage d = Real.fin v) ∧
      (KerCollide3D.cpuRounded rnd L E (Real.fin dt) nodeType (fun i => Real.fin (f i))
          (fun i => Real.fin (feq i)) (fun i => Real.fin (tau i)) (fun i => Real.fin (F i))
          fStage = none ↔
        ∃ c d, c < L.NUMCOMPONENTS ∧ KerCollide3D.collisionRequired E (nodeType c) = true ∧
          L.inCompo c d ∧
          KerCollide3D.rounded rnd L E (Real.fin dt) nodeType (fun i => Real.fin (f i))
            (fun i => Real.fin (feq i)) (fun i => Real.fin (tau i)) (fun i => Real.fin (F i))
            fStage d = Real.fin 0) ∧
      (KerCollide3D.cpuRounded rnd L E (Real.fin dt) nodeType (fun i => Real.fin (f i))
          (fun i => Real.fin (feq i)) (fun i => Real.fin (tau i)) (fun i => Real.fin (F i))
          fStage ≠ none →
        KerCollide3D.cpuRounded rnd L E (Real.fin dt) nodeType (fun i => Real.fin (f i))
          (fun i => Real.fin (feq i)) (fun i => Real.fin (tau i)) (fun i => Real.fin (F i))
          fStage =
        some (KerCollide3D.rounded rnd L E (Real.fin dt) nodeType (fun i => Real.fin (f i))
          (fun i => Real.fin (feq i)) (fun i => Real.fin (tau i)) (fun i => Real.fin (F i))
          fStage))) := by
  constructor
  · intro c d hc hd htau hf hfeq hF
    exact collide_exact_positive L E dt tau f feq F fStage c d hL hdt hc hd htau hf hfeq hF
  · intro rnd nodeType hmono h0 h1 hrdt hrhalf hrf hpre
    have hval : ∀ c d, c < L.NUMCOMPONENTS → L.inCompo c d →
        KerCollide3D.collisionRequired E (nodeType c) = true →
        ∃ v : ℚ, 0 ≤ v ∧
          KerCollide3D.valueRounded rnd (Real.fin dt) (Real.fin (tau c)) (Real.fin (f d))
            (Real.fin (feq d)) (Real.fin (F d)) = Real.fin v := by
      intro c d hc hd hcr
      obtain ⟨htau, hf, hfeq, hF⟩ := hpre c d hc hd hcr
      exact KerCollide3D.valueRounded_nonneg rnd dt (tau c) (f d) (feq d) (F d) hmono h0 h1
        hrdt hrhalf (hrf d) hdt htau hf hfeq hF
    have hat : ∀ c d, c < L.NUMCOMPONENTS → L.inCompo c d →
        KerCollide3D.collisionRequired E (nodeType c) = true →
        KerCollide3D.rounded rnd L E (Real.fin dt) nodeType (fun i => Real.fin (f i))
          (fun i => Real.fin (feq i)) (fun i => Real.fin (tau i)) (fun i => Real.fin (F i))
          fStage d =
        KerCollide3D.valueRounded rnd (Real.fin dt) (Real.fin (tau c)) (Real.fin (f d))
          (Real.fin (feq d)) (Real.fin (F d)) := by
      intro c d hc hd hcr
      rw [KerCollide3D.rounded_at rnd L E (Real.fin dt) nodeType _ _ _ _ fStage c d hL hc hd,
        if_pos hcr]
    refine ⟨?_, ?_, ?_⟩
    · intro c d hc hd hcr
      rw [hat c d hc hd hcr]
      exact hval c d hc hd hcr
    · rw [KerCollide3D.cpuRounded_eq_none_iff]
      constructor
      · rintro ⟨c, d, hc, hcr, hd, hbad⟩
        refine ⟨c, d, hc, hcr, hd, ?_⟩
        rw [hat c d hc hd hcr]
        obtain ⟨v, hv, he⟩ := hval c d hc hd hcr
        change (KerCollide3D.valueRounded rnd (Real.fin dt) (Real.fin (tau c)) (Real.fin (f d))
          (Real.fin (feq d)) (Real.fin (F d))).invalid = true at hbad
        rw [he, Real.invalid_fin, decide_eq_true_iff] at hbad
        rw [he, le_antisymm hbad hv]
      · rintro ⟨c, d, hc, hcr, hd, hzero⟩
        refine ⟨c, d, hc, hcr, hd, ?_⟩
        rw [hat c d hc hd hcr] at hzero
        change (KerCollide3D.valueRounded rnd (Real.fin dt) (Real.fin (tau c)) (Real.fin (f d))
          (Real.fin (feq d)) (Real.fin (F d))).invalid = true
        rw [hzero, Real.invalid_fin]
        decide
    · intro hne
      rw [KerCollide3D.cpuRounded_eq] at hne ⊢
      split_ifs at hne ⊢ with h
      · exact absurd rfl hne
      · rfl

theorem Real.representable64_three : Real.representable64 3 :=
  ⟨3, 0, by norm_num, by norm_num⟩

/-- C32 amended, in the arithmetic of `double` (`Real.round64`) on the D3Q19
sample lattice at a node whose components are fluid, with `dt = 1`,
`tau = 1/2`, `f = 3`, `feq = 1` and no body force: the value written to
`fStage[3]` is a finite number `>= 0`, and the kernel with diagnostics ends the
run iff a value written is 0. -/
theorem collide_positivity_witness :
    (∃ v : ℚ, 0 ≤ v ∧
      KerCollide3D.rounded Real.round64 twoD3Q19 sampleTypes (Real.fin 1) (fun _ => 10)
        (fun _ => Real.fin 3) (fun _ => Real.fin 1) (fun _ => Real.fin (1 / 2))
        (fun _ => Real.fin 0) sampleF 3 = Real.fin v) ∧
    (KerCollide3D.cpuRounded Real.round64 twoD3Q19 sampleTypes (Real.fin 1) (fun _ => 10)
        (fun _ => Real.fin 3) (fun _ => Real.fin 1) (fun _ => Real.fin (1 / 2))
        (fun _ => Real.fin 0) sampleF = none ↔
      ∃ c d, c < twoD3Q19.NUMCOMPONENTS ∧
        KerCollide3D.collisionRequired sampleTypes ((fun _ => 10 : Nat → Int) c) = true ∧
        twoD3Q19.inCompo c d ∧
        KerCollide3D.rounded Real.round64 twoD3Q19 sampleTypes (Real.fin 1) (fun _ => 10)
          (fun _ => Real.fin 3) (fun _ => Real.fin 1) (fun _ => Real.fin (1 / 2))
          (fun _ => Real.fin 0) sampleF d = Real.fin 0) := by
  have h := (collide_positivity twoD3Q19 sampleTypes 1 (fun _ => 1 / 2) (fun _ => 3)
    (fun _ => 1) (fun _ => 0) sampleF twoD3Q19_disjoint (by norm_num)).2 Real.round64
    (fun _ => 10) Real.round64_mono Real.round64_zero
    (Real.round64_of_representable 1 Real.representable64_one)
    (Real.round64_of_representable 1 Real.representable64_one)
    (by
      rw [mul_one]
      exact Real.round64_of_representable _ Real.representable64_half)
    (fun _ => Real.round64_of_representable 3 Real.representable64_three)
    (fun _ _ _ _ _ => by norm_num)
  exact ⟨h.1 0 3 (by decide) (by decide) (by decide), h.2.1⟩

/-! ## The three-point stencils on a uniform grid -/

/-- The backward three-point term on a uniform grid of spacing `h`. -/
theorem upwindThreePointBackward_uniform (cs c x0 h f0 f1 f2 : ℚ) (hh : h ≠ 0) :
    upwindThreePointBackward (Real.fin cs) (Real.fin c) (Real.fin f2) (Real.fin f1)
        (Real.fin f0) (Real.fin (x0 - 2 * h)) (Real.fin (x0 - h)) (Real.fin x0) =
      Real.fin (cs * c * (3 * f0 - 4 * f1 + f2) / (2 * h)) := by
  have e1 : x0 - 2 * h - x0 ≠ 0 := by
    intro e; apply hh; linarith
  have e2 : x0 - 2 * h - (x0 - h) ≠ 0 := by
    intro e; apply hh; linarith
  have e3 : x0 - h - x0 ≠ 0 := by
    intro e; apply hh; linarith
  have e4 : x0 - h - (x0 - 2 * h) ≠ 0 := by
    intro e; apply hh; linarith
  have e5 : x0 - (x0 - h) ≠ 0 := by
    intro e; apply hh; linarith
  have e6 : x0 - (x0 - 2 * h) ≠ 0 := by
    intro e; apply hh; linarith
  unfold upwindThreePointBackward
  simp only [Real.fin_sub_fin, Real.fin_div_fin _ _ e1, Real.fin_div_fin _ _ e2,
    Real.fin_div_fin _ _ e3, Real.fin_div_fin _ _ e4, Real.fin_div_fin _ _ e5,
    Real.fin_div_fin _ _ e6, Real.fin_mul_fin, Real.fin_add_fin, Real.fin_inj]
  rw [show x0 - 2 * h - x0 = -(2 * h) by ring, show x0 - 2 * h - (x0 - h) = -h by ring,
    show x0 - h - x0 = -h by ring, show x0 - h - (x0 - 2 * h) = h by ring,
    show x0 - (x0 - h) = h by ring, show x0 - (x0 - 2 * h) = 2 * h by ring]
  field_simp
  ring

/-- The forward three-point term on a uniform grid of spacing `h`. -/
theorem upwindThreePointForward_uniform (cs c x0 h f0 f1 f2 : ℚ) (hh : h ≠ 0) :
    upwindThreePointForward (Real.fin cs) (Real.fin c) (Real.fin f0) (Real.fin f1)
        (Real.fin f2) (Real.fin x0) (Real.fin (x0 + h)) (Real.fin (x0 + 2 * h)) =
      Real.fin (cs * c * (-3 * f0 + 4 * f1 - f2) / (2 * h)) := by
  have e1 : x0 - (x0 + 2 * h) ≠ 0 := by
    intro e; apply hh; linarith
  have e2 : x0 - (x0 + h) ≠ 0 := by
    intro e; apply hh; linarith
  have e3 : x0 + 2 * h - (x0 + h) ≠ 0 := by
    intro e; apply hh; linarith
  have e4 : x0 + h - x0 ≠ 0 := by
    intro e; apply hh; linarith
  have e5 : x0 + 2 * h - x0 ≠ 0 := by
    intro e; apply hh; linarith
  have e6 : x0 + h - (x0 + 2 * h) ≠ 0 := by
    intro e; apply hh; linarith
  unfold upwindThreePointForward
  simp only [Real.fin_sub_fin, Real.fin_div_fin _ _ e1, Real.fin_div_fin _ _ e2,
    Real.fin_div_fin _ _ e3, Real.fin_div_fin _ _ e4, Real.fin_div_fin _ _ e5,
    Real.fin_div_fin _ _ e6, Real.fin_mul_fin, Real.fin_add_fin, Real.fin_inj]
  rw [show x0 - (x0 + 2 * h) = -(2 * h) by ring, show x0 - (x0 + h) = -h by ring,
    show x0 + 2 * h - (x0 + h) = h by ring, show x0 + h - x0 = h by ring,
    show x0 + 2 * h - x0 = 2 * h by ring, show x0 + h - (x0 + 2 * h) = -h by ring]
  rw [div_neg, div_neg, one_div, one_div, eq_div_iff (mul_ne_zero two_ne_zero hh)]
  rw [mul_inv]
  field_simp
  ring

/-- C33: on a uniform grid with spacing `h ≠ 0` and finite values `f0`, `f1`,
`f2` of `f` at the node and its first and second upwind neighbour, the
three-point x-term of `KerCutCellCVTUpwind2nd` is
`CS*cx*(3*f(0) - 4*f(-1) + f(-2))/(2h)` for `cx > 0` (coordinates `x0`, `x0 - h`,
`x0 - 2h` at the offsets 0, -1, -2) and `CS*cx*(-3*f(0) + 4*f(+1) - f(+2))/(2h)`
for `cx < 0` (coordinates `x0`, `x0 + h`, `x0 + 2h` at the offsets 0, +1, +2);
the three-point y-term is the same with `cy` and the offsets along y. -/
theorem three_point_uniform_grid (cs x0 h f0 f1 f2 : ℚ) (c : Int)
    (coordinateXYZ : Nat → Int → Int → Real) (f : Int → Int → Real) (hh : h ≠ 0) :
    (c > 0 → coordinateXYZ 0 0 0 = Real.fin x0 → coordinateXYZ 0 (-1) 0 = Real.fin (x0 - h) →
      coordinateXYZ 0 (-2) 0 = Real.fin (x0 - 2 * h) → f 0 0 = Real.fin f0 →
      f (-1) 0 = Real.fin f1 → f (-2) 0 = Real.fin f2 →
      KerCutCellCVTUpwind2nd.xTerm (Real.fin cs) c false coordinateXYZ f =
        Real.fin (cs * c * (3 * f0 - 4 * f1 + f2) / (2 * h))) ∧
    (c < 0 → coordinateXYZ 0 0 0 = Real.fin x0 → coordinateXYZ 0 1 0 = Real.fin (x0 + h) →
      coordinateXYZ 0 2 0 = Real.fin (x0 + 2 * h) → f 0 0 = Real.fin f0 →
      f 1 0 = Real.fin f1 → f 2 0 = Real.fin f2 →
      KerCutCellCVTUpwind2nd.xTerm (Real.fin cs) c false coordinateXYZ f =
        Real.fin (cs * c * (-3 * f0 + 4 * f1 - f2) / (2 * h))) ∧
    (c > 0 → coordinateXYZ 1 0 0 = Real.fin x0 → coordinateXYZ 1 0 (-1) = Real.fin (x0 - h) →
      coordinateXYZ 1 0 (-2) = Real.fin (x0 - 2 * h) → f 0 0 = Real.fin f0 →
      f 0 (-1) = Real.fin f1 → f 0 (-2) = Real.fin f2 →
      KerCutCellCVTUpwind2nd.yTerm (Real.fin cs) c false coordinateXYZ f =
        Real.fin (cs * c * (3 * f0 - 4 * f1 + f2) / (2 * h))) ∧
    (c < 0 → coordinateXYZ 1 0 0 = Real.fin x0 → coordinateXYZ 1 0 1 = Real.fin (x0 + h) →
      coordinateXYZ 1 0 2 = Real.fin (x0 + 2 * h) → f 0 0 = Real.fin f0 →
      f 0 1 = Real.fin f1 → f 0 2 = Real.fin f2 →
      KerCutCellCVTUpwind2nd.yTerm (Real.fin cs) c false coordinateXYZ f =
        Real.fin (cs * c * (-3 * f0 + 4 * f1 - f2) / (2 * h))) := by
  refine ⟨?_, ?_, ?_, ?_⟩
  · intro hc c0 c1 c2 e0 e1 e2
    unfold KerCutCellCVTUpwind2nd.xTerm
    rw [if_pos hc, if_neg (by decide), c0, c1, c2, e0, e1, e2]
    exact upwindThreePointBackward_uniform cs c x0 h f0 f1 f2 hh
  · intro hc c0 c1 c2 e0 e1 e2
    unfold KerCutCellCVTUpwind2nd.xTerm
    rw [if_neg (by omega), if_pos hc, if_neg (by decide), c0, c1, c2, e0, e1, e2]
    exact upwindThreePointForward_uniform cs c x0 h f0 f1 f2 hh
  · intro hc c0 c1 c2 e0 e1 e2
    unfold KerCutCellCVTUpwind2nd.yTerm
    rw [if_pos hc, if_neg (by decide), c0, c1, c2, e0, e1, e2]
    exact upwindThreePointBackward_uniform cs c x0 h f0 f1 f2 hh
  · intro hc c0 c1 c2 e0 e1 e2
    unfold KerCutCellCVTUpwind2nd.yTerm
    rw [if_neg (by omega), if_pos hc, if_neg (by decide), c0, c1, c2, e0, e1, e2]
    exact upwindThreePointForward_uniform cs c x0 h f0 f1 f2 hh

/-- C33, on the uniform grid `x = dx/4` with the field `f = dx^3 + 5` along x,
`CS = 1/3` and `cx = -1`: with `f(0) = 5`, `f(+1) = 6`, `f(+2) = 13` the
three-point x-term is `(1/3)*(-1)*(-15 + 24 - 13)/(1/2) = 8/3`. -/
theorem three_point_uniform_grid_witness :
    KerCutCellCVTUpwind2nd.xTerm (Real.fin (1 / 3)) (-1) false
        (fun _ dx _ => Real.fin (dx / 4)) (fun dx _ => Real.fin (dx ^ 3 + 5)) =
      Real.fin (8 / 3) := by
  rw [(three_point_uniform_grid (1 / 3) 0 (1 / 4) 5 6 13 (-1)
    (fun _ dx _ => Real.fin (dx / 4)) (fun dx _ => Real.fin (dx ^ 3 + 5))
    (by norm_num)).2.1 (by decide) (by norm_num) (by norm_num) (by norm_num) (by norm_num)
    (by norm_num) (by norm_num)]
  norm_num

/-! ## The second-order gradient kernel with the order reduced -/

/-- The x-term of a direction without x-velocity does not depend on the flag. -/
theorem KerCutCellCVTUpwind2nd.xTerm_reduced (CS : Real) (cx : Int) (reduceOrderX : Bool)
    (coordinateXYZ : Nat → Int → Int → Real) (f : Int → Int → Real)
    (h : cx ≠ 0 → reduceOrderX = true) :
    KerCutCellCVTUpwind2nd.xTerm CS cx reduceOrderX coordinateXYZ f =
      KerCutCellCVTUpwind2nd.xTerm CS cx true coordinateXYZ f := by
  by_cases h0 : cx = 0
  · subst h0
    unfold KerCutCellCVTUpwind2nd.xTerm
    rw [if_neg (by decide), if_neg (by decide), if_neg (by decide), if_neg (by decide)]
  · rw [h h0]

/-- The y-term of a direction without y-velocity does not depend on the flag. -/
theorem KerCutCellCVTUpwind2nd.yTerm_reduced (CS : Real) (cy : Int) (reduceOrderY : Bool)
    (coordinateXYZ : Nat → Int → Int → Real) (f : Int → Int → Real)
    (h : cy ≠ 0 → reduceOrderY = true) :
    KerCutCellCVTUpwind2nd.yTerm CS cy reduceOrderY coordinateXYZ f =
      KerCutCellCVTUpwind2nd.yTerm CS cy true coordinateXYZ f := by
  by_cases h0 : cy = 0
  · subst h0
    unfold KerCutCellCVTUpwind2nd.yTerm
    rw [if_neg (by decide), if_neg (by decide), if_neg (by decide), if_neg (by decide)]
  · rw [h h0]

/-- C34: for a direction `d` of component `c`, if the flags of
`KerCutCellCVTUpwind2nd` reduce the order on every axis along which the
direction has a non-zero velocity component (`reduceOrderX` when `cx ≠ 0`,
`reduceOrderY` when `cy ≠ 0`), then `KerCutCellCVTUpwind2nd` writes the same
`fGradient[d]` as `KerCutCellCVTUpwind1st` on the same inputs (the type and tag
of the node, the coordinates, `f` and the previous `fGradient`); and the two
kernels write the same value for every direction whose `needCalc` is false. -/
theorem second_order_reduced_is_first_order (L : Lattice) (E : VertexTypes) (CS : Real)
    (coordinateXYZ : Nat → Int → Int → Real) (nodeType : Int → Int → Int)
    (geometry : Int → Int → VertexGeometryTypes) (f : Nat → Int → Int → Real)
    (fGradient : Nat → Real) (c d : Nat)
    (hL : L.Disjoint) (hc : c < L.NUMCOMPONENTS) (hd : L.inCompo c d) :
    (((L.XI (d * L.LATTDIM) ≠ 0 →
        (KerCutCellCVTUpwind2nd.flags E nodeType geometry (L.XI (d * L.LATTDIM))
          (L.XI (d * L.LATTDIM + 1))).reduceOrderX = true) ∧
      (L.XI (d * L.LATTDIM + 1) ≠ 0 →
        (KerCutCellCVTUpwind2nd.flags E nodeType geometry (L.XI (d * L.LATTDIM))
          (L.XI (d * L.LATTDIM + 1))).reduceOrderY = true)) →
      KerCutCellCVTUpwind2nd L E CS coordinateXYZ nodeType geometry f fGradient d =
        KerCutCellCVTUpwind1st L E CS coordinateXYZ (nodeType 0 0) (geometry 0 0) f
          fGradient d) ∧
    ((KerCutCellCVTUpwind2nd.flags E nodeType geometry (L.XI (d * L.LATTDIM))
        (L.XI (d * L.LATTDIM + 1))).needCalc = false →
      KerCutCellCVTUpwind2nd L E CS coordinateXYZ nodeType geometry f fGradient d =
        KerCutCellCVTUpwind1st L E CS coordinateXYZ (nodeType 0 0) (geometry 0 0) f
          fGradient d) := by
  rw [KerCutCellCVTUpwind2nd_at L E CS coordinateXYZ nodeType geometry f fGradient c d hL hc hd,
    KerCutCellCVTUpwind1st_at L E CS coordinateXYZ (nodeType 0 0) (geometry 0 0) f fGradient c d
      hL hc hd, KerCutCellCVTUpwind2nd.flags_needCalc]
  constructor
  · intro h
    rw [KerCutCellCVTUpwind2nd.xTerm_reduced CS _ _ coordinateXYZ (f d) h.1,
      KerCutCellCVTUpwind2nd.yTerm_reduced CS _ _ coordinateXYZ (f d) h.2]
  · intro h
    rw [if_neg (by simp [h]), if_neg (by simp [h])]

/-- C34, at direction 1 (velocity (1,0)) of a fluid node on the sample mesh one
cell from the wall, where the order along x is reduced: the second-order kernel
writes what the first-order kernel writes for the node, the value -5/24. -/
theorem second_order_reduced_is_first_order_witness :
    KerCutCellCVTUpwind2nd twoD2Q9 sampleTypes (Real.fin (1 / 3)) sampleCoord nearWallTypes
        nearWallTags sampleField sampleF 1 =
      KerCutCellCVTUpwind1st twoD2Q9 sampleTypes (Real.fin (1 / 3)) sampleCoord
        (nearWallTypes 0 0) (nearWallTags 0 0) sampleField sampleF 1 ∧
    KerCutCellCVTUpwind1st twoD2Q9 sampleTypes (Real.fin (1 / 3)) sampleCoord
        (nearWallTypes 0 0) (nearWallTags 0 0) sampleField sampleF 1 = Real.fin (-5 / 24) := by
  refine ⟨(second_order_reduced_is_first_order twoD2Q9 sampleTypes (Real.fin (1 / 3))
    sampleCoord nearWallTypes nearWallTags sampleField sampleF 0 1 twoD2Q9_disjoint (by decide)
    (by decide)).1 ⟨fun _ => by decide, fun h => absurd rfl h⟩, ?_⟩
  rw [KerCutCellCVTUpwind1st_at twoD2Q9 sampleTypes (Real.fin (1 / 3)) sampleCoord
    (nearWallTypes 0 0) (nearWallTags 0 0) sampleField sampleF 0 1 twoD2Q9_disjoint (by decide)
    (by decide), if_pos (by decide)]
  simp only [KerCutCellCVTUpwind2nd.xTerm, KerCutCellCVTUpwind2nd.yTerm, upwindTwoPointBackward,
    sampleField, sampleCoord, sampleX, sampleY, if_true]
  norm_num [Real.fin_div_fin, twoD2Q9, d2q9XI]

/-! ## The validity flags and the streaming of a `streamRequired` node -/

/-- At a boundary node with a face or corner tag of the 2D kernels, `needCalc` is
the value of the `switch (vg)` of `KerStream` with `streamRequired` true. -/
theorem KerCutCellCVTUpwind1st.needCalc_boundary2D (E : VertexTypes) (vt : Int)
    (vg : VertexGeometryTypes) (cx cy : Int)
    (hb : vt ≥ E.Vertex_Boundary) (hs : vt ≠ E.Vertex_ImmersedSolid)
    (hk : vg.kind = .face ∨ vg.kind = .innerEdge ∨ vg.kind = .outerEdge)
    (h2 : vg.is2D = true) :
    KerCutCellCVTUpwind1st.needCalc E vt vg cx cy = KerStream.switchVg vg true cx cy := by
  rw [Bool.eq_iff_iff]
  unfold KerCutCellCVTUpwind1st.needCalc
  dsimp only
  rw [if_neg hs, if_pos hb]
  cases vg <;>
    simp [VertexGeometryTypes.kind, VertexGeometryTypes.is2D,
      VertexGeometryTypes.faces, KerStream.switchVg] at hk h2 ⊢

/-- C35: let `vg` be one of the twelve face, inner-corner and outer-corner tags
of the 2D kernels and `d` a direction of component `c` whose velocity
`(cx, cy)` is not zero.  For a boundary node of type `vt` (not an immersed solid)
tagged `vg` and a boundary node tagged `vg` whose type `vt'` is in the
`streamRequired` set of `KerStream`: the flag `needCalc` of the gradient kernels
and the flag `needMarch` of the two time-marching kernels are true iff the
`switch (vg)` of `KerStream` takes the assignment, and `KerStream` sets `f[d]`
to `fStage[d]` at offset `(-cx, -cy)` when the flag is true and leaves `f[d]`
when it is false. -/
theorem needCalc_iff_stream_required (L : Lattice) (E : VertexTypes)
    (nodeType : Int → Int → Int) (geometry : Int → Int → VertexGeometryTypes) (vt' : Int)
    (fStage : Nat → Int → Int → Real) (f : Nat → Real) (c d : Nat)
    (hL : L.Disjoint) (hc : c < L.NUMCOMPONENTS) (hd : L.inCompo c d)
    (hb : nodeType 0 0 ≥ E.Vertex_Boundary) (hs : nodeType 0 0 ≠ E.Vertex_ImmersedSolid)
    (hb' : vt' ≥ E.Vertex_Boundary) (hsr : KerStream.streamRequired E vt' = true)
    (hk : (geometry 0 0).kind = .face ∨ (geometry 0 0).kind = .innerEdge ∨
      (geometry 0 0).kind = .outerEdge)
    (h2 : (geometry 0 0).is2D = true)
    (hnz : ¬ (L.XI (d * L.LATTDIM) = 0 ∧ L.XI (d * L.LATTDIM + 1) = 0)) :
    (KerCutCellCVTUpwind1st.needCalc E (nodeType 0 0) (geometry 0 0) (L.XI (d * L.LATTDIM))
        (L.XI (d * L.LATTDIM + 1)) = true ↔
      KerStream.switchVg (geometry 0 0) (KerStream.streamRequired E vt')
        (L.XI (d * L.LATTDIM)) (L.XI (d * L.LATTDIM + 1)) = true) ∧
    ((KerCutCellCVTUpwind2nd.flags E nodeType geometry (L.XI (d * L.LATTDIM))
        (L.XI (d * L.LATTDIM + 1))).needCalc = true ↔
      KerStream.switchVg (geometry 0 0) (KerStream.streamRequired E vt')
        (L.XI (d * L.LATTDIM)) (L.XI (d * L.LATTDIM + 1)) = true) ∧
    (KerCutCellExplicitTimeMach.needMarch E (nodeType 0 0) (geometry 0 0)
        (L.XI (d * L.LATTDIM)) (L.XI (d * L.LATTDIM + 1)) = true ↔
      KerStream.switchVg (geometry 0 0) (KerStream.streamRequired E vt')
        (L.XI (d * L.LATTDIM)) (L.XI (d * L.LATTDIM + 1)) = true) ∧
    (KerCutCellSemiImplicitTimeMach.needMarch E (nodeType 0 0) (geometry 0 0)
        (L.XI (d * L.LATTDIM)) (L.XI (d * L.LATTDIM + 1)) = true ↔
      KerStream.switchVg (geometry 0 0) (KerStream.streamRequired E vt')
        (L.XI (d * L.LATTDIM)) (L.XI (d * L.LATTDIM + 1)) = true) ∧
    KerStream L E vt' (geometry 0 0) fStage f d =
      (if KerCutCellCVTUpwind1st.needCalc E (nodeType 0 0) (geometry 0 0)
          (L.XI (d * L.LATTDIM)) (L.XI (d * L.LATTDIM + 1)) = true then
        fStage d (-L.XI (d * L.LATTDIM)) (-L.XI (d * L.LATTDIM + 1))
      else f d) := by
  have key := KerCutCellCVTUpwind1st.needCalc_boundary2D E (nodeType 0 0) (geometry 0 0)
    (L.XI (d * L.LATTDIM)) (L.XI (d * L.LATTDIM + 1)) hb hs hk h2
  have key' : KerCutCellCVTUpwind1st.needCalc E (nodeType 0 0) (geometry 0 0)
        (L.XI (d * L.LATTDIM)) (L.XI (d * L.LATTDIM + 1)) = true ↔
      KerStream.switchVg (geometry 0 0) (KerStream.streamRequired E vt')
        (L.XI (d * L.LATTDIM)) (L.XI (d * L.LATTDIM + 1)) = true := by
    rw [hsr, key]
  refine ⟨key', ?_, key', key', ?_⟩
  · rw [KerCutCellCVTUpwind2nd.flags_needCalc]
    exact key'
  · rw [KerStream_at_boundary L E vt' (geometry 0 0) fStage f c d hL hc hd hb' hnz, hsr, key]

/-- C35, at the outer corner `VG_IPJP_O`, a boundary node of type
`Vertex_Boundary` for the flags and a `Vertex_ZouHeVelocity` node for the
streaming: for direction 12 (velocity (-1,0)) the flag is true and `KerStream`
takes `fStage[12]` at offset (1,0), the value 1032; for direction 10 (velocity
(1,0)) the flag is false and `f[10] = 11` is kept. -/
theorem needCalc_iff_stream_required_witness :
    KerCutCellCVTUpwind1st.needCalc sampleTypes 1000 .VG_IPJP_O (-1) 0 = true ∧
    KerStream twoD2Q9 sampleTypes 1011 .VG_IPJP_O sampleStage2D sampleF 12 = Real.fin 1032 ∧
    KerCutCellCVTUpwind1st.needCalc sampleTypes 1000 .VG_IPJP_O 1 0 = false ∧
    KerStream twoD2Q9 sampleTypes 1011 .VG_IPJP_O sampleStage2D sampleF 10 = Real.fin 11 := by
  have h12 := (needCalc_iff_stream_required twoD2Q9 sampleTypes (fun _ _ => 1000)
    (fun _ _ => .VG_IPJP_O) 1011 sampleStage2D sampleF 1 12 twoD2Q9_disjoint (by decide)
    (by decide) (by decide) (by decide) (by decide) (by decide) (Or.inr (Or.inr rfl)) rfl
    (by decide)).2.2.2.2
  have h10 := (needCalc_iff_stream_required twoD2Q9 sampleTypes (fun _ _ => 1000)
    (fun _ _ => .VG_IPJP_O) 1011 sampleStage2D sampleF 1 10 twoD2Q9_disjoint (by decide)
    (by decide) (by decide) (by decide) (by decide) (by decide) (Or.inr (Or.inr rfl)) rfl
    (by decide)).2.2.2.2
  refine ⟨by decide, ?_, by decide, ?_⟩
  · rw [h12, if_pos (by decide)]
    simp only [sampleStage2D, Real.fin_inj]
    norm_num [twoD2Q9, d2q9XI]
  · rw [h10, if_neg (by decide)]
    simp only [sampleF, Real.fin_inj]
    norm_num

/-! ## Frame of streaming -/

/-- A property of the state that every pass of a loop keeps holds after the loop. -/
theorem foldl_invariant {σ α : Type} (P : σ → Prop) (body : σ → α → σ) (l : List α) (s : σ)
    (h0 : P s) (hstep : ∀ s a, P s → P (body s a)) : P (l.foldl body s) := by
  induction l generalizing s with
  | nil => exact h0
  | cons a rest ih => exact ih (body s a) (hstep s a h0)

/-- Every entry of `f` after `KerStream` is the previous entry or the staged
value at the upwind offset. -/
theorem KerStream_either (L : Lattice) (E : VertexTypes) (vt : Int) (vg : VertexGeometryTypes)
    (fStage : Nat → Int → Int → Real) (f : Nat → Real) (d : Nat) :
    KerStream L E vt vg fStage f d = f d ∨
      KerStream L E vt vg fStage f d =
        fStage d (-L.XI (d * L.LATTDIM)) (-L.XI (d * L.LATTDIM + 1)) := by
  unfold KerStream forCompo
  refine foldl_invariant (fun s : Nat → Real => s d = f d ∨
    s d = fStage d (-L.XI (d * L.LATTDIM)) (-L.XI (d * L.LATTDIM + 1))) _ _ f (Or.inl rfl) ?_
  intro s c hs
  unfold forXi
  refine foldl_invariant (fun s : Nat → Real => s d = f d ∨
    s d = fStage d (-L.XI (d * L.LATTDIM)) (-L.XI (d * L.LATTDIM + 1))) _ _ s hs ?_
  intro s i hs
  dsimp only
  by_cases hdi : d = i
  · subst hdi
    split_ifs with h1 h2 <;>
      first
        | exact hs
        | (right; simp only [store_same, h2.2.1, h2.2.2, neg_zero])
        | (right; simp only [store_same])
  · split_ifs <;> (try simp only [store_other _ _ _ _ hdi]) <;> exact hs

/-- Every entry of `f` after `KerStream3D` is the previous entry or the staged
value at the upwind offset. -/
theorem KerStream3D_either (L : Lattice) (E : VertexTypes) (nodeType : Nat → Int)
    (vg : VertexGeometryTypes) (fStage : Nat → Int → Int → Int → Real) (f : Nat → Real)
    (d : Nat) :
    KerStream3D L E nodeType vg fStage f d = f d ∨
      KerStream3D L E nodeType vg fStage f d =
        fStage d (-L.XI (d * L.LATTDIM)) (-L.XI (d * L.LATTDIM + 1))
          (-L.XI (d * L.LATTDIM + 2)) := by
  unfold KerStream3D forCompo
  refine foldl_invariant (fun s : Nat → Real => s d = f d ∨
    s d = fStage d (-L.XI (d * L.LATTDIM)) (-L.XI (d * L.LATTDIM + 1))
      (-L.XI (d * L.LATTDIM + 2))) _ _ f (Or.inl rfl) ?_
  intro s c hs
  unfold forXi
  refine foldl_invariant (fun s : Nat → Real => s d = f d ∨
    s d = fStage d (-L.XI (d * L.LATTDIM)) (-L.XI (d * L.LATTDIM + 1))
      (-L.XI (d * L.LATTDIM + 2))) _ _ s hs ?_
  intro s i hs
  dsimp only
  by_cases hdi : d = i
  · subst hdi
    split_ifs with h1 h2 <;>
      first
        | exact hs
        | (right; simp only [store_same, h2.2.1, h2.2.2.1, h2.2.2.2, neg_zero])
        | (right; simp only [store_same])
  · split_ifs <;> (try simp only [store_other _ _ _ _ hdi]) <;> exact hs

/-- C36: `KerStream` and `KerStream3D` leave `fStage`, `nodeType` and the
geometry tag as they are; every entry `f[d]` after the kernel is the previous
`f[d]` or `fStage[d]` at offset `(-cx, -cy)` (in 3D `(-cx, -cy, -cz)`); and, the
enumerators being ordered `Vertex_Fluid <= Vertex_Boundary`, at a node whose
vertex type is below `Vertex_Fluid` the array `f` is unchanged (in 3D: every
direction of a component whose vertex type is below `Vertex_Fluid`). -/
theorem stream_frame (L : Lattice) (E : VertexTypes)
    (hE : E.Vertex_Fluid ≤ E.Vertex_Boundary) :
    (∀ n : StreamData,
      (KerStream.run L E n).fStage = n.fStage ∧ (KerStream.run L E n).nodeType = n.nodeType ∧
      (KerStream.run L E n).geometry = n.geometry) ∧
    (∀ n : StreamData3D,
      (KerStream3D.run L E n).fStage = n.fStage ∧
      (KerStream3D.run L E n).nodeType = n.nodeType ∧
      (KerStream3D.run L E n).geometry = n.geometry) ∧
    (∀ (n : StreamData) (d : Nat),
      (KerStream.run L E n).f d = n.f d ∨
      (KerStream.run L E n).f d =
        n.fStage d (-L.XI (d * L.LATTDIM)) (-L.XI (d * L.LATTDIM + 1))) ∧
    (∀ (n : StreamData3D) (d : Nat),
      (KerStream3D.run L E n).f d = n.f d ∨
      (KerStream3D.run L E n).f d =
        n.fStage d (-L.XI (d * L.LATTDIM)) (-L.XI (d * L.LATTDIM + 1))
          (-L.XI (d * L.LATTDIM + 2))) ∧
    (∀ n : StreamData, n.nodeType < E.Vertex_Fluid → (KerStream.run L E n).f = n.f) ∧
    (∀ (n : StreamData3D) (c d : Nat), L.Disjoint → c < L.NUMCOMPONENTS → L.inCompo c d →
      n.nodeType c < E.Vertex_Fluid → (KerStream3D.run L E n).f d = n.f d) := by
  refine ⟨fun n => ⟨rfl, rfl, rfl⟩, fun n => ⟨rfl, rfl, rfl⟩, ?_, ?_, ?_, ?_⟩
  · intro n d
    exact KerStream_either L E n.nodeType n.geometry n.fStage n.f d
  · intro n d
    exact KerStream3D_either L E n.nodeType n.geometry n.fStage n.f d
  · intro n hvt
    show KerStream L E n.nodeType n.geometry n.fStage n.f = n.f
    unfold KerStream forCompo
    refine foldl_invariant (fun s : Nat → Real => s = n.f) _ _ n.f rfl ?_
    intro s c hs
    unfold forXi
    refine foldl_invariant (fun s : Nat → Real => s = n.f) _ _ s hs ?_
    intro s i hs
    dsimp only
    rw [if_neg (by omega : ¬ (n.nodeType ≥ E.Vertex_Fluid ∧ n.nodeType < E.Vertex_Boundary)),
      if_neg (by omega : ¬ n.nodeType ≥ E.Vertex_Boundary)]
    exact hs
  · intro n c d hL hc hd hvt
    show KerStream3D L E n.nodeType n.geometry n.fStage n.f d = n.f d
    rw [KerStream3D_at L E n.nodeType n.geometry n.fStage n.f c d hL hc hd,
      if_neg (by omega : ¬ (n.nodeType c ≥ E.Vertex_Fluid ∧ n.nodeType c < E.Vertex_Boundary)),
      if_neg (by omega : ¬ n.nodeType c ≥ E.Vertex_Boundary)]

/-- C36, with the sample enumerators (`Vertex_Fluid = 10 <= Vertex_Boundary =
1000`), at an immersed-solid node (type -1) in 2D and, in 3D, at direction 3 of
component 0 of a node whose component 0 is an immersed solid and whose
component 1 is fluid: `f` is kept. -/
theorem stream_frame_witness :
    (KerStream.run twoD2Q9 sampleTypes ⟨-1, .VG_IP, sampleStage2D, sampleF⟩).f = sampleF ∧
    (KerStream3D.run twoD3Q19 sampleTypes
      ⟨fun c => if c = 0 then -1 else 10, .VG_IP, sampleStage3D, sampleF⟩).f 3 = sampleF 3 := by
  have h := stream_frame twoD2Q9 sampleTypes (by decide)
  have h' := stream_frame twoD3Q19 sampleTypes (by decide)
  exact ⟨h.2.2.2.2.1 ⟨-1, .VG_IP, sampleStage2D, sampleF⟩ (by decide),
    h'.2.2.2.2.2 ⟨fun c => if c = 0 then -1 else 10, .VG_IP, sampleStage3D, sampleF⟩ 0 3
      twoD3Q19_disjoint (by decide) (by decide) (by decide)⟩

/-! ## The gates of collision and streaming -/

/-- C37 fails as stated: in 3D the type `Vertex_ZouHeVelocity` (1011 with the
sample enumerators) is a boundary type in the collision-required set of
`KerCollide3D` and not in the `streamRequired` set of `KerStream3D`.  At such a
node on the face `VG_IP` the collision writes `fStage[0] = 7/3` for the rest
direction 0, and the streaming leaves `f[0] = 1` (the staged value at the node
is 1000) and `f[3] = 4` of the tangential direction 3 (velocity (0,1,0)). -/
theorem collision_stream_gates_counterexample :
    (1011 : Int) ≥ sampleTypes.Vertex_Boundary ∧
    KerCollide3D.collisionRequired sampleTypes 1011 = true ∧
    KerStream3D.streamRequired sampleTypes 1011 = false ∧
    ¬ (KerCollide3D.collisionRequired sampleTypes 1011 = true ↔
      KerStream3D.streamRequired sampleTypes 1011 = true) ∧
    KerCollide3D twoD3Q19 sampleTypes (Real.fin 1) (fun _ => 1011) sampleF sampleFeq sampleTau
        sampleForce sampleF 0 = Real.fin (7 / 3) ∧
    sampleStage3D 0 0 0 0 = Real.fin 1000 ∧
    KerStream3D twoD3Q19 sampleTypes (fun _ => 1011) .VG_IP sampleStage3D sampleF 0 =
      Real.fin 1 ∧
    KerStream3D twoD3Q19 sampleTypes (fun _ => 1011) .VG_IP sampleStage3D sampleF 3 =
      Real.fin 4 := by
  refine ⟨by decide, by decide, by decide, by decide, ?_, ?_, ?_, ?_⟩
  · rw [KerCollide3D_at twoD3Q19 sampleTypes (Real.fin 1) (fun _ => 1011) sampleF sampleFeq
      sampleTau sampleForce sampleF 0 0 twoD3Q19_disjoint (by decide) (by decide),
      if_pos (by decide)]
    simp only [sampleF, sampleFeq, sampleTau, sampleForce]
    norm_num [Real.fin_div_fin]
  · simp only [sampleStage3D, Real.fin_inj]
    norm_num
  · rw [KerStream3D_at twoD3Q19 sampleTypes (fun _ => 1011) .VG_IP sampleStage3D sampleF 0 0
      twoD3Q19_disjoint (by decide) (by decide), if_neg (by decide), if_pos (by decide),
      if_neg (by decide), if_neg (by decide)]
    simp only [sampleF, Real.fin_inj]
    norm_num
  · rw [KerStream3D_at twoD3Q19 sampleTypes (fun _ => 1011) .VG_IP sampleStage3D sampleF 0 3
      twoD3Q19_disjoint (by decide) (by decide), if_neg (by decide), if_pos (by decide),
      if_neg (by decide), if_neg (by decide)]
    simp only [sampleF, Real.fin_inj]
    norm_num

/-- C37, amended: with `Vertex_Fluid < Vertex_Boundary` and distinct enumerators
of the boundary kinds.  In 2D a boundary vertex type is in the
collision-required set of `KerCollide` iff it is in the `streamRequired` set of
`KerStream`, and at a collided boundary node `KerStream` streams the rest
direction and, at the faces, the directions tangential to the face.  In 3D
every type in the `streamRequired` set of `KerStream3D` is in the
collision-required set of `KerCollide3D`, and a boundary type other than
`Vertex_ZouHeVelocity` is collision-required iff it is `streamRequired`;
`Vertex_ZouHeVelocity` is collision-required and not `streamRequired`. -/
theorem collision_stream_gates (L : Lattice) (E : VertexTypes)
    (hE : E.Vertex_Fluid < E.Vertex_Boundary) (hnd : E.boundaryKinds.Nodup) :
    (∀ vt : Int, vt ≥ E.Vertex_Boundary →
      (KerCollide.collisionRequired E vt = true ↔ KerStream.streamRequired E vt = true)) ∧
    (∀ (vt : Int) (vg : VertexGeometryTypes) (fStage : Nat → Int → Int → Real)
      (f : Nat → Real) (c d : Nat), L.Disjoint → c < L.NUMCOMPONENTS → L.inCompo c d →
      vt ≥ E.Vertex_Boundary → KerCollide.collisionRequired E vt = true →
      ((L.XI (d * L.LATTDIM) = 0 ∧ L.XI (d * L.LATTDIM + 1) = 0) ∨
        ((vg = .VG_IP ∨ vg = .VG_IM) ∧ L.XI (d * L.LATTDIM) = 0) ∨
        ((vg = .VG_JP ∨ vg = .VG_JM) ∧ L.XI (d * L.LATTDIM + 1) = 0)) →
      KerStream L E vt vg fStage f d =
        fStage d (-L.XI (d * L.LATTDIM)) (-L.XI (d * L.LATTDIM + 1))) ∧
    (∀ vt : Int, KerStream3D.streamRequired E vt = true →
      KerCollide3D.collisionRequired E vt = true) ∧
    (∀ vt : Int, vt ≥ E.Vertex_Boundary → vt ≠ E.Vertex_ZouHeVelocity →
      (KerCollide3D.collisionRequired E vt = true ↔ KerStream3D.streamRequired E vt = true)) ∧
    (KerCollide3D.collisionRequired E E.Vertex_ZouHeVelocity = true ∧
      KerStream3D.streamRequired E E.Vertex_ZouHeVelocity = false) := by
  simp only [VertexTypes.boundaryKinds, List.nodup_cons, List.mem_cons, List.mem_singleton,
    not_or, List.not_mem_nil, not_false_eq_true, List.nodup_nil, and_true] at hnd
  obtain ⟨⟨h12, h13, h14, h15, h16⟩, -⟩ := hnd
  have h2D : ∀ vt : Int, vt ≥ E.Vertex_Boundary →
      (KerCollide.collisionRequired E vt = true ↔ KerStream.streamRequired E vt = true) := by
    intro vt hvt
    have hne : vt ≠ E.Vertex_Fluid := by omega
    simp [KerCollide.collisionRequired, KerStream.streamRequired, hne, or_assoc]
  refine ⟨h2D, ?_, ?_, ?_, ?_⟩
  · intro vt vg fStage f c d hL hc hd hvt hcr hdir
    have hsr := (h2D vt hvt).mp hcr
    rw [KerStream_at L E vt vg fStage f c d hL hc hd,
      if_neg (by omega : ¬ (vt ≥ E.Vertex_Fluid ∧ vt < E.Vertex_Boundary)), if_pos hvt]
    by_cases h0 : L.XI (d * L.LATTDIM) = 0 ∧ L.XI (d * L.LATTDIM + 1) = 0
    · rw [if_pos ⟨hsr, h0⟩, h0.1, h0.2]
      rfl
    · rw [if_neg (fun h => h0 h.2), hsr]
      rcases hdir with h | ⟨hvg, hx⟩ | ⟨hvg, hy⟩
      · exact absurd h h0
      · rcases hvg with hvg | hvg <;> subst hvg <;>
          simp [KerStream.switchVg, hx]
      · rcases hvg with hvg | hvg <;> subst hvg <;>
          simp [KerStream.switchVg, hy]
  · intro vt h
    simp only [KerStream3D.streamRequired, Bool.or_eq_true, beq_iff_eq] at h
    simp only [KerCollide3D.collisionRequired, Bool.or_eq_true, beq_iff_eq]
    tauto
  · intro vt hvt hz
    have hne : vt ≠ E.Vertex_Fluid := by omega
    simp [KerCollide3D.collisionRequired, KerStream3D.streamRequired, hne, hz, or_assoc]
  · simp [KerCollide3D.collisionRequired, KerStream3D.streamRequired, h12, h13, h15]

/-- C37 amended, with the sample enumerators on the D2Q9 sample lattice: at a
`Vertex_ZouHeVelocity` node (1011) on the face `VG_IP`, `KerStream` takes the
staged value 1000 for the rest direction 0 and `fStage[2]` at offset (0,-1),
the value 902, for the tangential direction 2 (velocity (0,1)). -/
theorem collision_stream_gates_witness :
    KerStream twoD2Q9 sampleTypes 1011 .VG_IP sampleStage2D sampleF 0 = Real.fin 1000 ∧
    KerStream twoD2Q9 sampleTypes 1011 .VG_IP sampleStage2D sampleF 2 = Real.fin 902 := by
  have h := (collision_stream_gates twoD2Q9 sampleTypes (by decide) (by decide)).2.1
  constructor
  · rw [h 1011 .VG_IP sampleStage2D sampleF 0 0 twoD2Q9_disjoint (by decide) (by decide)
      (by decide) (by decide) (Or.inl (by decide))]
    simp only [sampleStage2D, Real.fin_inj]
    norm_num [twoD2Q9, d2q9XI]
  · rw [h 1011 .VG_IP sampleStage2D sampleF 0 2 twoD2Q9_disjoint (by decide) (by decide)
      (by decide) (by decide) (Or.inr (Or.inl ⟨Or.inl rfl, by decide⟩))]
    simp only [sampleStage2D, Real.fin_inj]
    norm_num [twoD2Q9, d2q9XI]

/-! ## Initialisation of the solution: theorems -/

theorem KerSetfFixValue_at (N : Nat) (value : Real) (f : Nat → Real) (idx : Nat)
    (h : idx < N) : KerSetfFixValue N value f idx = value := by
  unfold KerSetfFixValue
  rw [forRange_store_at N _ (fun _ _ => value) (fun i s => rfl), if_pos h]

/-- A loop over the blocks that writes the data set of block 0 in every pass
leaves the data sets of the other blocks as they are. -/
theorem forRange_store_zero_other {α : Type} (B : Nat) (W : Nat → α → α) (dat : Nat → α)
    (b : Nat) :
    forRange B (fun blockIndex dat => store dat 0 (W blockIndex (dat 0))) dat (b + 1) =
      dat (b + 1) := by
  induction B with
  | zero => rfl
  | succ B ih => rw [forRange_succ, store_other _ _ _ _ (Nat.succ_ne_zero b), ih]

/-- C38 on the code: `InitialiseSolution` writes zero to `g_Bodyforce[0]` in every
pass of its loop over the blocks, so the body force of every block but block 0
is left as it was; `f` is set to the `feq` that `UpdateFeqandBodyforce` computed.
On the two-block sample mesh with body force 5 everywhere before the call, the
body force of block 1 is still 5 at node (0,0), direction 3, the one of block 0
is 0 there, and `f` equals `feq` in block 1. -/
theorem initialise_solution_body_force :
    (∀ (M : Mesh (Int × Int)) (K : ModelKernels (Int × Int)) (s : FlowField (Int × Int))
      (b : Nat),
      (InitialiseSolution M K s).g_Bodyforce (b + 1) = s.g_Bodyforce (b + 1)) ∧
    (sampleFlow 1 5).g_Bodyforce 1 (0, 0) 3 = Real.fin 5 ∧
    (InitialiseSolution twoBlockMesh sampleKernels (sampleFlow 1 5)).g_Bodyforce 1 (0, 0) 3 =
      Real.fin 5 ∧
    (InitialiseSolution twoBlockMesh sampleKernels (sampleFlow 1 5)).g_Bodyforce 0 (0, 0) 3 =
      Real.fin 0 ∧
    (InitialiseSolution twoBlockMesh sampleKernels (sampleFlow 1 5)).g_f 1 (0, 0) 3 =
      (InitialiseSolution twoBlockMesh sampleKernels (sampleFlow 1 5)).g_feq 1 (0, 0) 3 := by
  have hother : ∀ (M : Mesh (Int × Int)) (K : ModelKernels (Int × Int))
      (s : FlowField (Int × Int)) (b : Nat),
      (InitialiseSolution M K s).g_Bodyforce (b + 1) = s.g_Bodyforce (b + 1) := by
    intro M K s b
    exact forRange_store_zero_other M.BlockNum (fun blockIndex old =>
      opsParLoopWrite (M.BlockIterRngWhole blockIndex)
        (fun _ f => KerSetfFixValue M.NUMXI (Real.fin 0) f) old) s.g_Bodyforce b
  refine ⟨hother, rfl, ?_, ?_, ?_⟩
  · rw [show (1 : Nat) = 0 + 1 from rfl, hother]
    rfl
  · show forRange twoBlockMesh.BlockNum (fun blockIndex g_Bodyforce =>
      store g_Bodyforce 0
        (opsParLoopWrite (twoBlockMesh.BlockIterRngWhole blockIndex)
          (fun _ f => KerSetfFixValue twoBlockMesh.NUMXI (Real.fin 0) f)
          (g_Bodyforce 0))) (sampleFlow 1 5).g_Bodyforce 0 (0, 0) 3 = Real.fin 0
    rw [show twoBlockMesh.BlockNum = 1 + 1 from rfl, forRange_succ, store_same]
    exact opsParLoopWrite_at _ _ _ (0, 0) 3
      (fun dest => KerSetfFixValue_at _ _ dest 3 (by decide)) _ (Or.inl (by decide))
  · show CopyDistribution twoBlockMesh
      (UpdateFeqandBodyforce twoBlockMesh sampleKernels (sampleFlow 1 5)).g_feq
      (sampleFlow 1 5).g_f 1 (0, 0) 3 =
      (UpdateFeqandBodyforce twoBlockMesh sampleKernels (sampleFlow 1 5)).g_feq 1 (0, 0) 3
    exact CopyDistribution_at twoBlockMesh _ _ 1 (0, 0) 3 (by decide) (by decide) (by decide)

/-! ## The divisors of the residual -/

theorem CaseSetup.mem_allNodes {ι : Type} (C : CaseSetup ι) (p : Nat × ι) :
    p ∈ C.allNodes ↔ p.1 < C.BlockNum ∧ p.2 ∈ C.BlockIterRngWhole p.1 := by
  unfold CaseSetup.allNodes
  simp only [List.mem_flatMap, List.mem_range, List.mem_map]
  constructor
  · rintro ⟨b, hb, n, hn, rfl⟩
    exact ⟨hb, hn⟩
  · rintro ⟨hb, hn⟩
    exact ⟨p.1, hb, p.2, hn, rfl⟩

/-- A sum of squares is not negative. -/
theorem sum_sq_nonneg {α : Type} (l : List α) (q : α → ℚ) :
    0 ≤ (l.map (fun a => q a * q a)).sum := by
  induction l with
  | nil => simp
  | cons a rest ih =>
    rw [List.map_cons, List.sum_cons]
    exact add_nonneg (mul_self_nonneg _) ih

/-- A sum of squares is zero iff every term is. -/
theorem sum_sq_eq_zero_iff {α : Type} (l : List α) (q : α → ℚ) :
    (l.map (fun a => q a * q a)).sum = 0 ↔ ∀ a ∈ l, q a = 0 := by
  induction l with
  | nil => simp
  | cons a rest ih =>
    rw [List.map_cons, List.sum_cons, List.forall_mem_cons, ← ih]
    have h1 := mul_self_nonneg (q a)
    have h2 := sum_sq_nonneg rest q
    constructor
    · intro h
      have ha : q a * q a = 0 := by linarith
      exact ⟨mul_self_eq_zero.mp ha, by linarith⟩
    · rintro ⟨ha, hr⟩
      rw [ha, hr]
      norm_num

/-- The line of macro variable `v` in the report of `DispResidualError`. -/
theorem DispResidualError_line (MacroVarsNum : Nat) (TimeStep : Real)
    (g_ResidualError : Nat → Real) (iter : Int) (checkPeriod : Real) (v : Nat)
    (hv : v < MacroVarsNum) :
    (DispResidualError MacroVarsNum TimeStep g_ResidualError iter checkPeriod).lines[v]? =
      some (v, g_ResidualError (2 * v) / g_ResidualError (2 * v + 1) /
        (checkPeriod * TimeStep)) := by
  show (forRange MacroVarsNum (fun macroVarIdx out => out ++ [(macroVarIdx,
    g_ResidualError (2 * macroVarIdx) / g_ResidualError (2 * macroVarIdx + 1) /
      (checkPeriod * TimeStep))]) [])[v]? = _
  rw [forRange_append MacroVarsNum (fun i => (i, g_ResidualError (2 * i) /
    g_ResidualError (2 * i + 1) / (checkPeriod * TimeStep)))]
  simp [List.getElem?_range hv]

/-- C39 fails as stated: on the sample case with every macro variable zero at
every node, check period 1 and time step 1, `CalcResidualError` sets the
reference magnitude `g_ResidualError[1]` of macro variable 0 to zero (the
absolute residual `g_ResidualError[0]` is 3), and the residual that
`DispResidualError` reports for macro variable 0 is the quotient by zero. -/
theorem residual_quotient_counterexample :
    (CalcResidualError sampleCase zeroMacroVarsState).g_ResidualError 0 = Real.fin 3 ∧
    (CalcResidualError sampleCase zeroMacroVarsState).g_ResidualError 1 = Real.fin 0 ∧
    (DispResidualError sampleCase.MacroVarsNum (Real.fin 1)
      (CalcResidualError sampleCase zeroMacroVarsState).g_ResidualError 10
      (Real.fin 1)).lines[0]? = some (0, Real.nan) := by
  have h := (CalcResidualError_result sampleCase zeroMacroVarsState (fun _ _ => rfl)).1 0
    (by decide)
  have h0 : (CalcResidualError sampleCase zeroMacroVarsState).g_ResidualError 0 =
      Real.fin 3 := by
    rw [show (0 : Nat) = 2 * 0 from rfl, h.1]
    simp [Real.sum, CaseSetup.allNodes, sampleCase, zeroMacroVarsState, List.range_succ]
    norm_num
  have h1 : (CalcResidualError sampleCase zeroMacroVarsState).g_ResidualError 1 =
      Real.fin 0 := by
    rw [show (1 : Nat) = 2 * 0 + 1 from rfl, h.2.1]
    simp [Real.sum, CaseSetup.allNodes, sampleCase, zeroMacroVarsState, List.range_succ]
  refine ⟨h0, h1, ?_⟩
  rw [DispResidualError_line _ _ _ _ _ 0 (by decide)]
  rw [show 2 * 0 = 0 from rfl, show 0 + 1 = 1 from rfl, h0, h1, Real.fin_div_zero]
  rfl

/-- C39, amended: for a positive check period and a positive time step the
divisor `checkPeriod * TimeStep()` is a non-zero finite number.  For finite
macro variables and snapshot, after `CalcResidualError` (entered with the
handles reset) the divisor `g_ResidualError[2v+1]` is a finite number that is
non-zero iff macro variable `v` is non-zero at some node of the whole range of
some block; in that case the residual that `DispResidualError` reports for `v`
is a finite number, and when macro variable `v` is zero at every node the
reported residual is a quotient by zero, no finite number. -/
theorem residual_quotient_defined {ι : Type} [DecidableEq ι] (C : CaseSetup ι)
    (s : ResidualState ι) (q q0 : Nat → ι → ℚ) (ts cp : ℚ) (iter : Int) (v : Nat)
    (hreset : ∀ v, v < C.MacroVarsNum → s.g_ResidualErrorHandle v = Real.fin 0)
    (hv : v < C.MacroVarsNum)
    (hq : ∀ p ∈ C.allNodes, s.g_MacroVars p.1 p.2 v = Real.fin (q p.1 p.2))
    (hq0 : ∀ p ∈ C.allNodes, s.g_MacroVarsCopy p.1 p.2 v = Real.fin (q0 p.1 p.2))
    (hts : 0 < ts) (hcp : 0 < cp) :
    (Real.fin cp * Real.fin ts = Real.fin (cp * ts) ∧ cp * ts ≠ 0) ∧
    (∃ r : ℚ, (CalcResidualError C s).g_ResidualError (2 * v + 1) = Real.fin r ∧
      (r ≠ 0 ↔ ∃ p ∈ C.allNodes, q p.1 p.2 ≠ 0)) ∧
    ((∃ p ∈ C.allNodes, q p.1 p.2 ≠ 0) →
      ∃ e : ℚ, (DispResidualError C.MacroVarsNum (Real.fin ts)
        (CalcResidualError C s).g_ResidualError iter (Real.fin cp)).lines[v]? =
          some (v, Real.fin e)) ∧
    ((∀ p ∈ C.allNodes, q p.1 p.2 = 0) →
      (DispResidualError C.MacroVarsNum (Real.fin ts)
        (CalcResidualError C s).g_ResidualError iter (Real.fin cp)).lines[v]? =
          some (v, Real.nan)) := by
  have hprod : cp * ts ≠ 0 := (mul_pos hcp hts).ne'
  obtain ⟨hdiff, href, -⟩ := (CalcResidualError_result C s hreset).1 v hv
  rw [Real.sum_map_fin C.allNodes _ (fun p => q p.1 p.2 * q p.1 p.2)
    (fun p hp => by rw [hq p hp, Real.fin_mul_fin])] at href
  rw [Real.sum_map_fin C.allNodes _
    (fun p => (q p.1 p.2 - q0 p.1 p.2) * (q p.1 p.2 - q0 p.1 p.2))
    (fun p hp => by rw [hq p hp, hq0 p hp, Real.fin_sub_fin, Real.fin_mul_fin])] at hdiff
  have hzero : (C.allNodes.map (fun p => q p.1 p.2 * q p.1 p.2)).sum = 0 ↔
      ∀ p ∈ C.allNodes, q p.1 p.2 = 0 :=
    sum_sq_eq_zero_iff C.allNodes (fun p => q p.1 p.2)
  refine ⟨⟨rfl, hprod⟩, ⟨_, href, ?_⟩, ?_, ?_⟩
  · rw [Ne, hzero]
    push_neg
    rfl
  · intro hne
    have hr : (C.allNodes.map (fun p => q p.1 p.2 * q p.1 p.2)).sum ≠ 0 := by
      rw [Ne, hzero]
      push_neg
      exact hne
    rw [DispResidualError_line _ _ _ _ _ v hv, hdiff, href, Real.fin_div_fin _ _ hr,
      Real.fin_mul_fin, Real.fin_div_fin _ _ hprod]
    exact ⟨_, rfl⟩
  · intro hall
    rw [DispResidualError_line _ _ _ _ _ v hv, hdiff, href, hzero.mpr hall, Real.fin_div_zero]
    rfl

/-- C39 amended, on the sample case and state (macro variable 1 is `b + x + 2`
at node `(x, y)` of block `b`, the snapshot is 1) with check period 10 and time
step 1/20: the reference magnitude is 22 and the reported residual of macro
variable 1 is a finite number. -/
theorem residual_quotient_defined_witness :
    ∃ e : ℚ, (DispResidualError sampleCase.MacroVarsNum (Real.fin (1 / 20))
      (CalcResidualError sampleCase sampleResidualState).g_ResidualError 7
      (Real.fin 10)).lines[1]? = some (1, Real.fin e) :=
  (residual_quotient_defined sampleCase sampleResidualState
    (fun b n => (b : ℚ) + (n.1 : ℚ) + 1 + 1) (fun _ _ => 1) (1 / 20) 10 7 1 (fun _ _ => rfl)
    (by decide)
    (fun p _ => by simp [sampleResidualState])
    (fun p _ => rfl) (by norm_num) (by norm_num)).2.2.1
    ⟨(0, (0, 0)), by decide, by norm_num⟩

/-! ## Two calls of the residual monitor -/

/-- C40 (snapshot idempotence): for finite macro variables and snapshot, with
`MacroVarsNum() <= NUMMACROVAR` and the handles reset on entry, after
`CalcResidualError` the absolute residual `g_ResidualError[2v]` and the reference
magnitude `g_ResidualError[2v+1]` of every macro variable `v` are finite numbers
`a >= 0` and `r >= 0`; and after a second call that follows the first with no
change in between, the absolute residual is 0 and the reference magnitude is
the same `r`, with the macro variables still as they were. -/
theorem residual_snapshot_idempotent {ι : Type} [DecidableEq ι] (C : CaseSetup ι)
    (s : ResidualState ι) (q q0 : Nat → ι → Nat → ℚ) (v : Nat)
    (hreset : ∀ v, v < C.MacroVarsNum → s.g_ResidualErrorHandle v = Real.fin 0)
    (hnum : C.MacroVarsNum ≤ C.NUMMACROVAR) (hv : v < C.MacroVarsNum)
    (hq : ∀ p ∈ C.allNodes, s.g_MacroVars p.1 p.2 v = Real.fin (q p.1 p.2 v))
    (hq0 : ∀ p ∈ C.allNodes, s.g_MacroVarsCopy p.1 p.2 v = Real.fin (q0 p.1 p.2 v)) :
    ∃ a r : ℚ, 0 ≤ a ∧ 0 ≤ r ∧
      (CalcResidualError C s).g_ResidualError (2 * v) = Real.fin a ∧
      (CalcResidualError C s).g_ResidualError (2 * v + 1) = Real.fin r ∧
      (CalcResidualError C (CalcResidualError C s)).g_ResidualError (2 * v) = Real.fin 0 ∧
      (CalcResidualError C (CalcResidualError C s)).g_ResidualError (2 * v + 1) = Real.fin r ∧
      (CalcResidualError C (CalcResidualError C s)).g_MacroVars = s.g_MacroVars := by
  obtain ⟨R1, R1copy, R1vars⟩ := CalcResidualError_result C s hreset
  obtain ⟨hdiff, href, -⟩ := R1 v hv
  obtain ⟨R2, -, R2vars⟩ := CalcResidualError_result C (CalcResidualError C s)
    (fun w hw => (R1 w hw).2.2)
  obtain ⟨hdiff2, href2, -⟩ := R2 v hv
  rw [Real.sum_map_fin C.allNodes _ (fun p => q p.1 p.2 v * q p.1 p.2 v)
    (fun p hp => by rw [hq p hp, Real.fin_mul_fin])] at href
  rw [Real.sum_map_fin C.allNodes _
    (fun p => (q p.1 p.2 v - q0 p.1 p.2 v) * (q p.1 p.2 v - q0 p.1 p.2 v))
    (fun p hp => by rw [hq p hp, hq0 p hp, Real.fin_sub_fin, Real.fin_mul_fin])] at hdiff
  rw [R1vars, Real.sum_map_fin C.allNodes _ (fun p => q p.1 p.2 v * q p.1 p.2 v)
    (fun p hp => by rw [hq p hp, Real.fin_mul_fin])] at href2
  rw [R1vars, Real.sum_map_fin C.allNodes _
    (fun p => (q p.1 p.2 v - q p.1 p.2 v) * (q p.1 p.2 v - q p.1 p.2 v))
    (fun p hp => by
      rw [R1copy p.1 p.2 v ((C.mem_allNodes p).mp hp).1 ((C.mem_allNodes p).mp hp).2
        (lt_of_lt_of_le hv hnum), hq p hp, Real.fin_sub_fin, Real.fin_mul_fin]),
    (sum_sq_eq_zero_iff C.allNodes (fun p => q p.1 p.2 v - q p.1 p.2 v)).mpr
      (fun p _ => sub_self _)] at hdiff2
  exact ⟨_, _, sum_sq_nonneg C.allNodes (fun p => q p.1 p.2 v - q0 p.1 p.2 v),
    sum_sq_nonneg C.allNodes (fun p => q p.1 p.2 v), hdiff, href, hdiff2, href2,
    R2vars.trans R1vars⟩

/-- C40, on the sample case and state, for macro variable 1: the first call
gives the absolute residual 9 and the reference magnitude 22, the second call
the absolute residual 0 and the reference magnitude of the first call. -/
theorem residual_snapshot_idempotent_witness :
    (CalcResidualError sampleCase sampleResidualState).g_ResidualError 2 = Real.fin 9 ∧
    (CalcResidualError sampleCase sampleResidualState).g_ResidualError 3 = Real.fin 22 ∧
    (CalcResidualError sampleCase
      (CalcResidualError sampleCase sampleResidualState)).g_ResidualError 2 = Real.fin 0 ∧
    (CalcResidualError sampleCase
      (CalcResidualError sampleCase sampleResidualState)).g_ResidualError 3 = Real.fin 22 := by
  obtain ⟨a, r, -, -, h1, h2, h3, h4, -⟩ := residual_snapshot_idempotent sampleCase
    sampleResidualState (fun b n v => (b : ℚ) + (n.1 : ℚ) + (v : ℚ) + 1) (fun _ _ _ => 1) 1
    (fun _ _ => rfl) (by decide) (by decide)
    (fun p _ => by simp [sampleResidualState]) (fun p _ => rfl)
  have hres := (CalcResidualError_result sampleCase sampleResidualState (fun _ _ => rfl)).1 1
    (by decide)
  have e2 : (CalcResidualError sampleCase sampleResidualState).g_ResidualError 2 =
      Real.fin 9 := by
    rw [show (2 : Nat) = 2 * 1 from rfl, hres.1]
    simp [Real.sum, CaseSetup.allNodes, sampleCase, sampleResidualState, List.range_succ]
    norm_num
  have e3 : (CalcResidualError sampleCase sampleResidualState).g_ResidualError 3 =
      Real.fin 22 := by
    rw [show (3 : Nat) = 2 * 1 + 1 from rfl, hres.2.1]
    simp [Real.sum, CaseSetup.allNodes, sampleCase, sampleResidualState, List.range_succ]
    norm_num
  have hr : r = 22 := by
    have := h2.symm.trans e3
    exact (Real.fin_inj _ _).mp this
  rw [hr] at h4
  exact ⟨e2, e3, h3, h4⟩

end MPLB
